import Mathlib

/-!
# MPTCP data-plane core: reinjection queue, DSS mapping save/restore, mapping detection

A shallow embedding of parts of `net/mptcp/mptcp_output.c`, `net/mptcp/mptcp_input.c` and
`include/net/mptcp.h`.

* 32-bit sequence numbers are natural numbers below `2^32`; C arithmetic on `u32` is written
  with explicit reduction modulo `2^32` (`add32`, `sub32`).
* A socket-buffer queue (`struct sk_buff_head`) is a `List Skb` from head to tail; a pointer
  walk towards the head runs over the reversed list.
* `__kfree_skb` has no counterpart: a freed buffer is one that is in no queue any more.
-/

namespace Mptcp

/-! ## Sequence-number arithmetic -/

/-- The C expression `(u32)(a + b)`. -/
def add32 (a b : Nat) : Nat := (a + b) % 4294967296

/-- The C expression `(u32)(a - b)`. -/
def sub32 (a b : Nat) : Nat := (a + 4294967296 - b % 4294967296) % 4294967296

/-- Modelled from the spec: `before(seq1, seq2)`, declared in `include/net/tcp.h` outside the
three files embedded here. It is the modular comparison `(s32)(seq1 - seq2) < 0` (the same shape
as `before64` in `mptcp_input.c`), the order of the 32-bit wire sequence space with its
wraparound. -/
def before (seq1 seq2 : Nat) : Bool := decide (2147483648 ≤ sub32 seq1 seq2)

/-- Modelled from the spec: `after(seq2, seq1)`, declared in `include/net/tcp.h` next to
`before` as `before(seq1, seq2)`. -/
def after (seq2 seq1 : Nat) : Bool := before seq1 seq2

/-! ## Socket buffers -/

/-- `MPTCPHDR_SEQ`: DSS.M option is present. -/
def MPTCPHDR_SEQ : Nat := 0x01
/-- `MPTCPHDR_FIN`: DSS.F option is present. -/
def MPTCPHDR_FIN : Nat := 0x02
/-- `MPTCPHDR_SEQ64_INDEX`: index of seq in the high-order array. -/
def MPTCPHDR_SEQ64_INDEX : Nat := 0x04
/-- `MPTCPHDR_MPC_DATA`. -/
def MPTCPHDR_MPC_DATA : Nat := 0x08
/-- `MPTCPHDR_SEQ64_SET` (RX only): a 64-bit sequence number was received. -/
def MPTCPHDR_SEQ64_SET : Nat := 0x20
/-- `MPTCPHDR_SEQ64_OFO` (RX only): high-order bits not in the circular array. -/
def MPTCPHDR_SEQ64_OFO : Nat := 0x40
/-- `MPTCPHDR_INF` (TX only). -/
def MPTCPHDR_INF : Nat := 0x10

/-- Kernel `TCPHDR_FIN`. -/
def TCPHDR_FIN : Nat := 0x01
/-- Kernel `TCPHDR_PSH`. -/
def TCPHDR_PSH : Nat := 0x08
/-- Kernel `TCPHDR_ACK`. -/
def TCPHDR_ACK : Nat := 0x10

/-- The fields of `struct sk_buff` and of its `TCP_SKB_CB` control block the code reads or
writes. `dss` is the saved DSS option as bytes in memory order; `hdr_dss` is the part of the
received TCP header that starts `dss_off` words into it, again as bytes; `th_syn`, `th_rst`,
`th_fin` and `th_window` are the fields `syn`, `rst`, `fin` and `window` (in host byte order) of
the received TCP header, `th_ack` is its field `ack`; `data` is the payload, the `len` bytes
at `skb->data`. -/
structure Skb where
  seq : Nat := 0
  end_seq : Nat := 0
  len : Nat := 0
  mptcp_flags : Nat := 0
  tcp_flags : Nat := 0
  sacked : Nat := 0
  path_mask : Nat := 0
  dss : List Nat := []
  hdr_dss : List Nat := []
  pcount : Nat := 1
  mss : Nat := 0
  truesize : Nat := 0
  ack_seq : Nat := 0
  th_syn : Bool := false
  th_rst : Bool := false
  th_fin : Bool := false
  th_window : Nat := 0
  th_ack : Bool := false
  data : List Nat := []
deriving DecidableEq, Repr

/-- `mptcp_is_data_mpcapable` (mptcp.h). -/
def mptcp_is_data_mpcapable (skb : Skb) : Bool := skb.mptcp_flags &&& MPTCPHDR_MPC_DATA != 0

/-- `mptcp_is_data_seq` (mptcp.h). -/
def mptcp_is_data_seq (skb : Skb) : Bool := skb.mptcp_flags &&& MPTCPHDR_SEQ != 0

/-- `mptcp_is_data_fin` (mptcp.h). -/
def mptcp_is_data_fin (skb : Skb) : Bool := skb.mptcp_flags &&& MPTCPHDR_FIN != 0

/-! ## Insertion into the reinject queue (`__mptcp_reinject_data`, lines 232-290) -/

/-- The `while (1)` loop of lines 246-254. The first argument is the queue from `skb1` back
to the head, the second the entries already passed (they follow `skb1` in the queue). The walk
stops at the first `skb1` with `!after(skb1->seq, seq)`; running off the head is `skb1 = NULL`,
the empty first component. -/
def reinject_scan_back (seq : Nat) : List Skb → List Skb → List Skb × List Skb
  | [], passed => ([], passed)
  | skb1 :: prevs, passed =>
    if !after skb1.seq seq then (skb1 :: prevs, passed)
    else reinject_scan_back seq prevs (skb1 :: passed)

/-- The loop of lines 277-288 on the entries that follow the inserted `skb`: unlink the next
entry as long as `end_seq` is after its `seq` and not before its `end_seq`. -/
def reinject_clean_covered (end_seq : Nat) : List Skb → List Skb
  | [] => []
  | skb1 :: rest =>
    if !after end_seq skb1.seq then skb1 :: rest
    else if before end_seq skb1.end_seq then skb1 :: rest
    else reinject_clean_covered end_seq rest

/-- Lines 232-290 of `__mptcp_reinject_data`: the reinject queue after `skb` has been offered
to it. -/
def reinject_queue_insert (q : List Skb) (skb : Skb) : List Skb :=
  if q.isEmpty then [skb]
  else
    match reinject_scan_back skb.seq q.reverse [] with
    | ([], passed) => skb :: reinject_clean_covered skb.end_seq passed
    | (skb1 :: prevs, passed) =>
      if before skb.seq skb1.end_seq then
        if !after skb.end_seq skb1.end_seq then q
        else if skb.seq = skb1.seq then
          prevs.reverse ++ skb :: reinject_clean_covered skb.end_seq (skb1 :: passed)
        else (skb1 :: prevs).reverse ++ skb :: reinject_clean_covered skb.end_seq passed
      else (skb1 :: prevs).reverse ++ skb :: reinject_clean_covered skb.end_seq passed

/-! ## Connection and subflow state -/

/-- The fields of `struct mptcp_cb` the code below reads or writes. The two-element arrays
`rcv_high_order` and `snd_high_order` are pairs; `pm_close_session` and the other `pm_` fields
say whether the path manager (`mpcb->pm_ops`) provides the operation of that name. -/
structure MptcpCb where
  infinite_mapping_rcv : Bool := false
  infinite_mapping_snd : Bool := false
  send_infinite_mapping : Bool := false
  dss_csum : Bool := false
  infinite_rcv_seq : Nat := 0
  rcv_high_order : Nat × Nat := (0, 0)
  rcv_hiseq_index : Nat := 0
  snd_high_order : Nat × Nat := (0, 0)
  snd_hiseq_index : Nat := 0
  pm_close_session : Bool := false
  csum_cutoff_seq : Nat := 0
  infinite_send_una_ahead : Bool := false
  send_mptcpv1_mpcapable : Bool := false
  in_time_wait : Bool := false
  mptw_state : Nat := 0
  dfin_path_index : Nat := 0
  dfin_combined : Bool := false
  passive_close : Bool := false
  rem_key_set : Bool := false
  list_rcvd : Bool := false
  mptcp_loc_key : Nat := 0
  reinject_queue : List Skb := []
  pm_fully_established : Bool := false
  pm_established_subflow : Bool := false
  pm_new_remote_address : Bool := false
  pm_prio_changed : Bool := false
  mptcp_ver : Nat := 0
  mptcp_rem_key : Nat := 0
deriving DecidableEq, Repr

/-- Kernel `TCP_CLOSE` socket state. -/
def TCP_CLOSE : Nat := 7

/-- What one run of `mptcp_write_xmit` (`mptcp_output.c`, lines 824-976) leaves of the send
side of the meta socket. Which segments a run sends is decided by the scheduler
(`sched_ops->next_segment`), by the windows of the subflows and by the tests of the kernel's
transmit path, none of them in the embedded files, so a run is given by what it leaves:
`snd_nxt`, `packets_out` and the write and retransmit queues as `tcp_event_new_data_sent` leaves
them (line 948), the halves and the index as `mptcp_check_sndseq_wrap` leaves them (line 945),
the reinject queue after the unlinks of lines 861 and 954, whether `mptcp_skb_entail` has set
`infinite_mapping_snd` (line 601) and cleared `send_mptcpv1_mpcapable` (line 613), the counters
`total_retrans` and `bytes_retrans` it adds to, and `retrans_stamp` as `mptcp_retransmit_skb`
leaves it. A run writes neither `snd_una`, `snd_wnd` nor `bytes_acked`, and no field of the
receive side. -/
structure XmitOutcome where
  snd_nxt : Nat := 0
  packets_out : Nat := 0
  sk_write_queue : List Skb := []
  tcp_rtx_queue : List Skb := []
  reinject_queue : List Skb := []
  snd_high_order : Nat × Nat := (0, 0)
  snd_hiseq_index : Nat := 0
  sets_infinite_mapping_snd : Bool := false
  clears_send_mptcpv1_mpcapable : Bool := false
  total_retrans : Nat := 0
  bytes_retrans : Nat := 0
  retrans_stamp : Nat := 0
deriving DecidableEq, Repr

/-- The meta socket (`meta_sk`, `meta_tp`) with its `mpcb`. The retransmit queue is kept as the
in-order sequence of its red-black tree. `xmit` is not a field of the socket: it lists, in
order, what the runs of `mptcp_write_xmit` still to come will leave (see `XmitOutcome`); each
call of `mptcp_push_pending_frames` that starts a run takes the first entry, and with no entry
left a run sends nothing. -/
structure MetaSock where
  sk_state : Nat := 1
  snd_una : Nat := 0
  snd_nxt : Nat := 0
  rcv_nxt : Nat := 0
  packets_out : Nat := 0
  tcp_rtx_queue : List Skb := []
  sk_write_queue : List Skb := []
  out_of_order_queue : List Skb := []
  mpcb : MptcpCb := {}
  sk_receive_queue : List Skb := []
  sk_shutdown : Nat := 0
  sock_dead : Bool := false
  sock_done : Bool := false
  sock_queue_shrunk : Bool := false
  has_socket : Bool := true
  sock_nospace : Bool := false
  write_seq : Nat := 0
  snd_wnd : Nat := 0
  snd_wl1 : Nat := 0
  max_window : Nat := 0
  snd_up : Nat := 0
  bytes_acked : Nat := 0
  retrans_stamp : Nat := 0
  rcv_wup : Nat := 0
  linger2 : Int := 0
  icsk_ca_state : Nat := 0
  icsk_probes_out : Nat := 0
  icsk_retransmits : Nat := 0
  total_retrans : Nat := 0
  bytes_retrans : Nat := 0
  xmit : List XmitOutcome := []
deriving DecidableEq, Repr

/-- The fields of `struct mptcp_options_received` (`tp->mptcp->rx_opt`) the code below reads or
writes. The keys, the token, the nonce and the truncated MAC are copied from the option without
a change of byte order: each is kept as the number whose big-endian bytes are the bytes of the
option. `add_addr_ptr` and `rem_addr_ptr` point into the header: they are kept as the bytes
from there on. -/
structure MptcpOptionsReceived where
  data_ack : Nat := 0
  data_seq : Nat := 0
  data_len : Nat := 0
  saw_mpc : Bool := false
  join_ack : Bool := false
  mp_fail : Bool := false
  mp_fclose : Bool := false
  saw_low_prio : Nat := 0
  low_prio : Bool := false
  saw_add_addr : Bool := false
  more_add_addr : Bool := false
  saw_rem_addr : Bool := false
  more_rem_addr : Bool := false
  prio_addr_id : Nat := 0
  mptcp_sender_key : Nat := 0
  mptcp_receiver_key : Nat := 0
  mptcp_ver : Nat := 0
  dss_csum : Bool := false
  drop_me : Bool := false
  is_mp_join : Bool := false
  rem_id : Nat := 0
  mptcp_rem_token : Nat := 0
  mptcp_recv_nonce : Nat := 0
  mptcp_recv_tmac : Nat := 0
  mptcp_recv_mac : List Nat := []
  add_addr_ptr : List Nat := []
  rem_addr_ptr : List Nat := []
deriving DecidableEq, Repr

/-- A subflow socket: the fields of `struct sock`, `struct tcp_sock` and of `tp->mptcp`
(`struct mptcp_tcp_sock`) the code below reads or writes. -/
structure TcpSock where
  rcv_nxt : Nat := 0
  copied_seq : Nat := 0
  write_seq : Nat := 0
  map_data_seq : Nat := 0
  map_subseq : Nat := 0
  map_data_len : Nat := 0
  map_data_fin : Bool := false
  mapping_present : Bool := false
  fully_established : Bool := false
  send_mp_fail : Bool := false
  snt_isn : Nat := 0
  rcv_isn : Nat := 0
  sk_write_queue : List Skb := []
  tcp_rtx_queue : List Skb := []
  sk_wmem_queued : Int := 0
  sock_queue_shrunk : Bool := false
  sk_state : Nat := 1
  sk_shutdown : Nat := 0
  sk_err_soft : Nat := 0
  sk_receive_queue : List Skb := []
  snd_una : Nat := 0
  snd_nxt : Nat := 0
  snd_wscale : Nat := 0
  pf : Bool := false
  mp_killed : Bool := false
  rx_opt : MptcpOptionsReceived := {}
  slave_sk : Bool := false
  second_packet : Bool := false
  pre_established : Bool := false
  rcv_low_prio : Bool := false
  path_index : Nat := 1
  rem_id : Nat := 0
  init_rcv_wnd : Int := 0
  infinite_cutoff_seq : Nat := 0
  last_end_data_seq : Nat := 0
  include_mpc : Bool := false
deriving DecidableEq, Repr

/-- Statistics counters bumped by `MPTCP_INC_STATS`. -/
inductive Mib where
  | NODSSWINDOW
  | DSSNOMATCH
  | INFINITEMAPRX
  | DSSTCPMISMATCH
  | CSUMFAIL
  | FBDATASUB
  | FBDATAINIT
  | FBACKSUB
  | FBACKINIT
  | MPFAILRX
  | FASTCLOSERX
  | RETRANSSEGS
  | DSSTRIMHEAD
  | DSSSPLITTAIL
  | PURGEOLD
deriving DecidableEq, Repr

/-- Calls that the model does not follow: into the kernel, into the path manager, or into
functions of this repository that only matter through what they trigger elsewhere. A function
that makes such a call appends it to a log, in call order. A call of
`mptcp_push_pending_frames` is logged too, and what it does to the meta socket is applied by
the function of that name below. -/
inductive ExtCall where
  | mptcp_send_reset
  | mptcp_sub_force_close_all (except_sk : Bool)
  | pm_close_session
  | mptcp_push_pending_frames
  | inc_stats (mib : Mib)
  | inet_csk_schedule_ack
  | tcp_send_ack
  | time_wait
  | sk_state_change
  | sk_wake_async
  | tcp_enter_quickack_mode
  | pm_fully_established
  | pm_established_subflow
  | pm_new_remote_address
  | pm_prio_changed
  | sk_stop_timer
  | mptcp_sub_close
  | tcp_rearm_rto
  | mptcp_xmit_retransmit_queue
  | sk_write_space
  | tcp_chrono_stop
  | tcp_ack_probe
  | mptcp_send_active_reset
  | tcp_done
  | tcp_reset
  | inet_csk_reset_keepalive_timer
  | dst_confirm
  | mptcp_initialize_recv_vars
  | tcp_send_delayed_ack
  | mptcp_parse_addropt
  | mptcp_handle_add_addr
  | mptcp_handle_rem_addr
  | tcp_transmit_skb
deriving DecidableEq, Repr

/-! ## Byte buffers and the saved DSS option -/

/-- Kernel `get_unaligned_be16` at byte offset `off`. -/
def get_unaligned_be16 (buf : List Nat) (off : Nat) : Nat :=
  buf.getD off 0 * 256 + buf.getD (off + 1) 0

/-- Kernel `get_unaligned_be32` at byte offset `off` (also `ntohl` of a stored word). -/
def get_unaligned_be32 (buf : List Nat) (off : Nat) : Nat :=
  buf.getD off 0 * 16777216 + buf.getD (off + 1) 0 * 65536 + buf.getD (off + 2) 0 * 256
    + buf.getD (off + 3) 0

/-- Kernel `get_unaligned_be64` at byte offset `off`. -/
def get_unaligned_be64 (buf : List Nat) (off : Nat) : Nat :=
  get_unaligned_be32 buf off * 4294967296 + get_unaligned_be32 buf (off + 4)

/-- Store of a 16-bit value in network byte order at byte offset `off`. -/
def put_be16 (buf : List Nat) (off v : Nat) : List Nat :=
  (buf.set off (v / 256 % 256)).set (off + 1) (v % 256)

/-- The store `*ptr = htonl(v)` at byte offset `off`. -/
def put_be32 (buf : List Nat) (off v : Nat) : List Nat :=
  (((buf.set off (v / 16777216 % 256)).set (off + 1) (v / 65536 % 256)).set (off + 2)
    (v / 256 % 256)).set (off + 3) (v % 256)

/-- Kernel `TCPOPT_MPTCP`. -/
def TCPOPT_MPTCP : Nat := 30
/-- Kernel `TCPOPT_NOP`. -/
def TCPOPT_NOP : Nat := 1
/-- Kernel `TCPOPT_EOL`. -/
def TCPOPT_EOL : Nat := 0
/-- `MPTCP_SUB_DSS`. -/
def MPTCP_SUB_DSS : Nat := 2

/-- `mptcp_dss_len = MPTCP_SUB_LEN_DSS_ALIGN + MPTCP_SUB_LEN_ACK_ALIGN +
MPTCP_SUB_LEN_SEQ_ALIGN`. -/
def mptcp_dss_len : Nat := 4 + 4 + 12

/-- `mptcp_sub_len_dss` (mptcp.h), on the flag bits of the option. -/
def mptcp_sub_len_dss (A a M m csum : Nat) : Nat :=
  4 + A * (4 + a * 4) + M * (10 + m * 4 + csum * 2)

/-- The bit `A` of a `struct mp_dss` laid over `buf`: bit 0 of its fourth byte. -/
def mp_dss_A (buf : List Nat) : Nat := buf.getD 3 0 % 2
/-- The bit `a` of a `struct mp_dss`: bit 1 of its fourth byte. -/
def mp_dss_a (buf : List Nat) : Nat := buf.getD 3 0 / 2 % 2
/-- The bit `M` of a `struct mp_dss`: bit 2 of its fourth byte. -/
def mp_dss_M (buf : List Nat) : Nat := buf.getD 3 0 / 4 % 2

/-- `mptcp_write_dss_data_ack`: the `struct mp_dss` header (kind, len, subtype in the high
nibble of the third byte, the flags `A=1, a=0, M, m=0, F` in the fourth) and the data-ack word.
Returns the buffer and the number of words written. -/
def mptcp_write_dss_data_ack (mpcb : MptcpCb) (meta_rcv_nxt : Nat) (skb : Skb)
    (buf : List Nat) (off : Nat) : List Nat × Nat :=
  let F := if mptcp_is_data_fin skb then 1 else 0
  let M := if mptcp_is_data_seq skb then 1 else 0
  let len := mptcp_sub_len_dss 1 0 M 0 (if mpcb.dss_csum then 1 else 0)
  let b0 := buf.set off TCPOPT_MPTCP
  let b1 := b0.set (off + 1) (len % 256)
  let b2 := b1.set (off + 2) (MPTCP_SUB_DSS * 16)
  let b3 := b2.set (off + 3) (1 + 4 * M + 16 * F)
  (put_be32 b3 (off + 4) meta_rcv_nxt, 2)

/-- `mptcp_write_dss_mapping`: data sequence number, subflow sequence number relative to
`snt_isn`, and the 16-bit length followed by two NOPs or by the checksum. `csum` stands for the
16 bits that `csum_fold(csum_partial(...))` stores. Returns the buffer and the number of
words by which the function reports to have advanced. -/
def mptcp_write_dss_mapping (tp : TcpSock) (mpcb : MptcpCb) (csum : Nat) (skb : Skb)
    (buf : List Nat) (off : Nat) : List Nat × Nat :=
  let b0 := put_be32 buf off skb.seq
  let b1 :=
    if mptcp_is_data_fin skb && skb.len == 0 then put_be32 b0 (off + 4) 0
    else put_be32 b0 (off + 4) (sub32 tp.write_seq tp.snt_isn)
  let data_len :=
    if skb.mptcp_flags &&& MPTCPHDR_INF != 0 then 0
    else sub32 skb.end_seq skb.seq % 65536
  if mpcb.dss_csum && data_len != 0 then
    let b2 := put_be32 b1 (off + 8) (data_len * 65536 + TCPOPT_EOL * 256 + TCPOPT_EOL)
    (put_be16 b2 (off + 10) csum, 2)
  else
    (put_be32 b1 (off + 8) (data_len * 65536 + TCPOPT_NOP * 256 + TCPOPT_NOP), 3)

/-- `mptcp_save_dss_data_seq`: set `MPTCPHDR_SEQ` and write the DSS option into
`TCP_SKB_CB(skb)->dss`. -/
def mptcp_save_dss_data_seq (tp : TcpSock) (mpcb : MptcpCb) (meta_rcv_nxt csum : Nat)
    (skb : Skb) : Skb :=
  let skb1 := { skb with mptcp_flags := skb.mptcp_flags ||| MPTCPHDR_SEQ }
  let r1 := mptcp_write_dss_data_ack mpcb meta_rcv_nxt skb1 skb1.dss 0
  let r2 := mptcp_write_dss_mapping tp mpcb csum skb1 r1.1 (4 * r1.2)
  { skb1 with dss := r2.1 }

/-- `mptcp_reconstruct_mapping`: read the data sequence number and the length back from the
saved DSS option and store them in `seq` and `end_seq`. `none` is the C `false`. -/
def mptcp_reconstruct_mapping (skb : Skb) : Option Skb :=
  if !mptcp_is_data_seq skb then none
  else if mp_dss_M skb.dss = 0 then none
  else
    let p32 := 4 + (if mp_dss_A skb.dss != 0 then 4 + (if mp_dss_a skb.dss != 0 then 4 else 0)
      else 0)
    let seq := get_unaligned_be32 skb.dss p32
    some { skb with seq := seq, end_seq := add32 (get_unaligned_be16 skb.dss (p32 + 8)) seq }

/-! ## `__mptcp_reinject_data` -/

/-- The meta retransmit queue as the red-black tree it is (`struct rb_root`); colours and
balance play no role in a search, so only the shape is kept. -/
inductive RbTree where
  | nil : RbTree
  | node (rb_left : RbTree) (skb : Skb) (rb_right : RbTree) : RbTree
deriving DecidableEq, Repr

/-- The in-order sequence of the tree, the order of `skb_rbtree_walk`. -/
def RbTree.inorder : RbTree → List Skb
  | .nil => []
  | .node l skb r => l.inorder ++ skb :: r.inorder

/-- `mptcp_find_and_set_pathmask`: descend the meta retransmit tree by `seq`; at an entry with
the same `seq` copy its `path_mask`. -/
def mptcp_find_and_set_pathmask : RbTree → Skb → Skb
  | .nil, skb => skb
  | .node l skb_it r, skb =>
    if before skb.seq skb_it.seq then mptcp_find_and_set_pathmask l skb
    else if after skb.seq skb_it.seq then mptcp_find_and_set_pathmask r skb
    else { skb with path_mask := skb_it.path_mask }

/-- Lines 190-212 of `__mptcp_reinject_data`: descend the meta retransmit tree to the first
entry that meets `[seq, end_seq)`; the result is the in-order sequence from that entry on
(what `skb_rbtree_walk_from` visits), empty when the descent ends at a null link. `succ` is the
in-order sequence that follows the subtree. -/
def rtx_walk_from_covering (seq end_seq : Nat) : RbTree → List Skb → List Skb
  | .nil, _ => []
  | .node l skb r, succ =>
    if !after end_seq skb.seq then
      rtx_walk_from_covering seq end_seq l (skb :: r.inorder ++ succ)
    else if !before seq skb.end_seq then rtx_walk_from_covering seq end_seq r succ
    else skb :: r.inorder ++ succ

/-- Kernel `enum tcp_queue`. -/
inductive TcpQueue where
  | TCP_FRAG_IN_WRITE_QUEUE
  | TCP_FRAG_IN_RTX_QUEUE
deriving DecidableEq, Repr

/-- Lines 141-150 of `__mptcp_reinject_data` (`clone_it == 0`): unlink `orig_skb` from the
subflow queue it sits in and take its size off `sk_wmem_queued`. The kernel's forward-allocation
accounting behind `sk_mem_uncharge` is not modelled. -/
def reinject_unlink_orig (orig_skb : Skb) (tcp_queue : TcpQueue) (sk : TcpSock) : TcpSock :=
  let sk1 :=
    match tcp_queue with
    | .TCP_FRAG_IN_WRITE_QUEUE => { sk with sk_write_queue := sk.sk_write_queue.erase orig_skb }
    | .TCP_FRAG_IN_RTX_QUEUE => { sk with tcp_rtx_queue := sk.tcp_rtx_queue.erase orig_skb }
  { sk1 with
    sock_queue_shrunk := true
    sk_wmem_queued := sk1.sk_wmem_queued - orig_skb.truesize }

/-- The loop of lines 212-217: reinject the entries of the walk one after the other, and stop
at the first one that ends after `end_seq`. `reinject` is the recursive call on one entry. -/
def reinject_walk (reinject : Skb → List Skb → Option (List Skb)) (end_seq : Nat) :
    List Skb → List Skb → Option (List Skb)
  | [], rq => some rq
  | skb :: rest, rq =>
    if after skb.end_seq end_seq then some rq
    else (reinject skb rq).bind (reinject_walk reinject end_seq rest)

/-- `__mptcp_reinject_data(orig_skb, meta_sk, sk, clone_it, tcp_queue)`. `snd_una` and `rtx`
are the meta socket's `snd_una` and retransmit tree, which the function only reads;
`pskb_copy_ok` says for which buffers `pskb_copy_for_clone` succeeds; `rq` is the reinject queue
and `sk` the subflow (`none` for `NULL`). The result is the reinject queue and the subflow
afterwards. The function calls itself on entries of the meta retransmit queue; `fuel` bounds
the depth of these calls, and `none` means the bound was reached. -/
def __mptcp_reinject_data (snd_una : Nat) (rtx : RbTree) (pskb_copy_ok : Skb → Bool) :
    Nat → Skb → List Skb → Option TcpSock → Bool → TcpQueue → Option (List Skb × Option TcpSock)
  | fuel, orig_skb, rq, sk, clone_it, tcp_queue =>
    let sk1 := if clone_it then sk else sk.map (reinject_unlink_orig orig_skb tcp_queue)
    if clone_it && !pskb_copy_ok orig_skb then some (rq, sk1)
    else
      match (if sk.isSome then mptcp_reconstruct_mapping orig_skb else some orig_skb) with
      | none => some (rq, sk1)
      | some skb0 =>
        let skb1 := { skb0 with sacked := 0,
                                tcp_flags := skb0.tcp_flags &&& (TCPHDR_ACK ||| TCPHDR_PSH) }
        if !after skb1.end_seq snd_una then some (rq, sk1)
        else if (skb1.len + (if mptcp_is_data_fin skb1 then 1 else 0)) % 4294967296
            != sub32 skb1.end_seq skb1.seq then
          match fuel with
          | 0 => none
          | fuel' + 1 =>
            (reinject_walk
              (fun skb rq' =>
                (__mptcp_reinject_data snd_una rtx pskb_copy_ok fuel' skb rq' none true
                  .TCP_FRAG_IN_RTX_QUEUE).map Prod.fst)
              skb1.end_seq (rtx_walk_from_covering skb1.seq skb1.end_seq rtx []) rq).map
              (fun rq' => (rq', sk1))
        else
          let skb2 := { skb1 with dss := List.replicate mptcp_dss_len 0 ++
                                    skb1.dss.drop mptcp_dss_len,
                                  path_mask := 0 }
          let skb3 := mptcp_find_and_set_pathmask rtx skb2
          some (reinject_queue_insert rq skb3, sk1)

/-! ## `mptcp_write_xmit`: the check on a segment taken from the reinject queue -/

/-- The part of the meta-level send state that the loop of `mptcp_write_xmit` and the claims
about it need: `sent` lists the buffers for which `mptcp_skb_entail` returned true. -/
structure XmitState where
  snd_una : Nat := 0
  reinject_queue : List Skb := []
  sent : List Skb := []
deriving DecidableEq, Repr

/-- One pass through the body of the `while` loop of `mptcp_write_xmit` (lines 849-959) for the
segment `skb` that `next_segment` returned with the given `reinject` value. Lines 858-867 are
modelled as they stand. `send_path` stands for lines 869-959 (`skb_unclone`, the window and
Nagle tests, `mptcp_fragment`, `mptcp_skb_entail` and the bookkeeping after it), which reach
into kernel code; it gets the queue the segment is to be fragmented in. The Boolean of the
result says whether the loop goes on. -/
def mptcp_write_xmit_iter (send_path : XmitState → Skb → Int → TcpQueue → XmitState × Bool)
    (st : XmitState) (skb : Skb) (reinject : Int) : XmitState × Bool :=
  if reinject = 1 then
    if !after skb.end_seq st.snd_una then
      ({ st with reinject_queue := st.reinject_queue.erase skb }, true)
    else send_path st skb reinject .TCP_FRAG_IN_WRITE_QUEUE
  else if reinject = -1 then send_path st skb reinject .TCP_FRAG_IN_RTX_QUEUE
  else send_path st skb reinject .TCP_FRAG_IN_WRITE_QUEUE

/-- The `while` loop of `mptcp_write_xmit` (lines 847-960). `next_segment` is the scheduler's
operation, which yields the segment and the `reinject` value or nothing. The scheduler decides
when the loop ends, so the number of passes is bounded by `fuel`; `none` means the bound was
reached. -/
def mptcp_write_xmit_loop (next_segment : XmitState → Option (Skb × Int))
    (send_path : XmitState → Skb → Int → TcpQueue → XmitState × Bool) :
    Nat → XmitState → Option XmitState
  | 0, _ => none
  | fuel + 1, st =>
    match next_segment st with
    | none => some st
    | some (skb, reinject) =>
      let r := mptcp_write_xmit_iter send_path st skb reinject
      if r.2 then mptcp_write_xmit_loop next_segment send_path fuel r.1 else some r.1

/-! ## `mptcp_clean_rtx_queue`: the reinject queue -/

/-- Modelled from the spec: `tcp_set_skb_tso_segs`, defined in `net/ipv4/tcp_output.c` outside
the three files embedded here: one packet when the payload fits `mss_now`, else the payload
length divided by `mss_now` and rounded up. `mss` is the buffer's `tcp_gso_size`, which
`tcp_skb_mss` reads. -/
def tcp_set_skb_tso_segs (skb : Skb) (mss_now : Nat) : Skb :=
  if skb.len ≤ mss_now then { skb with pcount := 1, mss := 0 }
  else { skb with pcount := (skb.len + mss_now - 1) / mss_now, mss := mss_now }

/-- `mptcp_tso_acked_reinject`: trim the acknowledged head of `skb` and return the buffer and
the number of packets acknowledged. `skb_unclone_fails` is the result of `skb_unclone`,
`delta_truesize` what `__pskb_trim_head` returns; `__pskb_trim_head` shortens the payload by
`len`. `none` is a `BUG_ON` that fires. -/
def mptcp_tso_acked_reinject (snd_una : Nat) (skb_unclone_fails : Bool) (delta_truesize : Nat)
    (skb : Skb) : Option (Skb × Nat) :=
  if !after skb.end_seq snd_una then none
  else
    let packets_acked := skb.pcount
    if skb_unclone_fails then some (skb, 0)
    else
      let len := sub32 snd_una skb.seq
      let skb1 := { skb with len := skb.len - len, seq := add32 skb.seq len,
                             truesize := skb.truesize - delta_truesize }
      let skb2 := if skb1.pcount > 1 then tcp_set_skb_tso_segs skb1 skb1.mss else skb1
      let packets_acked := sub32 packets_acked skb2.pcount
      if packets_acked != 0 && (skb2.pcount == 0 || !before skb2.seq skb2.end_seq) then none
      else some (skb2, packets_acked)

/-- Lines 153-166 of `mptcp_clean_rtx_queue`: remove acknowledged data from the reinject
queue. Entries that do not end after `snd_una` are unlinked; the walk stops at the first entry
that does, and trims its head only if its packet count is not 1 and `snd_una` is after its
`seq`. -/
def mptcp_clean_rtx_queue_reinject (snd_una : Nat) (skb_unclone_fails : Bool)
    (delta_truesize : Nat) : List Skb → Option (List Skb)
  | [] => some []
  | skb :: rest =>
    if before snd_una skb.end_seq then
      if skb.pcount == 1 || !after snd_una skb.seq then some (skb :: rest)
      else
        (mptcp_tso_acked_reinject snd_una skb_unclone_fails delta_truesize skb).map
          (fun r => r.1 :: rest)
    else mptcp_clean_rtx_queue_reinject snd_una skb_unclone_fails delta_truesize rest

/-! ## `mptcp_detect_mapping` -/

/-- Element `index` of a two-element `u32` array. -/
def high_order (a : Nat × Nat) (index : Nat) : Nat := if index = 0 then a.1 else a.2

/-- Store `v` in element `index` of a two-element `u32` array. -/
def set_high_order (a : Nat × Nat) (index v : Nat) : Nat × Nat :=
  if index = 0 then (v, a.2) else (a.1, v)

/-- `mptcp_get_data_seq_64` (mptcp.h): `((u64)rcv_high_order[index] << 32) | data_seq_32`. -/
def mptcp_get_data_seq_64 (mpcb : MptcpCb) (index data_seq_32 : Nat) : Nat :=
  high_order mpcb.rcv_high_order index * 4294967296 + data_seq_32 % 4294967296

/-- `mptcp_get_64_bit` (mptcp.h). -/
def mptcp_get_64_bit (data_seq : Nat) (mpcb : MptcpCb) : Nat :=
  let data_seq_high := data_seq / 4294967296 % 4294967296
  if mpcb.rcv_high_order.1 = data_seq_high then 0
  else if mpcb.rcv_high_order.2 = data_seq_high then MPTCPHDR_SEQ64_INDEX
  else MPTCPHDR_SEQ64_OFO

/-- `mptcp_skb_set_data_seq` (mptcp.h) with a non-null `mpcb`: the buffer with its flags
updated, the 32-bit `data_seq`, and the byte offset into `hdr_dss` of the returned pointer. -/
def mptcp_skb_set_data_seq (skb : Skb) (mpcb : MptcpCb) : Skb × Nat × Nat :=
  if skb.mptcp_flags &&& MPTCPHDR_SEQ64_SET != 0 then
    let data_seq64 := get_unaligned_be64 skb.hdr_dss 0
    ({ skb with mptcp_flags := skb.mptcp_flags ||| mptcp_get_64_bit data_seq64 mpcb },
      data_seq64 % 4294967296, 4)
  else (skb, get_unaligned_be32 skb.hdr_dss 0, 0)

/-- `mptcp_fallback_close` (mptcp.h) called with the subflow as `except`: the calls it makes,
and whether all subflows were closed. -/
def mptcp_fallback_close (meta_tp : MetaSock) (calls : List ExtCall) : List ExtCall × Bool :=
  let except_sk := meta_tp.sk_state != TCP_CLOSE
  let calls1 := calls ++ [ExtCall.mptcp_sub_force_close_all except_sk]
  let calls2 := if meta_tp.mpcb.pm_close_session then calls1 ++ [ExtCall.pm_close_session]
    else calls1
  (calls2, !except_sk)

/-- `mptcp_push_pending_frames(meta_sk)` (mptcp.h, lines 1028-1042): when packets are out or
the write queue has a head (`tcp_send_head`), the kernel's `__tcp_push_pending_frames` runs
`mptcp_write_xmit` on the meta socket. The run is the next entry of `xmit`: it replaces the
send-side fields listed in `XmitOutcome`; `infinite_mapping_snd` can only be set and
`send_mptcpv1_mpcapable` only be cleared by it. The segments the run queues on subflows change
the send side of those subflows, which is not followed here. -/
def mptcp_push_pending_frames (meta_tp : MetaSock) : MetaSock :=
  if meta_tp.packets_out != 0 || !meta_tp.sk_write_queue.isEmpty then
    match meta_tp.xmit with
    | [] => meta_tp
    | o :: rest =>
      { meta_tp with
        snd_nxt := o.snd_nxt
        packets_out := o.packets_out
        sk_write_queue := o.sk_write_queue
        tcp_rtx_queue := o.tcp_rtx_queue
        total_retrans := o.total_retrans
        bytes_retrans := o.bytes_retrans
        retrans_stamp := o.retrans_stamp
        mpcb := { meta_tp.mpcb with
          reinject_queue := o.reinject_queue
          snd_high_order := o.snd_high_order
          snd_hiseq_index := o.snd_hiseq_index
          infinite_mapping_snd :=
            meta_tp.mpcb.infinite_mapping_snd || o.sets_infinite_mapping_snd
          send_mptcpv1_mpcapable :=
            meta_tp.mpcb.send_mptcpv1_mpcapable && !o.clears_send_mptcpv1_mpcapable }
        xmit := rest }
  else meta_tp

/-- Lines 615-657 of `mptcp_restart_sending(meta_sk, in_flight_seq)`, all of it but the final
`mptcp_push_pending_frames`: move every retransmit-queue entry that ends after `in_flight_seq`
in front of the write queue, count the others in `packets_out`, undo a wrap of `snd_nxt`, and
set `snd_nxt`. -/
def restart_sending_requeue (meta_tp : MetaSock) (in_flight_seq : Nat) : MetaSock :=
  let kept := meta_tp.tcp_rtx_queue.filter (fun skb => !after skb.end_seq in_flight_seq)
  let moved := meta_tp.tcp_rtx_queue.filter (fun skb => after skb.end_seq in_flight_seq)
  let packets_out := (kept.map (fun skb => skb.pcount)).foldl add32 0
  let mpcb := meta_tp.mpcb
  let mpcb1 :=
    if meta_tp.snd_nxt < in_flight_seq then
      { mpcb with
        snd_high_order := set_high_order mpcb.snd_high_order mpcb.snd_hiseq_index
          (sub32 (high_order mpcb.snd_high_order mpcb.snd_hiseq_index) 2)
        snd_hiseq_index := if mpcb.snd_hiseq_index != 0 then 0 else 1 }
    else mpcb
  { meta_tp with
    packets_out := packets_out
    tcp_rtx_queue := kept
    sk_write_queue := moved ++ meta_tp.sk_write_queue
    snd_nxt := in_flight_seq
    mpcb := mpcb1 }

/-- `mptcp_restart_sending(meta_sk, in_flight_seq)` (lines 615-661): the requeueing of
`restart_sending_requeue`, then `mptcp_push_pending_frames` (line 660), which may send the
requeued segments again. -/
def mptcp_restart_sending (meta_tp : MetaSock) (in_flight_seq : Nat) (calls : List ExtCall) :
    MetaSock × List ExtCall :=
  (mptcp_push_pending_frames (restart_sending_requeue meta_tp in_flight_seq),
    calls ++ [ExtCall.mptcp_push_pending_frames])

/-- What `mptcp_detect_mapping` leaves behind: its return value, the subflow, the meta socket
with its `mpcb`, the log of outside calls, and the buffer (`none` once it has been unlinked
from the receive queue and freed). -/
structure DetectResult where
  ret : Int
  tp : TcpSock
  meta_tp : MetaSock
  calls : List ExtCall
  skb : Option Skb
deriving DecidableEq, Repr

/-- What `mptcp_detect_mapping` has read once it is past line 730: the buffer (its flags
updated by `mptcp_skb_set_data_seq`) and the announced mapping. -/
structure DssRead where
  skb : Skb
  data_seq : Nat
  sub_seq : Nat
  data_len : Nat
deriving DecidableEq, Repr

/-- Lines 694-730 of `mptcp_detect_mapping` for a segment that carries MP_CAPABLE data on a
subflow without mapping, or a DSS mapping: `data_seq` is the 32-bit data sequence number (the
meta `rcv_nxt` for MP_CAPABLE data), `sub_seq` the relative subflow sequence number of the
option plus `rcv_isn` (the segment's own `seq` for a DATA_FIN without payload), `data_len` the
16-bit length of the option. -/
def detect_mapping_read (tp : TcpSock) (meta_tp : MetaSock) (skb : Skb) : DssRead :=
  let r : DssRead :=
    if !tp.mapping_present && mptcp_is_data_mpcapable skb then
      { skb := skb, data_seq := meta_tp.rcv_nxt, sub_seq := add32 1 tp.rcv_isn,
        data_len := get_unaligned_be16 skb.hdr_dss 0 }
    else
      let d := mptcp_skb_set_data_seq skb meta_tp.mpcb
      { skb := d.1, data_seq := d.2.1,
        sub_seq := add32 (get_unaligned_be32 skb.hdr_dss (d.2.2 + 4)) tp.rcv_isn,
        data_len := get_unaligned_be16 skb.hdr_dss (d.2.2 + 8) }
  if mptcp_is_data_fin r.skb && r.skb.len == 0 then { r with sub_seq := r.skb.seq } else r

/-- Lines 799-876 of `mptcp_detect_mapping`: the bounds check of a fresh mapping against the
segment, the reconstruction of the 64-bit data sequence number, and the recording of the
mapping. `data_len` still counts the DATA_FIN. -/
def detect_mapping_record (tp : TcpSock) (meta_tp : MetaSock) (calls : List ExtCall) (skb : Skb)
    (data_seq sub_seq data_len : Nat) (set_infinite_rcv : Bool) : DetectResult :=
  let data_len := if mptcp_is_data_fin skb then sub32 data_len 1 else data_len
  let tcp_end_seq :=
    if skb.tcp_flags &&& TCPHDR_FIN != 0 then sub32 skb.end_seq 1 else skb.end_seq
  if (!before sub_seq skb.end_seq && after tcp_end_seq skb.seq) ||
      (mptcp_is_data_fin skb && skb.len == 0 && after sub_seq skb.end_seq) ||
      (!after (add32 sub_seq data_len) skb.seq && after tcp_end_seq skb.seq) then
    { ret := 1, tp := tp, meta_tp := meta_tp,
      calls := calls ++ [ExtCall.inc_stats Mib.DSSTCPMISMATCH, ExtCall.mptcp_send_reset],
      skb := some skb }
  else
    let mpcb := meta_tp.mpcb
    let map_data_seq :=
      if skb.mptcp_flags &&& MPTCPHDR_SEQ64_SET = 0 then
        if after data_seq meta_tp.rcv_nxt && data_seq < meta_tp.rcv_nxt then
          mptcp_get_data_seq_64 mpcb (if mpcb.rcv_hiseq_index != 0 then 0 else 1) data_seq
        else mptcp_get_data_seq_64 mpcb mpcb.rcv_hiseq_index data_seq
      else
        let m := mptcp_get_data_seq_64 mpcb
          (if skb.mptcp_flags &&& MPTCPHDR_SEQ64_INDEX != 0 then 1 else 0) data_seq
        if skb.mptcp_flags &&& MPTCPHDR_SEQ64_OFO != 0 then
          (m + 0xFFFFFFFF + 0xFFFFFFFF) % 18446744073709551616
        else m
    let mpcb1 := if set_infinite_rcv then { mpcb with infinite_rcv_seq := map_data_seq }
      else mpcb
    { ret := 0,
      tp := { tp with map_data_seq := map_data_seq, map_data_len := data_len % 65536,
                      map_subseq := sub_seq, map_data_fin := mptcp_is_data_fin skb,
                      mapping_present := true },
      meta_tp := { meta_tp with mpcb := mpcb1 },
      calls := calls, skb := some skb }

/-- `mptcp_detect_mapping(sk, skb)`: returns 0 when processing can go on, 1 when the subflow is
broken, -1 when this segment was dropped. -/
def mptcp_detect_mapping (tp : TcpSock) (meta_tp : MetaSock) (calls : List ExtCall)
    (skb : Skb) : DetectResult :=
  let mpcb := meta_tp.mpcb
  if mpcb.infinite_mapping_rcv then
    { ret := 0,
      tp := { tp with
        map_data_seq := (mpcb.infinite_rcv_seq + 18446744073709551616
          - sub32 tp.copied_seq skb.seq) % 18446744073709551616
        map_subseq := skb.seq
        map_data_len := skb.len % 65536
        map_data_fin := skb.tcp_flags &&& TCPHDR_FIN != 0
        mapping_present := true },
      meta_tp := meta_tp, calls := calls, skb := some skb }
  else if !(!tp.mapping_present && mptcp_is_data_mpcapable skb) && !mptcp_is_data_seq skb then
    if !tp.mapping_present && sub32 tp.rcv_nxt tp.copied_seq > 65536 then
      { ret := 1, tp := tp, meta_tp := meta_tp,
        calls := calls ++ [ExtCall.inc_stats Mib.NODSSWINDOW, ExtCall.mptcp_send_reset],
        skb := some skb }
    else { ret := 0, tp := tp, meta_tp := meta_tp, calls := calls, skb := some skb }
  else
    let r := detect_mapping_read tp meta_tp skb
    let skb := r.skb
    let data_seq := r.data_seq
    let sub_seq := r.sub_seq
    let data_len := r.data_len
    if tp.mapping_present &&
        (data_seq != tp.map_data_seq % 4294967296 ||
         sub_seq != tp.map_subseq ||
         data_len != tp.map_data_len + (if tp.map_data_fin then 1 else 0) ||
         mptcp_is_data_fin skb != tp.map_data_fin) then
      { ret := 1, tp := tp, meta_tp := meta_tp,
        calls := calls ++ [ExtCall.inc_stats Mib.DSSNOMATCH, ExtCall.mptcp_send_reset],
        skb := some skb }
    else if tp.mapping_present then
      { ret := 0, tp := tp, meta_tp := meta_tp, calls := calls, skb := some skb }
    else if data_len = 0 then
      let mpcb1 := { mpcb with infinite_mapping_rcv := true, send_infinite_mapping := true }
      let tp1 := { tp with fully_established := true, send_mp_fail := false }
      let meta1 := { meta_tp with mpcb := mpcb1 }
      let data_len := (skb.len + (if mptcp_is_data_fin skb then 1 else 0)) % 4294967296
      let sub_seq := skb.seq
      let fc := mptcp_fallback_close meta1 calls
      if fc.2 then { ret := 1, tp := tp1, meta_tp := meta1, calls := fc.1, skb := some skb }
      else
        let rs := mptcp_restart_sending meta1 meta1.snd_una fc.1
        let meta2 := { rs.1 with out_of_order_queue := [] }
        let calls2 := rs.2 ++ [ExtCall.inc_stats Mib.INFINITEMAPRX]
        detect_mapping_record tp1 meta2 calls2 skb data_seq sub_seq data_len true
    else if tp.send_mp_fail then
      { ret := -1, tp := { tp with copied_seq := skb.end_seq }, meta_tp := meta_tp,
        calls := calls, skb := none }
    else detect_mapping_record tp meta_tp calls skb data_seq sub_seq data_len false

/-! ## Predicates on reinject queues used in the statements -/

/-- A 32-bit value `x` that lies in the half-space window of `2^31` sequence numbers starting
at `base`. Inside one window `before`/`after` are a linear order. -/
def InWindow (base x : Nat) : Prop := x < 4294967296 ∧ sub32 x base < 2147483648

/-- Every `seq` and `end_seq` of the queue lies in the window starting at `base`. -/
def WithinWindow (base : Nat) (q : List Skb) : Prop :=
  ∀ s ∈ q, InWindow base s.seq ∧ InWindow base s.end_seq

/-- Start sequence numbers strictly ascend from head to tail. -/
def SeqSorted (q : List Skb) : Prop := q.Pairwise (fun a b => before a.seq b.seq = true)

/-- The ranges `[a.seq, a.end_seq)` and `[b.seq, b.end_seq)` do not meet: one ends at or before
the start of the other. -/
def seq_disjoint (a b : Skb) : Bool := !after a.end_seq b.seq || !after b.end_seq a.seq

/-- No two entries of the queue share a connection byte. -/
def OverlapFree (q : List Skb) : Prop := q.Pairwise (fun a b => seq_disjoint a b = true)

/-- The range of `s` lies inside the range of `t`: `t.seq <= s.seq` and
`s.end_seq <= t.end_seq`. -/
def seq_inside (s t : Skb) : Bool := !before s.seq t.seq && !after s.end_seq t.end_seq

/-- The ranges of `s` and `t` meet, and neither lies inside the other. -/
def seq_partial_overlap (s t : Skb) : Bool :=
  !seq_disjoint s t && !seq_inside s t && !seq_inside t s

/-- Every byte of the range of `skb` lies in the range of some entry of `q`. -/
def CoveredByQueue (q : List Skb) (skb : Skb) : Prop :=
  ∀ k, k < sub32 skb.end_seq skb.seq →
    ∃ s ∈ q, sub32 (add32 skb.seq k) s.seq < sub32 s.end_seq s.seq

/-- The range of `n` sequence numbers from `a` and the range of `m` sequence numbers from `c`
share a sequence number. -/
def SeqRangesIntersect (a n c m : Nat) : Prop :=
  ∃ i, i < n ∧ ∃ j, j < m ∧ add32 a i = add32 c j

instance (a n c m : Nat) : Decidable (SeqRangesIntersect a n c m) := by
  unfold SeqRangesIntersect; infer_instance

instance (base x : Nat) : Decidable (InWindow base x) := by
  unfold InWindow; infer_instance

instance (base : Nat) (q : List Skb) : Decidable (WithinWindow base q) := by
  unfold WithinWindow; infer_instance

instance (q : List Skb) : Decidable (SeqSorted q) := by
  unfold SeqSorted; infer_instance

instance (q : List Skb) : Decidable (OverlapFree q) := by
  unfold OverlapFree; infer_instance

instance (q : List Skb) (skb : Skb) : Decidable (CoveredByQueue q skb) := by
  unfold CoveredByQueue; infer_instance

/-! ## 64-bit sequence numbers: the stored high-order halves -/

/-- `mptcp_get_rcv_nxt_64` (mptcp.h): the 64-bit receive cursor. -/
def mptcp_get_rcv_nxt_64 (meta_tp : MetaSock) : Nat :=
  mptcp_get_data_seq_64 meta_tp.mpcb meta_tp.mpcb.rcv_hiseq_index meta_tp.rcv_nxt

/-- `mptcp_check_sndseq_wrap(meta_tp, inc)` (mptcp.h): when `snd_nxt + inc` wraps the 32-bit
space, toggle `snd_hiseq_index` and add 2 to the half it now selects. `inc` is a C `int`; the
sum is taken in `u32`. -/
def mptcp_check_sndseq_wrap (meta_tp : MetaSock) (inc : Int) : MetaSock :=
  if meta_tp.snd_nxt > (((meta_tp.snd_nxt : Int) + inc) % 4294967296).toNat then
    let mpcb := meta_tp.mpcb
    let index := if mpcb.snd_hiseq_index != 0 then 0 else 1
    { meta_tp with mpcb := { mpcb with
        snd_hiseq_index := index
        snd_high_order := set_high_order mpcb.snd_high_order index
          (add32 (high_order mpcb.snd_high_order index) 2) } }
  else meta_tp

/-- `mptcp_check_rcvseq_wrap(meta_tp, old_rcv_nxt)` (mptcp.h): when `rcv_nxt` is numerically
below its old value, add 2 to the half that `rcv_hiseq_index` selects and toggle the index. -/
def mptcp_check_rcvseq_wrap (meta_tp : MetaSock) (old_rcv_nxt : Nat) : MetaSock :=
  if old_rcv_nxt > meta_tp.rcv_nxt then
    let mpcb := meta_tp.mpcb
    { meta_tp with mpcb := { mpcb with
        rcv_high_order := set_high_order mpcb.rcv_high_order mpcb.rcv_hiseq_index
          (add32 (high_order mpcb.rcv_high_order mpcb.rcv_hiseq_index) 2)
        rcv_hiseq_index := if mpcb.rcv_hiseq_index != 0 then 0 else 1 } }
  else meta_tp


/-! ## `mptcp_verif_dss_csum`: after the checksum -/

/-- An entry of `mpcb->conn_list` as `mptcp_for_each_sub` visits it inside a function that
runs on the subflow `sk`: whether the entry is `sk` itself, and the fields of the entry that the
loops read. -/
structure SubflowRef where
  is_sk : Bool := false
  fully_established : Bool := false
  path_index : Nat := 1
  sk_state : Nat := 1
  rem_id : Nat := 0
deriving DecidableEq, Repr

/-- Lines 393-401 of `mptcp_verif_dss_csum`: search `conn_list` for a subflow other than `sk`
that is fully established; the result says whether `sk_it` is non-null after the loop. -/
def find_other_established : List SubflowRef → Bool
  | [] => false
  | sk_it :: rest =>
    if !sk_it.is_sk && sk_it.fully_established then true else find_other_established rest

/-- What a function of the receive path that runs on a subflow leaves behind: its return
value, the subflow, the meta socket with its `mpcb`, and the log of outside calls. -/
structure SubflowResult where
  ret : Int
  tp : TcpSock
  meta_tp : MetaSock
  calls : List ExtCall
deriving DecidableEq, Repr

/-- The loop `while ((tmp = __skb_dequeue(&sk->sk_receive_queue)) != NULL)` of lines 410-413:
`copied_seq` after every buffer of the queue has been taken off and freed. -/
def purge_receive_queue (copied_seq : Nat) : List Skb → Nat
  | [] => copied_seq
  | tmp :: rest => purge_receive_queue tmp.end_seq rest

/-- `mptcp_verif_dss_csum(sk)`, lines 375-422. `csum_fold` is `csum_fold(csum_tcp)`, the fold
of the sum that the loop of lines 294-373 builds with the kernel's `csum_partial` and
`skb_checksum` over the queued buffers of the current mapping; that loop only writes local
variables. Returns 1 when the checksum is right, -1 when the subflow has been reset, 0 when the
subflow is the last one and has been kept. -/
def mptcp_verif_dss_csum (csum_fold : Nat) (conn_list : List SubflowRef) (tp : TcpSock)
    (meta_tp : MetaSock) (calls : List ExtCall) : SubflowResult :=
  if csum_fold != 0 then
    let calls1 := calls ++ [ExtCall.inc_stats Mib.CSUMFAIL]
    let tp1 := { tp with send_mp_fail := true }
    let meta1 := { meta_tp with mpcb := { meta_tp.mpcb with csum_cutoff_seq := tp.map_data_seq } }
    if find_other_established conn_list then
      { ret := -1, tp := tp1, meta_tp := meta1, calls := calls1 ++ [ExtCall.mptcp_send_reset] }
    else
      let meta2 := { meta1 with mpcb := { meta1.mpcb with send_infinite_mapping := true } }
      let tp2 := { tp1 with
        copied_seq := purge_receive_queue tp1.copied_seq tp1.sk_receive_queue
        sk_receive_queue := [] }
      let fc := mptcp_fallback_close meta2 calls1
      { ret := if fc.2 then -1 else 0, tp := tp2, meta_tp := meta2, calls := fc.1 }
  else { ret := 1, tp := tp, meta_tp := meta_tp, calls := calls }


/-! ## `mptcp_queue_skb` and what it calls -/

/-- The C expression `(u64)(a - b)`. -/
def sub64 (a b : Nat) : Nat :=
  (a + 18446744073709551616 - b % 18446744073709551616) % 18446744073709551616

/-- `before64` (`mptcp_input.c`): `(s64)(seq1 - seq2) < 0`. -/
def before64 (seq1 seq2 : Nat) : Bool := decide (9223372036854775808 ≤ sub64 seq1 seq2)

/-- The macro `after64(seq1, seq2)`: `before64(seq2, seq1)`. -/
def after64 (seq1 seq2 : Nat) : Bool := before64 seq2 seq1

/-- Kernel `RCV_SHUTDOWN`. -/
def RCV_SHUTDOWN : Nat := 1
/-- Kernel `SEND_SHUTDOWN`. -/
def SEND_SHUTDOWN : Nat := 2
/-- Kernel `SHUTDOWN_MASK`. -/
def SHUTDOWN_MASK : Nat := 3

/-- Kernel `TCP_ESTABLISHED` socket state. -/
def TCP_ESTABLISHED : Nat := 1
/-- Kernel `TCP_SYN_RECV` socket state. -/
def TCP_SYN_RECV : Nat := 3
/-- Kernel `TCP_FIN_WAIT1` socket state. -/
def TCP_FIN_WAIT1 : Nat := 4
/-- Kernel `TCP_FIN_WAIT2` socket state. -/
def TCP_FIN_WAIT2 : Nat := 5
/-- Kernel `TCP_CLOSE_WAIT` socket state. -/
def TCP_CLOSE_WAIT : Nat := 8
/-- Kernel `TCP_LAST_ACK` socket state. -/
def TCP_LAST_ACK : Nat := 9
/-- Kernel `TCP_CLOSING` socket state. -/
def TCP_CLOSING : Nat := 11

/-- `mptcp_reset_mapping(tp, old_copied_seq)`: clear the current mapping; in infinite-receive
mode advance `infinite_rcv_seq` by the subflow bytes passed since `old_copied_seq`. -/
def mptcp_reset_mapping (tp : TcpSock) (mpcb : MptcpCb) (old_copied_seq : Nat) :
    TcpSock × MptcpCb :=
  ({ tp with map_data_len := 0, map_data_seq := 0, map_subseq := 0, map_data_fin := false,
             mapping_present := false },
   if mpcb.infinite_mapping_rcv then
     { mpcb with infinite_rcv_seq :=
         (mpcb.infinite_rcv_seq + sub32 tp.copied_seq old_copied_seq) % 18446744073709551616 }
   else mpcb)

/-- `mptcp_prepare_skb(skb, sk)`: turn the subflow sequence numbers of the buffer into
connection sequence numbers of the current mapping, and keep the FIN flag only for a DATA_FIN
at the end of the mapping. -/
def mptcp_prepare_skb (tp : TcpSock) (skb : Skb) : Skb :=
  let end_seq := if skb.tcp_flags &&& TCPHDR_FIN != 0 then sub32 skb.end_seq 1 else skb.end_seq
  let fin := tp.map_data_fin && end_seq == add32 tp.map_subseq tp.map_data_len
  let seq := sub32 (add32 (tp.map_data_seq % 4294967296) skb.seq) tp.map_subseq
  { skb with
    tcp_flags := if fin then skb.tcp_flags ||| TCPHDR_FIN else skb.tcp_flags &&& (255 - TCPHDR_FIN)
    seq := seq
    end_seq := add32 (add32 seq skb.len) (if fin then 1 else 0) }

/-- `mptcp_fin(meta_sk)`: a DATA_FIN has arrived in order. The subflow chosen for the
acknowledgement only receives kernel calls, which are logged; `tcp_set_state` is the
assignment to `sk_state`. -/
def mptcp_fin (meta_tp : MetaSock) (calls : List ExtCall) : MetaSock × List ExtCall :=
  let mpcb := meta_tp.mpcb
  let calls1 := calls ++ [ExtCall.inet_csk_schedule_ack]
  let meta1 :=
    if !mpcb.in_time_wait then
      { meta_tp with sk_shutdown := meta_tp.sk_shutdown ||| RCV_SHUTDOWN, sock_done := true }
    else meta_tp
  let state := if !mpcb.in_time_wait then meta_tp.sk_state else mpcb.mptw_state
  let r : MetaSock × List ExtCall :=
    if state = TCP_SYN_RECV ∨ state = TCP_ESTABLISHED then
      ({ meta1 with sk_state := TCP_CLOSE_WAIT }, calls1)
    else if state = TCP_FIN_WAIT1 then
      ({ meta1 with sk_state := TCP_CLOSING }, calls1 ++ [ExtCall.tcp_send_ack])
    else if state = TCP_FIN_WAIT2 then
      (meta1, calls1 ++ [ExtCall.tcp_send_ack, ExtCall.time_wait])
    else (meta1, calls1)
  let meta2 := { r.1 with out_of_order_queue := [] }
  if !meta2.sock_dead then
    (meta2, r.2 ++ [ExtCall.sk_state_change, ExtCall.sk_wake_async])
  else (meta2, r.2)

/-- `mptcp_sequence(meta_tp, data_seq, end_data_seq)`: the mapping does not end before the
last advertised window start and does not start beyond the receive window.
`rcv_window_now` is the kernel's `tcp_receive_window_now(meta_tp)`. -/
def mptcp_sequence (meta_tp : MetaSock) (rcv_window_now data_seq end_data_seq : Nat) : Bool :=
  let mpcb := meta_tp.mpcb
  let rcv_wup64 :=
    if meta_tp.rcv_wup > meta_tp.rcv_nxt then
      sub32 (high_order mpcb.rcv_high_order mpcb.rcv_hiseq_index) 1 * 4294967296
        + meta_tp.rcv_wup % 4294967296
    else mptcp_get_data_seq_64 mpcb mpcb.rcv_hiseq_index meta_tp.rcv_wup
  !before64 end_data_seq rcv_wup64 &&
    !after64 data_seq ((mptcp_get_rcv_nxt_64 meta_tp + rcv_window_now) % 18446744073709551616)


/-- The kernel operations on the meta socket's queues that `mptcp_queue_skb` calls:
`tcp_data_queue_ofo` takes the out-of-order queue and the buffer and gives the queue afterwards;
`tcp_queue_rcv` takes the receive queue and the buffer and gives the queue afterwards and
whether the buffer was eaten; `tcp_ofo_queue` takes `rcv_nxt`, the out-of-order queue and the
receive queue and gives all three afterwards. -/
structure MetaRcvOps where
  tcp_data_queue_ofo : List Skb → Skb → List Skb
  tcp_queue_rcv : List Skb → Skb → List Skb × Bool
  tcp_ofo_queue : Nat → List Skb → List Skb → Nat × List Skb × List Skb

/-- The walk of lines 1012-1021 of `mptcp_queue_skb`: unlink and free the buffers of the
mapping. `map_end` is `map_subseq + map_data_len`. The result is the queue that remains and
`copied_seq`. -/
def queue_skb_drop_walk (map_end : Nat) : List Skb → Nat → List Skb × Nat
  | [], copied_seq => ([], copied_seq)
  | tmp1 :: rest, _ =>
    match rest with
    | [] => ([], tmp1.end_seq)
    | tmp :: _ =>
      if !before tmp.seq map_end then (rest, tmp1.end_seq)
      else queue_skb_drop_walk map_end rest tmp1.end_seq

/-- The walk of lines 1046-1065: the mapping is ahead of the receive cursor, its buffers go
to the meta out-of-order queue (or are freed in time-wait). -/
def queue_skb_ofo_walk (ops : MetaRcvOps) (map_end : Nat) :
    List Skb → TcpSock → MetaSock → TcpSock × MetaSock
  | [], tp, meta_tp => ({ tp with sk_receive_queue := [] }, meta_tp)
  | tmp1 :: rest, tp, meta_tp =>
    let tp1 := { tp with copied_seq := tmp1.end_seq }
    let skb := mptcp_prepare_skb tp1 tmp1
    let meta1 :=
      if !meta_tp.mpcb.in_time_wait then
        { meta_tp with
          out_of_order_queue := ops.tcp_data_queue_ofo meta_tp.out_of_order_queue skb }
      else meta_tp
    match rest with
    | [] => ({ tp1 with sk_receive_queue := [] }, meta1)
    | tmp :: _ =>
      if !before tmp.seq map_end then ({ tp1 with sk_receive_queue := rest }, meta1)
      else queue_skb_ofo_walk ops map_end rest tp1 meta1

/-- Lines 1077-1114, one buffer of the mapping that is ready for the meta receive queue: the
meta socket, the call log and `data_queued` afterwards. Whether the buffer was eaten only
decides how it is freed. -/
def queue_skb_rcv_one (ops : MetaRcvOps) (skb : Skb) (meta_tp : MetaSock)
    (calls : List ExtCall) (data_queued : Bool) : MetaSock × List ExtCall × Bool :=
  let old_rcv_nxt := meta_tp.rcv_nxt
  if !after skb.end_seq meta_tp.rcv_nxt then (meta_tp, calls, data_queued)
  else
    let q :=
      if meta_tp.mpcb.in_time_wait then (meta_tp.sk_receive_queue, true)
      else ops.tcp_queue_rcv meta_tp.sk_receive_queue skb
    let meta1 := { meta_tp with sk_receive_queue := q.1, rcv_nxt := skb.end_seq }
    let f := if skb.tcp_flags &&& TCPHDR_FIN != 0 then mptcp_fin meta1 calls else (meta1, calls)
    let meta2 := f.1
    let meta3 :=
      if !meta2.out_of_order_queue.isEmpty then
        let o := ops.tcp_ofo_queue meta2.rcv_nxt meta2.out_of_order_queue meta2.sk_receive_queue
        { meta2 with rcv_nxt := o.1, out_of_order_queue := o.2.1, sk_receive_queue := o.2.2 }
      else meta2
    (mptcp_check_rcvseq_wrap meta3 old_rcv_nxt, f.2, true)

/-- The walk of lines 1074-1120: the buffers of the mapping go to the meta receive queue. -/
def queue_skb_rcv_walk (ops : MetaRcvOps) (map_end : Nat) :
    List Skb → TcpSock → MetaSock → List ExtCall → Bool →
      TcpSock × MetaSock × List ExtCall × Bool
  | [], tp, meta_tp, calls, data_queued =>
    ({ tp with sk_receive_queue := [] }, meta_tp, calls, data_queued)
  | tmp1 :: rest, tp, meta_tp, calls, data_queued =>
    let tp1 := { tp with copied_seq := tmp1.end_seq }
    let r := queue_skb_rcv_one ops (mptcp_prepare_skb tp1 tmp1) meta_tp calls data_queued
    match rest with
    | [] => ({ tp1 with sk_receive_queue := [] }, r.1, r.2.1, r.2.2)
    | tmp :: _ =>
      if !before tmp.seq map_end then ({ tp1 with sk_receive_queue := rest }, r.1, r.2.1, r.2.2)
      else queue_skb_rcv_walk ops map_end rest tp1 r.1 r.2.1 r.2.2

/-- Lines 1012-1025 of `mptcp_queue_skb`: the mapping is stale or out of window; its buffers
are dropped and the mapping is cleared. -/
def queue_skb_dropped (map_end old_copied_seq : Nat) (tp : TcpSock) (meta_tp : MetaSock)
    (calls : List ExtCall) : SubflowResult :=
  let d := queue_skb_drop_walk map_end tp.sk_receive_queue tp.copied_seq
  let r := mptcp_reset_mapping { tp with sk_receive_queue := d.1, copied_seq := d.2 }
    meta_tp.mpcb old_copied_seq
  { ret := -1, tp := r.1, meta_tp := { meta_tp with mpcb := r.2 }, calls := calls }

/-- Lines 1044-1126 of `mptcp_queue_skb`: the buffers of the mapping go to the meta
out-of-order queue when the mapping starts after the receive cursor `rcv_nxt64`, else to the
meta receive queue; then the mapping is cleared. -/
def queue_skb_deliver (ops : MetaRcvOps) (rcv_window_now rcv_nxt64 map_end old_copied_seq : Nat)
    (tp : TcpSock) (meta_tp : MetaSock) (calls : List ExtCall) : SubflowResult :=
  if before64 rcv_nxt64 tp.map_data_seq then
    let w := queue_skb_ofo_walk ops map_end tp.sk_receive_queue tp meta_tp
    let calls1 :=
      if after64 tp.map_data_seq
          ((rcv_nxt64 + 3 * (rcv_window_now / 4)) % 18446744073709551616) then
        calls ++ [ExtCall.tcp_enter_quickack_mode]
      else calls
    let r := mptcp_reset_mapping w.1 w.2.mpcb old_copied_seq
    { ret := -2, tp := r.1, meta_tp := { w.2 with mpcb := r.2 }, calls := calls1 }
  else
    let w := queue_skb_rcv_walk ops map_end tp.sk_receive_queue tp meta_tp calls false
    let r := mptcp_reset_mapping w.1 w.2.1.mpcb old_copied_seq
    { ret := if w.2.2.2 then -1 else -2, tp := r.1,
      meta_tp := { w.2.1 with mpcb := r.2 }, calls := w.2.2.1 }

/-- Lines 1028-1042 of `mptcp_queue_skb`: remember the path of a DATA_FIN, and verify the
checksum when checksums are in use and the connection is not in infinite-receive mode. The
result has `ret` 1 when processing goes on. -/
def queue_skb_verify (csum_fold : Nat) (conn_list : List SubflowRef) (tp : TcpSock)
    (meta_tp : MetaSock) (calls : List ExtCall) : SubflowResult :=
  let mpcb1 :=
    if tp.map_data_fin then
      { meta_tp.mpcb with dfin_path_index := tp.path_index,
                          dfin_combined := tp.sk_shutdown &&& RCV_SHUTDOWN != 0 }
    else meta_tp.mpcb
  let meta1 := { meta_tp with mpcb := mpcb1 }
  if mpcb1.dss_csum && !mpcb1.infinite_mapping_rcv then
    mptcp_verif_dss_csum csum_fold conn_list tp meta1 calls
  else { ret := 1, tp := tp, meta_tp := meta1, calls := calls }

/-- `mptcp_queue_skb(sk)`: push the buffers of a fully received mapping to the meta socket.
Returns 0 when the mapping is not complete yet, 1 when the checksum failed, -1 when data was
queued or the mapping was dropped, -2 otherwise. `rcv_window_now` is the kernel's
`tcp_receive_window_now(meta_tp)`, `csum_fold` and `conn_list` are passed on to
`mptcp_verif_dss_csum`. The kernel's memory accounting and `lrcvtime` are left out. -/
def mptcp_queue_skb (ops : MetaRcvOps) (rcv_window_now csum_fold : Nat)
    (conn_list : List SubflowRef) (tp : TcpSock) (meta_tp : MetaSock) (calls : List ExtCall) :
    SubflowResult :=
  let rcv_nxt64 := mptcp_get_rcv_nxt_64 meta_tp
  let old_copied_seq := tp.copied_seq
  let map_end := add32 tp.map_subseq tp.map_data_len
  if !tp.mapping_present || before tp.rcv_nxt map_end then
    { ret := 0, tp := tp, meta_tp := meta_tp, calls := calls }
  else
    let end_data_seq := (tp.map_data_seq + tp.map_data_len + (if tp.map_data_fin then 1 else 0))
      % 18446744073709551616
    if !before64 rcv_nxt64 end_data_seq ||
        !mptcp_sequence meta_tp rcv_window_now tp.map_data_seq end_data_seq then
      queue_skb_dropped map_end old_copied_seq tp meta_tp calls
    else
      let v := queue_skb_verify csum_fold conn_list tp meta_tp calls
      if v.ret ≤ 0 then
        let r := mptcp_reset_mapping v.tp v.meta_tp.mpcb old_copied_seq
        { ret := 1, tp := r.1, meta_tp := { v.meta_tp with mpcb := r.2 }, calls := v.calls }
      else
        queue_skb_deliver ops rcv_window_now rcv_nxt64 map_end old_copied_seq v.tp v.meta_tp
          v.calls

/-! ## `mptcp_prevalidate_skb` -/

/-- `is_master_tp(tp)` (mptcp.h) for a subflow of an MPTCP connection. -/
def is_master_tp (tp : TcpSock) : Bool := !tp.slave_sk

/-- `mptcp_become_fully_estab(sk)`. -/
def mptcp_become_fully_estab (tp : TcpSock) (mpcb : MptcpCb) (calls : List ExtCall) :
    TcpSock × List ExtCall :=
  ({ tp with fully_established := true },
   if is_master_tp tp && mpcb.pm_fully_established then calls ++ [ExtCall.pm_fully_established]
   else calls)

/-- The value of a C `int` after an assignment of `x`: reduction to 32 bits, two's
complement. -/
def to_s32 (x : Int) : Int := (x + 2147483648) % 4294967296 - 2147483648

/-- `mptcp_prevalidate_skb(sk, skb)`: returns 0 when processing can go on, 1 when the subflow
is broken, -1 when this segment was dropped. After a fallback (lines 588-599) the subflow is
fully established, so the test of line 606 fails. -/
def mptcp_prevalidate_skb (tp : TcpSock) (meta_tp : MetaSock) (calls : List ExtCall)
    (skb : Skb) : SubflowResult :=
  let mpcb := meta_tp.mpcb
  if skb.len == 0 && skb.tcp_flags &&& TCPHDR_FIN != 0 && !mptcp_is_data_fin skb &&
      !mpcb.infinite_mapping_rcv then
    { ret := -1,
      tp := { tp with copied_seq := skb.end_seq,
                      sk_receive_queue := tp.sk_receive_queue.erase skb },
      meta_tp := meta_tp, calls := calls }
  else if !tp.fully_established && !mptcp_is_data_seq skb && !mptcp_is_data_mpcapable skb &&
      !tp.mapping_present && !mpcb.infinite_mapping_rcv then
    if !is_master_tp tp then
      { ret := 1, tp := tp, meta_tp := meta_tp,
        calls := calls ++ [ExtCall.inc_stats Mib.FBDATASUB, ExtCall.mptcp_send_reset] }
    else
      let calls1 := calls ++ [ExtCall.inc_stats Mib.FBDATAINIT]
      let mpcb1 := { mpcb with infinite_mapping_snd := true, infinite_mapping_rcv := true,
                               infinite_rcv_seq := mptcp_get_rcv_nxt_64 meta_tp }
      let meta1 := { meta_tp with mpcb := mpcb1 }
      let fc := mptcp_fallback_close meta1 calls1
      if fc.2 then { ret := 1, tp := tp, meta_tp := meta1, calls := fc.1 }
      else
        { ret := 0, tp := { tp with fully_established := true },
          meta_tp := { meta1 with mpcb := { mpcb1 with send_infinite_mapping := false } },
          calls := fc.1 }
  else if !tp.fully_established then
    let tp1 := { tp with init_rcv_wnd := to_s32 (tp.init_rcv_wnd - skb.len) }
    if tp1.init_rcv_wnd < 0 then
      let e := mptcp_become_fully_estab tp1 mpcb calls
      { ret := 0, tp := e.1, meta_tp := meta_tp, calls := e.2 }
    else { ret := 0, tp := tp1, meta_tp := meta_tp, calls := calls }
  else { ret := 0, tp := tp, meta_tp := meta_tp, calls := calls }


/-- The part of the `mpcb` that describes infinite mode: `infinite_mapping_rcv`,
`infinite_mapping_snd`, `send_infinite_mapping` and `infinite_rcv_seq`. -/
def infinite_state (mpcb : MptcpCb) : Bool × Bool × Bool × Nat :=
  (mpcb.infinite_mapping_rcv, mpcb.infinite_mapping_snd, mpcb.send_infinite_mapping,
    mpcb.infinite_rcv_seq)


/-! ## `mptcp_process_data_ack` and what it calls -/

/-- `MPTCPHDR_ACK` (RX only): a DATA_ACK was received. -/
def MPTCPHDR_ACK : Nat := 0x10
/-- `MPTCPHDR_DSS_CSUM` (RX only). -/
def MPTCPHDR_DSS_CSUM : Nat := 0x80

/-- Kernel `TCP_CA_Open`. -/
def TCP_CA_Open : Nat := 0
/-- Kernel `TCP_CA_Loss`. -/
def TCP_CA_Loss : Nat := 4

/-- Modelled from the spec: `between(seq1, seq2, seq3)`, declared in `include/net/tcp.h`
outside the three files embedded here: `seq3 - seq2 >= seq1 - seq2` in `u32`. -/
def between (seq1 seq2 seq3 : Nat) : Bool := decide (sub32 seq1 seq2 ≤ sub32 seq3 seq2)

/-- Modelled from the spec: `tcp_wnd_end(tp)`, declared in `include/net/tcp.h` outside the
three files embedded here: the right edge `snd_una + snd_wnd` of the send window. -/
def tcp_wnd_end (meta_tp : MetaSock) : Nat := add32 meta_tp.snd_una meta_tp.snd_wnd

/-- Modelled from the spec: `tcp_may_update_window(tp, ack, ack_seq, nwin)`, defined in
`net/ipv4/tcp_input.c` outside the three files embedded here: the acknowledgement is new, or
the segment is newer than the one of the last window update, or it is that same segment with a
larger window. -/
def tcp_may_update_window (meta_tp : MetaSock) (ack ack_seq nwin : Nat) : Bool :=
  after ack meta_tp.snd_una || after ack_seq meta_tp.snd_wl1 ||
    (ack_seq == meta_tp.snd_wl1 && decide (nwin > meta_tp.snd_wnd))

/-- What the kernel decides for `mptcp_process_data_ack` and the functions it calls:
`tcp_tso_acked` gives the trimmed buffer and the number of packets acknowledged;
`skb_unclone_fails` and `delta_truesize` are passed on to `mptcp_tso_acked_reinject`; `has_dst`
says whether `__sk_dst_get` finds a route; `tmo_exceeds_timewait_len` whether
`tcp_fin_time(meta_sk) > TCP_TIMEWAIT_LEN`; `owned_by_user` is `sock_owned_by_user(meta_sk)`;
`write_space_clears_nospace` whether `sk_write_space` clears `SOCK_NOSPACE`. -/
structure AckEnv where
  tcp_tso_acked : Skb → Skb × Nat
  skb_unclone_fails : Bool := false
  delta_truesize : Nat := 0
  has_dst : Bool := false
  tmo_exceeds_timewait_len : Bool := false
  owned_by_user : Bool := false
  write_space_clears_nospace : Bool := false

/-- The state of the walk over the meta retransmit queue in `mptcp_clean_rtx_queue`. -/
structure RtxWalk where
  queue : List Skb
  packets_out : Nat
  retrans_stamp : Nat
  acked : Bool
  calls : List ExtCall
deriving DecidableEq, Repr

/-- Lines 102-151 of `mptcp_clean_rtx_queue`: free the acknowledged entries of the meta
retransmit queue, taken in order; a partly acknowledged entry of several packets is trimmed by
`tcp_tso_acked` and ends the walk. `n_sub` is the number of subflows, each of which is closed
when a DATA_FIN has been acknowledged. -/
def clean_rtx_queue_walk (tcp_tso_acked : Skb → Skb × Nat) (n_sub snd_una : Nat) :
    List Skb → Nat → Nat → Bool → List ExtCall → RtxWalk
  | [], packets_out, retrans_stamp, acked, calls =>
    { queue := [], packets_out := packets_out, retrans_stamp := retrans_stamp, acked := acked,
      calls := calls }
  | skb :: rest, packets_out, retrans_stamp, acked, calls =>
    if after skb.end_seq snd_una then
      if skb.pcount == 1 || !after snd_una skb.seq then
        { queue := skb :: rest, packets_out := packets_out, retrans_stamp := retrans_stamp,
          acked := acked, calls := calls }
      else
        let r := tcp_tso_acked skb
        if r.2 = 0 then
          { queue := r.1 :: rest, packets_out := packets_out, retrans_stamp := retrans_stamp,
            acked := acked, calls := calls }
        else
          { queue := r.1 :: rest, packets_out := sub32 packets_out r.2, retrans_stamp := 0,
            acked := true, calls := calls }
    else
      clean_rtx_queue_walk tcp_tso_acked n_sub snd_una rest (sub32 packets_out skb.pcount) 0 true
        (if mptcp_is_data_fin skb then calls ++ List.replicate n_sub ExtCall.mptcp_sub_close
         else calls)

/-- `mptcp_clean_rtx_queue(meta_sk, prior_snd_una)`: remove acknowledged data from the meta
retransmit queue and from the reinject queue. `none` is a `BUG_ON` of
`mptcp_tso_acked_reinject` that fires. The kernel's `tcp_ack_tstamp` is left out. -/
def mptcp_clean_rtx_queue (env : AckEnv) (n_sub : Nat) (meta_tp : MetaSock)
    (prior_snd_una : Nat) (calls : List ExtCall) : Option (MetaSock × List ExtCall) :=
  let w := clean_rtx_queue_walk env.tcp_tso_acked n_sub meta_tp.snd_una meta_tp.tcp_rtx_queue
    meta_tp.packets_out meta_tp.retrans_stamp false calls
  (mptcp_clean_rtx_queue_reinject meta_tp.snd_una env.skb_unclone_fails env.delta_truesize
      meta_tp.mpcb.reinject_queue).map
    (fun rq =>
      let meta1 := { meta_tp with
        tcp_rtx_queue := w.queue
        packets_out := w.packets_out
        retrans_stamp := w.retrans_stamp
        mpcb := { meta_tp.mpcb with reinject_queue := rq } }
      let meta2 :=
        if between meta1.snd_up prior_snd_una meta1.snd_una then
          { meta1 with snd_up := meta1.snd_una }
        else meta1
      if w.acked then ({ meta2 with icsk_retransmits := 0 }, w.calls ++ [ExtCall.tcp_rearm_rto])
      else (meta2, w.calls))


/-- `mptcp_is_data_fin2(skb, tp)` (mptcp.h): a DATA_FIN, or a subflow FIN in infinite-receive
mode. -/
def mptcp_is_data_fin2 (skb : Skb) (mpcb : MptcpCb) : Bool :=
  mptcp_is_data_fin skb || (mpcb.infinite_mapping_rcv && skb.tcp_flags &&& TCPHDR_FIN != 0)

/-- `mptcp_rcv_state_process(meta_sk, sk, skb, data_seq, data_len)`: returns 0 when processing
can go on, -1 when the connection was closed with an active reset, 1 when it was closed and
processing should stop. `tcp_set_state` is the assignment to `sk_state`; `tcp_done`,
`tcp_reset` and the timers are logged calls. -/
def mptcp_rcv_state_process (env : AckEnv) (meta_tp : MetaSock) (tp : TcpSock) (skb : Skb)
    (data_seq data_len : Nat) (calls : List ExtCall) : Int × MetaSock × List ExtCall :=
  let fin2 := mptcp_is_data_fin2 skb meta_tp.mpcb
  let s : Option Int × MetaSock × List ExtCall :=
    if meta_tp.sk_state = TCP_FIN_WAIT1 then
      if meta_tp.snd_una != meta_tp.write_seq then (none, meta_tp, calls)
      else
        let meta1 := { meta_tp with sk_state := TCP_FIN_WAIT2,
                                    sk_shutdown := meta_tp.sk_shutdown ||| SEND_SHUTDOWN }
        let calls1 := if env.has_dst then calls ++ [ExtCall.dst_confirm] else calls
        if !meta1.sock_dead then (none, meta1, calls1 ++ [ExtCall.sk_state_change])
        else if decide (meta1.linger2 < 0) ||
            (data_len != 0 &&
              after (sub32 (add32 data_seq data_len) (if fin2 then 1 else 0)) meta1.rcv_nxt) then
          (some (-1), meta1, calls1 ++ [ExtCall.mptcp_send_active_reset, ExtCall.tcp_done])
        else if env.tmo_exceeds_timewait_len then
          (none, meta1, calls1 ++ [ExtCall.inet_csk_reset_keepalive_timer])
        else if fin2 || env.owned_by_user then
          (none, meta1, calls1 ++ [ExtCall.inet_csk_reset_keepalive_timer])
        else (none, meta1, calls1 ++ [ExtCall.time_wait])
    else if meta_tp.sk_state = TCP_CLOSING ∨ meta_tp.sk_state = TCP_LAST_ACK then
      if meta_tp.snd_una == meta_tp.write_seq then (some 1, meta_tp, calls ++ [ExtCall.tcp_done])
      else (none, meta_tp, calls)
    else (none, meta_tp, calls)
  match s with
  | (some ret, meta1, calls1) => (ret, meta1, calls1)
  | (none, meta1, calls1) =>
    if (meta1.sk_state = TCP_FIN_WAIT1 ∨ meta1.sk_state = TCP_FIN_WAIT2) ∧
        meta1.sk_shutdown &&& RCV_SHUTDOWN ≠ 0 ∧
        skb.end_seq ≠ skb.seq ∧
        after (sub32 skb.end_seq (if skb.th_fin then 1 else 0)) tp.rcv_nxt = true ∧
        fin2 = false then
      (-1, meta1, calls1 ++ [ExtCall.mptcp_send_active_reset, ExtCall.tcp_reset])
    else (0, meta1, calls1)

/-- `mptcp_snd_una_update(meta_tp, data_ack)`. -/
def mptcp_snd_una_update (meta_tp : MetaSock) (data_ack : Nat) : MetaSock :=
  let delta := sub32 data_ack meta_tp.snd_una
  { meta_tp with bytes_acked := (meta_tp.bytes_acked + delta) % 18446744073709551616,
                 snd_una := data_ack }

/-- What a function of the acknowledgement path leaves behind: whether processing of the
segment has to stop, the subflow, the meta socket with its `mpcb`, and the log of calls. -/
structure AckResult where
  stop : Bool
  tp : TcpSock
  meta_tp : MetaSock
  calls : List ExtCall
deriving DecidableEq, Repr

/-- Lines 1545-1566 of `mptcp_process_data_ack`: the update of the send window. -/
def data_ack_update_window (meta_tp : MetaSock) (data_ack data_seq nwin : Nat) : MetaSock :=
  if tcp_may_update_window meta_tp data_ack data_seq nwin then
    let meta1 := { meta_tp with snd_wl1 := data_seq }
    if meta1.snd_wnd != nwin && !before (add32 data_ack nwin) (tcp_wnd_end meta1) then
      { meta1 with snd_wnd := nwin,
                   max_window := if nwin > meta1.max_window then nwin else meta1.max_window }
    else meta1
  else meta_tp

/-- Lines 1583-1590 of `mptcp_process_data_ack`: in the loss state, when something new was
acknowledged, the whole queue is retransmitted; `mptcp_xmit_retransmit_queue` is a logged
call. -/
def data_ack_loss (c : MetaSock × List ExtCall) (data_ack prior_snd_una : Nat) :
    MetaSock × List ExtCall :=
  if c.1.icsk_ca_state = TCP_CA_Loss ∧ after data_ack prior_snd_una = true then
    ({ c.1 with icsk_ca_state := TCP_CA_Open }, c.2 ++ [ExtCall.mptcp_xmit_retransmit_queue])
  else c

/-- Lines 1592-1606 of `mptcp_process_data_ack`, the simplified `tcp_new_space`;
`tcp_chrono_stop` is logged once for the meta socket and once for each subflow. -/
def data_ack_new_space (env : AckEnv) (n_sub : Nat) (l : MetaSock × List ExtCall) :
    MetaSock × List ExtCall :=
  if l.1.sock_queue_shrunk then
    let meta2 := { l.1 with sock_queue_shrunk := false }
    let r : MetaSock × List ExtCall :=
      if meta2.has_socket && meta2.sock_nospace then
        ({ meta2 with
            sock_nospace := meta2.sock_nospace && !env.write_space_clears_nospace },
          l.2 ++ [ExtCall.sk_write_space])
      else (meta2, l.2)
    if r.1.has_socket && !r.1.sock_nospace then
      (r.1, r.2 ++ List.replicate (1 + n_sub) ExtCall.tcp_chrono_stop)
    else r
  else l

/-- Lines 1608-1621 of `mptcp_process_data_ack`: the state machine of a meta socket that is
not established, then `mptcp_push_pending_frames`. -/
def data_ack_state (env : AckEnv) (tp : TcpSock) (skb : Skb) (data_seq data_len : Nat)
    (w : MetaSock × List ExtCall) : AckResult :=
  if w.1.sk_state ≠ TCP_ESTABLISHED then
    let p := mptcp_rcv_state_process env w.1 tp skb data_seq data_len w.2
    if p.1 < 0 then { stop := true, tp := tp, meta_tp := p.2.1, calls := p.2.2 }
    else if p.1 > 0 then { stop := false, tp := tp, meta_tp := p.2.1, calls := p.2.2 }
    else { stop := false, tp := tp, meta_tp := mptcp_push_pending_frames p.2.1,
           calls := p.2.2 ++ [ExtCall.mptcp_push_pending_frames] }
  else { stop := false, tp := tp, meta_tp := mptcp_push_pending_frames w.1,
         calls := w.2 ++ [ExtCall.mptcp_push_pending_frames] }

/-- Lines 1569-1629 of `mptcp_process_data_ack`: what is done with a DATA_ACK that lies in
`[snd_una, snd_nxt]`, after the window update. -/
def data_ack_accept (env : AckEnv) (n_sub : Nat) (tp : TcpSock) (meta_tp : MetaSock)
    (calls : List ExtCall) (skb : Skb) (prior_snd_una data_ack data_seq data_len : Nat) :
    Option AckResult :=
  let tp1 := { tp with sk_err_soft := 0 }
  let meta1 := { meta_tp with icsk_probes_out := 0 }
  if meta1.packets_out = 0 then
    let calls1 := if !meta1.sk_write_queue.isEmpty then calls ++ [ExtCall.tcp_ack_probe] else calls
    some { stop := false, tp := tp1, meta_tp := mptcp_push_pending_frames meta1,
           calls := calls1 ++ [ExtCall.mptcp_push_pending_frames] }
  else
    (mptcp_clean_rtx_queue env n_sub (mptcp_snd_una_update meta1 data_ack) prior_snd_una
        calls).map
      (fun c =>
        data_ack_state env tp1 skb data_seq data_len
          (data_ack_new_space env n_sub (data_ack_loss c data_ack prior_snd_una)))

/-- Lines 1486-1498 of `mptcp_process_data_ack`: a valid packet came in, so `pf` is cleared,
and a segment without SYN ends the pre-established state of the subflow. -/
def data_ack_established (tp : TcpSock) (meta_tp : MetaSock) (calls : List ExtCall)
    (skb : Skb) : TcpSock × List ExtCall :=
  let tp1 := { tp with pf := false }
  if tp1.pre_established && !skb.th_syn then
    ({ tp1 with pre_established := false },
      if meta_tp.mpcb.pm_established_subflow then
        calls ++ [ExtCall.sk_stop_timer, ExtCall.pm_established_subflow]
      else calls ++ [ExtCall.sk_stop_timer])
  else (tp1, calls)

/-- Lines 1506-1511 of `mptcp_process_data_ack`: a subflow acknowledgement that carries a
DATA_ACK and does not acknowledge the SYN makes the subflow fully established. -/
def data_ack_fully_estab (e : TcpSock × List ExtCall) (meta_tp : MetaSock) (skb : Skb) :
    TcpSock × List ExtCall :=
  if !e.1.fully_established && add32 e.1.snt_isn 1 != skb.ack_seq then
    mptcp_become_fully_estab e.1 meta_tp.mpcb e.2
  else e

/-- `mptcp_process_data_ack(sk, skb)`: `stop` is the C return value. `none` is a `BUG_ON`
of `mptcp_tso_acked_reinject` that fires. `n_sub` is the number of subflows of the
connection. The time stamp `rcv_tstamp` is left out. -/
def mptcp_process_data_ack (env : AckEnv) (n_sub : Nat) (tp : TcpSock) (meta_tp : MetaSock)
    (calls : List ExtCall) (skb : Skb) : Option AckResult :=
  let prior_snd_una := meta_tp.snd_una
  let e := data_ack_established tp meta_tp calls skb
  if skb.mptcp_flags &&& MPTCPHDR_ACK = 0 ∧ meta_tp.mpcb.infinite_mapping_snd = false then
    some { stop := false, tp := e.1, meta_tp := meta_tp, calls := e.2 }
  else
    let f := data_ack_fully_estab e meta_tp skb
    if meta_tp.sk_state = TCP_CLOSE then
      some { stop := false, tp := f.1, meta_tp := meta_tp, calls := f.2 }
    else
      let data_seq := if mptcp_is_data_seq skb then f.1.rx_opt.data_seq else meta_tp.snd_wl1
      let data_len := if mptcp_is_data_seq skb then f.1.rx_opt.data_len else 0
      let data_ack := f.1.rx_opt.data_ack
      if before data_ack prior_snd_una || after data_ack meta_tp.snd_nxt then
        some { stop := false, tp := f.1, meta_tp := mptcp_push_pending_frames meta_tp,
               calls := f.2 ++ [ExtCall.mptcp_push_pending_frames] }
      else
        let meta1 := { meta_tp with
          mpcb := { meta_tp.mpcb with send_mptcpv1_mpcapable := false } }
        let nwin :=
          if !skb.th_syn then (skb.th_window * 2 ^ f.1.snd_wscale) % 4294967296
          else skb.th_window
        data_ack_accept env n_sub f.1 (data_ack_update_window meta1 data_ack data_seq nwin)
          f.2 skb prior_snd_una data_ack data_seq data_len


/-! ## Fallback on the acknowledgement path, MP_FAIL and MP_FASTCLOSE -/

/-- `mptcp_mp_fail_rcvd(sk, th)`: `stop` is the C return value, true when all subflows were
closed. -/
def mptcp_mp_fail_rcvd (tp : TcpSock) (meta_tp : MetaSock) (calls : List ExtCall)
    (th_rst : Bool) : AckResult :=
  let calls1 := calls ++ [ExtCall.inc_stats Mib.MPFAILRX]
  let tp1 := { tp with rx_opt := { tp.rx_opt with mp_fail := false } }
  if !th_rst && !meta_tp.mpcb.infinite_mapping_snd then
    let meta1 := { meta_tp with mpcb := { meta_tp.mpcb with send_infinite_mapping := true } }
    let rs := mptcp_restart_sending meta1 meta1.snd_una calls1
    let fc := mptcp_fallback_close rs.1 rs.2
    { stop := fc.2, tp := tp1, meta_tp := rs.1, calls := fc.1 }
  else { stop := false, tp := tp1, meta_tp := meta_tp, calls := calls1 }

/-- `mptcp_mp_fastclose_rcvd(sk)`. -/
def mptcp_mp_fastclose_rcvd (tp : TcpSock) (meta_tp : MetaSock) (calls : List ExtCall) :
    AckResult :=
  if !tp.rx_opt.mp_fclose then
    { stop := false, tp := tp, meta_tp := meta_tp, calls := calls }
  else
    let calls1 := calls ++ [ExtCall.inc_stats Mib.FASTCLOSERX]
    let tp1 := { tp with rx_opt := { tp.rx_opt with mp_fclose := false } }
    if tp1.rx_opt.mptcp_sender_key != meta_tp.mpcb.mptcp_loc_key then
      { stop := false, tp := tp1, meta_tp := meta_tp, calls := calls1 }
    else
      { stop := true, tp := tp1, meta_tp := meta_tp,
        calls := calls1 ++ [ExtCall.mptcp_sub_force_close_all false, ExtCall.tcp_reset] }


/-! ## `mptcp_handle_options` -/

/-- Modelled from the spec: `TCP_RST_WAIT`, the socket state of a subflow that waits for the
acknowledgement of its reset; it is declared in `include/net/tcp_states.h` outside the three
files embedded here. -/
def TCP_RST_WAIT : Nat := 13

/-- Lines 2350-2385 of `mptcp_handle_options`: the delayed acknowledgement of a repeated third
ACK, the address options and the priority option. The handlers of the address options are
logged calls. -/
def handle_options_misc (conn_list : List SubflowRef) (tp : TcpSock) (mpcb : MptcpCb)
    (calls : List ExtCall) : TcpSock × List ExtCall :=
  let mopt := tp.rx_opt
  let j : MptcpOptionsReceived × List ExtCall :=
    if mopt.join_ack then ({ mopt with join_ack := false }, calls ++ [ExtCall.tcp_send_delayed_ack])
    else (mopt, calls)
  let a : MptcpOptionsReceived × List ExtCall :=
    if j.1.saw_add_addr || j.1.saw_rem_addr then
      ({ j.1 with more_add_addr := false, saw_add_addr := false, more_rem_addr := false,
                  saw_rem_addr := false },
        if j.1.more_add_addr || j.1.more_rem_addr then j.2 ++ [ExtCall.mptcp_parse_addropt]
        else
          (if j.1.saw_add_addr then j.2 ++ [ExtCall.mptcp_handle_add_addr] else j.2)
            ++ (if j.1.saw_rem_addr then [ExtCall.mptcp_handle_rem_addr] else []))
    else j
  if a.1.saw_low_prio != 0 then
    if a.1.saw_low_prio = 1 then
      ({ tp with rcv_low_prio := a.1.low_prio, rx_opt := { a.1 with saw_low_prio := 0 } },
        if mpcb.pm_prio_changed then a.2 ++ [ExtCall.pm_prio_changed] else a.2)
    else
      let hit := conn_list.filter (fun s => s.rem_id == a.1.prio_addr_id)
      ({ tp with
          rcv_low_prio := if hit.any (fun s => s.is_sk) then a.1.low_prio else tp.rcv_low_prio
          rx_opt := { a.1 with saw_low_prio := 0 } },
        if mpcb.pm_prio_changed then a.2 ++ List.replicate hit.length ExtCall.pm_prio_changed
        else a.2)
  else ({ tp with rx_opt := a.1 }, a.2)

/-- `mptcp_handle_options(sk, th, skb)`: `stop` is the C return value, true when processing
has to stop now. `mptcp_initialize_recv_vars` is a logged call: the receive variables it sets
up are not changed here. -/
def mptcp_handle_options (env : AckEnv) (conn_list : List SubflowRef) (tp : TcpSock)
    (meta_tp : MetaSock) (calls : List ExtCall) (skb : Skb) : Option AckResult :=
  if meta_tp.mpcb.infinite_mapping_rcv || meta_tp.mpcb.infinite_mapping_snd then
    some { stop := false, tp := tp, meta_tp := meta_tp, calls := calls }
  else
    let c := mptcp_mp_fastclose_rcvd tp meta_tp calls
    if c.stop then some c
    else if c.tp.sk_state = TCP_RST_WAIT ∧ skb.th_rst = false then some { c with stop := true }
    else
      let calls1 :=
        if c.tp.rx_opt.saw_mpc && !c.meta_tp.mpcb.rem_key_set then
          c.calls ++ [ExtCall.mptcp_initialize_recv_vars]
        else c.calls
      let f : AckResult :=
        if c.tp.rx_opt.mp_fail then mptcp_mp_fail_rcvd c.tp c.meta_tp calls1 skb.th_rst
        else { stop := false, tp := c.tp, meta_tp := c.meta_tp, calls := calls1 }
      if f.stop then some f
      else if (mptcp_is_data_seq skb || mptcp_is_data_mpcapable skb) && f.meta_tp.mpcb.dss_csum &&
          skb.mptcp_flags &&& MPTCPHDR_DSS_CSUM == 0 then
        some { f with stop := true, calls := f.calls ++ [ExtCall.mptcp_send_reset] }
      else
        let m := handle_options_misc conn_list f.tp f.meta_tp.mpcb f.calls
        (mptcp_process_data_ack env conn_list.length m.1 f.meta_tp m.2 skb).map
          (fun a =>
            if a.stop then a
            else
              let p : MetaSock × List ExtCall :=
                if a.meta_tp.mpcb.list_rcvd then
                  ({ a.meta_tp with mpcb := { a.meta_tp.mpcb with list_rcvd := false } },
                    if a.meta_tp.mpcb.pm_new_remote_address then
                      a.calls ++ [ExtCall.pm_new_remote_address]
                    else a.calls)
                else (a.meta_tp, a.calls)
              { stop := a.tp.mp_killed, tp := a.tp, meta_tp := p.1, calls := p.2 })

/-! ## `mptcp_skb_entail` -/

/-- `mptcp_pi_to_flag` (mptcp.h): `1 << (pi - 1)`. -/
def mptcp_pi_to_flag (pi : Nat) : Nat := 2 ^ (pi - 1)

/-- `mptcp_sk_can_recv` (mptcp.h): the socket is in `TCP_ESTABLISHED`, `TCP_FIN_WAIT1` or
`TCP_FIN_WAIT2`. -/
def mptcp_sk_can_recv (sk_state : Nat) : Bool :=
  sk_state == TCP_ESTABLISHED || sk_state == TCP_FIN_WAIT1 || sk_state == TCP_FIN_WAIT2

/-- What the kernel decides for `mptcp_skb_entail`: whether `pskb_copy_for_clone` succeeds,
the checksum bytes that `mptcp_write_dss_mapping` stores, the new state of the subflow and the
result of `tcp_close_state`, and whether `tcp_transmit_skb` fails. -/
structure EntailEnv where
  pskb_copy_ok : Bool := true
  csum : Nat := 0
  tcp_close_state : Nat → Nat × Bool := fun s => (s, false)
  tcp_transmit_skb_fails : Bool := false

/-- `mptcp_combine_dfin(skb, meta_sk, subsk)`: decide whether the DATA_FIN is sent with a
subflow FIN. -/
def mptcp_combine_dfin (env : EntailEnv) (subskb : Skb) (meta_tp : MetaSock) (tp : TcpSock) :
    Skb × TcpSock :=
  let mpcb := meta_tp.mpcb
  if !mpcb.infinite_mapping_snd &&
      ((!mptcp_sk_can_recv meta_tp.sk_state && !mpcb.dfin_combined) ||
        meta_tp.snd_una != subskb.seq) then (subskb, tp)
  else
    let c := env.tcp_close_state tp.sk_state
    if c.2 then
      ({ subskb with tcp_flags := subskb.tcp_flags ||| TCPHDR_FIN },
        { tp with sk_state := c.1, sk_shutdown := tp.sk_shutdown ||| SEND_SHUTDOWN })
    else (subskb, { tp with sk_state := c.1 })

/-- What `mptcp_skb_entail` leaves behind: its return value, the subflow, the meta socket, the
meta-level buffer, the clone handed to the subflow (`none` when the copy failed), and the log
of calls. -/
structure EntailResult where
  ok : Bool
  tp : TcpSock
  meta_tp : MetaSock
  skb : Skb
  subskb : Option Skb
  calls : List ExtCall
deriving DecidableEq, Repr

/-- `mptcp_skb_entail(sk, skb, reinject)`: clone the meta-level buffer for the subflow, write
its DSS option, give it the next subflow sequence numbers and queue it on the subflow (an empty
DATA_FIN is transmitted at once). The checksum stored in `skb->csum` and the kernel's memory
accounting are left out. -/
def mptcp_skb_entail (env : EntailEnv) (tp : TcpSock) (meta_tp : MetaSock)
    (calls : List ExtCall) (skb : Skb) (reinject : Int) : EntailResult :=
  let mpcb := meta_tp.mpcb
  let skb1 :=
    if reinject ≠ 0 then skb
    else { skb with mptcp_flags := skb.mptcp_flags |||
      (if mpcb.snd_hiseq_index != 0 then MPTCPHDR_SEQ64_INDEX else 0) }
  let meta1 :=
    if reinject ≠ 0 then
      { meta_tp with total_retrans := add32 meta_tp.total_retrans skb.pcount,
                     bytes_retrans := (meta_tp.bytes_retrans + skb.len) % 18446744073709551616 }
    else meta_tp
  let calls1 := if reinject ≠ 0 then calls ++ [ExtCall.inc_stats Mib.RETRANSSEGS] else calls
  if !env.pskb_copy_ok then
    { ok := false, tp := tp, meta_tp := meta1, skb := skb1, subskb := none, calls := calls1 }
  else
    let sub0 := { skb1 with pcount := 0 }
    let skb2 := { skb1 with path_mask := skb1.path_mask ||| mptcp_pi_to_flag tp.path_index }
    let inf := mpcb.send_infinite_mapping && !mpcb.infinite_mapping_snd &&
      !before sub0.seq meta1.snd_nxt
    let tp1 :=
      if inf then { tp with fully_established := true, infinite_cutoff_seq := tp.write_seq }
      else tp
    let meta2 :=
      if inf then { meta1 with mpcb := { mpcb with infinite_mapping_snd := true } } else meta1
    let sub1 := if inf then { sub0 with mptcp_flags := sub0.mptcp_flags ||| MPTCPHDR_INF } else sub0
    let d := if mptcp_is_data_fin sub1 then mptcp_combine_dfin env sub1 meta2 tp1 else (sub1, tp1)
    let sub2 := mptcp_save_dss_data_seq d.2 meta2.mpcb meta2.rcv_nxt env.csum d.1
    let sub3 :=
      if meta2.mpcb.send_mptcpv1_mpcapable then
        { sub2 with mptcp_flags := sub2.mptcp_flags ||| MPTCPHDR_MPC_DATA }
      else sub2
    let meta3 := { meta2 with mpcb := { meta2.mpcb with send_mptcpv1_mpcapable := false } }
    let write_seq := add32 d.2.write_seq
      ((sub3.len + (if sub3.tcp_flags &&& TCPHDR_FIN != 0 then 1 else 0)) % 4294967296)
    let sub4 := { sub3 with seq := d.2.write_seq, end_seq := write_seq }
    let tp2 := { d.2 with write_seq := write_seq }
    if !mptcp_is_data_fin sub4 || sub4.end_seq != sub4.seq then
      let tp3 := { tp2 with sk_write_queue := tp2.sk_write_queue ++ [sub4],
                            sk_wmem_queued := tp2.sk_wmem_queued + sub4.truesize }
      { ok := true,
        tp := if !tp3.fully_established then
            { tp3 with second_packet := true,
                       last_end_data_seq :=
                         if mptcp_is_data_fin skb2 then sub32 skb2.end_seq 1 else skb2.end_seq }
          else tp3,
        meta_tp := meta3, skb := skb2, subskb := some sub4, calls := calls1 }
    else
      let sub5 := { sub4 with pcount := 1 }
      if env.tcp_transmit_skb_fails then
        { ok := false, tp := tp2, meta_tp := meta3, skb := skb2, subskb := some sub5,
          calls := calls1 ++ [ExtCall.tcp_transmit_skb] }
      else
        { ok := true,
          tp := if !tp2.fully_established then
              { tp2 with second_packet := true,
                         last_end_data_seq :=
                           if mptcp_is_data_fin skb2 then sub32 skb2.end_seq 1 else skb2.end_seq }
            else tp2,
          meta_tp := meta3, skb := skb2, subskb := some sub5,
          calls := calls1 ++ [ExtCall.tcp_transmit_skb] }


/-- The two flags of infinite mode: `infinite_mapping_rcv` and `infinite_mapping_snd`. -/
def infinite_flags (mpcb : MptcpCb) : Bool × Bool :=
  (mpcb.infinite_mapping_rcv, mpcb.infinite_mapping_snd)

/-- Neither flag of infinite mode that is set in `a` is clear in `b`. -/
def InfiniteKept (a b : MptcpCb) : Prop :=
  (a.infinite_mapping_rcv = true → b.infinite_mapping_rcv = true) ∧
  (a.infinite_mapping_snd = true → b.infinite_mapping_snd = true)

instance (a b : MptcpCb) : Decidable (InfiniteKept a b) := by
  unfold InfiniteKept; infer_instance


/-- The part of the meta socket that the validation of a DATA_ACK is about: `snd_una`,
`snd_wnd`, `bytes_acked`, and the two flags of infinite mode. -/
def ack_view (meta_tp : MetaSock) : Nat × Nat × Nat × Bool × Bool :=
  (meta_tp.snd_una, meta_tp.snd_wnd, meta_tp.bytes_acked, infinite_flags meta_tp.mpcb)

/-- The fields `snd_una`, `snd_wnd` and `bytes_acked` of `b` are those of `a`, and no flag of
infinite mode that is set in `a` is clear in `b`. -/
def AckKept (a b : MetaSock) : Prop :=
  b.snd_una = a.snd_una ∧ b.snd_wnd = a.snd_wnd ∧ b.bytes_acked = a.bytes_acked ∧
  InfiniteKept a.mpcb b.mpcb


/-! ## Kernel answers for the concrete evaluations -/

/-- Queue operations of the meta socket for the concrete evaluations: `tcp_data_queue_ofo` and
`tcp_queue_rcv` append the buffer, `tcp_ofo_queue` moves nothing. -/
def append_rcv_ops : MetaRcvOps where
  tcp_data_queue_ofo := fun q skb => q ++ [skb]
  tcp_queue_rcv := fun q skb => (q ++ [skb], false)
  tcp_ofo_queue := fun rcv_nxt ofo rq => (rcv_nxt, ofo, rq)

/-- Kernel answers on the acknowledgement path for the concrete evaluations: `tcp_tso_acked`
acknowledges no packet, every other answer is the default. -/
def plain_ack_env : AckEnv where
  tcp_tso_acked := fun skb => (skb, 0)


/-- The clone that `r` hands to the subflow, if there is one, carries `len` payload bytes and
the subflow range that starts at `w` and ends at `w + len`, plus one when the clone has the
subflow FIN flag; and the subflow `write_seq` of `r` is the end of that range. -/
def EntailRange (w len : Nat) (r : EntailResult) : Prop :=
  ∀ sub, r.subskb = some sub →
    sub.seq = w ∧ sub.len = len ∧
    sub.end_seq = add32 w
      ((len + (if sub.tcp_flags &&& TCPHDR_FIN != 0 then 1 else 0)) % 4294967296) ∧
    r.tp.write_seq = sub.end_seq


/-- Where the payload of a buffer ends in the subflow sequence space: `end_seq`, less one for
a subflow FIN. -/
def payload_end (skb : Skb) : Nat :=
  if skb.tcp_flags &&& TCPHDR_FIN != 0 then sub32 skb.end_seq 1 else skb.end_seq

/-- The buffers carry, one after the other, exactly the subflow bytes of the current mapping of
`tp` from offset `a` on: each starts where the one before ended, its payload has `len` bytes,
and only the last one reaches `map_subseq + map_data_len`. -/
def CoversMapping (tp : TcpSock) : Nat → List Skb → Prop
  | _, [] => False
  | a, [s] =>
    s.seq = add32 tp.map_subseq a ∧ payload_end s = add32 tp.map_subseq (a + s.len) ∧
      a + s.len = tp.map_data_len
  | a, s :: t :: rest =>
    s.seq = add32 tp.map_subseq a ∧ payload_end s = add32 tp.map_subseq (a + s.len) ∧
      a + s.len < tp.map_data_len ∧ CoversMapping tp (a + s.len) (t :: rest)


/-! ## `mptcp_parse_options` -/

/-- `MPTCP_VERSION_0`. -/
def MPTCP_VERSION_0 : Nat := 0
/-- `MPTCP_VERSION_1`. -/
def MPTCP_VERSION_1 : Nat := 1
/-- `MPTCP_SUB_CAPABLE`. -/
def MPTCP_SUB_CAPABLE : Nat := 0
/-- `MPTCP_SUB_LEN_CAPABLE_SYN`. -/
def MPTCP_SUB_LEN_CAPABLE_SYN : Nat := 12
/-- `MPTCP_SUB_LEN_CAPABLE_ACK`. -/
def MPTCP_SUB_LEN_CAPABLE_ACK : Nat := 20
/-- `MPTCPV1_SUB_LEN_CAPABLE_SYN`. -/
def MPTCPV1_SUB_LEN_CAPABLE_SYN : Nat := 4
/-- `MPTCPV1_SUB_LEN_CAPABLE_SYNACK`. -/
def MPTCPV1_SUB_LEN_CAPABLE_SYNACK : Nat := 12
/-- `MPTCPV1_SUB_LEN_CAPABLE_ACK`. -/
def MPTCPV1_SUB_LEN_CAPABLE_ACK : Nat := 20
/-- `MPTCPV1_SUB_LEN_CAPABLE_DATA`. -/
def MPTCPV1_SUB_LEN_CAPABLE_DATA : Nat := 22
/-- `MPTCPV1_SUB_LEN_CAPABLE_DATA_CSUM`. -/
def MPTCPV1_SUB_LEN_CAPABLE_DATA_CSUM : Nat := 24
/-- `MPTCPV1_SUB_LEN_CAPABLE_DATA_ALIGN`. -/
def MPTCPV1_SUB_LEN_CAPABLE_DATA_ALIGN : Nat := 24
/-- `MPTCP_SUB_JOIN`. -/
def MPTCP_SUB_JOIN : Nat := 1
/-- `MPTCP_SUB_LEN_JOIN_SYN`. -/
def MPTCP_SUB_LEN_JOIN_SYN : Nat := 12
/-- `MPTCP_SUB_LEN_JOIN_SYNACK`. -/
def MPTCP_SUB_LEN_JOIN_SYNACK : Nat := 16
/-- `MPTCP_SUB_LEN_JOIN_ACK`. -/
def MPTCP_SUB_LEN_JOIN_ACK : Nat := 24
/-- `MPTCP_SUB_LEN_DSS_ALIGN`. -/
def MPTCP_SUB_LEN_DSS_ALIGN : Nat := 4
/-- `MPTCP_SUB_LEN_SEQ_CSUM`. -/
def MPTCP_SUB_LEN_SEQ_CSUM : Nat := 12
/-- `MPTCP_SUB_LEN_SEQ_ALIGN`. -/
def MPTCP_SUB_LEN_SEQ_ALIGN : Nat := 12
/-- `MPTCP_SUB_LEN_ACK`. -/
def MPTCP_SUB_LEN_ACK : Nat := 4
/-- `MPTCP_SUB_LEN_ACK_ALIGN`. -/
def MPTCP_SUB_LEN_ACK_ALIGN : Nat := 4
/-- `MPTCP_SUB_LEN_ACK_64`. -/
def MPTCP_SUB_LEN_ACK_64 : Nat := 8
/-- `MPTCP_SUB_ADD_ADDR`. -/
def MPTCP_SUB_ADD_ADDR : Nat := 3
/-- `MPTCP_SUB_LEN_ADD_ADDR4`. -/
def MPTCP_SUB_LEN_ADD_ADDR4 : Nat := 8
/-- `MPTCP_SUB_LEN_ADD_ADDR4_VER1`. -/
def MPTCP_SUB_LEN_ADD_ADDR4_VER1 : Nat := 16
/-- `MPTCP_SUB_LEN_ADD_ADDR6`. -/
def MPTCP_SUB_LEN_ADD_ADDR6 : Nat := 20
/-- `MPTCP_SUB_LEN_ADD_ADDR6_VER1`. -/
def MPTCP_SUB_LEN_ADD_ADDR6_VER1 : Nat := 28
/-- `MPTCP_SUB_REMOVE_ADDR`. -/
def MPTCP_SUB_REMOVE_ADDR : Nat := 4
/-- `MPTCP_SUB_LEN_REMOVE_ADDR`. -/
def MPTCP_SUB_LEN_REMOVE_ADDR : Nat := 4
/-- `MPTCP_SUB_PRIO`. -/
def MPTCP_SUB_PRIO : Nat := 5
/-- `MPTCP_SUB_LEN_PRIO`. -/
def MPTCP_SUB_LEN_PRIO : Nat := 3
/-- `MPTCP_SUB_LEN_PRIO_ADDR`. -/
def MPTCP_SUB_LEN_PRIO_ADDR : Nat := 4
/-- `MPTCP_SUB_FAIL`. -/
def MPTCP_SUB_FAIL : Nat := 6
/-- `MPTCP_SUB_LEN_FAIL`. -/
def MPTCP_SUB_LEN_FAIL : Nat := 12
/-- `MPTCP_SUB_FCLOSE`. -/
def MPTCP_SUB_FCLOSE : Nat := 7
/-- `MPTCP_SUB_LEN_FCLOSE`. -/
def MPTCP_SUB_LEN_FCLOSE : Nat := 12

/-- The field `sub` of a `struct mptcp_option` laid over `ptr`: the high nibble of its third
byte. -/
def mp_opt_sub (ptr : List Nat) : Nat := ptr.getD 2 0 / 16 % 16
/-- The field `ver` of a `struct mp_capable`, and `u_bit.v0.ipver` of a `struct mp_add_addr`:
the low nibble of the third byte. -/
def mp_opt_low_nibble (ptr : List Nat) : Nat := ptr.getD 2 0 % 16
/-- The bit `h` of a `struct mp_capable`: bit 0 of its fourth byte. -/
def mp_capable_h (ptr : List Nat) : Nat := ptr.getD 3 0 % 2
/-- The bit `b` of a `struct mp_capable`: bit 6 of its fourth byte. -/
def mp_capable_b (ptr : List Nat) : Nat := ptr.getD 3 0 / 64 % 2
/-- The bit `a` of a `struct mp_capable`: bit 7 of its fourth byte. -/
def mp_capable_a (ptr : List Nat) : Nat := ptr.getD 3 0 / 128 % 2
/-- The bit `b` of a `struct mp_join` or `struct mp_prio`: bit 0 of its third byte. -/
def mp_opt_b (ptr : List Nat) : Nat := ptr.getD 2 0 % 2
/-- The bit `m` of a `struct mp_dss`: bit 3 of its fourth byte. -/
def mp_dss_m (buf : List Nat) : Nat := buf.getD 3 0 / 8 % 2
/-- The bit `F` of a `struct mp_dss`: bit 4 of its fourth byte. -/
def mp_dss_F (buf : List Nat) : Nat := buf.getD 3 0 / 16 % 2

/-- `is_valid_addropt_opsize`; `config_ipv6` is `IS_ENABLED(CONFIG_IPV6)`. -/
def is_valid_addropt_opsize (config_ipv6 : Bool) (mptcp_ver : Nat) (mpadd : List Nat)
    (opsize : Int) : Bool :=
  if config_ipv6 && decide (mptcp_ver < MPTCP_VERSION_1) && mp_opt_low_nibble mpadd == 6 then
    opsize == MPTCP_SUB_LEN_ADD_ADDR6 || opsize == MPTCP_SUB_LEN_ADD_ADDR6 + 2
  else if config_ipv6 && decide (mptcp_ver ≥ MPTCP_VERSION_1) then
    opsize == MPTCP_SUB_LEN_ADD_ADDR6_VER1 || opsize == MPTCP_SUB_LEN_ADD_ADDR6_VER1 + 2 ||
    opsize == MPTCP_SUB_LEN_ADD_ADDR4_VER1 || opsize == MPTCP_SUB_LEN_ADD_ADDR4_VER1 + 2
  else if decide (mptcp_ver < MPTCP_VERSION_1) && mp_opt_low_nibble mpadd == 4 then
    opsize == MPTCP_SUB_LEN_ADD_ADDR4 || opsize == MPTCP_SUB_LEN_ADD_ADDR4 + 2
  else if decide (mptcp_ver ≥ MPTCP_VERSION_1) then
    opsize == MPTCP_SUB_LEN_ADD_ADDR4_VER1 || opsize == MPTCP_SUB_LEN_ADD_ADDR4_VER1 + 2
  else false

/-- The `case MPTCP_SUB_CAPABLE` of `mptcp_parse_options` (lines 1781-1856).
`sysctl_mptcp_checksum` is the global of that name. -/
def parse_options_capable (sysctl_mptcp_checksum : Bool) (ptr : List Nat) (opsize : Int)
    (mopt : MptcpOptionsReceived) (skb : Skb) : MptcpOptionsReceived × Skb :=
  let ver := mp_opt_low_nibble ptr
  if ver == MPTCP_VERSION_0 &&
      ((skb.th_syn && opsize != MPTCP_SUB_LEN_CAPABLE_SYN) ||
       (!skb.th_syn && skb.th_ack && opsize != MPTCP_SUB_LEN_CAPABLE_ACK)) then
    (mopt, skb)
  else if ver == MPTCP_VERSION_1 &&
      ((skb.th_syn && !skb.th_ack && opsize != MPTCPV1_SUB_LEN_CAPABLE_SYN) ||
       (skb.th_syn && skb.th_ack && opsize != MPTCPV1_SUB_LEN_CAPABLE_SYNACK) ||
       (!skb.th_syn && skb.th_ack && opsize != MPTCPV1_SUB_LEN_CAPABLE_ACK &&
        opsize != MPTCPV1_SUB_LEN_CAPABLE_DATA &&
        opsize != MPTCPV1_SUB_LEN_CAPABLE_DATA_CSUM)) then
    (mopt, skb)
  else if mp_capable_b ptr != 0 then
    ({ mopt with drop_me := true }, skb)
  else if mp_capable_h ptr == 0 then
    (mopt, skb)
  else
    let sender_key := get_unaligned_be64 ptr 4
    let receiver_key := get_unaligned_be64 ptr 12
    let m1 := { mopt with saw_mpc := true,
                          dss_csum := sysctl_mptcp_checksum || mp_capable_a ptr != 0 }
    let r : MptcpOptionsReceived × Skb :=
      if ver == MPTCP_VERSION_0 then
        let m2 := if opsize == MPTCP_SUB_LEN_CAPABLE_SYN
          then { m1 with mptcp_sender_key := sender_key } else m1
        let m3 := if opsize == MPTCP_SUB_LEN_CAPABLE_ACK
          then { m2 with mptcp_sender_key := sender_key, mptcp_receiver_key := receiver_key }
          else m2
        (m3, skb)
      else if ver == MPTCP_VERSION_1 then
        let m2 := if opsize == MPTCPV1_SUB_LEN_CAPABLE_SYNACK
          then { m1 with mptcp_sender_key := sender_key } else m1
        let m3 := if opsize == MPTCPV1_SUB_LEN_CAPABLE_ACK
          then { m2 with mptcp_sender_key := sender_key, mptcp_receiver_key := receiver_key }
          else m2
        if opsize == MPTCPV1_SUB_LEN_CAPABLE_DATA ||
            opsize == MPTCPV1_SUB_LEN_CAPABLE_DATA_CSUM then
          let skb1 := { skb with mptcp_flags := skb.mptcp_flags ||| MPTCPHDR_MPC_DATA,
                                 hdr_dss := ptr.drop 20 }
          let skb2 := if opsize == MPTCPV1_SUB_LEN_CAPABLE_DATA_CSUM
            then { skb1 with mptcp_flags := skb1.mptcp_flags ||| MPTCPHDR_DSS_CSUM } else skb1
          ({ m3 with mptcp_sender_key := sender_key, mptcp_receiver_key := receiver_key }, skb2)
        else (m3, skb)
      else (m1, skb)
    ({ r.1 with mptcp_ver := ver }, r.2)

/-- The `case MPTCP_SUB_JOIN` of `mptcp_parse_options` (lines 1857-1896). -/
def parse_options_join (ptr : List Nat) (opsize : Int) (mopt : MptcpOptionsReceived) :
    MptcpOptionsReceived :=
  if opsize != MPTCP_SUB_LEN_JOIN_SYN && opsize != MPTCP_SUB_LEN_JOIN_SYNACK &&
      opsize != MPTCP_SUB_LEN_JOIN_ACK then mopt
  else if opsize == MPTCP_SUB_LEN_JOIN_SYN then
    { mopt with is_mp_join := true, saw_mpc := true, low_prio := mp_opt_b ptr != 0,
                rem_id := ptr.getD 3 0,
                mptcp_rem_token := get_unaligned_be32 ptr 4,
                mptcp_recv_nonce := get_unaligned_be32 ptr 8 }
  else if opsize == MPTCP_SUB_LEN_JOIN_SYNACK then
    { mopt with saw_mpc := true, low_prio := mp_opt_b ptr != 0,
                rem_id := ptr.getD 3 0,
                mptcp_recv_tmac := get_unaligned_be64 ptr 4,
                mptcp_recv_nonce := get_unaligned_be32 ptr 12 }
  else
    { mopt with saw_mpc := true, join_ack := true,
                mptcp_recv_mac := (ptr.drop 4).take 20 }

/-- The `case MPTCP_SUB_DSS` of `mptcp_parse_options` (lines 1897-1959). The stores to
`tcb->dss_off` leave `hdr_dss` as the bytes from the new `ptr` on. -/
def parse_options_dss (ptr : List Nat) (opsize : Int) (mopt : MptcpOptionsReceived)
    (skb : Skb) : MptcpOptionsReceived × Skb :=
  let A := mp_dss_A ptr
  let a := mp_dss_a ptr
  let M := mp_dss_M ptr
  let m := mp_dss_m ptr
  if opsize != mptcp_sub_len_dss A a M m 0 && opsize != mptcp_sub_len_dss A a M m 1 then
    (mopt, skb)
  else
    let p0 := 4
    let skb1 := if A != 0 then { skb with mptcp_flags := skb.mptcp_flags ||| MPTCPHDR_ACK }
      else skb
    let mopt1 :=
      if A != 0 then
        if a != 0 then { mopt with data_ack := get_unaligned_be64 ptr p0 % 4294967296 }
        else { mopt with data_ack := get_unaligned_be32 ptr p0 }
      else mopt
    let p1 := if A != 0 then (if a != 0 then p0 + MPTCP_SUB_LEN_ACK_64 else p0 + MPTCP_SUB_LEN_ACK)
      else p0
    let skb2 := { skb1 with hdr_dss := ptr.drop p1 }
    if M != 0 then
      let skb3 := if m != 0
        then { skb2 with mptcp_flags := skb2.mptcp_flags ||| MPTCPHDR_SEQ64_SET } else skb2
      let mopt2 :=
        if m != 0 then { mopt1 with data_seq := get_unaligned_be64 ptr p1 % 4294967296 }
        else { mopt1 with data_seq := get_unaligned_be32 ptr p1 }
      let p2 := if m != 0 then p1 + 12 else p1 + 8
      let mopt3 := { mopt2 with data_len := get_unaligned_be16 ptr p2 }
      let skb4 := { skb3 with mptcp_flags := skb3.mptcp_flags ||| MPTCPHDR_SEQ }
      let skb5 := if opsize == mptcp_sub_len_dss A a M m 1
        then { skb4 with mptcp_flags := skb4.mptcp_flags ||| MPTCPHDR_DSS_CSUM } else skb4
      let skb6 := if mp_dss_F ptr != 0
        then { skb5 with mptcp_flags := skb5.mptcp_flags ||| MPTCPHDR_FIN } else skb5
      (mopt3, skb6)
    else (mopt1, skb2)

/-- The `case MPTCP_SUB_ADD_ADDR` of `mptcp_parse_options` (lines 1960-1984); `mpcb` is
`tp->mpcb`, `none` when `tp` or `tp->mpcb` is `NULL`. -/
def parse_options_add_addr (config_ipv6 : Bool) (ptr : List Nat) (opsize : Int)
    (mopt : MptcpOptionsReceived) (mpcb : Option MptcpCb) : MptcpOptionsReceived :=
  match mpcb with
  | none => mopt
  | some cb =>
    if !is_valid_addropt_opsize config_ipv6 cb.mptcp_ver ptr opsize then mopt
    else if mopt.saw_add_addr then { mopt with more_add_addr := true }
    else { mopt with saw_add_addr := true, add_addr_ptr := ptr }

/-- The `case MPTCP_SUB_REMOVE_ADDR` of `mptcp_parse_options` (lines 1985-1998). -/
def parse_options_remove_addr (ptr : List Nat) (opsize : Int) (mopt : MptcpOptionsReceived) :
    MptcpOptionsReceived :=
  if opsize - MPTCP_SUB_LEN_REMOVE_ADDR < 0 then mopt
  else if mopt.saw_rem_addr then { mopt with more_rem_addr := true }
  else { mopt with saw_rem_addr := true, rem_addr_ptr := ptr }

/-- The `case MPTCP_SUB_PRIO` of `mptcp_parse_options` (lines 1999-2018). -/
def parse_options_prio (ptr : List Nat) (opsize : Int) (mopt : MptcpOptionsReceived) :
    MptcpOptionsReceived :=
  if opsize != MPTCP_SUB_LEN_PRIO && opsize != MPTCP_SUB_LEN_PRIO_ADDR then mopt
  else
    let m1 := { mopt with saw_low_prio := 1, low_prio := mp_opt_b ptr != 0 }
    if opsize == MPTCP_SUB_LEN_PRIO_ADDR
    then { m1 with saw_low_prio := 2, prio_addr_id := ptr.getD 3 0 } else m1

/-- `mptcp_parse_options` (lines 1767-2044). `ptr` is the header from the first byte of the
option on, `mopt` is `none` for a `NULL` pointer, `mpcb` is `tp->mpcb` (`none` when `tp` or
`tp->mpcb` is `NULL`). Every `mptcp_debug(...)` only prints. Returns `mopt` and the segment,
whose control block the function writes. -/
def mptcp_parse_options (sysctl_mptcp_checksum config_ipv6 : Bool) (ptr : List Nat)
    (opsize : Int) (mopt : Option MptcpOptionsReceived) (skb : Skb) (mpcb : Option MptcpCb) :
    Option MptcpOptionsReceived × Skb :=
  match mopt with
  | none => (none, skb)
  | some mo =>
    let sub := mp_opt_sub ptr
    if sub == MPTCP_SUB_CAPABLE then
      let r := parse_options_capable sysctl_mptcp_checksum ptr opsize mo skb
      (some r.1, r.2)
    else if sub == MPTCP_SUB_JOIN then (some (parse_options_join ptr opsize mo), skb)
    else if sub == MPTCP_SUB_DSS then
      let r := parse_options_dss ptr opsize mo skb
      (some r.1, r.2)
    else if sub == MPTCP_SUB_ADD_ADDR then
      (some (parse_options_add_addr config_ipv6 ptr opsize mo mpcb), skb)
    else if sub == MPTCP_SUB_REMOVE_ADDR then
      (some (parse_options_remove_addr ptr opsize mo), skb)
    else if sub == MPTCP_SUB_PRIO then (some (parse_options_prio ptr opsize mo), skb)
    else if sub == MPTCP_SUB_FAIL then
      if opsize != MPTCP_SUB_LEN_FAIL then (some mo, skb)
      else (some { mo with mp_fail := true }, skb)
    else if sub == MPTCP_SUB_FCLOSE then
      if opsize != MPTCP_SUB_LEN_FCLOSE then (some mo, skb)
      else (some { mo with mp_fclose := true,
                           mptcp_sender_key := get_unaligned_be64 ptr 4 }, skb)
    else (some mo, skb)


/-! ## Writing the saved option into a header -/

/-- Kernel `memcpy(buf + off, src, n)` on byte lists, for a destination that holds the
`off + n` bytes. -/
def memcpy (buf : List Nat) (off : Nat) (src : List Nat) (n : Nat) : List Nat :=
  buf.take off ++ (List.range n).map (fun i => src.getD i 0) ++ buf.drop (off + n)

/-- The store of a 64-bit field whose big-endian bytes are those of `v`, at byte offset
`off`. -/
def put_be64 (buf : List Nat) (off v : Nat) : List Nat :=
  put_be32 (put_be32 buf off (v / 4294967296)) (off + 4) (v % 4294967296)

/-- `mptcp_write_mpcapable_data`: the `struct mp_capable` header (version 1 in the low nibble
of the third byte, the flags `a = dss_csum`, `b = 0`, `h = 1` in the fourth), the saved option
copied behind the first word, and the two keys stored over its first sixteen bytes. Returns the
buffer, the segment with `dss` zeroed, and the number of words. -/
def mptcp_write_mpcapable_data (mpcb : MptcpCb) (skb : Skb) (buf : List Nat) (off : Nat) :
    List Nat × Skb × Nat :=
  let length :=
    if mpcb.dss_csum then MPTCPV1_SUB_LEN_CAPABLE_DATA_CSUM else MPTCPV1_SUB_LEN_CAPABLE_DATA
  let b0 := buf.set off TCPOPT_MPTCP
  let b1 := b0.set (off + 1) length
  let b2 := b1.set (off + 2) (MPTCP_SUB_CAPABLE * 16 + MPTCP_VERSION_1)
  let b3 := b2.set (off + 3) ((if mpcb.dss_csum then 128 else 0) + 1)
  let b4 := memcpy b3 (off + 4) skb.dss mptcp_dss_len
  let b5 := put_be64 b4 (off + 4) mpcb.mptcp_loc_key
  let b6 := put_be64 b5 (off + 12) mpcb.mptcp_rem_key
  (b6, { skb with dss := List.replicate mptcp_dss_len 0 ++ skb.dss.drop mptcp_dss_len },
    MPTCPV1_SUB_LEN_CAPABLE_DATA_ALIGN / 4)

/-- `mptcp_write_dss_data_seq`: with the remote key set, the `mptcp_dss_len` bytes of the saved
option with the data-ack word replaced by the meta `rcv_nxt`; without it, the first word of the
saved option followed by the twelve bytes that start at its third word (`dss` is an array of
32-bit words, `dss + 2` is its ninth byte). Returns the buffer, the segment with `dss` zeroed,
and the number of words. -/
def mptcp_write_dss_data_seq (mpcb : MptcpCb) (meta_rcv_nxt : Nat) (skb : Skb)
    (buf : List Nat) (off : Nat) : List Nat × Skb × Nat :=
  let skb1 := { skb with dss := List.replicate mptcp_dss_len 0 ++ skb.dss.drop mptcp_dss_len }
  if mpcb.rem_key_set then
    let b0 := memcpy buf off skb.dss mptcp_dss_len
    (put_be32 b0 (off + 4) meta_rcv_nxt, skb1, mptcp_dss_len / 4)
  else
    let b0 := memcpy buf off skb.dss MPTCP_SUB_LEN_DSS_ALIGN
    let b1 := memcpy b0 (off + 4) (skb.dss.drop 8) MPTCP_SUB_LEN_SEQ_ALIGN
    (b1, skb1, (MPTCP_SUB_LEN_DSS_ALIGN + MPTCP_SUB_LEN_SEQ_ALIGN) / 4)

/-- Lines 1205-1228 of `mptcp_established_options`: the block that sets `OPTION_DATA_ACK`.
`skb` is `none` for a `NULL` pointer; `include_mpc` and `pre_established` are the fields as
they are when the block is reached. Returns the number of bytes added to `*size` and whether
`OPTION_DATA_ACK` has been set. -/
def established_options_data_ack (tp : TcpSock) (mpcb : MptcpCb) (skb : Option Skb) :
    Nat × Bool :=
  if !tp.include_mpc && !tp.pre_established then
    let s1 :=
      if (match skb with
          | some s => !mptcp_is_data_seq s && mpcb.rem_key_set
          | none => false) then MPTCP_SUB_LEN_ACK_ALIGN
      else if (match skb with
          | some s => mptcp_is_data_mpcapable s
          | none => mpcb.send_mptcpv1_mpcapable) then MPTCPV1_SUB_LEN_CAPABLE_DATA_ALIGN
      else if mpcb.rem_key_set then MPTCP_SUB_LEN_ACK_ALIGN + MPTCP_SUB_LEN_SEQ_ALIGN
      else MPTCP_SUB_LEN_SEQ_ALIGN
    (s1 + MPTCP_SUB_LEN_DSS_ALIGN, true)
  else (0, false)

/-- Lines 1445-1452 of `mptcp_options_write`: what is written when `OPTION_DATA_ACK` is set in
`opts->mptcp_options`. Returns the buffer, the segment, and the number of 32-bit words by which
`ptr` advances. -/
def options_write_data_ack (option_data_ack : Bool) (mpcb : MptcpCb) (meta_rcv_nxt : Nat)
    (skb : Skb) (buf : List Nat) (off : Nat) : List Nat × Skb × Nat :=
  if option_data_ack then
    if !mptcp_is_data_seq skb && mpcb.rem_key_set then
      ((mptcp_write_dss_data_ack mpcb meta_rcv_nxt skb buf off).1, skb,
        (mptcp_write_dss_data_ack mpcb meta_rcv_nxt skb buf off).2)
    else if mptcp_is_data_mpcapable skb then mptcp_write_mpcapable_data mpcb skb buf off
    else mptcp_write_dss_data_seq mpcb meta_rcv_nxt skb buf off
  else (buf, skb, 0)


/-! ## `mptcp_verif_dss_csum`: the sum over the queued buffers -/

/-- The sum of RFC 1071 over bytes read as big-endian 16-bit words, before any carry is folded
in: a byte at an even offset counts 256 times, a byte at an odd offset once (a last byte at an
even offset is so padded with a zero byte). `odd` says that the first byte stands at an odd
offset. -/
def sum16_at : Bool → List Nat → Nat
  | _, [] => 0
  | odd, b :: rest => (if odd then b else b * 256) + sum16_at (!odd) rest

/-- A sum with its carries folded into 32 bits with end-around carry: 0 for 0, and otherwise
the value in `1 .. 2^32 - 1` that is congruent to it modulo `2^32 - 1`. -/
def csum32 (x : Nat) : Nat := if x = 0 then 0 else (x - 1) % 4294967295 + 1

/-- Modelled from the spec: kernel `csum_partial(buff, len, sum)`, the 32-bit ones-complement
sum of the `len` bytes at `buff` added to `sum`. The function is in the kernel's
`lib/checksum.c`, outside the three files embedded here. `buff` is the list of the `len`
bytes. -/
def csum_partial (buff : List Nat) (sum : Nat) : Nat := csum32 (sum16_at false buff + sum)

/-- Modelled from the spec: kernel `skb_checksum(skb, offset, len, csum)` on a linear buffer:
`csum_partial` over the `len` bytes that start `offset` bytes into `bytes`. The function is in
the kernel's `net/core/skbuff.c`. -/
def skb_checksum (bytes : List Nat) (offset len csum : Nat) : Nat :=
  csum_partial ((bytes.drop offset).take len) csum

/-- Modelled from the spec: kernel `csum_fold(csum)` (`include/asm-generic/checksum.h`): add
the two 16-bit halves, add the carry, and return the complement as a 16-bit value. -/
def csum_fold (csum : Nat) : Nat :=
  let s1 := csum % 65536 + csum / 65536
  let s2 := s1 % 65536 + s1 / 65536
  (4294967295 - s2) % 65536

/-- The four bytes of `htonl(v)` in memory order. -/
def htonl_bytes (v : Nat) : List Nat :=
  [v / 16777216 % 256, v / 65536 % 256, v / 256 % 256, v % 256]

/-- The eight bytes of `htonll(v)` in memory order. -/
def htonll_bytes (v : Nat) : List Nat :=
  htonl_bytes (v / 4294967296 % 4294967296) ++ htonl_bytes (v % 4294967296)

/-- The local variables of the loop of `mptcp_verif_dss_csum` that live across its passes. -/
structure CsumWalk where
  csum_tcp : Nat := 0
  overflowed : Bool := false
  dss_csum_added : Bool := false
  next_seq : Nat := 0
deriving DecidableEq, Repr

/-- Lines 318-348 of `mptcp_verif_dss_csum`: what one pass of the loop adds for the DSS option
or the MP_CAPABLE option of the buffer `tmp`. The header bytes at
`skb_transport_offset(tmp) + dss_off` are `hdr_dss`. -/
def verif_dss_csum_header (tp : TcpSock) (tmp : Skb) (dss_csum_added : Bool) (csum_tcp : Nat) :
    Nat × Bool :=
  if mptcp_is_data_seq tmp && !dss_csum_added then
    let data_seq := htonl_bytes (tp.map_data_seq / 4294967296 % 4294967296)
    let offset := if tmp.mptcp_flags &&& MPTCPHDR_SEQ64_SET != 0 then 4 else 0
    let c1 := skb_checksum tmp.hdr_dss offset MPTCP_SUB_LEN_SEQ_CSUM csum_tcp
    let c2 := csum_partial data_seq c1
    (c2, true)
  else if mptcp_is_data_mpcapable tmp && !dss_csum_added then
    let data_seq := htonll_bytes tp.map_data_seq
    let rel_seq := htonl_bytes (sub32 tp.map_subseq tp.rcv_isn)
    let c1 := csum_partial data_seq csum_tcp
    let c2 := csum_partial rel_seq c1
    (skb_checksum tmp.hdr_dss 0 4 c2, true)
  else (csum_tcp, dss_csum_added)

/-- Lines 296-348 of `mptcp_verif_dss_csum`: one pass of the loop on the buffer `tmp`, up to
the test that ends the loop. -/
def verif_dss_csum_body (tp : TcpSock) (tmp : Skb) (iter : Nat) (w : CsumWalk) : CsumWalk :=
  let next_seq := if iter = 0 then tmp.seq else w.next_seq
  let offset_seq := sub32 next_seq tmp.seq
  let map_end := add32 tp.map_subseq tp.map_data_len
  let csum_len0 :=
    if before map_end tmp.end_seq then sub32 map_end tmp.seq else tmp.len % 4294967296
  let csum_len1 := sub32 csum_len0 offset_seq
  let csum1 :=
    if w.overflowed then csum_partial [0, 0, 0, tmp.data.getD offset_seq 0] w.csum_tcp
    else w.csum_tcp
  let offset := if w.overflowed then 1 else 0
  let csum_len := if w.overflowed then sub32 csum_len1 1 else csum_len1
  let overflowed1 := if w.overflowed then false else w.overflowed
  let csum2 := skb_checksum tmp.data (offset + offset_seq) csum_len csum1
  let overflowed2 := if csum_len != csum_len - csum_len % 2 then true else overflowed1
  let h := verif_dss_csum_header tp tmp w.dss_csum_added csum2
  { csum_tcp := h.1, overflowed := overflowed2, dss_csum_added := h.2, next_seq := next_seq }

/-- The loop `skb_queue_walk_safe(&sk->sk_receive_queue, tmp, tmp1)` of
`mptcp_verif_dss_csum` (lines 294-373). -/
def verif_dss_csum_walk (tp : TcpSock) : List Skb → Nat → CsumWalk → CsumWalk
  | [], _, w => w
  | [tmp], iter, w =>
    { verif_dss_csum_body tp tmp iter w with next_seq := tmp.end_seq }
  | tmp :: tmp1 :: rest, iter, w =>
    if !before tmp1.seq (add32 tp.map_subseq tp.map_data_len) then
      verif_dss_csum_body tp tmp iter w
    else
      verif_dss_csum_walk tp (tmp1 :: rest) (iter + 1)
        { verif_dss_csum_body tp tmp iter w with next_seq := tmp.end_seq }

/-- The value `csum_fold(csum_tcp)` that `mptcp_verif_dss_csum` tests after its loop over the
receive queue of the subflow. -/
def verif_dss_csum_fold (tp : TcpSock) : Nat :=
  csum_fold (verif_dss_csum_walk tp tp.sk_receive_queue 0 {}).csum_tcp

/-- The buffers `segs` lie end to end in the subflow sequence space, each holds as many payload
bytes as its `len` says and at least one, and `rem` bytes remain from the start of the first
buffer to the end of the mapping, the last of them in the last buffer of `segs`. -/
def CsumPieces (tp : TcpSock) : Nat → List Skb → Prop
  | _, [] => False
  | rem, [s] =>
    add32 s.seq rem = add32 tp.map_subseq tp.map_data_len ∧ s.data.length = s.len ∧
    0 < rem ∧ rem ≤ s.len ∧ s.len < 2147483648 ∧
    (s.end_seq = add32 s.seq s.len ∨ s.end_seq = add32 s.seq (s.len + 1))
  | rem, s :: t :: rest =>
    add32 s.seq rem = add32 tp.map_subseq tp.map_data_len ∧ s.data.length = s.len ∧
    0 < s.len ∧ s.len < rem ∧ rem < 2147483648 ∧
    s.end_seq = add32 s.seq s.len ∧ t.seq = s.end_seq ∧
    CsumPieces tp (rem - s.len) (t :: rest)

/-- The first `rem` payload bytes of the buffers `segs` taken together. -/
def summed_bytes : Nat → List Skb → List Nat
  | _, [] => []
  | rem, s :: rest => s.data.take rem ++ summed_bytes (rem - s.len) rest

/-- The DSS pseudo-header as `mptcp_verif_dss_csum` sums it, for the first buffer of `segs`
that has the flag `MPTCPHDR_SEQ` or `MPTCPHDR_MPC_DATA`: for a DSS option the twelve header
bytes data sequence number (its low 32 bits), subflow sequence number, length and checksum,
and the high 32 bits of `map_data_seq`; 0 when no buffer has a flag. -/
def pseudo_header_sum (tp : TcpSock) : List Skb → Nat
  | [] => 0
  | s :: rest =>
    if mptcp_is_data_seq s then
      sum16_at false ((s.hdr_dss.drop
          (if s.mptcp_flags &&& MPTCPHDR_SEQ64_SET != 0 then 4 else 0)).take
          MPTCP_SUB_LEN_SEQ_CSUM)
        + sum16_at false (htonl_bytes (tp.map_data_seq / 4294967296 % 4294967296))
    else if mptcp_is_data_mpcapable s then
      sum16_at false (htonll_bytes tp.map_data_seq)
        + sum16_at false (htonl_bytes (sub32 tp.map_subseq tp.rcv_isn))
        + sum16_at false (s.hdr_dss.take 4)
    else pseudo_header_sum tp rest

/-- The byte `b` with its bit `k` flipped. -/
def flip_bit (b k : Nat) : Nat := if b / 2 ^ k % 2 = 0 then b + 2 ^ k else b - 2 ^ k


/-! ## `mptcp_validate_mapping`: trimming the queue to the mapping -/

/-- What `mptcp_validate_mapping` takes from the kernel: `delta_truesize` is what
`__pskb_trim_head` returns, `alloc_fails` says that `alloc_skb` returns `NULL`,
`alloc_truesize` is the `truesize` of the buffer it returns, and `nlen` is the C value
`skb->len - len - nsize` of `mptcp_skb_split_tail`, which depends on how much of the payload
lies in the linear part of the buffer. -/
structure ValidateEnv where
  delta_truesize : Nat := 0
  alloc_fails : Bool := false
  alloc_truesize : Nat := 0
  nlen : Int := 0
deriving DecidableEq, Repr

/-- `mptcp_skb_trim_head(skb, sk, seq)` (lines 483-499): cut the `seq - skb->seq` bytes in
front of `seq` off the buffer. `__pskb_trim_head` takes them off the payload and off `len`.
The accounting of the socket's receive memory is left out. -/
def mptcp_skb_trim_head (env : ValidateEnv) (skb : Skb) (seq : Nat) : Skb :=
  let len := sub32 seq skb.seq
  let new_seq := add32 skb.seq len
  { skb with
    data := skb.data.drop len
    len := skb.len - len
    seq := new_seq
    truesize := skb.truesize - env.delta_truesize }

/-- `mptcp_skb_split_tail(skb, sk, seq)` (lines 507-547) when `alloc_skb` has given a buffer:
the buffer cut at `seq` and the new buffer `buff`, which takes the bytes from `seq` on, the
TCP flags and the end of the range; the first part loses the FIN flag. -/
def mptcp_skb_split_tail (env : ValidateEnv) (skb : Skb) (seq : Nat) : Skb × Skb :=
  let len := sub32 seq skb.seq
  let flags := skb.tcp_flags
  let buff : Skb :=
    { tcp_flags := flags
      truesize := ((env.alloc_truesize : Int) + env.nlen).toNat
      seq := add32 skb.seq len
      end_seq := skb.end_seq
      len := skb.len - len
      data := skb.data.drop len }
  ({ skb with
      tcp_flags := flags - (flags &&& TCPHDR_FIN)
      truesize := ((skb.truesize : Int) - env.nlen).toNat
      end_seq := buff.seq
      len := len
      data := skb.data.take len },
    buff)

/-- The loop `skb_queue_walk_from(&sk->sk_receive_queue, skb)` of lines 920-958 of
`mptcp_validate_mapping`, on the queue from `skb` on, `skb` standing at index `i`: the index of
the first buffer that ends after the end of the mapping and has to be split, or nothing when a
buffer ends with the mapping (`break`) or the queue is exhausted. -/
def validate_mapping_walk (map_end : Nat) : List Skb → Nat → Option Nat
  | [], _ => none
  | skb :: rest, i =>
    let tcp_end_seq :=
      if skb.tcp_flags &&& TCPHDR_FIN != 0 then sub32 skb.end_seq 1 else skb.end_seq
    if tcp_end_seq = map_end then none
    else if after tcp_end_seq map_end then some i
    else validate_mapping_walk map_end rest (i + 1)

/-- Lines 964-980 of `mptcp_validate_mapping`: the buffers at the head of the queue that start
before `map_subseq` are unlinked and freed, each moving `copied_seq` to its end. Returns the
queue, `copied_seq` and the log. -/
def validate_mapping_purge (map_subseq : Nat) :
    List Skb → Nat → List ExtCall → List Skb × Nat × List ExtCall
  | [], copied_seq, calls => ([], copied_seq, calls)
  | tmp1 :: rest, copied_seq, calls =>
    if !before tmp1.seq map_subseq then (tmp1 :: rest, copied_seq, calls)
    else validate_mapping_purge map_subseq rest tmp1.end_seq
      (calls ++ [ExtCall.inc_stats Mib.PURGEOLD])

/-- What `mptcp_validate_mapping` leaves behind: its return value, the subflow and the log of
calls. -/
structure ValidateResult where
  ret : Int
  tp : TcpSock
  calls : List ExtCall
deriving DecidableEq, Repr

/-- `mptcp_validate_mapping(sk, skb)` (lines 901-983); `skb` is the buffer at index `idx` of
the receive queue. With a mapping present, the head of the queue is trimmed when it starts
before `map_subseq` and ends after it; the first buffer from `skb` on that reaches beyond the
mapping is split (or, when no memory is to be had, the queue is dropped up to it) and -1 is
returned; otherwise buffers that start before `map_subseq` are purged and 0 is returned.
`none` is the dereference of the `NULL` that `skb_peek` returns for an empty queue; the caller
passes a buffer of the queue. -/
def mptcp_validate_mapping (env : ValidateEnv) (tp : TcpSock) (calls : List ExtCall)
    (idx : Nat) : Option ValidateResult :=
  if !tp.mapping_present then some { ret := 0, tp := tp, calls := calls }
  else
    match tp.sk_receive_queue with
    | [] => none
    | tmp :: rest =>
      let trim := before tmp.seq tp.map_subseq && after tmp.end_seq tp.map_subseq
      let q1 := if trim then mptcp_skb_trim_head env tmp tp.map_subseq :: rest else tmp :: rest
      let calls1 := if trim then calls ++ [ExtCall.inc_stats Mib.DSSTRIMHEAD] else calls
      let map_end := add32 tp.map_subseq tp.map_data_len
      match validate_mapping_walk map_end (q1.drop idx) idx with
      | some j =>
        let calls2 := calls1 ++ [ExtCall.inc_stats Mib.DSSSPLITTAIL]
        let skb := q1.getD j {}
        if env.alloc_fails then
          some { ret := -1,
                 tp := { tp with copied_seq := skb.end_seq,
                                 sk_receive_queue := q1.drop (j + 1) },
                 calls := calls2 }
        else
          let sp := mptcp_skb_split_tail env skb map_end
          some { ret := -1,
                 tp := { tp with
                   sk_receive_queue := q1.take j ++ [sp.1, sp.2] ++ q1.drop (j + 1) },
                 calls := calls2 }
      | none =>
        let pg := validate_mapping_purge tp.map_subseq q1 tp.copied_seq calls1
        some { ret := 0,
               tp := { tp with sk_receive_queue := pg.1, copied_seq := pg.2.1 },
               calls := pg.2.2 }


/-! # Theorems -/

/-! ## Sequence-number order inside a window -/

theorem before_iff_of_window {base x y : Nat} (hx : InWindow base x) (hy : InWindow base y) :
    before x y = true ↔ sub32 x base < sub32 y base := by
  unfold InWindow at hx hy
  unfold before
  unfold sub32 at *
  simp only [decide_eq_true_eq]
  omega

theorem before_false_iff_of_window {base x y : Nat} (hx : InWindow base x)
    (hy : InWindow base y) : before x y = false ↔ sub32 y base ≤ sub32 x base := by
  rw [← Bool.not_eq_true, before_iff_of_window hx hy]
  omega

theorem after_iff_of_window {base x y : Nat} (hx : InWindow base x) (hy : InWindow base y) :
    after x y = true ↔ sub32 y base < sub32 x base :=
  before_iff_of_window hy hx

theorem after_false_iff_of_window {base x y : Nat} (hx : InWindow base x)
    (hy : InWindow base y) : after x y = false ↔ sub32 x base ≤ sub32 y base :=
  before_false_iff_of_window hy hx

theorem eq_iff_of_window {base x y : Nat} (hx : InWindow base x) (hy : InWindow base y) :
    x = y ↔ sub32 x base = sub32 y base := by
  unfold InWindow at hx hy
  unfold sub32 at *
  omega

/-! ## The two loops of the insertion -/

theorem scan_back_append (seq : Nat) : ∀ (rev passed : List Skb),
    (reinject_scan_back seq rev passed).1.reverse ++ (reinject_scan_back seq rev passed).2
      = rev.reverse ++ passed := by
  intro rev
  induction rev with
  | nil => intro passed; simp [reinject_scan_back]
  | cons a rest ih =>
    intro passed
    unfold reinject_scan_back
    by_cases h : after a.seq seq = true
    · simp only [h, Bool.not_true, Bool.false_eq_true, if_false]
      rw [ih]
      simp
    · simp [h]

theorem scan_back_passed (seq : Nat) : ∀ (rev passed : List Skb),
    ∀ s ∈ (reinject_scan_back seq rev passed).2, s ∈ passed ∨ after s.seq seq = true := by
  intro rev
  induction rev with
  | nil => intro passed s hs; left; simpa [reinject_scan_back] using hs
  | cons a rest ih =>
    intro passed s hs
    unfold reinject_scan_back at hs
    by_cases h : after a.seq seq = true
    · simp only [h, Bool.not_true, Bool.false_eq_true, if_false] at hs
      rcases ih _ s hs with h1 | h1
      · rcases List.mem_cons.mp h1 with h2 | h2
        · right; rw [h2]; exact h
        · left; exact h2
      · right; exact h1
    · simp only [h, Bool.not_eq_true] at hs
      left; simpa using hs

theorem scan_back_head (seq : Nat) : ∀ (rev passed : List Skb) (skb1 : Skb) (prevs : List Skb),
    (reinject_scan_back seq rev passed).1 = skb1 :: prevs → after skb1.seq seq = false := by
  intro rev
  induction rev with
  | nil => intro passed skb1 prevs h; simp [reinject_scan_back] at h
  | cons a rest ih =>
    intro passed skb1 prevs hh
    unfold reinject_scan_back at hh
    by_cases h : after a.seq seq = true
    · simp only [h, Bool.not_true, Bool.false_eq_true, if_false] at hh
      exact ih _ _ _ hh
    · simp only [h, Bool.not_eq_true] at hh
      simp at hh
      rw [← hh.1]
      simpa using h

theorem clean_covered_spec (end_seq : Nat) : ∀ l : List Skb,
    ∃ removed, l = removed ++ reinject_clean_covered end_seq l ∧
      (∀ s ∈ removed, after end_seq s.seq = true ∧ before end_seq s.end_seq = false) ∧
      (∀ x rest, reinject_clean_covered end_seq l = x :: rest →
        after end_seq x.seq = false ∨ before end_seq x.end_seq = true) := by
  intro l
  induction l with
  | nil => exact ⟨[], by simp [reinject_clean_covered]⟩
  | cons a rest ih =>
    unfold reinject_clean_covered
    by_cases h1 : after end_seq a.seq = true
    · by_cases h2 : before end_seq a.end_seq = true
      · refine ⟨[], ?_⟩
        simp only [h1, h2, Bool.not_true, Bool.false_eq_true, if_false, if_true]
        refine ⟨by simp, by simp, ?_⟩
        intro x r hx
        simp at hx
        right; rw [← hx.1]; exact h2
      · obtain ⟨rem, hrem, hall, hhead⟩ := ih
        refine ⟨a :: rem, ?_⟩
        simp only [h1, h2, Bool.not_true, Bool.false_eq_true, if_false]
        refine ⟨by simp [← hrem], ?_, hhead⟩
        intro s hs
        rcases List.mem_cons.mp hs with h3 | h3
        · rw [h3]; exact ⟨h1, by simpa using h2⟩
        · exact hall s h3
    · refine ⟨[], ?_⟩
      simp only [h1, Bool.not_eq_true]
      simp only [Bool.not_eq_true] at h1
      simp only [h1, Bool.not_false, if_true]
      refine ⟨by simp, by simp, ?_⟩
      intro x r hx
      simp at hx
      left; rw [← hx.1]; exact h1

/-- The shape of the queue after the insertion step: the queue splits into `pre ++ post`, where
`post` holds the entries passed by the backward walk, and the result is one of four. -/
theorem insert_cases (q : List Skb) (skb : Skb) :
    ∃ pre post, q = pre ++ post ∧ (∀ s ∈ post, after s.seq skb.seq = true) ∧
      ((pre = [] ∧
          reinject_queue_insert q skb = skb :: reinject_clean_covered skb.end_seq post) ∨
       ∃ pre' skb1, pre = pre' ++ [skb1] ∧ after skb1.seq skb.seq = false ∧
         ((before skb.seq skb1.end_seq = true ∧ after skb.end_seq skb1.end_seq = false ∧
            reinject_queue_insert q skb = q) ∨
          (before skb.seq skb1.end_seq = true ∧ after skb.end_seq skb1.end_seq = true ∧
            skb.seq = skb1.seq ∧
            reinject_queue_insert q skb
              = pre' ++ skb :: reinject_clean_covered skb.end_seq (skb1 :: post)) ∨
          ((before skb.seq skb1.end_seq = false ∨
              (after skb.end_seq skb1.end_seq = true ∧ skb.seq ≠ skb1.seq)) ∧
            reinject_queue_insert q skb
              = pre ++ skb :: reinject_clean_covered skb.end_seq post))) := by
  by_cases hq : q = []
  · subst hq
    exact ⟨[], [], by simp, by simp, Or.inl ⟨rfl, by simp [reinject_queue_insert,
      reinject_clean_covered]⟩⟩
  · have happ := scan_back_append skb.seq q.reverse []
    have hpassed := scan_back_passed skb.seq q.reverse []
    have hhead := scan_back_head skb.seq q.reverse []
    have hins : reinject_queue_insert q skb =
        match reinject_scan_back skb.seq q.reverse [] with
        | ([], passed) => skb :: reinject_clean_covered skb.end_seq passed
        | (skb1 :: prevs, passed) =>
          if before skb.seq skb1.end_seq then
            if !after skb.end_seq skb1.end_seq then q
            else if skb.seq = skb1.seq then
              prevs.reverse ++ skb :: reinject_clean_covered skb.end_seq (skb1 :: passed)
            else (skb1 :: prevs).reverse ++ skb :: reinject_clean_covered skb.end_seq passed
          else (skb1 :: prevs).reverse ++ skb :: reinject_clean_covered skb.end_seq passed := by
      unfold reinject_queue_insert
      simp [hq]
    generalize reinject_scan_back skb.seq q.reverse [] = r at happ hpassed hhead hins
    obtain ⟨r1, r2⟩ := r
    simp only [List.reverse_reverse, List.append_nil] at happ
    refine ⟨r1.reverse, r2, happ.symm, ?_, ?_⟩
    · intro s hs
      rcases hpassed s hs with h | h
      · simp at h
      · exact h
    · cases r1 with
      | nil => left; exact ⟨rfl, hins⟩
      | cons skb1 prevs =>
        right
        refine ⟨prevs.reverse, skb1, by simp, hhead skb1 prevs rfl, ?_⟩
        simp only at hins
        by_cases h1 : before skb.seq skb1.end_seq = true
        · by_cases h2 : after skb.end_seq skb1.end_seq = true
          · by_cases h3 : skb.seq = skb1.seq
            · right; left
              refine ⟨h1, h2, h3, ?_⟩
              rw [hins, if_pos h1, if_neg (by simp [h2]), if_pos h3]
            · right; right
              refine ⟨Or.inr ⟨h2, h3⟩, ?_⟩
              rw [hins, if_pos h1, if_neg (by simp [h2]), if_neg h3]
          · left
            refine ⟨h1, by simpa using h2, ?_⟩
            rw [hins, if_pos h1, if_pos (by simpa using h2)]
        · right; right
          refine ⟨Or.inl (by simpa using h1), ?_⟩
          rw [hins, if_neg h1]

theorem clean_covered_cons_covered (end_seq : Nat) (s : Skb) (l : List Skb)
    (h1 : after end_seq s.seq = true) (h2 : before end_seq s.end_seq = false) :
    reinject_clean_covered end_seq (s :: l) = reinject_clean_covered end_seq l := by
  simp [reinject_clean_covered, h1, h2]

theorem pairwise_insert_between {R : Skb → Skb → Prop} {pre post removed post' : List Skb}
    {skb : Skb} (hsorted : (pre ++ post).Pairwise R) (hpost : post = removed ++ post')
    (hpre : ∀ a ∈ pre, R a skb) (hpost' : ∀ c ∈ post', R skb c) :
    (pre ++ skb :: post').Pairwise R := by
  subst hpost
  rw [List.pairwise_append] at hsorted ⊢
  obtain ⟨h1, h2, h3⟩ := hsorted
  rw [List.pairwise_append] at h2
  refine ⟨h1, List.pairwise_cons.mpr ⟨hpost', h2.2.1⟩, ?_⟩
  intro a ha b hb
  rcases List.mem_cons.mp hb with h | h
  · rw [h]; exact hpre a ha
  · exact h3 a ha b (List.mem_append_right _ h)

/-- C3 (as amended). Ordering of the reinject queue is preserved by the insertion step of
`__mptcp_reinject_data`: if the start sequence numbers of the queue strictly ascend (all `seq`
and `end_seq` of the queue and of the new segment within one window of `2^31`), and every entry
of the queue has a non-empty range (`seq` before `end_seq`), then the start sequence numbers of
the resulting queue strictly ascend, also when the new segment starts at the `seq` of an
entry. Without the non-emptiness an entry `[5, 5)` keeps its place in front of a new segment
that starts at 5. -/
theorem reinject_insert_keeps_seq_sorted (base : Nat) (q : List Skb) (skb : Skb)
    (hwin : WithinWindow base (skb :: q))
    (hne : ∀ s ∈ q, before s.seq s.end_seq = true)
    (hsorted : SeqSorted q) :
    SeqSorted (reinject_queue_insert q skb) := by
  obtain ⟨pre, post, hq, hpost, hcase⟩ := insert_cases q skb
  have hws : InWindow base skb.seq ∧ InWindow base skb.end_seq := hwin skb (by simp)
  have hwq : ∀ s ∈ q, InWindow base s.seq ∧ InWindow base s.end_seq :=
    fun s hs => hwin s (by simp [hs])
  rcases hcase with ⟨hpre, hres⟩ | ⟨pre', skb1, hpre, hskb1, hcase⟩
  · obtain ⟨removed, hrem, -, -⟩ := clean_covered_spec skb.end_seq post
    rw [hres]
    have hs : SeqSorted ([] ++ post) := by simpa [hq, hpre] using hsorted
    exact pairwise_insert_between hs hrem (by simp)
      (fun c hc => hpost c (by rw [hrem]; simp [hc]))
  · have hskb1q : skb1 ∈ q := by rw [hq, hpre]; simp
    have hw1 := hwq skb1 hskb1q
    have hne1 := hne skb1 hskb1q
    rw [before_iff_of_window hw1.1 hw1.2] at hne1
    rw [after_false_iff_of_window hw1.1 hws.1] at hskb1
    have hpre'lt : ∀ a ∈ pre', sub32 a.seq base < sub32 skb1.seq base := by
      intro a ha
      have haq : a ∈ q := by rw [hq, hpre]; simp [ha]
      have hb : before a.seq skb1.seq = true := by
        have hs := hsorted
        unfold SeqSorted at hs
        rw [hq, hpre, List.append_assoc, List.pairwise_append] at hs
        exact hs.2.2 a ha skb1 (by simp)
      rwa [before_iff_of_window (hwq a haq).1 hw1.1] at hb
    obtain ⟨removed, hrem, -, -⟩ := clean_covered_spec skb.end_seq post
    rcases hcase with ⟨_, _, hres⟩ | ⟨h1, h2, h3, hres⟩ | ⟨h1, hres⟩
    · rw [hres]; exact hsorted
    · rw [hres]
      rw [after_iff_of_window hws.2 hw1.2] at h2
      have hc1 : after skb.end_seq skb1.seq = true := by
        rw [after_iff_of_window hws.2 hw1.1]; omega
      have hc2 : before skb.end_seq skb1.end_seq = false := by
        rw [before_false_iff_of_window hws.2 hw1.2]; omega
      rw [clean_covered_cons_covered _ _ _ hc1 hc2]
      have hs : SeqSorted (pre' ++ ([skb1] ++ post)) := by
        rw [← List.append_assoc, ← hpre, ← hq]; exact hsorted
      have hs2 : SeqSorted (pre' ++ post) := by
        unfold SeqSorted at *
        exact hs.sublist (List.Sublist.append_left (List.sublist_append_right _ _) _)
      refine pairwise_insert_between hs2 hrem ?_ (fun c hc => hpost c (by rw [hrem]; simp [hc]))
      intro a ha
      have haq : a ∈ q := by rw [hq, hpre]; simp [ha]
      rw [before_iff_of_window (hwq a haq).1 hws.1]
      have := hpre'lt a ha
      have h3' := (eq_iff_of_window hws.1 hw1.1).mp h3
      omega
    · rw [hres]
      have hlt : sub32 skb1.seq base < sub32 skb.seq base := by
        rcases h1 with h1 | ⟨_, h1⟩
        · rw [before_false_iff_of_window hws.1 hw1.2] at h1; omega
        · have := (eq_iff_of_window hws.1 hw1.1).not.mp h1
          omega
      refine pairwise_insert_between (hq ▸ hsorted) hrem ?_
        (fun c hc => hpost c (by rw [hrem]; simp [hc]))
      intro a ha
      have haq : a ∈ q := by rw [hq]; simp [ha]
      rw [before_iff_of_window (hwq a haq).1 hws.1]
      rw [hpre] at ha
      rcases List.mem_append.mp ha with h | h
      · have := hpre'lt a h; omega
      · simp at h; rw [h]; exact hlt

/-! ## Overlap-freedom -/

theorem chain_step {base s1 e1 s2 e2 : Nat} (w1 : InWindow base s1) (w2 : InWindow base e1)
    (w3 : InWindow base s2) (w4 : InWindow base e2)
    (h1 : before s1 s2 = true) (h2 : (!after e1 s2 || !after e2 s1) = true)
    (h3 : after s2 e2 = false) : sub32 e1 base ≤ sub32 s2 base := by
  unfold InWindow at *
  simp only [before, after, Bool.or_eq_true, Bool.not_eq_true', decide_eq_true_eq,
    decide_eq_false_iff_not] at *
  unfold sub32 at *
  omega

/-- In a sorted, overlap-free queue every entry ends at or before the start of each later
entry. -/
theorem chain_of_sorted_free (base : Nat) (q : List Skb) (hwin : WithinWindow base q)
    (hwf : ∀ s ∈ q, after s.seq s.end_seq = false)
    (hsorted : SeqSorted q) (hfree : OverlapFree q) :
    q.Pairwise (fun a b => sub32 a.end_seq base ≤ sub32 b.seq base) := by
  unfold SeqSorted OverlapFree at *
  refine (hsorted.and hfree).imp_of_mem ?_
  intro a b ha hb h
  exact chain_step (hwin a ha).1 (hwin a ha).2 (hwin b hb).1 (hwin b hb).2 h.1 h.2 (hwf b hb)

theorem partial_overlap_false_of_window {base : Nat} {s t : Skb}
    (hs : InWindow base s.seq ∧ InWindow base s.end_seq)
    (ht : InWindow base t.seq ∧ InWindow base t.end_seq)
    (h : seq_partial_overlap s t = false) :
    (sub32 s.end_seq base ≤ sub32 t.seq base ∨ sub32 t.end_seq base ≤ sub32 s.seq base) ∨
    (sub32 t.seq base ≤ sub32 s.seq base ∧ sub32 s.end_seq base ≤ sub32 t.end_seq base) ∨
    (sub32 s.seq base ≤ sub32 t.seq base ∧ sub32 t.end_seq base ≤ sub32 s.end_seq base) := by
  simp only [seq_partial_overlap, seq_disjoint, seq_inside, Bool.and_eq_false_iff,
    Bool.not_eq_false', Bool.or_eq_true, Bool.not_eq_true', Bool.and_eq_true] at h
  rw [after_false_iff_of_window hs.2 ht.1, after_false_iff_of_window ht.2 hs.1,
    before_false_iff_of_window hs.1 ht.1, after_false_iff_of_window hs.2 ht.2,
    before_false_iff_of_window ht.1 hs.1, after_false_iff_of_window ht.2 hs.2] at h
  omega

theorem clean_tail_bound (base : Nat) (skb : Skb)
    (hws : InWindow base skb.seq ∧ InWindow base skb.end_seq) (post : List Skb)
    (hwin : ∀ s ∈ post, InWindow base s.seq ∧ InWindow base s.end_seq)
    (hwf : ∀ s ∈ post, after s.seq s.end_seq = false)
    (hgt : ∀ s ∈ post, after s.seq skb.seq = true)
    (hnp : ∀ s ∈ post, seq_partial_overlap s skb = false)
    (hchain : post.Pairwise (fun a b => sub32 a.end_seq base ≤ sub32 b.seq base)) :
    ∀ c ∈ reinject_clean_covered skb.end_seq post,
      sub32 skb.end_seq base ≤ sub32 c.seq base := by
  obtain ⟨removed, hrem, -, hhead⟩ := clean_covered_spec skb.end_seq post
  generalize reinject_clean_covered skb.end_seq post = post' at hrem hhead
  cases post' with
  | nil => intro c hc; simp at hc
  | cons X rest =>
    have hX : X ∈ post := by rw [hrem]; simp
    have hb : sub32 skb.end_seq base ≤ sub32 X.seq base := by
      have h1 := partial_overlap_false_of_window (hwin X hX) hws (hnp X hX)
      have h2 := hwf X hX
      have h3 := hgt X hX
      have h4 := hhead X rest rfl
      rw [after_false_iff_of_window (hwin X hX).1 (hwin X hX).2] at h2
      rw [after_iff_of_window (hwin X hX).1 hws.1] at h3
      rw [after_false_iff_of_window hws.2 (hwin X hX).1,
        before_iff_of_window hws.2 (hwin X hX).2] at h4
      omega
    intro c hc
    rcases List.mem_cons.mp hc with h | h
    · rw [h]; exact hb
    · have hcp : c ∈ post := by rw [hrem]; simp [h]
      rw [hrem, List.pairwise_append] at hchain
      have h1 := List.rel_of_pairwise_cons hchain.2.1 h
      have h2 := hwf X hX
      rw [after_false_iff_of_window (hwin X hX).1 (hwin X hX).2] at h2
      omega

theorem overlap_free_of_chain (base : Nat) (l : List Skb) (hwin : WithinWindow base l)
    (h : l.Pairwise (fun a b => sub32 a.end_seq base ≤ sub32 b.seq base)) :
    OverlapFree l := by
  unfold OverlapFree
  refine h.imp_of_mem ?_
  intro a b ha hb hab
  have : after a.end_seq b.seq = false :=
    (after_false_iff_of_window (hwin a ha).2 (hwin b hb).1).mpr hab
  simp [seq_disjoint, this]

/-- C2 (as amended). Overlap-freedom of the reinject queue is preserved by the insertion step
of `__mptcp_reinject_data` when the new range partially overlaps no entry: if the queue is
sorted by `seq` and overlap-free, no entry ends before it starts (all within one window of
`2^31`), and every entry is either disjoint from the new range, inside it, or contains it, then
the resulting queue is overlap-free. The code has no trimming: a new range that partially
overlaps an entry is linked in whole. -/
theorem reinject_insert_keeps_overlap_free (base : Nat) (q : List Skb) (skb : Skb)
    (hwin : WithinWindow base (skb :: q))
    (hwf : ∀ s ∈ q, after s.seq s.end_seq = false)
    (hsorted : SeqSorted q) (hfree : OverlapFree q)
    (hnp : ∀ s ∈ q, seq_partial_overlap s skb = false) :
    OverlapFree (reinject_queue_insert q skb) := by
  obtain ⟨pre, post, hq, hpost, hcase⟩ := insert_cases q skb
  have hws : InWindow base skb.seq ∧ InWindow base skb.end_seq := hwin skb (by simp)
  have hwq : WithinWindow base q := fun s hs => hwin s (by simp [hs])
  have hchain := chain_of_sorted_free base q hwq hwf hsorted hfree
  have hpostq : ∀ s ∈ post, s ∈ q := fun s hs => by rw [hq]; simp [hs]
  obtain ⟨removed, hrem, -, -⟩ := clean_covered_spec skb.end_seq post
  have htail := clean_tail_bound base skb hws post (fun s hs => hwq s (hpostq s hs))
    (fun s hs => hwf s (hpostq s hs)) hpost (fun s hs => hnp s (hpostq s hs))
    (by rw [hq, List.pairwise_append] at hchain; exact hchain.2.1)
  have hpost'q : ∀ s ∈ reinject_clean_covered skb.end_seq post, s ∈ q := fun s hs =>
    hpostq s (by rw [hrem]; simp [hs])
  rcases hcase with ⟨hpre, hres⟩ | ⟨pre', skb1, hpre, hskb1, hcase⟩
  · rw [hres]
    refine overlap_free_of_chain base _ ?_ ?_
    · intro s hs
      rcases List.mem_cons.mp hs with h | h
      · rw [h]; exact hws
      · exact hwq s (hpost'q s h)
    · have hc : (([] : List Skb) ++ post).Pairwise
          (fun a b => sub32 a.end_seq base ≤ sub32 b.seq base) := by
        simpa [hq, hpre] using hchain
      exact pairwise_insert_between hc hrem (by simp) htail
  · have hskb1q : skb1 ∈ q := by rw [hq, hpre]; simp
    have hw1 := hwq skb1 hskb1q
    have hwf1 := hwf skb1 hskb1q
    have hnp1 := partial_overlap_false_of_window hw1 hws (hnp skb1 hskb1q)
    rw [after_false_iff_of_window hw1.1 hw1.2] at hwf1
    rw [after_false_iff_of_window hw1.1 hws.1] at hskb1
    have hpre'le : ∀ a ∈ pre', sub32 a.end_seq base ≤ sub32 skb1.seq base := by
      intro a ha
      rw [hq, hpre, List.append_assoc, List.pairwise_append] at hchain
      exact hchain.2.2 a ha skb1 (by simp)
    rcases hcase with ⟨_, _, hres⟩ | ⟨h1, h2, h3, hres⟩ | ⟨h1, hres⟩
    · rw [hres]; exact hfree
    · rw [hres]
      rw [after_iff_of_window hws.2 hw1.2] at h2
      have hc1 : after skb.end_seq skb1.seq = true := by
        rw [after_iff_of_window hws.2 hw1.1]; omega
      have hc2 : before skb.end_seq skb1.end_seq = false := by
        rw [before_false_iff_of_window hws.2 hw1.2]; omega
      rw [clean_covered_cons_covered _ _ _ hc1 hc2]
      refine overlap_free_of_chain base _ ?_ ?_
      · intro s hs
        rcases List.mem_append.mp hs with h | h
        · exact hwq s (by rw [hq, hpre]; simp [h])
        · rcases List.mem_cons.mp h with h | h
          · rw [h]; exact hws
          · exact hwq s (hpost'q s h)
      · have hc : (pre' ++ post).Pairwise
            (fun a b => sub32 a.end_seq base ≤ sub32 b.seq base) := by
          rw [hq, hpre, List.append_assoc] at hchain
          exact hchain.sublist (List.Sublist.append_left (List.sublist_append_right _ _) _)
        refine pairwise_insert_between hc hrem ?_ htail
        intro a ha
        have := hpre'le a ha
        have h3' := (eq_iff_of_window hws.1 hw1.1).mp h3
        omega
    · rw [hres]
      have hle : sub32 skb1.end_seq base ≤ sub32 skb.seq base := by
        rcases h1 with h1 | ⟨h1, h2⟩
        · rwa [before_false_iff_of_window hws.1 hw1.2] at h1
        · rw [after_iff_of_window hws.2 hw1.2] at h1
          have := (eq_iff_of_window hws.1 hw1.1).not.mp h2
          omega
      refine overlap_free_of_chain base _ ?_ ?_
      · intro s hs
        rcases List.mem_append.mp hs with h | h
        · exact hwq s (by rw [hq]; simp [h])
        · rcases List.mem_cons.mp h with h | h
          · rw [h]; exact hws
          · exact hwq s (hpost'q s h)
      · refine pairwise_insert_between (hq ▸ hchain) hrem ?_ htail
        intro a ha
        rw [hpre] at ha
        rcases List.mem_append.mp ha with h | h
        · have := hpre'le a h; omega
        · simp at h; rw [h]; exact hle

/-! ## Covered entries -/

theorem wf_of_nonempty (base : Nat) (q : List Skb) (hwin : WithinWindow base q)
    (hne : ∀ s ∈ q, before s.seq s.end_seq = true) :
    ∀ s ∈ q, after s.seq s.end_seq = false := by
  intro s hs
  have h := hne s hs
  rw [before_iff_of_window (hwin s hs).1 (hwin s hs).2] at h
  rw [after_false_iff_of_window (hwin s hs).1 (hwin s hs).2]
  omega

/-- On a chain of non-empty ranges that start at or after `skb.seq`, the cleaning loop removes
exactly the entries that lie inside the range of `skb`. -/
theorem clean_eq_filter (base : Nat) (skb : Skb)
    (hws : InWindow base skb.seq ∧ InWindow base skb.end_seq) : ∀ post : List Skb,
    (∀ s ∈ post, InWindow base s.seq ∧ InWindow base s.end_seq) →
    (∀ s ∈ post, before s.seq s.end_seq = true) →
    (∀ s ∈ post, before s.seq skb.seq = false) →
    post.Pairwise (fun a b => sub32 a.end_seq base ≤ sub32 b.seq base) →
    reinject_clean_covered skb.end_seq post = post.filter (fun s => !seq_inside s skb) := by
  intro post
  induction post with
  | nil => intro _ _ _ _; simp [reinject_clean_covered]
  | cons X rest ih =>
    intro hwin hne hge hchain
    have hwX := hwin X (by simp)
    have hneX := hne X (by simp)
    have hgeX := hge X (by simp)
    rw [before_iff_of_window hwX.1 hwX.2] at hneX
    have hrest : ∀ c ∈ rest, sub32 X.end_seq base ≤ sub32 c.seq base ∧
        sub32 c.seq base < sub32 c.end_seq base := by
      intro c hc
      have h1 := List.rel_of_pairwise_cons hchain hc
      have h2 := hne c (by simp [hc])
      rw [before_iff_of_window (hwin c (by simp [hc])).1 (hwin c (by simp [hc])).2] at h2
      exact ⟨h1, h2⟩
    have hkeep : sub32 skb.end_seq base < sub32 X.end_seq base →
        (X :: rest).filter (fun s => !seq_inside s skb) = X :: rest := by
      intro hlt
      rw [List.filter_eq_self]
      intro a ha
      have hwa := hwin a ha
      have : after a.end_seq skb.end_seq = true := by
        rw [after_iff_of_window hwa.2 hws.2]
        rcases List.mem_cons.mp ha with h | h
        · rw [h]; exact hlt
        · have := hrest a h; omega
      simp [seq_inside, this]
    unfold reinject_clean_covered
    by_cases h1 : after skb.end_seq X.seq = true
    · by_cases h2 : before skb.end_seq X.end_seq = true
      · rw [if_neg (by simp [h1]), if_pos h2]
        rw [before_iff_of_window hws.2 hwX.2] at h2
        exact (hkeep h2).symm
      · rw [if_neg (by simp [h1]), if_neg h2]
        have hin : seq_inside X skb = true := by
          have : after X.end_seq skb.end_seq = false := by simpa [after] using h2
          simp [seq_inside, hgeX, this]
        rw [List.filter_cons, if_neg (by simp [hin])]
        exact ih (fun s hs => hwin s (by simp [hs])) (fun s hs => hne s (by simp [hs]))
          (fun s hs => hge s (by simp [hs])) hchain.of_cons
    · rw [if_pos (by simpa using h1)]
      have h1' : after skb.end_seq X.seq = false := by simpa using h1
      rw [after_false_iff_of_window hws.2 hwX.1] at h1'
      exact (hkeep (by omega)).symm

theorem filter_not_inside_of_before (skb : Skb) (pre : List Skb)
    (h : ∀ a ∈ pre, before a.seq skb.seq = true) :
    pre.filter (fun s => !seq_inside s skb) = pre := by
  rw [List.filter_eq_self]
  intro a ha
  simp [seq_inside, h a ha]

/-- C4 (as amended). Covered entries are removed on insertion: for a sorted, overlap-free
reinject queue whose entries all have a non-empty range (all within one window of `2^31`) and a
new segment that the insertion step of `__mptcp_reinject_data` links in (the queue changes), the
resulting queue is `pre ++ skb :: post` where `pre ++ post` is the old queue without exactly
the entries `[s, e)` with `seq <= s` and `e <= end_seq`: every such entry has been unlinked,
every other entry is still there, unmodified and in its old order. Without the non-emptiness an
entry `[5, 5)` stays in front of a new segment `[5, 10)`. -/
theorem reinject_insert_removes_covered_entries (base : Nat) (q : List Skb) (skb : Skb)
    (hwin : WithinWindow base (skb :: q))
    (hne : ∀ s ∈ q, before s.seq s.end_seq = true)
    (hsorted : SeqSorted q) (hfree : OverlapFree q)
    (hins : reinject_queue_insert q skb ≠ q) :
    ∃ pre post, reinject_queue_insert q skb = pre ++ skb :: post ∧
      pre ++ post = q.filter (fun s => !seq_inside s skb) := by
  obtain ⟨pre, post, hq, hpost, hcase⟩ := insert_cases q skb
  have hws : InWindow base skb.seq ∧ InWindow base skb.end_seq := hwin skb (by simp)
  have hwq : WithinWindow base q := fun s hs => hwin s (by simp [hs])
  have hchain := chain_of_sorted_free base q hwq (wf_of_nonempty base q hwq hne) hsorted hfree
  have hpostq : ∀ s ∈ post, s ∈ q := fun s hs => by rw [hq]; simp [hs]
  have hpostge : ∀ s ∈ post, before s.seq skb.seq = false := by
    intro s hs
    have h := hpost s hs
    rw [after_iff_of_window (hwq s (hpostq s hs)).1 hws.1] at h
    rw [before_false_iff_of_window (hwq s (hpostq s hs)).1 hws.1]
    omega
  have hpostchain : post.Pairwise (fun a b => sub32 a.end_seq base ≤ sub32 b.seq base) := by
    rw [hq, List.pairwise_append] at hchain; exact hchain.2.1
  have hclean := clean_eq_filter base skb hws post (fun s hs => hwq s (hpostq s hs))
    (fun s hs => hne s (hpostq s hs)) hpostge hpostchain
  rcases hcase with ⟨hpre, hres⟩ | ⟨pre', skb1, hpre, hskb1, hcase⟩
  · refine ⟨[], reinject_clean_covered skb.end_seq post, by rw [hres]; rfl, ?_⟩
    rw [hq, hpre, hclean]; rfl
  · have hskb1q : skb1 ∈ q := by rw [hq, hpre]; simp
    have hw1 := hwq skb1 hskb1q
    have hne1 := hne skb1 hskb1q
    rw [before_iff_of_window hw1.1 hw1.2] at hne1
    have hskb1' := hskb1
    rw [after_false_iff_of_window hw1.1 hws.1] at hskb1'
    have hpre'lt : ∀ a ∈ pre', sub32 a.seq base < sub32 skb1.seq base := by
      intro a ha
      have haq : a ∈ q := by rw [hq, hpre]; simp [ha]
      have hb : before a.seq skb1.seq = true := by
        have hs := hsorted
        unfold SeqSorted at hs
        rw [hq, hpre, List.append_assoc, List.pairwise_append] at hs
        exact hs.2.2 a ha skb1 (by simp)
      rwa [before_iff_of_window (hwq a haq).1 hw1.1] at hb
    have hpre'b : ∀ a ∈ pre', before a.seq skb.seq = true := by
      intro a ha
      have haq : a ∈ q := by rw [hq, hpre]; simp [ha]
      rw [before_iff_of_window (hwq a haq).1 hws.1]
      have := hpre'lt a ha
      omega
    rcases hcase with ⟨_, _, hres⟩ | ⟨h1, h2, h3, hres⟩ | ⟨h1, hres⟩
    · exact absurd hres hins
    · refine ⟨pre', reinject_clean_covered skb.end_seq (skb1 :: post), hres, ?_⟩
      have hclean2 := clean_eq_filter base skb hws (skb1 :: post)
        (by
          intro s hs
          rcases List.mem_cons.mp hs with h | h
          · rw [h]; exact hw1
          · exact hwq s (hpostq s h))
        (by
          intro s hs
          rcases List.mem_cons.mp hs with h | h
          · rw [h]; exact hne skb1 hskb1q
          · exact hne s (hpostq s h))
        (by
          intro s hs
          rcases List.mem_cons.mp hs with h | h
          · rw [h, ← h3]; simp [before, sub32]
            have := hws.1.1
            omega
          · exact hpostge s h)
        (by
          rw [hq, hpre, List.append_assoc, List.pairwise_append] at hchain
          exact hchain.2.1)
      rw [hclean2, hq, hpre, List.append_assoc, List.filter_append,
        filter_not_inside_of_before skb pre' hpre'b]
      rfl
    · refine ⟨pre, reinject_clean_covered skb.end_seq post, hres, ?_⟩
      have hlt : sub32 skb1.seq base < sub32 skb.seq base := by
        rcases h1 with h1 | ⟨_, h1⟩
        · rw [before_false_iff_of_window hws.1 hw1.2] at h1; omega
        · have := (eq_iff_of_window hws.1 hw1.1).not.mp h1
          omega
      have hpreb : ∀ a ∈ pre, before a.seq skb.seq = true := by
        intro a ha
        rw [hpre] at ha
        rcases List.mem_append.mp ha with h | h
        · exact hpre'b a h
        · simp at h
          rw [h, before_iff_of_window hw1.1 hws.1]; exact hlt
      rw [hclean]
      conv => rhs; rw [hq]
      rw [List.filter_append, filter_not_inside_of_before skb pre hpreb]

/-- C1 (as amended). Reinjection idempotence: for a sorted, overlap-free reinject queue and a
new segment, all ranges non-empty and within one window of `2^31`, if the range of the new
segment lies inside the range of one single entry `e` of the queue, the insertion step of
`__mptcp_reinject_data` leaves the queue identical (same entries, same order). A range that
only the union of several adjacent entries covers is linked in. -/
theorem reinject_idempotent_when_one_entry_covers (base : Nat) (q : List Skb) (skb e : Skb)
    (hwin : WithinWindow base (skb :: q))
    (hne : ∀ s ∈ skb :: q, before s.seq s.end_seq = true)
    (hsorted : SeqSorted q) (hfree : OverlapFree q)
    (he : e ∈ q) (hcov : seq_inside skb e = true) :
    reinject_queue_insert q skb = q := by
  obtain ⟨pre, post, hq, hpost, hcase⟩ := insert_cases q skb
  have hws : InWindow base skb.seq ∧ InWindow base skb.end_seq := hwin skb (by simp)
  have hwq : WithinWindow base q := fun s hs => hwin s (by simp [hs])
  have hneq : ∀ s ∈ q, before s.seq s.end_seq = true := fun s hs => hne s (by simp [hs])
  have hchain := chain_of_sorted_free base q hwq (wf_of_nonempty base q hwq hneq) hsorted hfree
  have hnes := hne skb (by simp)
  rw [before_iff_of_window hws.1 hws.2] at hnes
  have hwe := hwq e he
  simp only [seq_inside, Bool.and_eq_true, Bool.not_eq_true'] at hcov
  obtain ⟨hc1, hc2⟩ := hcov
  rw [before_false_iff_of_window hws.1 hwe.1] at hc1
  rw [after_false_iff_of_window hws.2 hwe.2] at hc2
  have hepre : e ∈ pre := by
    rw [hq] at he
    rcases List.mem_append.mp he with h | h
    · exact h
    · have := hpost e h
      rw [after_iff_of_window hwe.1 hws.1] at this
      omega
  rcases hcase with ⟨hpre, _⟩ | ⟨pre', skb1, hpre, hskb1, hcase⟩
  · rw [hpre] at hepre; simp at hepre
  · have hskb1q : skb1 ∈ q := by rw [hq, hpre]; simp
    have hw1 := hwq skb1 hskb1q
    rw [after_false_iff_of_window hw1.1 hws.1] at hskb1
    have hend : sub32 skb.end_seq base ≤ sub32 skb1.end_seq base := by
      rw [hpre] at hepre
      rcases List.mem_append.mp hepre with h | h
      · rw [hq, hpre, List.append_assoc, List.pairwise_append] at hchain
        have := hchain.2.2 e h skb1 (by simp)
        omega
      · simp at h; rw [← h]; exact hc2
    rcases hcase with ⟨_, _, hres⟩ | ⟨_, h2, _, _⟩ | ⟨h1, _⟩
    · exact hres
    · rw [after_iff_of_window hws.2 hw1.2] at h2; omega
    · rcases h1 with h1 | ⟨h1, _⟩
      · rw [before_false_iff_of_window hws.1 hw1.2] at h1; omega
      · rw [after_iff_of_window hws.2 hw1.2] at h1; omega

/-! ## Acknowledged data -/

theorem reinject_data_acked_aux (snd_una : Nat) (rtx : RbTree) (pskb_copy_ok : Skb → Bool)
    (fuel : Nat) (orig_skb : Skb) (rq : List Skb) (sk : Option TcpSock) (clone_it : Bool)
    (tcp_queue : TcpQueue)
    (h : ∀ skb0, (if sk.isSome then mptcp_reconstruct_mapping orig_skb else some orig_skb)
        = some skb0 → after skb0.end_seq snd_una = false) :
    __mptcp_reinject_data snd_una rtx pskb_copy_ok fuel orig_skb rq sk clone_it tcp_queue
      = some (rq, if clone_it then sk else sk.map (reinject_unlink_orig orig_skb tcp_queue)) := by
  unfold __mptcp_reinject_data
  by_cases hc : (clone_it && !pskb_copy_ok orig_skb) = true
  · simp only [hc, if_true]
  · simp only [hc]
    generalize (if sk.isSome then mptcp_reconstruct_mapping orig_skb else some orig_skb) = m at h
    cases m with
    | none => simp
    | some skb0 =>
      have := h skb0 rfl
      simp [this]

theorem add32_sub32_cancel {a b : Nat} (ha : a < 4294967296) (hb : b < 4294967296) :
    add32 a (sub32 b a) = b := by
  unfold add32 sub32
  omega

theorem tso_segs_seq (skb : Skb) (mss_now : Nat) :
    (tcp_set_skb_tso_segs skb mss_now).seq = skb.seq ∧
    (tcp_set_skb_tso_segs skb mss_now).end_seq = skb.end_seq := by
  unfold tcp_set_skb_tso_segs
  split <;> simp

theorem tso_segs_pcount_pos (skb : Skb) (mss_now : Nat) (h : 0 < mss_now) :
    0 < (tcp_set_skb_tso_segs skb mss_now).pcount := by
  unfold tcp_set_skb_tso_segs
  split
  · simp
  · rename_i hlen
    simp only
    apply Nat.div_pos <;> omega

/-- The head trim yields a buffer with the same end; it starts at `snd_una` unless
`skb_unclone` failed, in which case the buffer is as before. -/
theorem tso_acked_reinject_some (snd_una delta : Nat) (fails : Bool) (skb : Skb)
    (hseq : skb.seq < 4294967296) (huna : snd_una < 4294967296)
    (hafter : after skb.end_seq snd_una = true)
    (hmss : 1 < skb.pcount → 0 < skb.mss) :
    ∃ r, mptcp_tso_acked_reinject snd_una fails delta skb = some r ∧
      r.1.end_seq = skb.end_seq ∧ (fails = true → r.1 = skb) ∧
      (fails = false → r.1.seq = snd_una) := by
  unfold mptcp_tso_acked_reinject
  simp only [hafter, Bool.not_true, Bool.false_eq_true, if_false]
  cases fails with
  | true => exact ⟨(skb, 0), by simp⟩
  | false =>
    simp only [Bool.false_eq_true, if_false]
    have hb : before snd_una skb.end_seq = true := hafter
    by_cases hp : 1 < skb.pcount
    · have hpos := tso_segs_pcount_pos
        { skb with len := skb.len - sub32 snd_una skb.seq,
                   seq := add32 skb.seq (sub32 snd_una skb.seq),
                   truesize := skb.truesize - delta } skb.mss (hmss hp)
      have hs := tso_segs_seq
        { skb with len := skb.len - sub32 snd_una skb.seq,
                   seq := add32 skb.seq (sub32 snd_una skb.seq),
                   truesize := skb.truesize - delta } skb.mss
      simp only [add32_sub32_cancel hseq huna] at hs hpos ⊢
      simp only [hp, gt_iff_lt, if_true]
      rw [if_neg]
      · exact ⟨_, rfl, hs.2, by simp, fun _ => hs.1⟩
      · simp only [hs.1, hs.2, hb, Bool.not_true, Bool.or_false, Bool.and_eq_true, bne_iff_ne,
          beq_iff_eq, not_and]
        intro _
        omega
    · simp only [add32_sub32_cancel hseq huna, hp, gt_iff_lt, if_false, hb, Bool.not_true,
        Bool.or_false]
      rw [if_neg]
      · exact ⟨_, rfl, rfl, by simp, fun _ => rfl⟩
      · simp only [Bool.and_eq_true, bne_iff_ne, beq_iff_eq, not_and]
        intro h1 h2
        apply h1
        rw [h2]
        simp [sub32]

theorem clean_reinject_aux (base snd_una delta : Nat) (fails : Bool)
    (hu : InWindow base snd_una) : ∀ q : List Skb,
    WithinWindow base q →
    (∀ s ∈ q, after s.seq s.end_seq = false) →
    q.Pairwise (fun a b => sub32 a.end_seq base ≤ sub32 b.seq base) →
    (∀ s ∈ q, 1 < s.pcount → 0 < s.mss) →
    ∃ q', mptcp_clean_rtx_queue_reinject snd_una fails delta q = some q' ∧
      (∀ s ∈ q', after s.end_seq snd_una = true) ∧
      (∀ s ∈ q', before s.seq snd_una = true → s ∈ q ∧ (s.pcount = 1 ∨ fails = true)) ∧
      (∀ s ∈ q, before s.seq snd_una = true → after s.end_seq snd_una = true →
        s.pcount ≠ 1 → fails = false →
        ∃ t ∈ q', t.seq = snd_una ∧ t.end_seq = s.end_seq) := by
  intro q
  induction q with
  | nil =>
    intro _ _ _ _
    exact ⟨[], by simp [mptcp_clean_rtx_queue_reinject]⟩
  | cons skb rest ih =>
    intro hwin hwf hchain hmss
    have hw := hwin skb (by simp)
    have hwfs := hwf skb (by simp)
    rw [after_false_iff_of_window hw.1 hw.2] at hwfs
    have hrest : ∀ c ∈ rest, sub32 skb.end_seq base ≤ sub32 c.seq base ∧
        sub32 c.seq base ≤ sub32 c.end_seq base := by
      intro c hc
      have h1 := List.rel_of_pairwise_cons hchain hc
      have h2 := hwf c (by simp [hc])
      rw [after_false_iff_of_window (hwin c (by simp [hc])).1 (hwin c (by simp [hc])).2] at h2
      exact ⟨h1, h2⟩
    unfold mptcp_clean_rtx_queue_reinject
    by_cases hb : before snd_una skb.end_seq = true
    · have hb' := hb
      rw [before_iff_of_window hu hw.2] at hb'
      have hrest_after : ∀ c ∈ rest, after c.end_seq snd_una = true ∧
          before c.seq snd_una = false := by
        intro c hc
        have hwc := hwin c (by simp [hc])
        have := hrest c hc
        rw [after_iff_of_window hwc.2 hu, before_false_iff_of_window hwc.1 hu]
        omega
      rw [if_pos hb]
      by_cases hp : (skb.pcount == 1 || !after snd_una skb.seq) = true
      · rw [if_pos hp]
        refine ⟨skb :: rest, rfl, ?_, ?_, ?_⟩
        · intro s hs
          rcases List.mem_cons.mp hs with h | h
          · rw [h]; exact hb
          · exact (hrest_after s h).1
        · intro s hs hbs
          rcases List.mem_cons.mp hs with h | h
          · refine ⟨hs, Or.inl ?_⟩
            rw [h] at hbs
            have ha : after snd_una skb.seq = true := hbs
            simp only [ha, Bool.not_true, Bool.or_false, beq_iff_eq] at hp
            rw [h]; exact hp
          · have := (hrest_after s h).2
            rw [this] at hbs; exact absurd hbs (by simp)
        · intro s hs hbs has hpc _
          rcases List.mem_cons.mp hs with h | h
          · rw [h] at hbs hpc
            have ha : after snd_una skb.seq = true := hbs
            simp only [ha, Bool.not_true, Bool.or_false, beq_iff_eq] at hp
            exact absurd hp hpc
          · have := (hrest_after s h).2
            rw [this] at hbs; exact absurd hbs (by simp)
      · rw [if_neg hp]
        obtain ⟨r, hr, hend, hfail, hok⟩ := tso_acked_reinject_some snd_una delta fails skb
          hw.1.1 hu.1 hb (hmss skb (by simp))
        rw [hr]
        refine ⟨r.1 :: rest, rfl, ?_, ?_, ?_⟩
        · intro s hs
          rcases List.mem_cons.mp hs with h | h
          · rw [h, hend]; exact hb
          · exact (hrest_after s h).1
        · intro s hs hbs
          rcases List.mem_cons.mp hs with h | h
          · cases hf : fails with
            | true =>
              have := hfail hf
              rw [h, this]
              exact ⟨by simp, Or.inr rfl⟩
            | false =>
              have := hok hf
              rw [h, this] at hbs
              simp [before, sub32] at hbs
              have := hu.1
              omega
          · have := (hrest_after s h).2
            rw [this] at hbs; exact absurd hbs (by simp)
        · intro s hs hbs _ _ hf
          rcases List.mem_cons.mp hs with h | h
          · exact ⟨r.1, by simp, hok hf, by rw [h]; exact hend⟩
          · have := (hrest_after s h).2
            rw [this] at hbs; exact absurd hbs (by simp)
    · rw [if_neg hb]
      obtain ⟨q', hq', h1, h2, h4⟩ := ih (fun s hs => hwin s (by simp [hs]))
        (fun s hs => hwf s (by simp [hs])) hchain.of_cons (fun s hs => hmss s (by simp [hs]))
      refine ⟨q', hq', h1, ?_, ?_⟩
      · intro s hs hbs
        have := h2 s hs hbs
        exact ⟨by simp [this.1], this.2⟩
      · intro s hs hbs has hpc hf
        rcases List.mem_cons.mp hs with h | h
        · rw [h] at has
          exact absurd has hb
        · exact h4 s h hbs has hpc hf

/-- C5. Already-acknowledged data is never queued for reinjection: whenever the
connection-level `end_seq` of the segment (the one `mptcp_reconstruct_mapping` restores when a
subflow is given, else the segment's own) is not after the meta `snd_una`,
`__mptcp_reinject_data` returns with the reinject queue unchanged, the segment being in no
queue any more (with `clone_it == 0` it has been unlinked from the subflow queue). And one pass
of the loop of `mptcp_write_xmit` over a reinject-queue entry (`next_segment` hands `skb` over
with `reinject == 1`) whose `end_seq` is not after `snd_una` unlinks the entry and goes on to
the next segment without entering the send path: nothing is sent, and the loop carries on from
the state with the entry removed. -/
theorem acked_segment_is_never_queued_or_sent (snd_una : Nat) (rtx : RbTree)
    (pskb_copy_ok : Skb → Bool) (fuel : Nat) (orig_skb : Skb) (rq : List Skb)
    (sk : Option TcpSock) (clone_it : Bool) (tcp_queue : TcpQueue)
    (next_segment : XmitState → Option (Skb × Int))
    (send_path : XmitState → Skb → Int → TcpQueue → XmitState × Bool)
    (passes : Nat) (st : XmitState) (skb : Skb)
    (h1 : ∀ skb0, (if sk.isSome then mptcp_reconstruct_mapping orig_skb else some orig_skb)
        = some skb0 → after skb0.end_seq snd_una = false)
    (h2 : after skb.end_seq st.snd_una = false)
    (h3 : next_segment st = some (skb, 1)) :
    __mptcp_reinject_data snd_una rtx pskb_copy_ok fuel orig_skb rq sk clone_it tcp_queue
      = some (rq, if clone_it then sk else sk.map (reinject_unlink_orig orig_skb tcp_queue)) ∧
    mptcp_write_xmit_iter send_path st skb 1
      = ({ st with reinject_queue := st.reinject_queue.erase skb }, true) ∧
    (mptcp_write_xmit_iter send_path st skb 1).1.sent = st.sent ∧
    mptcp_write_xmit_loop next_segment send_path (passes + 1) st
      = mptcp_write_xmit_loop next_segment send_path passes
          { st with reinject_queue := st.reinject_queue.erase skb } := by
  have hiter : mptcp_write_xmit_iter send_path st skb 1
      = ({ st with reinject_queue := st.reinject_queue.erase skb }, true) := by
    simp [mptcp_write_xmit_iter, h2]
  refine ⟨reinject_data_acked_aux snd_una rtx pskb_copy_ok fuel orig_skb rq sk clone_it
    tcp_queue h1, hiter, ?_, ?_⟩
  · rw [hiter]
  · rw [mptcp_write_xmit_loop, h3]
    simp only [hiter, if_true]

/-- C6 (as amended). After the reinject loop of `mptcp_clean_rtx_queue` has run on a sorted,
overlap-free reinject queue (no entry ending before it starts, all within one window of `2^31`
together with `snd_una`, and a positive `mss` on every entry of more than one packet): every
remaining entry has `end_seq` after the meta `snd_una`; an entry that straddled `snd_una` and
whose packet count is not 1 has been trimmed at its head so that its `seq` equals `snd_una`,
its `end_seq` kept, provided `skb_unclone` succeeded; and a remaining entry that still starts
before `snd_una` is an untouched entry of the old queue with packet count 1, or one whose
`skb_unclone` failed. -/
theorem clean_rtx_queue_reinject_after_snd_una (base snd_una delta_truesize : Nat)
    (skb_unclone_fails : Bool) (q : List Skb)
    (hwin : WithinWindow base q) (hu : InWindow base snd_una)
    (hwf : ∀ s ∈ q, after s.seq s.end_seq = false)
    (hsorted : SeqSorted q) (hfree : OverlapFree q)
    (hmss : ∀ s ∈ q, 1 < s.pcount → 0 < s.mss) :
    ∃ q', mptcp_clean_rtx_queue_reinject snd_una skb_unclone_fails delta_truesize q = some q' ∧
      (∀ s ∈ q', after s.end_seq snd_una = true) ∧
      (∀ s ∈ q', before s.seq snd_una = true →
        s ∈ q ∧ (s.pcount = 1 ∨ skb_unclone_fails = true)) ∧
      (∀ s ∈ q, before s.seq snd_una = true → after s.end_seq snd_una = true →
        s.pcount ≠ 1 → skb_unclone_fails = false →
        ∃ t ∈ q', t.seq = snd_una ∧ t.end_seq = s.end_seq) :=
  clean_reinject_aux base snd_una delta_truesize skb_unclone_fails hu q hwin hwf
    (chain_of_sorted_free base q hwin hwf hsorted hfree) hmss

/-! ## The saved DSS option -/

theorem getD_set (l : List Nat) (i j v d : Nat) :
    (l.set i v).getD j d = if i = j ∧ i < l.length then v else l.getD j d := by
  simp only [List.getD_eq_getElem?_getD, List.getElem?_set]
  by_cases h1 : i = j
  · subst h1
    by_cases h2 : i < l.length
    · simp [h2]
    · simp [h2, List.getElem?_eq_none (Nat.le_of_not_lt h2)]
  · simp [h1]

theorem be32_bytes (v : Nat) (h : v < 4294967296) :
    v / 16777216 % 256 * 16777216 + v / 65536 % 256 * 65536 + v / 256 % 256 * 256 + v % 256
      = v := by
  omega

theorem get_put_be32 (buf : List Nat) (off v : Nat) (h : off + 3 < buf.length)
    (hv : v < 4294967296) : get_unaligned_be32 (put_be32 buf off v) off = v := by
  unfold get_unaligned_be32 put_be32
  simp only [getD_set, List.length_set]
  have h0 : off < buf.length := by omega
  have h1 : off + 1 < buf.length := by omega
  have h2 : off + 2 < buf.length := by omega
  simp [h0, h1, h2, h]
  omega

theorem getD_put_be32_other (buf : List Nat) (off v j d : Nat) (h : j < off ∨ off + 4 ≤ j) :
    (put_be32 buf off v).getD j d = buf.getD j d := by
  unfold put_be32
  simp only [getD_set, List.length_set]
  have h0 : ¬ off = j := by omega
  have h1 : ¬ off + 1 = j := by omega
  have h2 : ¬ off + 2 = j := by omega
  have h3 : ¬ off + 3 = j := by omega
  simp only [h0, h1, h2, h3, false_and, if_false]

theorem getD_put_be16_other (buf : List Nat) (off v j d : Nat) (h : j < off ∨ off + 2 ≤ j) :
    (put_be16 buf off v).getD j d = buf.getD j d := by
  unfold put_be16
  simp only [getD_set, List.length_set]
  have h0 : ¬ off = j := by omega
  have h1 : ¬ off + 1 = j := by omega
  simp only [h0, h1, false_and, if_false]

theorem length_put_be32 (buf : List Nat) (off v : Nat) :
    (put_be32 buf off v).length = buf.length := by
  simp [put_be32]

theorem length_put_be16 (buf : List Nat) (off v : Nat) :
    (put_be16 buf off v).length = buf.length := by
  simp [put_be16]

theorem get_be32_put_be32_other (buf : List Nat) (off off2 v : Nat)
    (h : off + 4 ≤ off2 ∨ off2 + 4 ≤ off) :
    get_unaligned_be32 (put_be32 buf off v) off2 = get_unaligned_be32 buf off2 := by
  unfold get_unaligned_be32
  rw [getD_put_be32_other _ _ _ _ _ (by omega), getD_put_be32_other _ _ _ _ _ (by omega),
    getD_put_be32_other _ _ _ _ _ (by omega), getD_put_be32_other _ _ _ _ _ (by omega)]

theorem get_be32_put_be16_other (buf : List Nat) (off off2 v : Nat)
    (h : off + 2 ≤ off2 ∨ off2 + 4 ≤ off) :
    get_unaligned_be32 (put_be16 buf off v) off2 = get_unaligned_be32 buf off2 := by
  unfold get_unaligned_be32
  rw [getD_put_be16_other _ _ _ _ _ (by omega), getD_put_be16_other _ _ _ _ _ (by omega),
    getD_put_be16_other _ _ _ _ _ (by omega), getD_put_be16_other _ _ _ _ _ (by omega)]

theorem get_be16_put_be16_other (buf : List Nat) (off off2 v : Nat)
    (h : off + 2 ≤ off2 ∨ off2 + 2 ≤ off) :
    get_unaligned_be16 (put_be16 buf off v) off2 = get_unaligned_be16 buf off2 := by
  unfold get_unaligned_be16
  rw [getD_put_be16_other _ _ _ _ _ (by omega), getD_put_be16_other _ _ _ _ _ (by omega)]

/-- The upper half of a stored 32-bit word reads back as a 16-bit number. -/
theorem get_be16_put_be32 (buf : List Nat) (off n x : Nat) (h : off + 3 < buf.length)
    (hn : n < 65536) (hx : x < 65536) :
    get_unaligned_be16 (put_be32 buf off (n * 65536 + x)) off = n := by
  unfold get_unaligned_be16 put_be32
  simp only [getD_set, List.length_set]
  have h0 : off < buf.length := by omega
  have h1 : off + 1 < buf.length := by omega
  simp [h0, h1]
  omega

theorem is_data_seq_or (f : Nat) : (f ||| MPTCPHDR_SEQ) &&& MPTCPHDR_SEQ ≠ 0 := by
  rw [Nat.and_distrib_right]
  intro h
  have h1 : ((f &&& MPTCPHDR_SEQ) ||| (MPTCPHDR_SEQ &&& MPTCPHDR_SEQ)).testBit 0 = true := by
    simp [Nat.testBit_lor, MPTCPHDR_SEQ]
  rw [h] at h1
  simp at h1

theorem inf_flag_or (f : Nat) (h : f &&& MPTCPHDR_INF = 0) :
    (f ||| MPTCPHDR_SEQ) &&& MPTCPHDR_INF = 0 := by
  rw [Nat.and_distrib_right, h]
  decide

theorem fin_flag_or (f : Nat) :
    (f ||| MPTCPHDR_SEQ) &&& MPTCPHDR_FIN = f &&& MPTCPHDR_FIN := by
  rw [Nat.and_distrib_right]
  have : MPTCPHDR_SEQ &&& MPTCPHDR_FIN = 0 := by decide
  rw [this]
  simp

theorem write_dss_data_ack_spec (mpcb : MptcpCb) (meta_rcv_nxt : Nat) (skb : Skb)
    (buf : List Nat) (h : 8 ≤ buf.length) (hM : mptcp_is_data_seq skb = true) :
    (mptcp_write_dss_data_ack mpcb meta_rcv_nxt skb buf 0).2 = 2 ∧
    (mptcp_write_dss_data_ack mpcb meta_rcv_nxt skb buf 0).1.length = buf.length ∧
    (mptcp_write_dss_data_ack mpcb meta_rcv_nxt skb buf 0).1.getD 3 0
      = 5 + 16 * (if mptcp_is_data_fin skb then 1 else 0) := by
  unfold mptcp_write_dss_data_ack
  refine ⟨rfl, by simp [length_put_be32], ?_⟩
  simp only [hM, if_true]
  rw [getD_put_be32_other _ _ _ _ _ (by omega)]
  simp only [getD_set, List.length_set]
  have h3 : 3 < buf.length := by omega
  simp [h3]

theorem write_dss_mapping_spec (tp : TcpSock) (mpcb : MptcpCb) (csum : Nat) (skb : Skb)
    (buf : List Nat) (off : Nat) (h : off + 12 ≤ buf.length)
    (hseq : skb.seq < 4294967296)
    (hlen : sub32 skb.end_seq skb.seq < 65536)
    (hinf : skb.mptcp_flags &&& MPTCPHDR_INF = 0) :
    get_unaligned_be32 (mptcp_write_dss_mapping tp mpcb csum skb buf off).1 off = skb.seq ∧
    get_unaligned_be16 (mptcp_write_dss_mapping tp mpcb csum skb buf off).1 (off + 8)
      = sub32 skb.end_seq skb.seq ∧
    ∀ j, j < off → (mptcp_write_dss_mapping tp mpcb csum skb buf off).1.getD j 0
      = buf.getD j 0 := by
  unfold mptcp_write_dss_mapping
  simp only [hinf, bne_self_eq_false, Bool.false_eq_true, if_false, Nat.mod_eq_of_lt hlen]
  have hb : ∃ v, (if (mptcp_is_data_fin skb && skb.len == 0) = true
      then put_be32 (put_be32 buf off skb.seq) (off + 4) 0
      else put_be32 (put_be32 buf off skb.seq) (off + 4) (sub32 tp.write_seq tp.snt_isn))
      = put_be32 (put_be32 buf off skb.seq) (off + 4) v := by
    split
    · exact ⟨_, rfl⟩
    · exact ⟨_, rfl⟩
  obtain ⟨v, hv⟩ := hb
  rw [hv]
  have hl1 : (put_be32 (put_be32 buf off skb.seq) (off + 4) v).length = buf.length := by
    simp [length_put_be32]
  have hg : get_unaligned_be32 (put_be32 (put_be32 buf off skb.seq) (off + 4) v) off
      = skb.seq := by
    rw [get_be32_put_be32_other _ _ _ _ (by omega)]
    exact get_put_be32 _ _ _ (by omega) hseq
  by_cases hc : (mpcb.dss_csum && sub32 skb.end_seq skb.seq != 0) = true
  · rw [if_pos hc]
    refine ⟨?_, ?_, ?_⟩
    · rw [get_be32_put_be16_other _ _ _ _ (by omega),
        get_be32_put_be32_other _ _ _ _ (by omega)]
      exact hg
    · rw [get_be16_put_be16_other _ _ _ _ (by omega)]
      have := get_be16_put_be32 (put_be32 (put_be32 buf off skb.seq) (off + 4) v) (off + 8)
        (sub32 skb.end_seq skb.seq) 0 (by rw [hl1]; omega) hlen (by omega)
      simpa [TCPOPT_EOL] using this
    · intro j hj
      rw [getD_put_be16_other _ _ _ _ _ (by omega), getD_put_be32_other _ _ _ _ _ (by omega),
        getD_put_be32_other _ _ _ _ _ (by omega), getD_put_be32_other _ _ _ _ _ (by omega)]
  · rw [if_neg hc]
    refine ⟨?_, ?_, ?_⟩
    · rw [get_be32_put_be32_other _ _ _ _ (by omega)]
      exact hg
    · have := get_be16_put_be32 (put_be32 (put_be32 buf off skb.seq) (off + 4) v) (off + 8)
        (sub32 skb.end_seq skb.seq) 257 (by rw [hl1]; omega) hlen (by omega)
      simpa [TCPOPT_NOP, Nat.add_assoc] using this
    · intro j hj
      rw [getD_put_be32_other _ _ _ _ _ (by omega),
        getD_put_be32_other _ _ _ _ _ (by omega), getD_put_be32_other _ _ _ _ _ (by omega)]

theorem reconstruct_eq (s : Skb) (h1 : mptcp_is_data_seq s = true)
    (hM : mp_dss_M s.dss = 1) (hA : mp_dss_A s.dss = 1) (ha : mp_dss_a s.dss = 0) :
    mptcp_reconstruct_mapping s = some { s with
      seq := get_unaligned_be32 s.dss 8
      end_seq := add32 (get_unaligned_be16 s.dss 16) (get_unaligned_be32 s.dss 8) } := by
  unfold mptcp_reconstruct_mapping
  simp [h1, hM, hA, ha]

theorem save_then_reconstruct (tp : TcpSock) (mpcb : MptcpCb) (meta_rcv_nxt csum : Nat)
    (skb : Skb) (sub_seq sub_end_seq : Nat)
    (hseq : skb.seq < 4294967296) (hend : skb.end_seq < 4294967296)
    (hlen : sub32 skb.end_seq skb.seq < 65536)
    (hinf : skb.mptcp_flags &&& MPTCPHDR_INF = 0)
    (hdss : mptcp_dss_len ≤ skb.dss.length) :
    mptcp_reconstruct_mapping
      { mptcp_save_dss_data_seq tp mpcb meta_rcv_nxt csum skb with
        seq := sub_seq, end_seq := sub_end_seq }
      = some (mptcp_save_dss_data_seq tp mpcb meta_rcv_nxt csum skb) := by
  have hl : 20 ≤ skb.dss.length := hdss
  have hds : mptcp_is_data_seq { skb with mptcp_flags := skb.mptcp_flags ||| MPTCPHDR_SEQ }
      = true := by
    simp [mptcp_is_data_seq, is_data_seq_or]
  obtain ⟨ha1, ha2, ha3⟩ := write_dss_data_ack_spec mpcb meta_rcv_nxt
    { skb with mptcp_flags := skb.mptcp_flags ||| MPTCPHDR_SEQ } skb.dss (by omega) hds
  obtain ⟨hm1, hm2, hm3⟩ := write_dss_mapping_spec tp mpcb csum
    { skb with mptcp_flags := skb.mptcp_flags ||| MPTCPHDR_SEQ }
    (mptcp_write_dss_data_ack mpcb meta_rcv_nxt
      { skb with mptcp_flags := skb.mptcp_flags ||| MPTCPHDR_SEQ } skb.dss 0).1 8
    (by rw [ha2]; omega) hseq hlen (inf_flag_or _ hinf)
  have hbyte3 := hm3 3 (by omega)
  rw [ha3] at hbyte3
  have hflags : (mptcp_save_dss_data_seq tp mpcb meta_rcv_nxt csum skb).mptcp_flags
      = skb.mptcp_flags ||| MPTCPHDR_SEQ := rfl
  have hdssv : (mptcp_save_dss_data_seq tp mpcb meta_rcv_nxt csum skb).dss
      = (mptcp_write_dss_mapping tp mpcb csum
          { skb with mptcp_flags := skb.mptcp_flags ||| MPTCPHDR_SEQ }
          (mptcp_write_dss_data_ack mpcb meta_rcv_nxt
            { skb with mptcp_flags := skb.mptcp_flags ||| MPTCPHDR_SEQ } skb.dss 0).1 8).1 := by
    unfold mptcp_save_dss_data_seq
    simp only [ha1]
  have hbyte : (mptcp_save_dss_data_seq tp mpcb meta_rcv_nxt csum skb).dss.getD 3 0
      = 5 + 16 * (if mptcp_is_data_fin
          { skb with mptcp_flags := skb.mptcp_flags ||| MPTCPHDR_SEQ } then 1 else 0) := by
    rw [hdssv]; exact hbyte3
  have hM : mp_dss_M (mptcp_save_dss_data_seq tp mpcb meta_rcv_nxt csum skb).dss = 1 := by
    unfold mp_dss_M; rw [hbyte]; split <;> omega
  have hA : mp_dss_A (mptcp_save_dss_data_seq tp mpcb meta_rcv_nxt csum skb).dss = 1 := by
    unfold mp_dss_A; rw [hbyte]; split <;> omega
  have ha : mp_dss_a (mptcp_save_dss_data_seq tp mpcb meta_rcv_nxt csum skb).dss = 0 := by
    unfold mp_dss_a; rw [hbyte]; split <;> omega
  have hs : get_unaligned_be32 (mptcp_save_dss_data_seq tp mpcb meta_rcv_nxt csum skb).dss 8
      = skb.seq := by
    rw [hdssv]; exact hm1
  have he : get_unaligned_be16 (mptcp_save_dss_data_seq tp mpcb meta_rcv_nxt csum skb).dss 16
      = sub32 skb.end_seq skb.seq := by
    rw [hdssv]; exact hm2
  have hds2 : mptcp_is_data_seq
      { mptcp_save_dss_data_seq tp mpcb meta_rcv_nxt csum skb with
        seq := sub_seq, end_seq := sub_end_seq } = true := hds
  have hadd : add32 (sub32 skb.end_seq skb.seq) skb.seq = skb.end_seq := by
    unfold add32 sub32; omega
  refine (reconstruct_eq _ hds2 hM hA ha).trans ?_
  change some { mptcp_save_dss_data_seq tp mpcb meta_rcv_nxt csum skb with
    seq := get_unaligned_be32 (mptcp_save_dss_data_seq tp mpcb meta_rcv_nxt csum skb).dss 8
    end_seq := add32
      (get_unaligned_be16 (mptcp_save_dss_data_seq tp mpcb meta_rcv_nxt csum skb).dss 16)
      (get_unaligned_be32 (mptcp_save_dss_data_seq tp mpcb meta_rcv_nxt csum skb).dss 8) }
    = some (mptcp_save_dss_data_seq tp mpcb meta_rcv_nxt csum skb)
  rw [hs, he, hadd]
  rfl

theorem find_and_set_pathmask_range (rtx : RbTree) (skb : Skb) :
    (mptcp_find_and_set_pathmask rtx skb).seq = skb.seq ∧
    (mptcp_find_and_set_pathmask rtx skb).end_seq = skb.end_seq := by
  induction rtx with
  | nil => simp [mptcp_find_and_set_pathmask]
  | node l it r ihl ihr =>
    unfold mptcp_find_and_set_pathmask
    split
    · exact ihl
    · split
      · exact ihr
      · simp

theorem is_data_fin_save (tp : TcpSock) (mpcb : MptcpCb) (meta_rcv_nxt csum : Nat)
    (skb : Skb) :
    mptcp_is_data_fin (mptcp_save_dss_data_seq tp mpcb meta_rcv_nxt csum skb)
      = mptcp_is_data_fin skb := by
  simp [mptcp_is_data_fin, mptcp_save_dss_data_seq, fin_flag_or]

/-- C7. Reinjecting a subflow segment restores its connection-level range: for every segment
with connection range `[seq, end_seq)`, `end_seq - seq < 2^16` and no `MPTCPHDR_INF` flag that
`mptcp_save_dss_data_seq` has saved (the saved option needs the `mptcp_dss_len` bytes of
`dss`), whatever subflow values `seq` and `end_seq` have been overwritten with afterwards,
`mptcp_reconstruct_mapping` returns true and sets `seq` and `end_seq` back to exactly that
range. Hence `__mptcp_reinject_data`, called for such a segment of a subflow `sk` with an
empty reinject queue, queues one entry with exactly the original range when the range ends
after `snd_una` and the payload length matches it. -/
theorem reconstruct_mapping_restores_saved_range (tp : TcpSock) (mpcb : MptcpCb)
    (meta_rcv_nxt csum : Nat) (skb : Skb) (sub_seq sub_end_seq : Nat)
    (hseq : skb.seq < 4294967296) (hend : skb.end_seq < 4294967296)
    (hlen : sub32 skb.end_seq skb.seq < 65536)
    (hinf : skb.mptcp_flags &&& MPTCPHDR_INF = 0)
    (hdss : mptcp_dss_len ≤ skb.dss.length) :
    (∃ r, mptcp_reconstruct_mapping
        { mptcp_save_dss_data_seq tp mpcb meta_rcv_nxt csum skb with
          seq := sub_seq, end_seq := sub_end_seq } = some r ∧
      r.seq = skb.seq ∧ r.end_seq = skb.end_seq) ∧
    ∀ (snd_una : Nat) (rtx : RbTree) (pskb_copy_ok : Skb → Bool) (fuel : Nat) (sk : TcpSock)
      (tcp_queue : TcpQueue),
      pskb_copy_ok { mptcp_save_dss_data_seq tp mpcb meta_rcv_nxt csum skb with
          seq := sub_seq, end_seq := sub_end_seq } = true →
      after skb.end_seq snd_una = true →
      (skb.len + (if mptcp_is_data_fin skb then 1 else 0)) % 4294967296
        = sub32 skb.end_seq skb.seq →
      ∃ e, __mptcp_reinject_data snd_una rtx pskb_copy_ok fuel
          { mptcp_save_dss_data_seq tp mpcb meta_rcv_nxt csum skb with
            seq := sub_seq, end_seq := sub_end_seq }
          [] (some sk) true tcp_queue = some ([e], some sk) ∧
        e.seq = skb.seq ∧ e.end_seq = skb.end_seq := by
  have hrec := save_then_reconstruct tp mpcb meta_rcv_nxt csum skb sub_seq sub_end_seq
    hseq hend hlen hinf hdss
  refine ⟨⟨_, hrec, rfl, rfl⟩, ?_⟩
  intro snd_una rtx pskb_copy_ok fuel sk tcp_queue hcopy hafter hcons
  unfold __mptcp_reinject_data
  have hfin := is_data_fin_save tp mpcb meta_rcv_nxt csum skb
  simp only [hcopy, Bool.not_true, Bool.and_false, Bool.false_eq_true, if_false,
    Option.isSome_some, if_true, hrec]
  have hS1 : (mptcp_save_dss_data_seq tp mpcb meta_rcv_nxt csum skb).end_seq = skb.end_seq := rfl
  have hS2 : (mptcp_save_dss_data_seq tp mpcb meta_rcv_nxt csum skb).seq = skb.seq := rfl
  have hS3 : (mptcp_save_dss_data_seq tp mpcb meta_rcv_nxt csum skb).len = skb.len := rfl
  generalize mptcp_save_dss_data_seq tp mpcb meta_rcv_nxt csum skb = S at hS1 hS2 hS3 hfin ⊢
  have hfin2 : mptcp_is_data_fin
      { S with sacked := 0, tcp_flags := S.tcp_flags &&& (TCPHDR_ACK ||| TCPHDR_PSH) }
      = mptcp_is_data_fin skb := hfin
  rw [if_neg (by simp [hS1, hafter])]
  rw [if_neg (by rw [hfin2, hS1, hS2, hS3, hcons]; simp)]
  refine ⟨mptcp_find_and_set_pathmask rtx
    { S with sacked := 0, tcp_flags := S.tcp_flags &&& (TCPHDR_ACK ||| TCPHDR_PSH),
             dss := List.replicate mptcp_dss_len 0 ++ S.dss.drop mptcp_dss_len,
             path_mask := 0 }, ?_, ?_, ?_⟩
  · simp only [reinject_queue_insert, List.isEmpty_nil, if_true]
  · rw [(find_and_set_pathmask_range rtx _).1]; exact hS2
  · rw [(find_and_set_pathmask_range rtx _).2]; exact hS1

/-! ## Mapping detection -/

/-- C10. Unmapped-byte allowance: on a subflow that is not in infinite-receive mode and has no
pending mapping, for a segment that carries neither a DSS mapping nor MP_CAPABLE data,
`mptcp_detect_mapping` returns 1 if and only if the unread subflow bytes
`rcv_nxt - copied_seq` (32-bit) exceed 65536; it then has reset the subflow (the statistics
counter and `mptcp_send_reset` are the only effect); at 65536 or fewer it returns 0 and changes
nothing, no mapping field included. -/
theorem detect_mapping_unmapped_allowance (tp : TcpSock) (meta_tp : MetaSock) (calls : List ExtCall)
    (skb : Skb)
    (hinf : meta_tp.mpcb.infinite_mapping_rcv = false)
    (hmap : tp.mapping_present = false)
    (hseq : mptcp_is_data_seq skb = false)
    (hmpc : mptcp_is_data_mpcapable skb = false) :
    ((mptcp_detect_mapping tp meta_tp calls skb).ret = 1
        ↔ 65536 < sub32 tp.rcv_nxt tp.copied_seq) ∧
    (65536 < sub32 tp.rcv_nxt tp.copied_seq →
      mptcp_detect_mapping tp meta_tp calls skb =
        { ret := 1, tp := tp, meta_tp := meta_tp,
          calls := calls ++ [ExtCall.inc_stats Mib.NODSSWINDOW, ExtCall.mptcp_send_reset],
          skb := some skb }) ∧
    (sub32 tp.rcv_nxt tp.copied_seq ≤ 65536 →
      mptcp_detect_mapping tp meta_tp calls skb =
        { ret := 0, tp := tp, meta_tp := meta_tp, calls := calls, skb := some skb }) := by
  unfold mptcp_detect_mapping
  simp only [hinf, hmap, hseq, hmpc]
  by_cases h : 65536 < sub32 tp.rcv_nxt tp.copied_seq
  · simp [h]
  · simp [h]

theorem payload_after_seq (skb : Skb) (hs : skb.seq < 4294967296) (hpay : 0 < skb.len)
    (hlt : skb.len < 2147483648)
    (hwf : skb.end_seq = add32 (add32 skb.seq skb.len)
      (if skb.tcp_flags &&& TCPHDR_FIN != 0 then 1 else 0)) :
    after (if skb.tcp_flags &&& TCPHDR_FIN != 0 then sub32 skb.end_seq 1 else skb.end_seq)
      skb.seq = true := by
  rw [hwf]
  unfold after before
  simp only [decide_eq_true_eq]
  split
  · unfold sub32 add32; omega
  · unfold sub32 add32; omega

theorem detect_fresh_aux (tp : TcpSock) (meta_tp : MetaSock) (calls : List ExtCall)
    (skb : Skb)
    (hinf : meta_tp.mpcb.infinite_mapping_rcv = false)
    (hmap : tp.mapping_present = false)
    (hopt : mptcp_is_data_seq skb = true ∨ mptcp_is_data_mpcapable skb = true)
    (hfail : tp.send_mp_fail = false)
    (hlen : (detect_mapping_read tp meta_tp skb).data_len ≠ 0) :
    mptcp_detect_mapping tp meta_tp calls skb =
      detect_mapping_record tp meta_tp calls (detect_mapping_read tp meta_tp skb).skb
        (detect_mapping_read tp meta_tp skb).data_seq (detect_mapping_read tp meta_tp skb).sub_seq
        (detect_mapping_read tp meta_tp skb).data_len false := by
  unfold mptcp_detect_mapping
  simp only [hinf, hmap, hfail]
  have h1 : (!(!false && mptcp_is_data_mpcapable skb) && !mptcp_is_data_seq skb) = false := by
    rcases hopt with h | h <;> simp [h]
  simp only [h1, Bool.false_eq_true, if_false, Bool.false_and, if_neg hlen]

theorem detect_mapping_read_fields (tp : TcpSock) (meta_tp : MetaSock) (skb : Skb) :
    (detect_mapping_read tp meta_tp skb).skb.seq = skb.seq ∧
    (detect_mapping_read tp meta_tp skb).skb.end_seq = skb.end_seq ∧
    (detect_mapping_read tp meta_tp skb).skb.len = skb.len ∧
    (detect_mapping_read tp meta_tp skb).skb.tcp_flags = skb.tcp_flags := by
  unfold detect_mapping_read mptcp_skb_set_data_seq
  dsimp only
  repeat' split
  all_goals simp

/-- C9 (as amended). On a subflow that is not in infinite-receive mode, has no pending
mapping and is not sending MP_FAIL, for a segment with payload (`0 < len < 2^31`,
`end_seq = seq + len + FIN`) that announces a mapping of non-zero length, with `data_len` taken
one less when the segment has a DATA_FIN: `mptcp_detect_mapping` returns 0 if and only if
`sub_seq` is before the segment's `end_seq` (the sequence number of a subflow FIN counts as part
of the segment here) and `sub_seq + data_len` is after the segment's `seq`; it then has
recorded the mapping. Otherwise it resets the subflow, returns 1 and records nothing. -/
theorem detect_mapping_fresh_bounds_check (tp : TcpSock) (meta_tp : MetaSock) (calls : List ExtCall)
    (skb : Skb)
    (hinf : meta_tp.mpcb.infinite_mapping_rcv = false)
    (hmap : tp.mapping_present = false)
    (hopt : mptcp_is_data_seq skb = true ∨ mptcp_is_data_mpcapable skb = true)
    (hfail : tp.send_mp_fail = false)
    (hlen : (detect_mapping_read tp meta_tp skb).data_len ≠ 0)
    (hs : skb.seq < 4294967296) (hpay : 0 < skb.len) (hlt : skb.len < 2147483648)
    (hwf : skb.end_seq = add32 (add32 skb.seq skb.len)
      (if skb.tcp_flags &&& TCPHDR_FIN != 0 then 1 else 0)) :
    ((mptcp_detect_mapping tp meta_tp calls skb).ret = 0 ↔
      (before (detect_mapping_read tp meta_tp skb).sub_seq skb.end_seq = true ∧
       after (add32 (detect_mapping_read tp meta_tp skb).sub_seq
          (if mptcp_is_data_fin (detect_mapping_read tp meta_tp skb).skb
            then sub32 (detect_mapping_read tp meta_tp skb).data_len 1
            else (detect_mapping_read tp meta_tp skb).data_len)) skb.seq = true)) ∧
    ((mptcp_detect_mapping tp meta_tp calls skb).ret = 0 →
      (mptcp_detect_mapping tp meta_tp calls skb).tp.mapping_present = true ∧
      (mptcp_detect_mapping tp meta_tp calls skb).tp.map_subseq
        = (detect_mapping_read tp meta_tp skb).sub_seq ∧
      (mptcp_detect_mapping tp meta_tp calls skb).tp.map_data_len
        = (if mptcp_is_data_fin (detect_mapping_read tp meta_tp skb).skb
            then sub32 (detect_mapping_read tp meta_tp skb).data_len 1
            else (detect_mapping_read tp meta_tp skb).data_len) % 65536 ∧
      (mptcp_detect_mapping tp meta_tp calls skb).tp.map_data_fin
        = mptcp_is_data_fin (detect_mapping_read tp meta_tp skb).skb ∧
      (mptcp_detect_mapping tp meta_tp calls skb).calls = calls) ∧
    ((mptcp_detect_mapping tp meta_tp calls skb).ret ≠ 0 →
      mptcp_detect_mapping tp meta_tp calls skb =
        { ret := 1, tp := tp, meta_tp := meta_tp,
          calls := calls ++ [ExtCall.inc_stats Mib.DSSTCPMISMATCH, ExtCall.mptcp_send_reset],
          skb := some (detect_mapping_read tp meta_tp skb).skb }) := by
  rw [detect_fresh_aux tp meta_tp calls skb hinf hmap hopt hfail hlen]
  obtain ⟨f1, f2, f3, f4⟩ := detect_mapping_read_fields tp meta_tp skb
  have hp := payload_after_seq skb hs hpay hlt hwf
  generalize detect_mapping_read tp meta_tp skb = r at *
  unfold detect_mapping_record
  have hl0 : (r.skb.len == 0) = false := by rw [f3]; simp; omega
  simp only [f1, f2, f4, hl0, hp, Bool.and_true, Bool.and_false, Bool.false_and,
    Bool.or_false]
  by_cases hb : before r.sub_seq skb.end_seq = true
  · by_cases ha : after (add32 r.sub_seq
        (if mptcp_is_data_fin r.skb then sub32 r.data_len 1 else r.data_len)) skb.seq = true
    · simp [hb, ha]
    · simp [hb, ha]
  · simp [hb]



/-! ## Entering and staying in infinite-receive mode -/

theorem is_data_fin_read (tp : TcpSock) (meta_tp : MetaSock) (skb : Skb) :
    mptcp_is_data_fin (detect_mapping_read tp meta_tp skb).skb = mptcp_is_data_fin skb := by
  have h : ∀ f g : Nat, g &&& MPTCPHDR_FIN = 0 →
      (f ||| g) &&& MPTCPHDR_FIN = f &&& MPTCPHDR_FIN := by
    intro f g hg
    rw [Nat.and_distrib_right, hg]
    simp
  have hg : ∀ d mpcb, mptcp_get_64_bit d mpcb &&& MPTCPHDR_FIN = 0 := by
    intro d mpcb
    unfold mptcp_get_64_bit
    dsimp only
    repeat' split
    all_goals decide
  unfold detect_mapping_read mptcp_skb_set_data_seq mptcp_is_data_fin
  dsimp only
  repeat' split
  all_goals simp_all

theorem skb_set_data_seq_fields (skb : Skb) (mpcb : MptcpCb) :
    (mptcp_skb_set_data_seq skb mpcb).1.len = skb.len ∧
    (mptcp_skb_set_data_seq skb mpcb).1.seq = skb.seq ∧
    mptcp_is_data_fin (mptcp_skb_set_data_seq skb mpcb).1 = mptcp_is_data_fin skb ∧
    (mptcp_skb_set_data_seq skb mpcb).2.1
      = (if skb.mptcp_flags &&& MPTCPHDR_SEQ64_SET != 0
          then get_unaligned_be64 skb.hdr_dss 0 % 4294967296
          else get_unaligned_be32 skb.hdr_dss 0) ∧
    (mptcp_skb_set_data_seq skb mpcb).2.2
      = (if skb.mptcp_flags &&& MPTCPHDR_SEQ64_SET != 0 then 4 else 0) := by
  unfold mptcp_skb_set_data_seq
  by_cases h64 : (skb.mptcp_flags &&& MPTCPHDR_SEQ64_SET != 0) = true
  · rw [if_pos h64, if_pos h64, if_pos h64]
    refine ⟨rfl, rfl, ?_, rfl, rfl⟩
    have hg : mptcp_get_64_bit (get_unaligned_be64 skb.hdr_dss 0) mpcb
        &&& MPTCPHDR_FIN = 0 := by
      unfold mptcp_get_64_bit
      dsimp only
      repeat' split
      all_goals decide
    unfold mptcp_is_data_fin
    dsimp only
    rw [Nat.and_distrib_right, hg]
    simp
  · rw [if_neg h64, if_neg h64, if_neg h64]
    exact ⟨rfl, rfl, rfl, rfl, rfl⟩

theorem detect_mapping_read_pending (tp : TcpSock) (meta_tp : MetaSock) (skb : Skb)
    (hmap : tp.mapping_present = true) :
    (detect_mapping_read tp meta_tp skb).data_seq
      = (if skb.mptcp_flags &&& MPTCPHDR_SEQ64_SET != 0
          then get_unaligned_be64 skb.hdr_dss 0 % 4294967296
          else get_unaligned_be32 skb.hdr_dss 0) ∧
    (detect_mapping_read tp meta_tp skb).sub_seq
      = (if mptcp_is_data_fin skb && skb.len == 0 then skb.seq
          else add32 (get_unaligned_be32 skb.hdr_dss
            ((if skb.mptcp_flags &&& MPTCPHDR_SEQ64_SET != 0 then 4 else 0) + 4))
            tp.rcv_isn) ∧
    (detect_mapping_read tp meta_tp skb).data_len
      = get_unaligned_be16 skb.hdr_dss
          ((if skb.mptcp_flags &&& MPTCPHDR_SEQ64_SET != 0 then 4 else 0) + 8) := by
  obtain ⟨k1, k2, k3, k4, k5⟩ := skb_set_data_seq_fields skb meta_tp.mpcb
  unfold detect_mapping_read
  simp only [hmap, Bool.not_true, Bool.false_and, Bool.false_eq_true, if_false]
  rw [k1, k2, k3]
  by_cases hfin : (mptcp_is_data_fin skb && skb.len == 0) = true
  · rw [if_pos hfin, if_pos hfin]
    exact ⟨k4, rfl, by rw [k5]⟩
  · rw [if_neg hfin, if_neg hfin]
    exact ⟨k4, by rw [k5], by rw [k5]⟩

/-- C8 (as amended). Mapping consistency: on a subflow that is not in infinite-receive mode and
has a pending mapping, for a segment that carries a DSS mapping, `mptcp_detect_mapping` returns
1 if and only if the mapping that the option announces differs from the pending one in the low
32 bits of the data sequence number (the 4-byte field, or the 8-byte field of a DSS with
64-bit sequence number taken modulo `2^32`, against `map_data_seq` modulo `2^32`), in the
subflow start (the relative subflow sequence number plus `rcv_isn`, or the segment's own `seq`
for a DATA_FIN without payload, against `map_subseq`), in the length (against
`map_data_len + map_data_fin`) or in the DATA_FIN flag (against `map_data_fin`). When it
returns 1 it has reset the subflow and changed nothing else; otherwise it returns 0 and leaves
the subflow with every field of the pending mapping, the meta socket and the call log
unchanged. -/
theorem detect_mapping_pending_mismatch_iff (tp : TcpSock) (meta_tp : MetaSock)
    (calls : List ExtCall) (skb : Skb)
    (hinf : meta_tp.mpcb.infinite_mapping_rcv = false)
    (hmap : tp.mapping_present = true)
    (hseq : mptcp_is_data_seq skb = true) :
    ((mptcp_detect_mapping tp meta_tp calls skb).ret = 1 ↔
      ((if skb.mptcp_flags &&& MPTCPHDR_SEQ64_SET != 0
          then get_unaligned_be64 skb.hdr_dss 0 % 4294967296
          else get_unaligned_be32 skb.hdr_dss 0) ≠ tp.map_data_seq % 4294967296 ∨
       (if mptcp_is_data_fin skb && skb.len == 0 then skb.seq
          else add32 (get_unaligned_be32 skb.hdr_dss
            ((if skb.mptcp_flags &&& MPTCPHDR_SEQ64_SET != 0 then 4 else 0) + 4))
            tp.rcv_isn) ≠ tp.map_subseq ∨
       get_unaligned_be16 skb.hdr_dss
          ((if skb.mptcp_flags &&& MPTCPHDR_SEQ64_SET != 0 then 4 else 0) + 8)
          ≠ tp.map_data_len + (if tp.map_data_fin then 1 else 0) ∨
       mptcp_is_data_fin skb ≠ tp.map_data_fin)) ∧
    ((mptcp_detect_mapping tp meta_tp calls skb).ret = 1 →
      mptcp_detect_mapping tp meta_tp calls skb =
        { ret := 1, tp := tp, meta_tp := meta_tp,
          calls := calls ++ [ExtCall.inc_stats Mib.DSSNOMATCH, ExtCall.mptcp_send_reset],
          skb := some (detect_mapping_read tp meta_tp skb).skb }) ∧
    ((mptcp_detect_mapping tp meta_tp calls skb).ret ≠ 1 →
      mptcp_detect_mapping tp meta_tp calls skb =
        { ret := 0, tp := tp, meta_tp := meta_tp, calls := calls,
          skb := some (detect_mapping_read tp meta_tp skb).skb }) := by
  obtain ⟨r1, r2, r3⟩ := detect_mapping_read_pending tp meta_tp skb hmap
  have r4 := is_data_fin_read tp meta_tp skb
  rw [← r1, ← r2, ← r3, ← r4]
  unfold mptcp_detect_mapping
  simp only [hinf, hmap, hseq]
  generalize detect_mapping_read tp meta_tp skb = r
  by_cases h : (r.data_seq != tp.map_data_seq % 4294967296 || r.sub_seq != tp.map_subseq ||
      r.data_len != tp.map_data_len + (if tp.map_data_fin then 1 else 0) ||
      mptcp_is_data_fin r.skb != tp.map_data_fin) = true
  · have h' := h
    simp only [Bool.or_eq_true, bne_iff_ne, ne_eq] at h'
    simp [h]
    tauto
  · have h' := h
    simp only [Bool.or_eq_true, bne_iff_ne, ne_eq] at h'
    simp [h]
    tauto

theorem wellformed_passes_bounds (skb : Skb) (hlt : skb.len < 2147483648)
    (hwf : skb.end_seq = add32 (add32 skb.seq skb.len)
      (if skb.tcp_flags &&& TCPHDR_FIN != 0 then 1 else 0)) :
    ((!before skb.seq skb.end_seq &&
        after (if skb.tcp_flags &&& TCPHDR_FIN != 0 then sub32 skb.end_seq 1 else skb.end_seq)
          skb.seq) ||
      (mptcp_is_data_fin skb && skb.len == 0 && after skb.seq skb.end_seq) ||
      (!after (add32 skb.seq (skb.len % 4294967296)) skb.seq &&
        after (if skb.tcp_flags &&& TCPHDR_FIN != 0 then sub32 skb.end_seq 1 else skb.end_seq)
          skb.seq)) = false := by
  rw [hwf]
  simp only [Bool.or_eq_false_iff, Bool.and_eq_false_iff, Bool.not_eq_false', after, before,
    decide_eq_true_eq, decide_eq_false_iff_not, Bool.not_eq_true', beq_eq_false_iff_ne,
    Bool.not_eq_false]
  unfold sub32 add32
  split <;> omega

theorem push_pending_frames_keeps (m : MetaSock) :
    (mptcp_push_pending_frames m).mpcb.infinite_mapping_rcv = m.mpcb.infinite_mapping_rcv ∧
    (m.mpcb.infinite_mapping_snd = true →
      (mptcp_push_pending_frames m).mpcb.infinite_mapping_snd = true) ∧
    (mptcp_push_pending_frames m).mpcb.send_infinite_mapping = m.mpcb.send_infinite_mapping ∧
    (mptcp_push_pending_frames m).mpcb.infinite_rcv_seq = m.mpcb.infinite_rcv_seq ∧
    (mptcp_push_pending_frames m).mpcb.rcv_high_order = m.mpcb.rcv_high_order ∧
    (mptcp_push_pending_frames m).mpcb.rcv_hiseq_index = m.mpcb.rcv_hiseq_index ∧
    (mptcp_push_pending_frames m).rcv_nxt = m.rcv_nxt ∧
    (mptcp_push_pending_frames m).snd_una = m.snd_una ∧
    (mptcp_push_pending_frames m).snd_wnd = m.snd_wnd ∧
    (mptcp_push_pending_frames m).bytes_acked = m.bytes_acked ∧
    (mptcp_push_pending_frames m).sk_state = m.sk_state := by
  unfold mptcp_push_pending_frames
  split
  · split
    · exact ⟨rfl, fun h => h, rfl, rfl, rfl, rfl, rfl, rfl, rfl, rfl, rfl⟩
    · refine ⟨rfl, fun h => ?_, rfl, rfl, rfl, rfl, rfl, rfl, rfl, rfl, rfl⟩
      simp [h]
  · exact ⟨rfl, fun h => h, rfl, rfl, rfl, rfl, rfl, rfl, rfl, rfl, rfl⟩

theorem push_pending_frames_idle (m : MetaSock)
    (h : (m.packets_out = 0 ∧ m.sk_write_queue = []) ∨ m.xmit = []) :
    mptcp_push_pending_frames m = m := by
  unfold mptcp_push_pending_frames
  rcases h with ⟨h1, h2⟩ | h
  · simp [h1, h2]
  · rw [h]
    split <;> rfl

theorem restart_sending_requeue_keeps (meta_tp : MetaSock) (in_flight_seq : Nat) :
    (restart_sending_requeue meta_tp in_flight_seq).mpcb.infinite_mapping_rcv
      = meta_tp.mpcb.infinite_mapping_rcv ∧
    (restart_sending_requeue meta_tp in_flight_seq).mpcb.infinite_mapping_snd
      = meta_tp.mpcb.infinite_mapping_snd ∧
    (restart_sending_requeue meta_tp in_flight_seq).mpcb.send_infinite_mapping
      = meta_tp.mpcb.send_infinite_mapping ∧
    (restart_sending_requeue meta_tp in_flight_seq).mpcb.infinite_rcv_seq
      = meta_tp.mpcb.infinite_rcv_seq ∧
    (restart_sending_requeue meta_tp in_flight_seq).mpcb.rcv_high_order
      = meta_tp.mpcb.rcv_high_order ∧
    (restart_sending_requeue meta_tp in_flight_seq).mpcb.rcv_hiseq_index
      = meta_tp.mpcb.rcv_hiseq_index ∧
    (restart_sending_requeue meta_tp in_flight_seq).rcv_nxt = meta_tp.rcv_nxt ∧
    (restart_sending_requeue meta_tp in_flight_seq).snd_nxt = in_flight_seq ∧
    (restart_sending_requeue meta_tp in_flight_seq).snd_una = meta_tp.snd_una ∧
    (restart_sending_requeue meta_tp in_flight_seq).mpcb.reinject_queue
      = meta_tp.mpcb.reinject_queue ∧
    (restart_sending_requeue meta_tp in_flight_seq).xmit = meta_tp.xmit := by
  unfold restart_sending_requeue
  dsimp only
  split <;> simp

theorem restart_sending_keeps_rcv (meta_tp : MetaSock) (in_flight_seq : Nat)
    (calls : List ExtCall) :
    (mptcp_restart_sending meta_tp in_flight_seq calls).1.mpcb.infinite_mapping_rcv
      = meta_tp.mpcb.infinite_mapping_rcv ∧
    (meta_tp.mpcb.infinite_mapping_snd = true →
      (mptcp_restart_sending meta_tp in_flight_seq calls).1.mpcb.infinite_mapping_snd = true) ∧
    (mptcp_restart_sending meta_tp in_flight_seq calls).1.mpcb.send_infinite_mapping
      = meta_tp.mpcb.send_infinite_mapping ∧
    (mptcp_restart_sending meta_tp in_flight_seq calls).1.mpcb.infinite_rcv_seq
      = meta_tp.mpcb.infinite_rcv_seq ∧
    (mptcp_restart_sending meta_tp in_flight_seq calls).1.mpcb.rcv_high_order
      = meta_tp.mpcb.rcv_high_order ∧
    (mptcp_restart_sending meta_tp in_flight_seq calls).1.mpcb.rcv_hiseq_index
      = meta_tp.mpcb.rcv_hiseq_index ∧
    (mptcp_restart_sending meta_tp in_flight_seq calls).1.rcv_nxt = meta_tp.rcv_nxt ∧
    (mptcp_restart_sending meta_tp in_flight_seq calls).1.snd_una = meta_tp.snd_una := by
  obtain ⟨p1, p2, p3, p4, p5, p6, p7, p8, -⟩ :=
    push_pending_frames_keeps (restart_sending_requeue meta_tp in_flight_seq)
  obtain ⟨q1, q2, q3, q4, q5, q6, q7, -, q9, -⟩ :=
    restart_sending_requeue_keeps meta_tp in_flight_seq
  unfold mptcp_restart_sending
  dsimp only
  exact ⟨p1.trans q1, fun h => p2 (q2.trans h), p3.trans q3, p4.trans q4, p5.trans q5,
    p6.trans q6, p7.trans q7, p8.trans q9⟩

theorem detect_mapping_record_accept (tp : TcpSock) (meta_tp : MetaSock) (calls : List ExtCall)
    (skb : Skb) (data_seq sub_seq data_len : Nat) (set_infinite_rcv : Bool)
    (h : ((!before sub_seq skb.end_seq &&
        after (if skb.tcp_flags &&& TCPHDR_FIN != 0 then sub32 skb.end_seq 1 else skb.end_seq)
          skb.seq) ||
      (mptcp_is_data_fin skb && skb.len == 0 && after sub_seq skb.end_seq) ||
      (!after (add32 sub_seq (if mptcp_is_data_fin skb then sub32 data_len 1 else data_len))
          skb.seq &&
        after (if skb.tcp_flags &&& TCPHDR_FIN != 0 then sub32 skb.end_seq 1 else skb.end_seq)
          skb.seq)) = false) :
    (detect_mapping_record tp meta_tp calls skb data_seq sub_seq data_len set_infinite_rcv).ret
      = 0 ∧
    (detect_mapping_record tp meta_tp calls skb data_seq sub_seq data_len set_infinite_rcv).tp
      = { tp with
          map_data_seq := (detect_mapping_record tp meta_tp calls skb data_seq sub_seq data_len
            set_infinite_rcv).tp.map_data_seq
          map_data_len := (if mptcp_is_data_fin skb then sub32 data_len 1 else data_len) % 65536
          map_subseq := sub_seq
          map_data_fin := mptcp_is_data_fin skb
          mapping_present := true } ∧
    (detect_mapping_record tp meta_tp calls skb data_seq sub_seq data_len set_infinite_rcv).meta_tp
      = { meta_tp with mpcb :=
          if set_infinite_rcv then
            { meta_tp.mpcb with infinite_rcv_seq := (detect_mapping_record tp meta_tp calls skb
                data_seq sub_seq data_len set_infinite_rcv).tp.map_data_seq }
          else meta_tp.mpcb } ∧
    (skb.mptcp_flags &&& MPTCPHDR_SEQ64_SET = 0 →
      (detect_mapping_record tp meta_tp calls skb data_seq sub_seq data_len
          set_infinite_rcv).tp.map_data_seq
        = if after data_seq meta_tp.rcv_nxt && data_seq < meta_tp.rcv_nxt then
            mptcp_get_data_seq_64 meta_tp.mpcb
              (if meta_tp.mpcb.rcv_hiseq_index != 0 then 0 else 1) data_seq
          else mptcp_get_data_seq_64 meta_tp.mpcb meta_tp.mpcb.rcv_hiseq_index data_seq) := by
  unfold detect_mapping_record
  simp only [h, Bool.false_eq_true, if_false]
  refine ⟨?_, ?_, ?_, ?_⟩
  · trivial
  · trivial
  · trivial
  · intro h64
    simp only [h64, if_true]

theorem detect_zero_length_aux (tp : TcpSock) (meta_tp : MetaSock) (calls : List ExtCall)
    (skb : Skb)
    (hinf : meta_tp.mpcb.infinite_mapping_rcv = false)
    (hmap : tp.mapping_present = false)
    (hopt : mptcp_is_data_seq skb = true ∨ mptcp_is_data_mpcapable skb = true)
    (hlen : (detect_mapping_read tp meta_tp skb).data_len = 0)
    (hstate : meta_tp.sk_state ≠ TCP_CLOSE) :
    mptcp_detect_mapping tp meta_tp calls skb =
      detect_mapping_record { tp with fully_established := true, send_mp_fail := false }
        { (mptcp_restart_sending
            { meta_tp with mpcb := { meta_tp.mpcb with infinite_mapping_rcv := true,
                                                       send_infinite_mapping := true } }
            meta_tp.snd_una
            (mptcp_fallback_close
              { meta_tp with mpcb := { meta_tp.mpcb with infinite_mapping_rcv := true,
                                                         send_infinite_mapping := true } }
              calls).1).1 with out_of_order_queue := [] }
        ((mptcp_restart_sending
            { meta_tp with mpcb := { meta_tp.mpcb with infinite_mapping_rcv := true,
                                                       send_infinite_mapping := true } }
            meta_tp.snd_una
            (mptcp_fallback_close
              { meta_tp with mpcb := { meta_tp.mpcb with infinite_mapping_rcv := true,
                                                         send_infinite_mapping := true } }
              calls).1).2 ++ [ExtCall.inc_stats Mib.INFINITEMAPRX])
        (detect_mapping_read tp meta_tp skb).skb (detect_mapping_read tp meta_tp skb).data_seq
        (detect_mapping_read tp meta_tp skb).skb.seq
        (((detect_mapping_read tp meta_tp skb).skb.len
          + if mptcp_is_data_fin (detect_mapping_read tp meta_tp skb).skb then 1 else 0)
          % 4294967296) true := by
  have h1 : (!(!false && mptcp_is_data_mpcapable skb) && !mptcp_is_data_seq skb) = false := by
    rcases hopt with h | h <;> simp [h]
  have hfc : (mptcp_fallback_close
      { meta_tp with mpcb := { meta_tp.mpcb with infinite_mapping_rcv := true,
                                                 send_infinite_mapping := true } }
      calls).2 = false := by
    simp [mptcp_fallback_close, hstate]
  unfold mptcp_detect_mapping
  simp only [hinf, hmap, h1, hlen, Bool.false_eq_true, if_false, Bool.false_and, if_true, hfc]

/-- C11. A fresh mapping of length zero makes `mptcp_detect_mapping` enter infinite mode: on a
subflow that is not in infinite-receive mode and has no pending mapping, with the meta socket
not closed, for a segment (`end_seq = seq + len + FIN`, `len < 2^16`) whose mapping, as read by
the function, has `data_len == 0`, the function returns 0 and afterwards
`infinite_mapping_rcv` and `send_infinite_mapping` are set, the subflow is fully established,
`send_mp_fail` is clear, the recorded mapping is the segment itself (`map_subseq` is its `seq`,
`map_data_len` its payload length, `map_data_fin` its DATA_FIN flag) and `infinite_rcv_seq` is
the recorded `map_data_seq`. -/
theorem detect_mapping_zero_length_enters_infinite (tp : TcpSock) (meta_tp : MetaSock)
    (calls : List ExtCall) (skb : Skb)
    (hinf : meta_tp.mpcb.infinite_mapping_rcv = false)
    (hmap : tp.mapping_present = false)
    (hopt : mptcp_is_data_seq skb = true ∨ mptcp_is_data_mpcapable skb = true)
    (hlen : (detect_mapping_read tp meta_tp skb).data_len = 0)
    (hstate : meta_tp.sk_state ≠ TCP_CLOSE)
    (hlt : skb.len < 65536)
    (hwf : skb.end_seq = add32 (add32 skb.seq skb.len)
      (if skb.tcp_flags &&& TCPHDR_FIN != 0 then 1 else 0)) :
    (mptcp_detect_mapping tp meta_tp calls skb).ret = 0 ∧
    (mptcp_detect_mapping tp meta_tp calls skb).meta_tp.mpcb.infinite_mapping_rcv = true ∧
    (mptcp_detect_mapping tp meta_tp calls skb).meta_tp.mpcb.send_infinite_mapping = true ∧
    (mptcp_detect_mapping tp meta_tp calls skb).tp.fully_established = true ∧
    (mptcp_detect_mapping tp meta_tp calls skb).tp.send_mp_fail = false ∧
    (mptcp_detect_mapping tp meta_tp calls skb).tp.mapping_present = true ∧
    (mptcp_detect_mapping tp meta_tp calls skb).tp.map_subseq = skb.seq ∧
    (mptcp_detect_mapping tp meta_tp calls skb).tp.map_data_len = skb.len ∧
    (mptcp_detect_mapping tp meta_tp calls skb).tp.map_data_fin = mptcp_is_data_fin skb ∧
    (mptcp_detect_mapping tp meta_tp calls skb).meta_tp.mpcb.infinite_rcv_seq
      = (mptcp_detect_mapping tp meta_tp calls skb).tp.map_data_seq := by
  obtain ⟨f1, f2, f3, f4⟩ := detect_mapping_read_fields tp meta_tp skb
  have f5 := is_data_fin_read tp meta_tp skb
  have hb := wellformed_passes_bounds skb (by omega) hwf
  have hdl : add32 skb.seq
      (if mptcp_is_data_fin skb
        then sub32 ((skb.len + if mptcp_is_data_fin skb then 1 else 0) % 4294967296) 1
        else (skb.len + if mptcp_is_data_fin skb then 1 else 0) % 4294967296)
      = add32 skb.seq (skb.len % 4294967296) := by
    unfold add32 sub32
    split
    · simp
      omega
    · simp
  have hdl2 : (if mptcp_is_data_fin skb
        then sub32 ((skb.len + if mptcp_is_data_fin skb then 1 else 0) % 4294967296) 1
        else (skb.len + if mptcp_is_data_fin skb then 1 else 0) % 4294967296) % 65536
      = skb.len := by
    unfold sub32
    split <;> simp <;> omega
  rw [← hdl] at hb
  rw [← f1, ← f2, ← f3, ← f4, ← f5] at hb
  rw [detect_zero_length_aux tp meta_tp calls skb hinf hmap hopt hlen hstate]
  have hacc := fun tp1 m2 c2 ds => detect_mapping_record_accept tp1 m2 c2 _ ds _ _ true hb
  obtain ⟨k1, -, k3, -⟩ := restart_sending_keeps_rcv
    { meta_tp with mpcb := { meta_tp.mpcb with infinite_mapping_rcv := true,
                                               send_infinite_mapping := true } }
    meta_tp.snd_una
    (mptcp_fallback_close
      { meta_tp with mpcb := { meta_tp.mpcb with infinite_mapping_rcv := true,
                                                 send_infinite_mapping := true } }
      calls).1
  refine ⟨(hacc _ _ _ _).1, ?_, ?_, ?_, ?_, ?_, ?_, ?_, ?_, ?_⟩
  · rw [(hacc _ _ _ _).2.2.1]; exact k1
  · rw [(hacc _ _ _ _).2.2.1]; exact k3
  · rw [(hacc _ _ _ _).2.1]
  · rw [(hacc _ _ _ _).2.1]
  · rw [(hacc _ _ _ _).2.1]
  · rw [(hacc _ _ _ _).2.1]; exact f1
  · rw [(hacc _ _ _ _).2.1]; simp only [f3, f5]; exact hdl2
  · rw [(hacc _ _ _ _).2.1]; exact f5
  · rw [(hacc _ _ _ _).2.2.1]; rfl

/-- C12. In infinite-receive mode the mapping is inferred, never read from the wire: for every
segment, whatever flags and option bytes it carries, `mptcp_detect_mapping` returns 0, leaves
the meta socket, the call log and the segment as they are, and records `map_subseq` as the
segment's `seq`, `map_data_len` as its payload length (held in 16 bits, so exact for every
payload below `2^16`), `map_data_fin` as its subflow FIN flag and `map_data_seq` as
`infinite_rcv_seq - (copied_seq - seq)` in 64-bit arithmetic, the subtrahend being the 32-bit
difference. -/
theorem detect_mapping_infinite_infers_mapping (tp : TcpSock) (meta_tp : MetaSock)
    (calls : List ExtCall) (skb : Skb)
    (hinf : meta_tp.mpcb.infinite_mapping_rcv = true) :
    mptcp_detect_mapping tp meta_tp calls skb =
      { ret := 0,
        tp := { tp with
          map_data_seq := (meta_tp.mpcb.infinite_rcv_seq + 18446744073709551616
            - sub32 tp.copied_seq skb.seq) % 18446744073709551616
          map_subseq := skb.seq
          map_data_len := skb.len % 65536
          map_data_fin := skb.tcp_flags &&& TCPHDR_FIN != 0
          mapping_present := true },
        meta_tp := meta_tp, calls := calls, skb := some skb } ∧
    (skb.len < 65536 → (mptcp_detect_mapping tp meta_tp calls skb).tp.map_data_len = skb.len) ∧
    (tp.copied_seq = skb.seq → meta_tp.mpcb.infinite_rcv_seq < 18446744073709551616 →
      (mptcp_detect_mapping tp meta_tp calls skb).tp.map_data_seq
        = meta_tp.mpcb.infinite_rcv_seq) := by
  unfold mptcp_detect_mapping
  simp only [hinf, if_true]
  refine ⟨trivial, ?_, ?_⟩
  · intro h
    exact Nat.mod_eq_of_lt h
  · intro h1 h2
    rw [h1]
    unfold sub32
    omega


theorem detect_mapping_record_ret (tp : TcpSock) (meta_tp : MetaSock) (calls : List ExtCall)
    (skb : Skb) (data_seq sub_seq data_len : Nat) (set_infinite_rcv : Bool)
    (h : (detect_mapping_record tp meta_tp calls skb data_seq sub_seq data_len
      set_infinite_rcv).ret = 0) :
    ((!before sub_seq skb.end_seq &&
        after (if skb.tcp_flags &&& TCPHDR_FIN != 0 then sub32 skb.end_seq 1 else skb.end_seq)
          skb.seq) ||
      (mptcp_is_data_fin skb && skb.len == 0 && after sub_seq skb.end_seq) ||
      (!after (add32 sub_seq (if mptcp_is_data_fin skb then sub32 data_len 1 else data_len))
          skb.seq &&
        after (if skb.tcp_flags &&& TCPHDR_FIN != 0 then sub32 skb.end_seq 1 else skb.end_seq)
          skb.seq)) = false := by
  by_contra hc
  rw [Bool.not_eq_false] at hc
  unfold detect_mapping_record at h
  simp only [hc, if_true] at h
  exact absurd h (by decide)

theorem detect_mapping_read_no64 (tp : TcpSock) (meta_tp : MetaSock) (skb : Skb)
    (h64 : skb.mptcp_flags &&& MPTCPHDR_SEQ64_SET = 0) :
    (detect_mapping_read tp meta_tp skb).skb = skb := by
  unfold detect_mapping_read mptcp_skb_set_data_seq
  simp only [h64]
  repeat' split
  all_goals simp_all

theorem wrap_safe_arith (mpcb : MptcpCb) (d n k : Nat)
    (hrel : high_order mpcb.rcv_high_order (if mpcb.rcv_hiseq_index != 0 then 0 else 1)
      = (high_order mpcb.rcv_high_order mpcb.rcv_hiseq_index + 1) % 4294967296)
    (hu32 : high_order mpcb.rcv_high_order mpcb.rcv_hiseq_index < 4294967296)
    (hn : n < 4294967296) (hd : d < 4294967296) (hk : sub32 d n = k) (hk2 : k < 2147483648) :
    (if after d n && d < n then
        mptcp_get_data_seq_64 mpcb (if mpcb.rcv_hiseq_index != 0 then 0 else 1) d
      else mptcp_get_data_seq_64 mpcb mpcb.rcv_hiseq_index d)
      = (mptcp_get_data_seq_64 mpcb mpcb.rcv_hiseq_index n + k) % 18446744073709551616 := by
  unfold mptcp_get_data_seq_64
  rw [hrel]
  generalize high_order mpcb.rcv_high_order mpcb.rcv_hiseq_index = sel at hu32 ⊢
  unfold sub32 at hk
  by_cases hlt : d < n
  · have ha : after d n = true := by
      unfold after before sub32
      simp only [decide_eq_true_eq]
      omega
    simp only [ha, hlt, decide_True, Bool.and_self, if_true]
    omega
  · simp only [hlt, decide_False, Bool.and_false, Bool.false_eq_true, if_false]
    omega

/-- C15. Wrap safety of the 64-bit reconstruction: assume the half not selected by
`rcv_hiseq_index` is the selected half plus one in `u32` arithmetic (so the halves may be
`2^32 - 1` and 0), and let `k < 2^31` be the distance by which the announced 32-bit `data_seq`
is at or ahead of the meta `rcv_nxt` modulo `2^32`. Whenever `mptcp_detect_mapping` accepts a
fresh mapping that came without 64-bit sequence number (it returns 0 on a subflow that had no
mapping and is not in infinite-receive mode), the recorded `map_data_seq` is the 64-bit
receive cursor plus `k` in `u64` arithmetic, also when `data_seq` is numerically below
`rcv_nxt`. -/
theorem detect_mapping_wrap_safe (tp : TcpSock) (meta_tp : MetaSock) (calls : List ExtCall)
    (skb : Skb) (k : Nat)
    (hinf : meta_tp.mpcb.infinite_mapping_rcv = false)
    (hmap : tp.mapping_present = false)
    (hopt : mptcp_is_data_seq skb = true ∨ mptcp_is_data_mpcapable skb = true)
    (h64 : skb.mptcp_flags &&& MPTCPHDR_SEQ64_SET = 0)
    (hrel : high_order meta_tp.mpcb.rcv_high_order
        (if meta_tp.mpcb.rcv_hiseq_index != 0 then 0 else 1)
      = (high_order meta_tp.mpcb.rcv_high_order meta_tp.mpcb.rcv_hiseq_index + 1)
          % 4294967296)
    (hu32 : high_order meta_tp.mpcb.rcv_high_order meta_tp.mpcb.rcv_hiseq_index < 4294967296)
    (hn : meta_tp.rcv_nxt < 4294967296)
    (hd : (detect_mapping_read tp meta_tp skb).data_seq < 4294967296)
    (hk : sub32 (detect_mapping_read tp meta_tp skb).data_seq meta_tp.rcv_nxt = k)
    (hk2 : k < 2147483648)
    (hret : (mptcp_detect_mapping tp meta_tp calls skb).ret = 0) :
    (mptcp_detect_mapping tp meta_tp calls skb).tp.map_data_seq
      = (mptcp_get_rcv_nxt_64 meta_tp + k) % 18446744073709551616 := by
  have h1 : (!(!false && mptcp_is_data_mpcapable skb) && !mptcp_is_data_seq skb) = false := by
    rcases hopt with h | h <;> simp [h]
  have hskb := detect_mapping_read_no64 tp meta_tp skb h64
  unfold mptcp_get_rcv_nxt_64
  by_cases hl : (detect_mapping_read tp meta_tp skb).data_len = 0
  · by_cases hst : meta_tp.sk_state = TCP_CLOSE
    · exfalso
      have hfc : (mptcp_fallback_close
          { meta_tp with mpcb := { meta_tp.mpcb with infinite_mapping_rcv := true,
                                                     send_infinite_mapping := true } }
          calls).2 = true := by
        simp [mptcp_fallback_close, hst]
      unfold mptcp_detect_mapping at hret
      simp only [hinf, hmap, h1, hl, Bool.false_eq_true, if_false, Bool.false_and, if_true,
        hfc] at hret
      exact absurd hret (by decide)
    · rw [detect_zero_length_aux tp meta_tp calls skb hinf hmap hopt hl hst] at hret ⊢
      have hc := detect_mapping_record_ret _ _ _ _ _ _ _ _ hret
      have h64r : (detect_mapping_read tp meta_tp skb).skb.mptcp_flags
          &&& MPTCPHDR_SEQ64_SET = 0 := by
        rw [hskb]; exact h64
      have hacc := fun tp1 m2 c2 ds si =>
        (detect_mapping_record_accept tp1 m2 c2 _ ds _ _ si hc).2.2.2 h64r
      rw [hacc _ _ _ _ _]
      obtain ⟨-, -, -, -, k5, k6, k7, -⟩ := restart_sending_keeps_rcv
        { meta_tp with mpcb := { meta_tp.mpcb with infinite_mapping_rcv := true,
                                                   send_infinite_mapping := true } }
        meta_tp.snd_una
        (mptcp_fallback_close
          { meta_tp with mpcb := { meta_tp.mpcb with infinite_mapping_rcv := true,
                                                     send_infinite_mapping := true } }
          calls).1
      have e := wrap_safe_arith meta_tp.mpcb _ _ k hrel hu32 hn hd hk hk2
      rw [← e]
      unfold mptcp_get_data_seq_64
      dsimp only at k5 k6 k7 ⊢
      rw [k5, k6, k7]
  · by_cases hf : tp.send_mp_fail = true
    · exfalso
      unfold mptcp_detect_mapping at hret
      simp only [hinf, hmap, h1, hl, hf, Bool.false_eq_true, if_false, Bool.false_and,
        if_true] at hret
      exact absurd hret (by decide)
    · have hf2 : tp.send_mp_fail = false := by simpa using hf
      rw [detect_fresh_aux tp meta_tp calls skb hinf hmap hopt hf2 hl] at hret ⊢
      have hc := detect_mapping_record_ret _ _ _ _ _ _ _ _ hret
      have h64r : (detect_mapping_read tp meta_tp skb).skb.mptcp_flags
          &&& MPTCPHDR_SEQ64_SET = 0 := by
        rw [hskb]; exact h64
      have hacc := fun tp1 m2 c2 ds si =>
        (detect_mapping_record_accept tp1 m2 c2 _ ds _ _ si hc).2.2.2 h64r
      rw [hacc _ _ _ _ _]
      exact wrap_safe_arith meta_tp.mpcb _ _ k hrel hu32 hn hd hk hk2

/-! ## The stored high-order halves -/

/-- C16 (as amended). The 64-bit receive cursor across a wrap of `rcv_nxt`: assume the half
not selected by `rcv_hiseq_index` is the selected half plus one in `u32` arithmetic. For every
advance of the meta `rcv_nxt` by `n` bytes, `0 < n < 2^32`, after
`mptcp_check_rcvseq_wrap(meta_tp, old_rcv_nxt)` the value of `mptcp_get_rcv_nxt_64` is its
value before the advance plus `n` modulo `2^64`, and the assumed relation between the two
halves still holds. Neither half has decreased, except when `rcv_nxt` has wrapped while the
selected half was `2^32 - 2` or `2^32 - 1`: then that half, increased by 2 in `u32`, is
numerically below its old value. -/
theorem check_rcvseq_wrap_advances_cursor (meta_tp : MetaSock) (n : Nat)
    (hrel : high_order meta_tp.mpcb.rcv_high_order
        (if meta_tp.mpcb.rcv_hiseq_index != 0 then 0 else 1)
      = (high_order meta_tp.mpcb.rcv_high_order meta_tp.mpcb.rcv_hiseq_index + 1)
          % 4294967296)
    (hu32 : high_order meta_tp.mpcb.rcv_high_order meta_tp.mpcb.rcv_hiseq_index < 4294967296)
    (hold : meta_tp.rcv_nxt < 4294967296) (hn : 0 < n) (hn2 : n < 4294967296) :
    mptcp_get_rcv_nxt_64
        (mptcp_check_rcvseq_wrap { meta_tp with rcv_nxt := add32 meta_tp.rcv_nxt n }
          meta_tp.rcv_nxt)
      = (mptcp_get_rcv_nxt_64 meta_tp + n) % 18446744073709551616 ∧
    high_order
        (mptcp_check_rcvseq_wrap { meta_tp with rcv_nxt := add32 meta_tp.rcv_nxt n }
          meta_tp.rcv_nxt).mpcb.rcv_high_order
        (if (mptcp_check_rcvseq_wrap { meta_tp with rcv_nxt := add32 meta_tp.rcv_nxt n }
          meta_tp.rcv_nxt).mpcb.rcv_hiseq_index != 0 then 0 else 1)
      = (high_order
          (mptcp_check_rcvseq_wrap { meta_tp with rcv_nxt := add32 meta_tp.rcv_nxt n }
            meta_tp.rcv_nxt).mpcb.rcv_high_order
          (mptcp_check_rcvseq_wrap { meta_tp with rcv_nxt := add32 meta_tp.rcv_nxt n }
            meta_tp.rcv_nxt).mpcb.rcv_hiseq_index + 1) % 4294967296 ∧
    (¬(add32 meta_tp.rcv_nxt n < meta_tp.rcv_nxt ∧
        4294967296 ≤ high_order meta_tp.mpcb.rcv_high_order meta_tp.mpcb.rcv_hiseq_index + 2) →
      meta_tp.mpcb.rcv_high_order.1
        ≤ (mptcp_check_rcvseq_wrap { meta_tp with rcv_nxt := add32 meta_tp.rcv_nxt n }
            meta_tp.rcv_nxt).mpcb.rcv_high_order.1 ∧
      meta_tp.mpcb.rcv_high_order.2
        ≤ (mptcp_check_rcvseq_wrap { meta_tp with rcv_nxt := add32 meta_tp.rcv_nxt n }
            meta_tp.rcv_nxt).mpcb.rcv_high_order.2) ∧
    (add32 meta_tp.rcv_nxt n < meta_tp.rcv_nxt →
      4294967296 ≤ high_order meta_tp.mpcb.rcv_high_order meta_tp.mpcb.rcv_hiseq_index + 2 →
      high_order
          (mptcp_check_rcvseq_wrap { meta_tp with rcv_nxt := add32 meta_tp.rcv_nxt n }
            meta_tp.rcv_nxt).mpcb.rcv_high_order meta_tp.mpcb.rcv_hiseq_index
        < high_order meta_tp.mpcb.rcv_high_order meta_tp.mpcb.rcv_hiseq_index) := by
  unfold mptcp_check_rcvseq_wrap mptcp_get_rcv_nxt_64 mptcp_get_data_seq_64
  dsimp only
  unfold high_order set_high_order add32 at *
  by_cases hw : meta_tp.rcv_nxt > (meta_tp.rcv_nxt + n) % 4294967296
  · simp only [hw, if_true]
    by_cases hi : meta_tp.mpcb.rcv_hiseq_index = 0
    · simp [hi] at hrel hu32 ⊢
      omega
    · simp [hi] at hrel hu32 ⊢
      omega
  · simp only [hw, if_false]
    refine ⟨by omega, hrel, fun _ => ⟨le_refl _, le_refl _⟩, fun h => h.elim⟩

/-- C17 (as amended). The rollback of `mptcp_restart_sending` exactly undoes a send-side wrap:
for every value of the two `u32` halves of `snd_high_order` and of the one-bit
`snd_hiseq_index`, when `mptcp_check_sndseq_wrap` has performed its wrap step and the rollback
of `mptcp_restart_sending` (lines 651-655) then runs with `snd_nxt` numerically below the
restart point, the halves and the index are as they were before the wrap. And for every state,
`mptcp_restart_sending` is that requeueing followed by `mptcp_push_pending_frames`: the
requeueing sets `snd_nxt == in_flight_seq` and leaves the halves and the index alone unless
`snd_nxt < in_flight_seq`, and this is the state at return whenever the push starts no transmit
run (no packet out and an empty write queue after the requeueing) or no run is left that sends
something. -/
theorem restart_sending_undoes_sndseq_wrap (meta_tp : MetaSock) (inc : Int) (wrapped : MetaSock)
    (in_flight_seq : Nat) (calls : List ExtCall)
    (h1 : meta_tp.mpcb.snd_high_order.1 < 4294967296)
    (h2 : meta_tp.mpcb.snd_high_order.2 < 4294967296)
    (hidx : meta_tp.mpcb.snd_hiseq_index ≤ 1)
    (hwrap : meta_tp.snd_nxt > (((meta_tp.snd_nxt : Int) + inc) % 4294967296).toNat)
    (hm : wrapped.mpcb = (mptcp_check_sndseq_wrap meta_tp inc).mpcb)
    (hlt : wrapped.snd_nxt < in_flight_seq) :
    (mptcp_check_sndseq_wrap meta_tp inc).mpcb.snd_hiseq_index
      = (if meta_tp.mpcb.snd_hiseq_index != 0 then 0 else 1) ∧
    high_order (mptcp_check_sndseq_wrap meta_tp inc).mpcb.snd_high_order
        (mptcp_check_sndseq_wrap meta_tp inc).mpcb.snd_hiseq_index
      = add32 (high_order meta_tp.mpcb.snd_high_order
          (if meta_tp.mpcb.snd_hiseq_index != 0 then 0 else 1)) 2 ∧
    (restart_sending_requeue wrapped in_flight_seq).mpcb = meta_tp.mpcb ∧
    (∀ m : MetaSock,
      (mptcp_restart_sending m in_flight_seq calls).1
        = mptcp_push_pending_frames (restart_sending_requeue m in_flight_seq) ∧
      (restart_sending_requeue m in_flight_seq).snd_nxt = in_flight_seq ∧
      (¬ m.snd_nxt < in_flight_seq → (restart_sending_requeue m in_flight_seq).mpcb = m.mpcb) ∧
      (((restart_sending_requeue m in_flight_seq).packets_out = 0 ∧
          (restart_sending_requeue m in_flight_seq).sk_write_queue = []) ∨ m.xmit = [] →
        (mptcp_restart_sending m in_flight_seq calls).1
          = restart_sending_requeue m in_flight_seq)) := by
  have hw : (mptcp_check_sndseq_wrap meta_tp inc).mpcb
      = { meta_tp.mpcb with
          snd_hiseq_index := if meta_tp.mpcb.snd_hiseq_index != 0 then 0 else 1
          snd_high_order := set_high_order meta_tp.mpcb.snd_high_order
            (if meta_tp.mpcb.snd_hiseq_index != 0 then 0 else 1)
            (add32 (high_order meta_tp.mpcb.snd_high_order
              (if meta_tp.mpcb.snd_hiseq_index != 0 then 0 else 1)) 2) } := by
    unfold mptcp_check_sndseq_wrap
    simp only [hwrap, if_true]
  refine ⟨?_, ?_, ?_, ?_⟩
  · rw [hw]
  · rw [hw]
    unfold high_order set_high_order
    split <;> simp
  · unfold restart_sending_requeue
    simp only [hlt, if_true, hm, hw]
    generalize meta_tp.mpcb = c at *
    cases c
    simp only at h1 h2 hidx ⊢
    rcases Nat.le_one_iff_eq_zero_or_eq_one.mp hidx with h | h
    · subst h
      simp [high_order, set_high_order, add32, sub32, Prod.ext_iff]
      omega
    · subst h
      simp [high_order, set_high_order, add32, sub32, Prod.ext_iff]
      omega
  · intro m
    refine ⟨rfl, (restart_sending_requeue_keeps m in_flight_seq).2.2.2.2.2.2.2.1, ?_, ?_⟩
    · intro h
      unfold restart_sending_requeue
      simp only [h, if_false]
    · intro h
      show mptcp_push_pending_frames (restart_sending_requeue m in_flight_seq)
        = restart_sending_requeue m in_flight_seq
      exact push_pending_frames_idle _ (h.imp (fun x => x)
        (fun x => (restart_sending_requeue_keeps m in_flight_seq).2.2.2.2.2.2.2.2.2.2.trans x))

/-! ## Checksum failure -/

theorem mptcp_fin_mpcb (meta_tp : MetaSock) (calls : List ExtCall) :
    (mptcp_fin meta_tp calls).1.mpcb = meta_tp.mpcb := by
  unfold mptcp_fin
  dsimp only
  repeat' split
  all_goals rfl

theorem check_rcvseq_wrap_inf (meta_tp : MetaSock) (old_rcv_nxt : Nat) :
    infinite_state (mptcp_check_rcvseq_wrap meta_tp old_rcv_nxt).mpcb
      = infinite_state meta_tp.mpcb := by
  unfold mptcp_check_rcvseq_wrap
  split <;> rfl

theorem rcv_one_inf (ops : MetaRcvOps) (skb : Skb) (meta_tp : MetaSock) (calls : List ExtCall)
    (data_queued : Bool) :
    infinite_state (queue_skb_rcv_one ops skb meta_tp calls data_queued).1.mpcb
      = infinite_state meta_tp.mpcb := by
  unfold queue_skb_rcv_one
  dsimp only
  split
  · rfl
  · rw [check_rcvseq_wrap_inf]
    simp only [apply_ite MetaSock.mpcb, ite_self, apply_ite Prod.fst, mptcp_fin_mpcb]

theorem rcv_walk_inf (ops : MetaRcvOps) (map_end : Nat) :
    ∀ (q : List Skb) (tp : TcpSock) (meta_tp : MetaSock) (calls : List ExtCall) (dq : Bool),
      infinite_state (queue_skb_rcv_walk ops map_end q tp meta_tp calls dq).2.1.mpcb
        = infinite_state meta_tp.mpcb := by
  intro q
  induction q with
  | nil => intro tp meta_tp calls dq; rfl
  | cons tmp1 rest ih =>
    intro tp meta_tp calls dq
    unfold queue_skb_rcv_walk
    dsimp only
    split
    · exact rcv_one_inf _ _ _ _ _
    · split
      · exact rcv_one_inf _ _ _ _ _
      · rw [ih]
        exact rcv_one_inf _ _ _ _ _

theorem ofo_walk_mpcb (ops : MetaRcvOps) (map_end : Nat) :
    ∀ (q : List Skb) (tp : TcpSock) (meta_tp : MetaSock),
      (queue_skb_ofo_walk ops map_end q tp meta_tp).2.mpcb = meta_tp.mpcb := by
  intro q
  induction q with
  | nil => intro tp meta_tp; rfl
  | cons tmp1 rest ih =>
    intro tp meta_tp
    unfold queue_skb_ofo_walk
    dsimp only
    split
    · split <;> rfl
    · split
      · split <;> rfl
      · rw [ih]
        split <;> rfl

theorem drop_walk_one (map_end copied_seq : Nat) (skb1 : Skb) (rest : List Skb)
    (hnext : ∀ tmp, rest.head? = some tmp → before tmp.seq map_end = false) :
    queue_skb_drop_walk map_end (skb1 :: rest) copied_seq = (rest, skb1.end_seq) := by
  unfold queue_skb_drop_walk
  cases rest with
  | nil => rfl
  | cons tmp t =>
    have h := hnext tmp rfl
    simp [h]

theorem ofo_walk_one (ops : MetaRcvOps) (map_end : Nat) (skb1 : Skb) (rest : List Skb)
    (tp : TcpSock) (meta_tp : MetaSock)
    (hnext : ∀ tmp, rest.head? = some tmp → before tmp.seq map_end = false) :
    (queue_skb_ofo_walk ops map_end (skb1 :: rest) tp meta_tp).1
      = { tp with copied_seq := skb1.end_seq, sk_receive_queue := rest } := by
  unfold queue_skb_ofo_walk
  cases rest with
  | nil => rfl
  | cons tmp t =>
    have h := hnext tmp rfl
    simp [h]

theorem rcv_walk_one (ops : MetaRcvOps) (map_end : Nat) (skb1 : Skb) (rest : List Skb)
    (tp : TcpSock) (meta_tp : MetaSock) (calls : List ExtCall) (dq : Bool)
    (hnext : ∀ tmp, rest.head? = some tmp → before tmp.seq map_end = false) :
    (queue_skb_rcv_walk ops map_end (skb1 :: rest) tp meta_tp calls dq).1
      = { tp with copied_seq := skb1.end_seq, sk_receive_queue := rest } := by
  unfold queue_skb_rcv_walk
  cases rest with
  | nil => rfl
  | cons tmp t =>
    have h := hnext tmp rfl
    simp [h]

theorem reset_mapping_inf (tp : TcpSock) (mpcb : MptcpCb) (old_copied_seq : Nat) :
    infinite_state (mptcp_reset_mapping tp mpcb old_copied_seq).2
      = ((infinite_state mpcb).1, (infinite_state mpcb).2.1, (infinite_state mpcb).2.2.1,
          if (infinite_state mpcb).1 then
            ((infinite_state mpcb).2.2.2 + sub32 tp.copied_seq old_copied_seq)
              % 18446744073709551616
          else (infinite_state mpcb).2.2.2) := by
  unfold mptcp_reset_mapping infinite_state
  dsimp only
  split <;> simp_all

theorem reset_mapping_tp (tp : TcpSock) (mpcb : MptcpCb) (old_copied_seq : Nat) :
    (mptcp_reset_mapping tp mpcb old_copied_seq).1
      = { tp with map_data_len := 0, map_data_seq := 0, map_subseq := 0, map_data_fin := false,
                  mapping_present := false } := rfl

theorem queue_skb_verify_infinite (csum_fold : Nat) (conn_list : List SubflowRef) (tp : TcpSock)
    (meta_tp : MetaSock) (calls : List ExtCall)
    (hinf : meta_tp.mpcb.infinite_mapping_rcv = true) :
    (queue_skb_verify csum_fold conn_list tp meta_tp calls).ret = 1 ∧
    (queue_skb_verify csum_fold conn_list tp meta_tp calls).tp = tp ∧
    infinite_state (queue_skb_verify csum_fold conn_list tp meta_tp calls).meta_tp.mpcb
      = infinite_state meta_tp.mpcb := by
  unfold queue_skb_verify
  simp only [apply_ite MptcpCb.infinite_mapping_rcv, hinf, ite_self, Bool.not_true,
    Bool.and_false, Bool.false_eq_true, if_false]
  refine ⟨trivial, trivial, ?_⟩
  split <;> simp [infinite_state, hinf]

theorem queue_skb_deliver_step (ops : MetaRcvOps)
    (rcv_window_now rcv_nxt64 map_end old_copied_seq : Nat) (tp : TcpSock) (meta_tp : MetaSock)
    (calls : List ExtCall) (skb1 : Skb) (rest : List Skb)
    (hq : tp.sk_receive_queue = skb1 :: rest)
    (hnext : ∀ tmp, rest.head? = some tmp → before tmp.seq map_end = false) :
    (queue_skb_deliver ops rcv_window_now rcv_nxt64 map_end old_copied_seq tp meta_tp calls).ret
      ≠ 0 ∧
    (queue_skb_deliver ops rcv_window_now rcv_nxt64 map_end old_copied_seq tp meta_tp calls).ret
      ≠ 1 ∧
    (queue_skb_deliver ops rcv_window_now rcv_nxt64 map_end old_copied_seq tp meta_tp calls).tp
      = (mptcp_reset_mapping { tp with copied_seq := skb1.end_seq, sk_receive_queue := rest }
          meta_tp.mpcb old_copied_seq).1 ∧
    infinite_state
      (queue_skb_deliver ops rcv_window_now rcv_nxt64 map_end old_copied_seq tp meta_tp
        calls).meta_tp.mpcb
      = infinite_state
          (mptcp_reset_mapping { tp with copied_seq := skb1.end_seq, sk_receive_queue := rest }
            meta_tp.mpcb old_copied_seq).2 := by
  unfold queue_skb_deliver
  by_cases h : before64 rcv_nxt64 tp.map_data_seq = true
  · rw [if_pos h]
    dsimp only
    rw [hq, ofo_walk_one ops map_end skb1 rest tp meta_tp hnext]
    refine ⟨by decide, by decide, rfl, ?_⟩
    rw [reset_mapping_inf, reset_mapping_inf, ofo_walk_mpcb]
  · rw [if_neg h]
    dsimp only
    rw [hq, rcv_walk_one ops map_end skb1 rest tp meta_tp calls false hnext]
    refine ⟨?_, ?_, rfl, ?_⟩
    · split <;> decide
    · split <;> decide
    · rw [reset_mapping_inf, reset_mapping_inf, rcv_walk_inf]

theorem queue_skb_infinite_step (ops : MetaRcvOps) (rcv_window_now csum_fold : Nat)
    (conn_list : List SubflowRef) (tp : TcpSock) (meta_tp : MetaSock) (calls : List ExtCall)
    (skb1 : Skb) (rest : List Skb)
    (hinf : meta_tp.mpcb.infinite_mapping_rcv = true)
    (hmp : tp.mapping_present = true)
    (hq : tp.sk_receive_queue = skb1 :: rest)
    (hnext : ∀ tmp, rest.head? = some tmp →
      before tmp.seq (add32 tp.map_subseq tp.map_data_len) = false)
    (hrcv : before tp.rcv_nxt (add32 tp.map_subseq tp.map_data_len) = false) :
    (mptcp_queue_skb ops rcv_window_now csum_fold conn_list tp meta_tp calls).ret ≠ 0 ∧
    (mptcp_queue_skb ops rcv_window_now csum_fold conn_list tp meta_tp calls).ret ≠ 1 ∧
    (mptcp_queue_skb ops rcv_window_now csum_fold conn_list tp meta_tp calls).tp.copied_seq
      = skb1.end_seq ∧
    (mptcp_queue_skb ops rcv_window_now csum_fold conn_list tp meta_tp calls).tp.sk_receive_queue
      = rest ∧
    (mptcp_queue_skb ops rcv_window_now csum_fold conn_list tp meta_tp calls).tp.mapping_present
      = false ∧
    infinite_state
        (mptcp_queue_skb ops rcv_window_now csum_fold conn_list tp meta_tp calls).meta_tp.mpcb
      = (true, meta_tp.mpcb.infinite_mapping_snd, meta_tp.mpcb.send_infinite_mapping,
          (meta_tp.mpcb.infinite_rcv_seq + sub32 skb1.end_seq tp.copied_seq)
            % 18446744073709551616) := by
  obtain ⟨v1, v2, v3⟩ := queue_skb_verify_infinite csum_fold conn_list tp meta_tp calls hinf
  have hv : ¬ (queue_skb_verify csum_fold conn_list tp meta_tp calls).ret ≤ 0 := by
    rw [v1]; decide
  have hq2 : (queue_skb_verify csum_fold conn_list tp meta_tp calls).tp.sk_receive_queue
      = skb1 :: rest := by rw [v2]; exact hq
  have heq : mptcp_queue_skb ops rcv_window_now csum_fold conn_list tp meta_tp calls
      = if (!before64 (mptcp_get_rcv_nxt_64 meta_tp)
              ((tp.map_data_seq + tp.map_data_len + (if tp.map_data_fin then 1 else 0))
                % 18446744073709551616) ||
            !mptcp_sequence meta_tp rcv_window_now tp.map_data_seq
              ((tp.map_data_seq + tp.map_data_len + (if tp.map_data_fin then 1 else 0))
                % 18446744073709551616)) = true then
          queue_skb_dropped (add32 tp.map_subseq tp.map_data_len) tp.copied_seq tp meta_tp calls
        else
          queue_skb_deliver ops rcv_window_now (mptcp_get_rcv_nxt_64 meta_tp)
            (add32 tp.map_subseq tp.map_data_len) tp.copied_seq
            (queue_skb_verify csum_fold conn_list tp meta_tp calls).tp
            (queue_skb_verify csum_fold conn_list tp meta_tp calls).meta_tp
            (queue_skb_verify csum_fold conn_list tp meta_tp calls).calls := by
    unfold mptcp_queue_skb
    simp only [hmp, hrcv, Bool.not_true, Bool.or_false, Bool.false_eq_true, if_false, hv]
  rw [heq]
  by_cases hC : (!before64 (mptcp_get_rcv_nxt_64 meta_tp)
              ((tp.map_data_seq + tp.map_data_len + (if tp.map_data_fin then 1 else 0))
                % 18446744073709551616) ||
            !mptcp_sequence meta_tp rcv_window_now tp.map_data_seq
              ((tp.map_data_seq + tp.map_data_len + (if tp.map_data_fin then 1 else 0))
                % 18446744073709551616)) = true
  · rw [if_pos hC]
    unfold queue_skb_dropped
    rw [hq, drop_walk_one _ _ _ _ hnext]
    dsimp only
    refine ⟨by decide, by decide, rfl, rfl, rfl, ?_⟩
    rw [reset_mapping_inf]
    simp [infinite_state, hinf]
  · rw [if_neg hC]
    obtain ⟨d1, d2, d3, d4⟩ := queue_skb_deliver_step ops rcv_window_now
      (mptcp_get_rcv_nxt_64 meta_tp) (add32 tp.map_subseq tp.map_data_len) tp.copied_seq
      (queue_skb_verify csum_fold conn_list tp meta_tp calls).tp
      (queue_skb_verify csum_fold conn_list tp meta_tp calls).meta_tp
      (queue_skb_verify csum_fold conn_list tp meta_tp calls).calls skb1 rest hq2 hnext
    refine ⟨d1, d2, ?_, ?_, ?_, ?_⟩
    · rw [d3]; rfl
    · rw [d3]; rfl
    · rw [d3]; rfl
    · rw [d4, reset_mapping_inf, v3]
      simp [infinite_state, hinf, v2]

theorem detect_zero_length_spec (tp : TcpSock) (meta_tp : MetaSock)
    (calls : List ExtCall) (skb : Skb)
    (hinf : meta_tp.mpcb.infinite_mapping_rcv = false)
    (hmap : tp.mapping_present = false)
    (hopt : mptcp_is_data_seq skb = true ∨ mptcp_is_data_mpcapable skb = true)
    (hlen : (detect_mapping_read tp meta_tp skb).data_len = 0)
    (hstate : meta_tp.sk_state ≠ TCP_CLOSE)
    (hlt : skb.len < 65536)
    (hwf : skb.end_seq = add32 (add32 skb.seq skb.len)
      (if skb.tcp_flags &&& TCPHDR_FIN != 0 then 1 else 0)) :
    (mptcp_detect_mapping tp meta_tp calls skb).ret = 0 ∧
    (mptcp_detect_mapping tp meta_tp calls skb).tp
      = { tp with
          fully_established := true
          send_mp_fail := false
          map_data_seq := (mptcp_detect_mapping tp meta_tp calls skb).tp.map_data_seq
          map_data_len := skb.len
          map_subseq := skb.seq
          map_data_fin := mptcp_is_data_fin skb
          mapping_present := true } ∧
    infinite_state (mptcp_detect_mapping tp meta_tp calls skb).meta_tp.mpcb
      = (true, (mptcp_detect_mapping tp meta_tp calls skb).meta_tp.mpcb.infinite_mapping_snd,
          true, (mptcp_detect_mapping tp meta_tp calls skb).tp.map_data_seq) := by
  obtain ⟨f1, f2, f3, f4⟩ := detect_mapping_read_fields tp meta_tp skb
  have f5 := is_data_fin_read tp meta_tp skb
  have hb := wellformed_passes_bounds skb (by omega) hwf
  have hdl : add32 skb.seq
      (if mptcp_is_data_fin skb
        then sub32 ((skb.len + if mptcp_is_data_fin skb then 1 else 0) % 4294967296) 1
        else (skb.len + if mptcp_is_data_fin skb then 1 else 0) % 4294967296)
      = add32 skb.seq (skb.len % 4294967296) := by
    unfold add32 sub32
    split
    · simp
      omega
    · simp
  have hdl2 : (if mptcp_is_data_fin skb
        then sub32 ((skb.len + if mptcp_is_data_fin skb then 1 else 0) % 4294967296) 1
        else (skb.len + if mptcp_is_data_fin skb then 1 else 0) % 4294967296) % 65536
      = skb.len := by
    unfold sub32
    split <;> simp <;> omega
  rw [← hdl] at hb
  rw [← f1, ← f2, ← f3, ← f4, ← f5] at hb
  rw [detect_zero_length_aux tp meta_tp calls skb hinf hmap hopt hlen hstate]
  have hacc := fun tp1 m2 c2 ds => detect_mapping_record_accept tp1 m2 c2 _ ds _ _ true hb
  obtain ⟨k1, -, k3, -⟩ := restart_sending_keeps_rcv
    { meta_tp with mpcb := { meta_tp.mpcb with infinite_mapping_rcv := true,
                                               send_infinite_mapping := true } }
    meta_tp.snd_una
    (mptcp_fallback_close
      { meta_tp with mpcb := { meta_tp.mpcb with infinite_mapping_rcv := true,
                                                 send_infinite_mapping := true } }
      calls).1
  refine ⟨(hacc _ _ _ _).1, ?_, ?_⟩
  · conv_lhs => rw [(hacc _ _ _ _).2.1]
    simp only [f1, f3, f5, hdl2]
  · rw [(hacc _ _ _ _).2.2.1]
    unfold infinite_state
    simp only [if_true]
    rw [k1, k3]

theorem detect_mapping_infinite_eq (tp : TcpSock) (meta_tp : MetaSock)
    (calls : List ExtCall) (skb : Skb)
    (hinf : meta_tp.mpcb.infinite_mapping_rcv = true) :
    mptcp_detect_mapping tp meta_tp calls skb =
      { ret := 0,
        tp := { tp with
          map_data_seq := (meta_tp.mpcb.infinite_rcv_seq + 18446744073709551616
            - sub32 tp.copied_seq skb.seq) % 18446744073709551616
          map_subseq := skb.seq
          map_data_len := skb.len % 65536
          map_data_fin := skb.tcp_flags &&& TCPHDR_FIN != 0
          mapping_present := true },
        meta_tp := meta_tp, calls := calls, skb := some skb } := by
  unfold mptcp_detect_mapping
  simp only [hinf, if_true]

theorem infinite_step_then_detect (ops : MetaRcvOps) (rcv_window_now csum_fold : Nat)
    (conn_list : List SubflowRef) (tp : TcpSock) (meta_tp : MetaSock) (calls : List ExtCall)
    (skb1 skb2 : Skb) (rest : List Skb)
    (hinf : meta_tp.mpcb.infinite_mapping_rcv = true)
    (hmp : tp.mapping_present = true)
    (hsub : tp.map_subseq = skb1.seq)
    (hdl : tp.map_data_len = skb1.len)
    (hq : tp.sk_receive_queue = skb1 :: rest)
    (hc : tp.copied_seq = skb1.seq)
    (hwf : skb1.end_seq = add32 skb1.seq skb1.len)
    (hlen : skb1.len < 4294967296)
    (hrcv : before tp.rcv_nxt skb1.end_seq = false)
    (hnext : ∀ tmp, rest.head? = some tmp → before tmp.seq skb1.end_seq = false)
    (h2 : skb2.seq = skb1.end_seq) :
    (mptcp_queue_skb ops rcv_window_now csum_fold conn_list tp meta_tp calls).ret ≠ 0 ∧
    (mptcp_queue_skb ops rcv_window_now csum_fold conn_list tp meta_tp calls).ret ≠ 1 ∧
    (mptcp_queue_skb ops rcv_window_now csum_fold conn_list tp meta_tp calls).tp.sk_receive_queue
      = rest ∧
    (mptcp_detect_mapping
      (mptcp_queue_skb ops rcv_window_now csum_fold conn_list tp meta_tp calls).tp
      (mptcp_queue_skb ops rcv_window_now csum_fold conn_list tp meta_tp calls).meta_tp
      (mptcp_queue_skb ops rcv_window_now csum_fold conn_list tp meta_tp calls).calls
      skb2).ret = 0 ∧
    (mptcp_detect_mapping
      (mptcp_queue_skb ops rcv_window_now csum_fold conn_list tp meta_tp calls).tp
      (mptcp_queue_skb ops rcv_window_now csum_fold conn_list tp meta_tp calls).meta_tp
      (mptcp_queue_skb ops rcv_window_now csum_fold conn_list tp meta_tp calls).calls
      skb2).tp.map_subseq = skb2.seq ∧
    (mptcp_detect_mapping
      (mptcp_queue_skb ops rcv_window_now csum_fold conn_list tp meta_tp calls).tp
      (mptcp_queue_skb ops rcv_window_now csum_fold conn_list tp meta_tp calls).meta_tp
      (mptcp_queue_skb ops rcv_window_now csum_fold conn_list tp meta_tp calls).calls
      skb2).tp.map_data_seq
      = (meta_tp.mpcb.infinite_rcv_seq + skb1.len) % 18446744073709551616 := by
  have hme : add32 tp.map_subseq tp.map_data_len = skb1.end_seq := by
    rw [hsub, hdl, hwf]
  obtain ⟨q1, q2, q3, q4, -, q6⟩ := queue_skb_infinite_step ops rcv_window_now csum_fold
    conn_list tp meta_tp calls skb1 rest hinf hmp hq (by rw [hme]; exact hnext)
    (by rw [hme]; exact hrcv)
  have hi2 : (mptcp_queue_skb ops rcv_window_now csum_fold conn_list tp meta_tp
      calls).meta_tp.mpcb.infinite_mapping_rcv = true :=
    congrArg (fun x => x.1) q6
  have hr2 : (mptcp_queue_skb ops rcv_window_now csum_fold conn_list tp meta_tp
      calls).meta_tp.mpcb.infinite_rcv_seq
        = (meta_tp.mpcb.infinite_rcv_seq + sub32 skb1.end_seq tp.copied_seq)
            % 18446744073709551616 :=
    congrArg (fun x => x.2.2.2) q6
  refine ⟨q1, q2, q4, ?_, ?_, ?_⟩
  · rw [detect_mapping_infinite_eq _ _ _ _ hi2]
  · rw [detect_mapping_infinite_eq _ _ _ _ hi2]
  · rw [detect_mapping_infinite_eq _ _ _ _ hi2]
    dsimp only
    rw [hr2, q3, h2, hc, hwf]
    unfold sub32 add32
    omega

theorem prevalidate_transition (tp : TcpSock) (meta_tp : MetaSock) (calls : List ExtCall)
    (skb : Skb) (hinf : meta_tp.mpcb.infinite_mapping_rcv = false)
    (hafter : (mptcp_prevalidate_skb tp meta_tp calls skb).meta_tp.mpcb.infinite_mapping_rcv
      = true) :
    (mptcp_prevalidate_skb tp meta_tp calls skb).meta_tp.mpcb.infinite_rcv_seq
      = mptcp_get_rcv_nxt_64 meta_tp ∧
    (mptcp_prevalidate_skb tp meta_tp calls skb).tp.copied_seq = tp.copied_seq := by
  unfold mptcp_prevalidate_skb at hafter ⊢
  dsimp only at hafter ⊢
  split at hafter
  · simp [hinf] at hafter
  · split at hafter
    · split at hafter
      · simp [hinf] at hafter
      · split at hafter
        · rename_i h1 h2 h3 h4
          simp only [h1, h2, h3, h4, if_true, if_false]
          exact ⟨rfl, rfl⟩
        · rename_i h1 h2 h3 h4
          simp only [h1, h2, h3, h4, if_true, if_false]
          exact ⟨rfl, rfl⟩
    · split at hafter
      · split at hafter
        · simp [mptcp_become_fully_estab, hinf] at hafter
        · simp [hinf] at hafter
      · simp [hinf] at hafter

/-- C13 (as amended). Contiguity in infinite-receive mode. On a subflow in infinite-receive
mode whose receive queue starts with the in-order segment `skb1` (`copied_seq` is its `seq`, it
is received in full, it has no FIN and fewer than `2^16` bytes, and what follows it in the
queue does not start before its end), `mptcp_detect_mapping` infers for `skb1` the range that
starts at `infinite_rcv_seq`; `mptcp_queue_skb` then never returns 0 or 1, takes `skb1` off the
queue and, through `mptcp_reset_mapping`, advances `infinite_rcv_seq`; and
`mptcp_detect_mapping` infers for the next segment `skb2` (it starts where `skb1` ended) the
connection range that starts where the range of `skb1` ended. The first range after a
transition starts at `infinite_rcv_seq` as the transition set it: `mptcp_prevalidate_skb` sets
it to the 64-bit receive cursor, and the transition segment, when in order, is given the range
that starts there; a zero-length mapping makes `mptcp_detect_mapping` set it to the `map_data_seq`
recorded from the announced `data_seq`, and the segment after the one that carried the mapping
is given the range that starts where that one's range ended. -/
theorem infinite_mode_ranges_are_contiguous (ops : MetaRcvOps)
    (rcv_window_now csum_fold : Nat) (conn_list : List SubflowRef) (tp : TcpSock)
    (meta_tp : MetaSock) (calls : List ExtCall) (skb1 skb2 : Skb) (rest : List Skb)
    (hinf : meta_tp.mpcb.infinite_mapping_rcv = true)
    (hR : meta_tp.mpcb.infinite_rcv_seq < 18446744073709551616)
    (hq : tp.sk_receive_queue = skb1 :: rest)
    (hc : tp.copied_seq = skb1.seq)
    (hlen : skb1.len < 65536)
    (hwf : skb1.end_seq = add32 skb1.seq skb1.len)
    (hrcv : before tp.rcv_nxt skb1.end_seq = false)
    (hnext : ∀ tmp, rest.head? = some tmp → before tmp.seq skb1.end_seq = false)
    (h2 : skb2.seq = skb1.end_seq) :
    (mptcp_detect_mapping tp meta_tp calls skb1).tp.map_data_seq
      = meta_tp.mpcb.infinite_rcv_seq ∧
    (mptcp_queue_skb ops rcv_window_now csum_fold conn_list
      (mptcp_detect_mapping tp meta_tp calls skb1).tp
      (mptcp_detect_mapping tp meta_tp calls skb1).meta_tp
      (mptcp_detect_mapping tp meta_tp calls skb1).calls).ret ≠ 0 ∧
    (mptcp_queue_skb ops rcv_window_now csum_fold conn_list
      (mptcp_detect_mapping tp meta_tp calls skb1).tp
      (mptcp_detect_mapping tp meta_tp calls skb1).meta_tp
      (mptcp_detect_mapping tp meta_tp calls skb1).calls).ret ≠ 1 ∧
    (mptcp_queue_skb ops rcv_window_now csum_fold conn_list
      (mptcp_detect_mapping tp meta_tp calls skb1).tp
      (mptcp_detect_mapping tp meta_tp calls skb1).meta_tp
      (mptcp_detect_mapping tp meta_tp calls skb1).calls).tp.sk_receive_queue = rest ∧
    (mptcp_detect_mapping
      (mptcp_queue_skb ops rcv_window_now csum_fold conn_list
        (mptcp_detect_mapping tp meta_tp calls skb1).tp
        (mptcp_detect_mapping tp meta_tp calls skb1).meta_tp
        (mptcp_detect_mapping tp meta_tp calls skb1).calls).tp
      (mptcp_queue_skb ops rcv_window_now csum_fold conn_list
        (mptcp_detect_mapping tp meta_tp calls skb1).tp
        (mptcp_detect_mapping tp meta_tp calls skb1).meta_tp
        (mptcp_detect_mapping tp meta_tp calls skb1).calls).meta_tp
      (mptcp_queue_skb ops rcv_window_now csum_fold conn_list
        (mptcp_detect_mapping tp meta_tp calls skb1).tp
        (mptcp_detect_mapping tp meta_tp calls skb1).meta_tp
        (mptcp_detect_mapping tp meta_tp calls skb1).calls).calls
      skb2).tp.map_data_seq
      = ((mptcp_detect_mapping tp meta_tp calls skb1).tp.map_data_seq + skb1.len)
          % 18446744073709551616 ∧
    (∀ (tp0 : TcpSock) (meta0 : MetaSock) (calls0 : List ExtCall) (skb0 : Skb),
      meta0.mpcb.infinite_mapping_rcv = false →
      (mptcp_prevalidate_skb tp0 meta0 calls0 skb0).meta_tp.mpcb.infinite_mapping_rcv = true →
      tp0.copied_seq = skb0.seq →
      meta0.mpcb.rcv_high_order.1 < 4294967296 → meta0.mpcb.rcv_high_order.2 < 4294967296 →
      (mptcp_prevalidate_skb tp0 meta0 calls0 skb0).meta_tp.mpcb.infinite_rcv_seq
        = mptcp_get_rcv_nxt_64 meta0 ∧
      (mptcp_detect_mapping (mptcp_prevalidate_skb tp0 meta0 calls0 skb0).tp
        (mptcp_prevalidate_skb tp0 meta0 calls0 skb0).meta_tp
        (mptcp_prevalidate_skb tp0 meta0 calls0 skb0).calls skb0).tp.map_data_seq
        = mptcp_get_rcv_nxt_64 meta0) ∧
    (∀ (tp0 : TcpSock) (meta0 : MetaSock) (calls0 : List ExtCall) (skb0 next : Skb)
      (rest0 : List Skb),
      meta0.mpcb.infinite_mapping_rcv = false →
      tp0.mapping_present = false →
      (mptcp_is_data_seq skb0 = true ∨ mptcp_is_data_mpcapable skb0 = true) →
      (detect_mapping_read tp0 meta0 skb0).data_len = 0 →
      meta0.sk_state ≠ TCP_CLOSE →
      skb0.len < 65536 →
      skb0.tcp_flags &&& TCPHDR_FIN = 0 →
      skb0.end_seq = add32 skb0.seq skb0.len →
      tp0.sk_receive_queue = skb0 :: rest0 →
      tp0.copied_seq = skb0.seq →
      before tp0.rcv_nxt skb0.end_seq = false →
      (∀ tmp, rest0.head? = some tmp → before tmp.seq skb0.end_seq = false) →
      next.seq = skb0.end_seq →
      (mptcp_detect_mapping tp0 meta0 calls0 skb0).meta_tp.mpcb.infinite_rcv_seq
        = (mptcp_detect_mapping tp0 meta0 calls0 skb0).tp.map_data_seq ∧
      (mptcp_detect_mapping
        (mptcp_queue_skb ops rcv_window_now csum_fold conn_list
          (mptcp_detect_mapping tp0 meta0 calls0 skb0).tp
          (mptcp_detect_mapping tp0 meta0 calls0 skb0).meta_tp
          (mptcp_detect_mapping tp0 meta0 calls0 skb0).calls).tp
        (mptcp_queue_skb ops rcv_window_now csum_fold conn_list
          (mptcp_detect_mapping tp0 meta0 calls0 skb0).tp
          (mptcp_detect_mapping tp0 meta0 calls0 skb0).meta_tp
          (mptcp_detect_mapping tp0 meta0 calls0 skb0).calls).meta_tp
        (mptcp_queue_skb ops rcv_window_now csum_fold conn_list
          (mptcp_detect_mapping tp0 meta0 calls0 skb0).tp
          (mptcp_detect_mapping tp0 meta0 calls0 skb0).meta_tp
          (mptcp_detect_mapping tp0 meta0 calls0 skb0).calls).calls
        next).tp.map_data_seq
        = ((mptcp_detect_mapping tp0 meta0 calls0 skb0).tp.map_data_seq + skb0.len)
            % 18446744073709551616) := by
  have hd1 := detect_mapping_infinite_eq tp meta_tp calls skb1 hinf
  have hm1 : (meta_tp.mpcb.infinite_rcv_seq + 18446744073709551616
      - sub32 tp.copied_seq skb1.seq) % 18446744073709551616
      = meta_tp.mpcb.infinite_rcv_seq := by
    rw [hc]; unfold sub32; omega
  have hA := infinite_step_then_detect ops rcv_window_now csum_fold
      conn_list
      { tp with
          map_data_seq := meta_tp.mpcb.infinite_rcv_seq
          map_subseq := skb1.seq
          map_data_len := skb1.len % 65536
          map_data_fin := skb1.tcp_flags &&& TCPHDR_FIN != 0
          mapping_present := true }
      meta_tp calls skb1 skb2 rest hinf rfl rfl (Nat.mod_eq_of_lt hlen) hq hc hwf (by omega)
      hrcv hnext h2
  rw [hd1]
  dsimp only
  rw [hm1]
  refine ⟨rfl, hA.1, hA.2.1, hA.2.2.1, hA.2.2.2.2.2, ?_, ?_⟩
  · intro tp0 meta0 calls0 skb0 h0 h1 hc0 hh1 hh2
    obtain ⟨p1, p2⟩ := prevalidate_transition tp0 meta0 calls0 skb0 h0 h1
    refine ⟨p1, ?_⟩
    rw [detect_mapping_infinite_eq _ _ _ _ h1]
    dsimp only
    rw [p1, p2, hc0]
    have hb : mptcp_get_rcv_nxt_64 meta0 < 18446744073709551616 := by
      unfold mptcp_get_rcv_nxt_64 mptcp_get_data_seq_64 high_order
      split <;> omega
    unfold sub32
    omega
  · intro tp0 meta0 calls0 skb0 next rest0 h0 hmap0 hopt0 hlen0 hst0 hlt0 hfin0 hwf0 hq0 hc0
      hrcv0 hnext0 hn0
    have hwf0' : skb0.end_seq = add32 (add32 skb0.seq skb0.len)
        (if skb0.tcp_flags &&& TCPHDR_FIN != 0 then 1 else 0) := by
      rw [hwf0]
      simp only [hfin0, bne_self_eq_false, Bool.false_eq_true, if_false]
      unfold add32
      omega
    obtain ⟨z1, z2, z3⟩ := detect_zero_length_spec tp0 meta0 calls0 skb0 h0 hmap0 hopt0 hlen0
      hst0 hlt0 hwf0'
    have zi : (mptcp_detect_mapping tp0 meta0 calls0 skb0).meta_tp.mpcb.infinite_mapping_rcv
        = true := congrArg (fun x => x.1) z3
    have zr : (mptcp_detect_mapping tp0 meta0 calls0 skb0).meta_tp.mpcb.infinite_rcv_seq
        = (mptcp_detect_mapping tp0 meta0 calls0 skb0).tp.map_data_seq :=
      congrArg (fun x => x.2.2.2) z3
    refine ⟨zr, ?_⟩
    have hS := infinite_step_then_detect ops rcv_window_now csum_fold conn_list
      (mptcp_detect_mapping tp0 meta0 calls0 skb0).tp
      (mptcp_detect_mapping tp0 meta0 calls0 skb0).meta_tp
      (mptcp_detect_mapping tp0 meta0 calls0 skb0).calls skb0 next rest0 zi
      (by rw [z2]) (by rw [z2]) (by rw [z2]) (by rw [z2]; exact hq0) (by rw [z2]; exact hc0)
      hwf0 (by omega) (by rw [z2]; exact hrcv0) hnext0 hn0
    rw [hS.2.2.2.2.2, zr]

/-! ## Infinite mode is never left -/

theorem kept_of_flags {a b : MptcpCb} (h : infinite_flags b = infinite_flags a) :
    InfiniteKept a b := by
  unfold infinite_flags at h
  have h1 : b.infinite_mapping_rcv = a.infinite_mapping_rcv := congrArg Prod.fst h
  have h2 : b.infinite_mapping_snd = a.infinite_mapping_snd := congrArg Prod.snd h
  exact ⟨fun x => by rw [h1]; exact x, fun x => by rw [h2]; exact x⟩

theorem kept_trans {a b c : MptcpCb} (h1 : InfiniteKept a b) (h2 : InfiniteKept b c) :
    InfiniteKept a c :=
  ⟨fun x => h2.1 (h1.1 x), fun x => h2.2 (h1.2 x)⟩

theorem ite_prop {α : Type} (P : α → Prop) {c : Prop} [Decidable c] {a b : α} (ha : P a)
    (hb : P b) : P (if c then a else b) := by
  split
  · exact ha
  · exact hb

theorem kept_refl (a : MptcpCb) : InfiniteKept a a := ⟨fun x => x, fun x => x⟩

theorem clean_rtx_queue_view (env : AckEnv) (n_sub : Nat) (meta_tp : MetaSock)
    (prior_snd_una : Nat) (calls : List ExtCall) (c : MetaSock × List ExtCall)
    (h : mptcp_clean_rtx_queue env n_sub meta_tp prior_snd_una calls = some c) :
    ack_view c.1 = ack_view meta_tp := by
  unfold mptcp_clean_rtx_queue at h
  rw [Option.map_eq_some'] at h
  obtain ⟨rq, -, rfl⟩ := h
  dsimp only
  split_ifs <;> rfl

theorem clean_rtx_queue_some (env : AckEnv) (n_sub : Nat) (meta_tp : MetaSock)
    (prior_snd_una : Nat) (calls : List ExtCall) :
    (mptcp_clean_rtx_queue env n_sub meta_tp prior_snd_una calls).isSome
      = (mptcp_clean_rtx_queue_reinject meta_tp.snd_una env.skb_unclone_fails
          env.delta_truesize meta_tp.mpcb.reinject_queue).isSome := by
  unfold mptcp_clean_rtx_queue
  simp only [Option.isSome_map']

theorem rcv_state_process_view (env : AckEnv) (meta_tp : MetaSock) (tp : TcpSock) (skb : Skb)
    (data_seq data_len : Nat) (calls : List ExtCall) :
    ack_view (mptcp_rcv_state_process env meta_tp tp skb data_seq data_len calls).2.1
      = ack_view meta_tp := by
  unfold mptcp_rcv_state_process
  dsimp only
  split_ifs <;> dsimp only <;> first | rfl | (split_ifs <;> rfl)

theorem update_window_mpcb (meta_tp : MetaSock) (data_ack data_seq nwin : Nat) :
    (data_ack_update_window meta_tp data_ack data_seq nwin).mpcb = meta_tp.mpcb := by
  unfold data_ack_update_window
  dsimp only
  split_ifs <;> rfl

theorem data_ack_subflow_keeps (tp : TcpSock) (meta_tp : MetaSock) (calls : List ExtCall)
    (skb : Skb) :
    (data_ack_fully_estab (data_ack_established tp meta_tp calls skb) meta_tp skb).1.rx_opt
      = tp.rx_opt ∧
    (data_ack_fully_estab (data_ack_established tp meta_tp calls skb) meta_tp skb).1.snd_wscale
      = tp.snd_wscale := by
  unfold data_ack_fully_estab data_ack_established mptcp_become_fully_estab
  dsimp only
  split_ifs <;> exact ⟨rfl, rfl⟩

theorem data_ack_loss_view (c : MetaSock × List ExtCall) (data_ack prior_snd_una : Nat) :
    ack_view (data_ack_loss c data_ack prior_snd_una).1 = ack_view c.1 := by
  unfold data_ack_loss
  split <;> rfl

theorem data_ack_new_space_view (env : AckEnv) (n_sub : Nat) (l : MetaSock × List ExtCall) :
    ack_view (data_ack_new_space env n_sub l).1 = ack_view l.1 := by
  unfold data_ack_new_space
  dsimp only
  split_ifs <;> rfl

theorem ack_kept_of_view {a b : MetaSock} (h : ack_view b = ack_view a) : AckKept a b :=
  ⟨congrArg (fun x => x.1) h, congrArg (fun x => x.2.1) h, congrArg (fun x => x.2.2.1) h,
    kept_of_flags (congrArg (fun x => x.2.2.2) h)⟩

theorem ack_kept_trans {a b c : MetaSock} (h1 : AckKept a b) (h2 : AckKept b c) :
    AckKept a c :=
  ⟨h2.1.trans h1.1, h2.2.1.trans h1.2.1, h2.2.2.1.trans h1.2.2.1,
    kept_trans h1.2.2.2 h2.2.2.2⟩

theorem push_ack_kept (m : MetaSock) : AckKept m (mptcp_push_pending_frames m) := by
  obtain ⟨p1, p2, -, -, -, -, -, p8, p9, p10, -⟩ := push_pending_frames_keeps m
  exact ⟨p8, p9, p10, fun h => p1.trans h, p2⟩

theorem data_ack_state_view (env : AckEnv) (tp : TcpSock) (skb : Skb) (data_seq data_len : Nat)
    (w : MetaSock × List ExtCall) :
    AckKept w.1 (data_ack_state env tp skb data_seq data_len w).meta_tp := by
  have hp : AckKept w.1 (mptcp_rcv_state_process env w.1 tp skb data_seq data_len w.2).2.1 :=
    ack_kept_of_view (rcv_state_process_view _ _ _ _ _ _ _)
  unfold data_ack_state
  refine ite_prop (fun r : AckResult => AckKept w.1 r.meta_tp) ?_ (push_ack_kept _)
  exact ite_prop (fun r : AckResult => AckKept w.1 r.meta_tp) hp
    (ite_prop (fun r : AckResult => AckKept w.1 r.meta_tp) hp
      (ack_kept_trans hp (push_ack_kept _)))

theorem data_ack_accept_view (env : AckEnv) (n_sub : Nat) (tp : TcpSock) (meta_tp : MetaSock)
    (calls : List ExtCall) (skb : Skb) (prior_snd_una data_ack data_seq data_len : Nat)
    (r : AckResult)
    (h : data_ack_accept env n_sub tp meta_tp calls skb prior_snd_una data_ack data_seq data_len
      = some r) :
    AckKept (if meta_tp.packets_out = 0 then meta_tp
          else mptcp_snd_una_update meta_tp data_ack) r.meta_tp := by
  unfold data_ack_accept at h
  dsimp only at h
  by_cases hp : meta_tp.packets_out = 0
  · rw [if_pos hp] at h ⊢
    cases h
    exact ack_kept_trans (a := meta_tp) (b := { meta_tp with icsk_probes_out := 0 })
      ⟨rfl, rfl, rfl, kept_refl _⟩ (push_ack_kept _)
  · rw [if_neg hp] at h ⊢
    rw [Option.map_eq_some'] at h
    obtain ⟨c, hc, rfl⟩ := h
    have hv : ack_view c.1 = ack_view (mptcp_snd_una_update meta_tp data_ack) :=
      (clean_rtx_queue_view _ _ _ _ _ _ hc).trans rfl
    refine ack_kept_trans (ack_kept_of_view ?_) (data_ack_state_view _ _ _ _ _ _)
    rw [data_ack_new_space_view, data_ack_loss_view, hv]

theorem data_ack_accept_some (env : AckEnv) (n_sub : Nat) (tp : TcpSock) (meta_tp : MetaSock)
    (calls : List ExtCall) (skb : Skb) (prior_snd_una data_ack data_seq data_len : Nat) :
    (data_ack_accept env n_sub tp meta_tp calls skb prior_snd_una data_ack data_seq
      data_len).isSome
      = (decide (meta_tp.packets_out = 0) ||
          (mptcp_clean_rtx_queue_reinject data_ack env.skb_unclone_fails env.delta_truesize
            meta_tp.mpcb.reinject_queue).isSome) := by
  unfold data_ack_accept
  dsimp only
  by_cases hp : meta_tp.packets_out = 0
  · rw [if_pos hp]
    simp [hp]
  · rw [if_neg hp, Option.isSome_map', clean_rtx_queue_some]
    simp [hp, mptcp_snd_una_update]

theorem update_window_keeps (meta_tp : MetaSock) (data_ack data_seq nwin : Nat) :
    (data_ack_update_window meta_tp data_ack data_seq nwin).packets_out = meta_tp.packets_out ∧
    (data_ack_update_window meta_tp data_ack data_seq nwin).snd_una = meta_tp.snd_una ∧
    (data_ack_update_window meta_tp data_ack data_seq nwin).bytes_acked = meta_tp.bytes_acked := by
  unfold data_ack_update_window
  dsimp only
  split_ifs <;> exact ⟨rfl, rfl, rfl⟩

theorem process_data_ack_eq (env : AckEnv) (n_sub : Nat) (tp : TcpSock) (meta_tp : MetaSock)
    (calls : List ExtCall) (skb : Skb)
    (hreach : ¬(skb.mptcp_flags &&& MPTCPHDR_ACK = 0 ∧
      meta_tp.mpcb.infinite_mapping_snd = false))
    (hstate : meta_tp.sk_state ≠ TCP_CLOSE) :
    mptcp_process_data_ack env n_sub tp meta_tp calls skb =
      if before tp.rx_opt.data_ack meta_tp.snd_una || after tp.rx_opt.data_ack meta_tp.snd_nxt
      then
        some { stop := false,
               tp := (data_ack_fully_estab (data_ack_established tp meta_tp calls skb)
                 meta_tp skb).1,
               meta_tp := mptcp_push_pending_frames meta_tp,
               calls := (data_ack_fully_estab (data_ack_established tp meta_tp calls skb)
                 meta_tp skb).2 ++ [ExtCall.mptcp_push_pending_frames] }
      else
        data_ack_accept env n_sub
          (data_ack_fully_estab (data_ack_established tp meta_tp calls skb) meta_tp skb).1
          (data_ack_update_window
            { meta_tp with mpcb := { meta_tp.mpcb with send_mptcpv1_mpcapable := false } }
            tp.rx_opt.data_ack
            (if mptcp_is_data_seq skb then tp.rx_opt.data_seq else meta_tp.snd_wl1)
            (if !skb.th_syn then (skb.th_window * 2 ^ tp.snd_wscale) % 4294967296
             else skb.th_window))
          (data_ack_fully_estab (data_ack_established tp meta_tp calls skb) meta_tp skb).2
          skb meta_tp.snd_una tp.rx_opt.data_ack
          (if mptcp_is_data_seq skb then tp.rx_opt.data_seq else meta_tp.snd_wl1)
          (if mptcp_is_data_seq skb then tp.rx_opt.data_len else 0) := by
  unfold mptcp_process_data_ack
  dsimp only
  rw [if_neg hreach, if_neg hstate, (data_ack_subflow_keeps tp meta_tp calls skb).1,
    (data_ack_subflow_keeps tp meta_tp calls skb).2]

theorem data_ack_subflow_calls (tp : TcpSock) (meta_tp : MetaSock) (calls : List ExtCall)
    (skb : Skb) (c : ExtCall)
    (h : c ∈ (data_ack_fully_estab (data_ack_established tp meta_tp calls skb) meta_tp skb).2) :
    c ∈ calls ∨ c = ExtCall.sk_stop_timer ∨ c = ExtCall.pm_established_subflow ∨
      c = ExtCall.pm_fully_established := by
  unfold data_ack_fully_estab data_ack_established mptcp_become_fully_estab at h
  dsimp only at h
  split_ifs at h <;> simp at h <;> tauto

theorem sub32_add32_cancel (a b w : Nat) : sub32 (add32 a w) (add32 b w) = sub32 a b := by
  unfold sub32 add32
  omega

theorem process_data_ack_accepted_view (env : AckEnv) (n_sub : Nat) (tp : TcpSock)
    (meta_tp : MetaSock) (calls : List ExtCall) (skb : Skb)
    (hreach : ¬(skb.mptcp_flags &&& MPTCPHDR_ACK = 0 ∧
      meta_tp.mpcb.infinite_mapping_snd = false))
    (hstate : meta_tp.sk_state ≠ TCP_CLOSE)
    (hb : before tp.rx_opt.data_ack meta_tp.snd_una = false)
    (ha : after tp.rx_opt.data_ack meta_tp.snd_nxt = false) :
    (mptcp_process_data_ack env n_sub tp meta_tp calls skb).isSome
      = (decide (meta_tp.packets_out = 0) ||
          (mptcp_clean_rtx_queue_reinject tp.rx_opt.data_ack env.skb_unclone_fails
            env.delta_truesize meta_tp.mpcb.reinject_queue).isSome) ∧
    ∀ r, mptcp_process_data_ack env n_sub tp meta_tp calls skb = some r →
      r.meta_tp.snd_una
        = (if meta_tp.packets_out = 0 then meta_tp.snd_una else tp.rx_opt.data_ack) ∧
      r.meta_tp.bytes_acked
        = (if meta_tp.packets_out = 0 then meta_tp.bytes_acked
           else (meta_tp.bytes_acked + sub32 tp.rx_opt.data_ack meta_tp.snd_una)
             % 18446744073709551616) ∧
      r.meta_tp.snd_wnd
        = (data_ack_update_window
            { meta_tp with mpcb := { meta_tp.mpcb with send_mptcpv1_mpcapable := false } }
            tp.rx_opt.data_ack
            (if mptcp_is_data_seq skb then tp.rx_opt.data_seq else meta_tp.snd_wl1)
            (if !skb.th_syn then (skb.th_window * 2 ^ tp.snd_wscale) % 4294967296
             else skb.th_window)).snd_wnd := by
  have heq := process_data_ack_eq env n_sub tp meta_tp calls skb hreach hstate
  rw [hb, ha, Bool.false_or, if_neg Bool.false_ne_true] at heq
  have hk := update_window_keeps
    { meta_tp with mpcb := { meta_tp.mpcb with send_mptcpv1_mpcapable := false } }
    tp.rx_opt.data_ack
    (if mptcp_is_data_seq skb then tp.rx_opt.data_seq else meta_tp.snd_wl1)
    (if !skb.th_syn then (skb.th_window * 2 ^ tp.snd_wscale) % 4294967296 else skb.th_window)
  have hm := update_window_mpcb
    { meta_tp with mpcb := { meta_tp.mpcb with send_mptcpv1_mpcapable := false } }
    tp.rx_opt.data_ack
    (if mptcp_is_data_seq skb then tp.rx_opt.data_seq else meta_tp.snd_wl1)
    (if !skb.th_syn then (skb.th_window * 2 ^ tp.snd_wscale) % 4294967296 else skb.th_window)
  refine ⟨?_, ?_⟩
  · rw [heq, data_ack_accept_some, hk.1, hm]
  · intro r hr
    rw [heq] at hr
    have hv := data_ack_accept_view _ _ _ _ _ _ _ _ _ _ _ hr
    rw [hk.1] at hv
    by_cases hp : meta_tp.packets_out = 0
    · rw [if_pos hp] at hv
      rw [if_pos hp, if_pos hp]
      exact ⟨hv.1.trans hk.2.1, hv.2.2.1.trans hk.2.2, hv.2.1⟩
    · rw [if_neg hp] at hv
      rw [if_neg hp, if_neg hp]
      refine ⟨hv.1, ?_, hv.2.1⟩
      have h3 := hv.2.2.1
      have h4 : (mptcp_snd_una_update (data_ack_update_window
          { meta_tp with mpcb := { meta_tp.mpcb with send_mptcpv1_mpcapable := false } }
          tp.rx_opt.data_ack
          (if mptcp_is_data_seq skb then tp.rx_opt.data_seq else meta_tp.snd_wl1)
          (if !skb.th_syn then (skb.th_window * 2 ^ tp.snd_wscale) % 4294967296
           else skb.th_window)) tp.rx_opt.data_ack).bytes_acked
          = (meta_tp.bytes_acked + sub32 tp.rx_opt.data_ack meta_tp.snd_una)
            % 18446744073709551616 := by
        unfold mptcp_snd_una_update
        dsimp only
        rw [hk.2.1, hk.2.2]
      exact h3.trans h4

/-- C18 (as amended). Data-ack validation in `mptcp_process_data_ack`, for a call that reaches
connection-level processing (DATA_ACK present or infinite-send mode, meta socket not closed):
a DATA_ACK before `snd_una` or after `snd_nxt`, that is outside `[snd_una, snd_nxt]`, leaves
`snd_una`, `snd_wnd` and `bytes_acked` unchanged, does not stop processing, adds no call but
the subflow bookkeeping and `mptcp_push_pending_frames`, and changes the meta socket only
through that push: the meta socket at return is `mptcp_push_pending_frames` of the one
before, which is the one before, with both queues unchanged, whenever the push starts no
transmit run (no packet out and an empty write queue) or no run is left that sends something;
a DATA_ACK inside `[snd_una, snd_nxt]` with packets outstanding gives a result exactly when
cleaning the reinject queue hits no `BUG_ON`, and then `snd_una` is the DATA_ACK and
`bytes_acked` has grown by `data_ack - snd_una`. -/
theorem process_data_ack_validates_data_ack (env : AckEnv) (n_sub : Nat) (tp : TcpSock)
    (meta_tp : MetaSock) (calls : List ExtCall) (skb : Skb)
    (hreach : ¬(skb.mptcp_flags &&& MPTCPHDR_ACK = 0 ∧
      meta_tp.mpcb.infinite_mapping_snd = false))
    (hstate : meta_tp.sk_state ≠ TCP_CLOSE) :
    ((before tp.rx_opt.data_ack meta_tp.snd_una = true ∨
        after tp.rx_opt.data_ack meta_tp.snd_nxt = true) →
      ∃ r, mptcp_process_data_ack env n_sub tp meta_tp calls skb = some r ∧
        r.meta_tp = mptcp_push_pending_frames meta_tp ∧
        r.meta_tp.snd_una = meta_tp.snd_una ∧ r.meta_tp.snd_wnd = meta_tp.snd_wnd ∧
        r.meta_tp.bytes_acked = meta_tp.bytes_acked ∧
        (((meta_tp.packets_out = 0 ∧ meta_tp.sk_write_queue = []) ∨ meta_tp.xmit = []) →
          r.meta_tp = meta_tp) ∧
        r.stop = false ∧
        ∀ c, c ∈ r.calls → c ∈ calls ∨ c = ExtCall.sk_stop_timer ∨
          c = ExtCall.pm_established_subflow ∨ c = ExtCall.pm_fully_established ∨
          c = ExtCall.mptcp_push_pending_frames) ∧
    (before tp.rx_opt.data_ack meta_tp.snd_una = false →
      after tp.rx_opt.data_ack meta_tp.snd_nxt = false →
      meta_tp.packets_out ≠ 0 →
      (mptcp_process_data_ack env n_sub tp meta_tp calls skb).isSome
        = (mptcp_clean_rtx_queue_reinject tp.rx_opt.data_ack env.skb_unclone_fails
            env.delta_truesize meta_tp.mpcb.reinject_queue).isSome ∧
      ∀ r, mptcp_process_data_ack env n_sub tp meta_tp calls skb = some r →
        r.meta_tp.snd_una = tp.rx_opt.data_ack ∧
        r.meta_tp.bytes_acked
          = (meta_tp.bytes_acked + sub32 tp.rx_opt.data_ack meta_tp.snd_una)
            % 18446744073709551616) := by
  refine ⟨fun hout => ?_, fun hb ha hp => ?_⟩
  · have heq := process_data_ack_eq env n_sub tp meta_tp calls skb hreach hstate
    have hc : (before tp.rx_opt.data_ack meta_tp.snd_una ||
        after tp.rx_opt.data_ack meta_tp.snd_nxt) = true := by
      rcases hout with h | h
      · rw [h, Bool.true_or]
      · rw [h, Bool.or_true]
    rw [if_pos hc] at heq
    obtain ⟨k1, k2, k3, -⟩ := push_ack_kept meta_tp
    refine ⟨_, heq, rfl, k1, k2, k3, fun hi => push_pending_frames_idle meta_tp hi, rfl,
      fun c hmem => ?_⟩
    rcases List.mem_append.mp hmem with h | h
    · rcases data_ack_subflow_calls tp meta_tp calls skb c h with h1 | h1 | h1 | h1
      · exact Or.inl h1
      · exact Or.inr (Or.inl h1)
      · exact Or.inr (Or.inr (Or.inl h1))
      · exact Or.inr (Or.inr (Or.inr (Or.inl h1)))
    · exact Or.inr (Or.inr (Or.inr (Or.inr (List.mem_singleton.mp h))))
  · have hv := process_data_ack_accepted_view env n_sub tp meta_tp calls skb hreach hstate hb ha
    refine ⟨?_, fun r hr => ?_⟩
    · rw [hv.1, decide_eq_false hp, Bool.false_or]
    · have h := hv.2 r hr
      rw [if_neg hp, if_neg hp] at h
      exact ⟨h.1, h.2.1⟩

/-- C19 (as amended). The right edge `snd_una + snd_wnd` of the connection send window in
`mptcp_process_data_ack`, for a DATA_ACK inside `[snd_una, snd_nxt]` with packets outstanding
(or a DATA_ACK equal to `snd_una`): the call gives a result unless cleaning the reinject queue
hits a `BUG_ON`, and in the result the right edge is not before the right edge held before the
call. When the window update is permitted, `snd_wnd` differs from the advertised `nwin`, and
`data_ack + nwin` is not before the old right edge, then `snd_wnd` becomes `nwin` and the
right edge is `data_ack + nwin`; in every other case `snd_wnd` is kept and the right edge is
`data_ack` plus the old `snd_wnd`, the old right edge moved forward by `data_ack - snd_una`. -/
theorem process_data_ack_right_edge (env : AckEnv) (n_sub : Nat) (tp : TcpSock)
    (meta_tp : MetaSock) (calls : List ExtCall) (skb : Skb) (data_seq nwin : Nat)
    (hreach : ¬(skb.mptcp_flags &&& MPTCPHDR_ACK = 0 ∧
      meta_tp.mpcb.infinite_mapping_snd = false))
    (hstate : meta_tp.sk_state ≠ TCP_CLOSE)
    (hb : before tp.rx_opt.data_ack meta_tp.snd_una = false)
    (ha : after tp.rx_opt.data_ack meta_tp.snd_nxt = false)
    (hp : meta_tp.packets_out ≠ 0 ∨ tp.rx_opt.data_ack = meta_tp.snd_una)
    (hds : data_seq = if mptcp_is_data_seq skb then tp.rx_opt.data_seq else meta_tp.snd_wl1)
    (hnw : nwin = if !skb.th_syn then (skb.th_window * 2 ^ tp.snd_wscale) % 4294967296
      else skb.th_window) :
    (mptcp_process_data_ack env n_sub tp meta_tp calls skb).isSome
      = (decide (meta_tp.packets_out = 0) ||
          (mptcp_clean_rtx_queue_reinject tp.rx_opt.data_ack env.skb_unclone_fails
            env.delta_truesize meta_tp.mpcb.reinject_queue).isSome) ∧
    ∀ r, mptcp_process_data_ack env n_sub tp meta_tp calls skb = some r →
      before (tcp_wnd_end r.meta_tp) (tcp_wnd_end meta_tp) = false ∧
      (tcp_may_update_window meta_tp tp.rx_opt.data_ack data_seq nwin = true →
        meta_tp.snd_wnd ≠ nwin →
        before (add32 tp.rx_opt.data_ack nwin) (tcp_wnd_end meta_tp) = false →
        r.meta_tp.snd_wnd = nwin ∧ tcp_wnd_end r.meta_tp = add32 tp.rx_opt.data_ack nwin) ∧
      (¬(tcp_may_update_window meta_tp tp.rx_opt.data_ack data_seq nwin = true ∧
          meta_tp.snd_wnd ≠ nwin ∧
          before (add32 tp.rx_opt.data_ack nwin) (tcp_wnd_end meta_tp) = false) →
        r.meta_tp.snd_wnd = meta_tp.snd_wnd ∧
        tcp_wnd_end r.meta_tp = add32 tp.rx_opt.data_ack meta_tp.snd_wnd) := by
  have hv := process_data_ack_accepted_view env n_sub tp meta_tp calls skb hreach hstate hb ha
  refine ⟨hv.1, fun r hr => ?_⟩
  obtain ⟨h1, -, h3⟩ := hv.2 r hr
  rw [← hds, ← hnw] at h3
  have hua : r.meta_tp.snd_una = tp.rx_opt.data_ack := by
    rw [h1]
    rcases hp with hp | hp
    · rw [if_neg hp]
    · split
      · exact hp.symm
      · rfl
  have hend : tcp_wnd_end r.meta_tp = add32 tp.rx_opt.data_ack r.meta_tp.snd_wnd := by
    unfold tcp_wnd_end
    rw [hua]
  have hkeep : before (add32 tp.rx_opt.data_ack meta_tp.snd_wnd) (tcp_wnd_end meta_tp)
      = false := by
    unfold tcp_wnd_end before
    rw [sub32_add32_cancel]
    exact hb
  by_cases hc : tcp_may_update_window meta_tp tp.rx_opt.data_ack data_seq nwin = true ∧
      meta_tp.snd_wnd ≠ nwin ∧
      before (add32 tp.rx_opt.data_ack nwin) (tcp_wnd_end meta_tp) = false
  · have hw : r.meta_tp.snd_wnd = nwin := by
      rw [h3]
      unfold data_ack_update_window
      have hm : tcp_may_update_window
          { meta_tp with mpcb := { meta_tp.mpcb with send_mptcpv1_mpcapable := false } }
          tp.rx_opt.data_ack data_seq nwin = true := hc.1
      rw [if_pos hm]
      dsimp only
      have h2 : (meta_tp.snd_wnd != nwin && !before (add32 tp.rx_opt.data_ack nwin)
          (tcp_wnd_end { meta_tp with
            mpcb := { meta_tp.mpcb with send_mptcpv1_mpcapable := false },
            snd_wl1 := data_seq })) = true := by
        have h4 : tcp_wnd_end { meta_tp with
            mpcb := { meta_tp.mpcb with send_mptcpv1_mpcapable := false },
            snd_wl1 := data_seq } = tcp_wnd_end meta_tp := rfl
        rw [h4, hc.2.2]
        simpa using hc.2.1
      rw [if_pos h2]
    refine ⟨?_, fun _ _ _ => ⟨hw, by rw [hend, hw]⟩, fun hn => absurd hc hn⟩
    rw [hend, hw]
    exact hc.2.2
  · have hw : r.meta_tp.snd_wnd = meta_tp.snd_wnd := by
      rw [h3]
      unfold data_ack_update_window
      by_cases hm : tcp_may_update_window
          { meta_tp with mpcb := { meta_tp.mpcb with send_mptcpv1_mpcapable := false } }
          tp.rx_opt.data_ack data_seq nwin = true
      · rw [if_pos hm]
        dsimp only
        have h2 : ¬((meta_tp.snd_wnd != nwin && !before (add32 tp.rx_opt.data_ack nwin)
            (tcp_wnd_end { meta_tp with
              mpcb := { meta_tp.mpcb with send_mptcpv1_mpcapable := false },
              snd_wl1 := data_seq })) = true) := by
          have h4 : tcp_wnd_end { meta_tp with
              mpcb := { meta_tp.mpcb with send_mptcpv1_mpcapable := false },
              snd_wl1 := data_seq } = tcp_wnd_end meta_tp := rfl
          rw [h4]
          intro h5
          apply hc
          refine ⟨hm, ?_, ?_⟩
          · intro h6
            simp [h6] at h5
          · simpa using (Bool.and_eq_true_iff.mp h5).2
        rw [if_neg h2]
      · rw [if_neg hm]
    refine ⟨?_, fun a b c => absurd ⟨a, b, c⟩ hc, fun _ => ⟨hw, by rw [hend, hw]⟩⟩
    rw [hend, hw]
    exact hkeep

/-! ## MP_FASTCLOSE and MP_FAIL -/

/-- C28. Fast-close is honoured exactly when the key proves ownership:
`mptcp_mp_fastclose_rcvd` returns true if and only if `mp_fclose` is set and the key of the
option equals the local key of the connection; then it force-closes every subflow
(`mptcp_sub_force_close_all` without exception) and resets the meta socket, and
`mptcp_handle_options`, outside infinite mode, stops with that result. With `mp_fclose` set and
another key it returns false and only counts the option; in both cases `mp_fclose` is cleared.
Without `mp_fclose` nothing changes. -/
theorem mp_fastclose_rcvd_honoured_iff_key (env : AckEnv) (conn_list : List SubflowRef)
    (tp : TcpSock) (meta_tp : MetaSock) (calls : List ExtCall) (skb : Skb) :
    ((mptcp_mp_fastclose_rcvd tp meta_tp calls).stop = true ↔
      tp.rx_opt.mp_fclose = true ∧
        tp.rx_opt.mptcp_sender_key = meta_tp.mpcb.mptcp_loc_key) ∧
    (tp.rx_opt.mp_fclose = true →
      tp.rx_opt.mptcp_sender_key = meta_tp.mpcb.mptcp_loc_key →
      mptcp_mp_fastclose_rcvd tp meta_tp calls
        = { stop := true, tp := { tp with rx_opt := { tp.rx_opt with mp_fclose := false } },
            meta_tp := meta_tp,
            calls := calls ++ [ExtCall.inc_stats Mib.FASTCLOSERX] ++
              [ExtCall.mptcp_sub_force_close_all false, ExtCall.tcp_reset] } ∧
      (meta_tp.mpcb.infinite_mapping_rcv = false → meta_tp.mpcb.infinite_mapping_snd = false →
        mptcp_handle_options env conn_list tp meta_tp calls skb
          = some (mptcp_mp_fastclose_rcvd tp meta_tp calls))) ∧
    (tp.rx_opt.mp_fclose = true →
      tp.rx_opt.mptcp_sender_key ≠ meta_tp.mpcb.mptcp_loc_key →
      mptcp_mp_fastclose_rcvd tp meta_tp calls
        = { stop := false, tp := { tp with rx_opt := { tp.rx_opt with mp_fclose := false } },
            meta_tp := meta_tp, calls := calls ++ [ExtCall.inc_stats Mib.FASTCLOSERX] }) ∧
    (tp.rx_opt.mp_fclose = false →
      mptcp_mp_fastclose_rcvd tp meta_tp calls
        = { stop := false, tp := tp, meta_tp := meta_tp, calls := calls }) := by
  have hA : tp.rx_opt.mp_fclose = true →
      tp.rx_opt.mptcp_sender_key = meta_tp.mpcb.mptcp_loc_key →
      mptcp_mp_fastclose_rcvd tp meta_tp calls
        = { stop := true, tp := { tp with rx_opt := { tp.rx_opt with mp_fclose := false } },
            meta_tp := meta_tp,
            calls := calls ++ [ExtCall.inc_stats Mib.FASTCLOSERX] ++
              [ExtCall.mptcp_sub_force_close_all false, ExtCall.tcp_reset] } := by
    intro h1 h2
    simp [mptcp_mp_fastclose_rcvd, h1, h2]
  have hB : tp.rx_opt.mp_fclose = true →
      tp.rx_opt.mptcp_sender_key ≠ meta_tp.mpcb.mptcp_loc_key →
      mptcp_mp_fastclose_rcvd tp meta_tp calls
        = { stop := false, tp := { tp with rx_opt := { tp.rx_opt with mp_fclose := false } },
            meta_tp := meta_tp, calls := calls ++ [ExtCall.inc_stats Mib.FASTCLOSERX] } := by
    intro h1 h2
    simp [mptcp_mp_fastclose_rcvd, h1, h2]
  have hC : tp.rx_opt.mp_fclose = false →
      mptcp_mp_fastclose_rcvd tp meta_tp calls
        = { stop := false, tp := tp, meta_tp := meta_tp, calls := calls } := by
    intro h1
    simp [mptcp_mp_fastclose_rcvd, h1]
  refine ⟨?_, fun h1 h2 => ⟨hA h1 h2, fun i1 i2 => ?_⟩, hB, hC⟩
  · constructor
    · intro hs
      cases hf : tp.rx_opt.mp_fclose with
      | false =>
        rw [hC hf] at hs
        exact absurd hs Bool.false_ne_true
      | true =>
        refine ⟨rfl, ?_⟩
        by_contra hk
        rw [hB hf hk] at hs
        exact absurd hs Bool.false_ne_true
    · intro h
      rw [hA h.1 h.2]
  · have hs : (mptcp_mp_fastclose_rcvd tp meta_tp calls).stop = true := by
      rw [hA h1 h2]
    unfold mptcp_handle_options
    simp only [i1, i2, Bool.or_self, Bool.false_eq_true, if_false, hs, if_true]

theorem combine_dfin_keeps (env : EntailEnv) (subskb : Skb) (meta_tp : MetaSock)
    (tp : TcpSock) :
    (mptcp_combine_dfin env subskb meta_tp tp).2.write_seq = tp.write_seq ∧
    (mptcp_combine_dfin env subskb meta_tp tp).1.len = subskb.len := by
  unfold mptcp_combine_dfin
  dsimp only
  split_ifs <;> exact ⟨rfl, rfl⟩

theorem save_dss_keeps (tp : TcpSock) (mpcb : MptcpCb) (meta_rcv_nxt csum : Nat) (skb : Skb) :
    (mptcp_save_dss_data_seq tp mpcb meta_rcv_nxt csum skb).len = skb.len ∧
    (mptcp_save_dss_data_seq tp mpcb meta_rcv_nxt csum skb).tcp_flags = skb.tcp_flags :=
  ⟨rfl, rfl⟩

theorem ite_flags_keeps (c : Prop) [Decidable c] (x : Skb) (f : Nat) :
    (if c then { x with mptcp_flags := f } else x).len = x.len ∧
    (if c then { x with mptcp_flags := f } else x).tcp_flags = x.tcp_flags ∧
    (if c then { x with mptcp_flags := f } else x).seq = x.seq ∧
    (if c then { x with mptcp_flags := f } else x).end_seq = x.end_seq := by
  split <;> exact ⟨rfl, rfl, rfl, rfl⟩

theorem ite_combine_dfin_keeps (c : Prop) [Decidable c] (env : EntailEnv) (sub1 : Skb)
    (meta2 : MetaSock) (tp1 : TcpSock) :
    (if c then mptcp_combine_dfin env sub1 meta2 tp1 else (sub1, tp1)).2.write_seq
      = tp1.write_seq ∧
    (if c then mptcp_combine_dfin env sub1 meta2 tp1 else (sub1, tp1)).1.len = sub1.len := by
  split
  · exact combine_dfin_keeps _ _ _ _
  · exact ⟨rfl, rfl⟩

theorem skb_entail_tail (env : EntailEnv) (w len : Nat) (tpd : TcpSock) (meta3 : MetaSock)
    (sub3 skb2 : Skb) (calls1 : List ExtCall) (hw : tpd.write_seq = w) (hl : sub3.len = len) :
    EntailRange w len
      (let write_seq := add32 tpd.write_seq
         ((sub3.len + (if sub3.tcp_flags &&& TCPHDR_FIN != 0 then 1 else 0)) % 4294967296)
       let sub4 := { sub3 with seq := tpd.write_seq, end_seq := write_seq }
       let tp2 := { tpd with write_seq := write_seq }
       if !mptcp_is_data_fin sub4 || sub4.end_seq != sub4.seq then
         let tp3 := { tp2 with sk_write_queue := tp2.sk_write_queue ++ [sub4],
                               sk_wmem_queued := tp2.sk_wmem_queued + sub4.truesize }
         { ok := true,
           tp := if !tp3.fully_established then
               { tp3 with second_packet := true,
                          last_end_data_seq :=
                            if mptcp_is_data_fin skb2 then sub32 skb2.end_seq 1
                            else skb2.end_seq }
             else tp3,
           meta_tp := meta3, skb := skb2, subskb := some sub4, calls := calls1 }
       else
         let sub5 := { sub4 with pcount := 1 }
         if env.tcp_transmit_skb_fails then
           { ok := false, tp := tp2, meta_tp := meta3, skb := skb2, subskb := some sub5,
             calls := calls1 ++ [ExtCall.tcp_transmit_skb] }
         else
           { ok := true,
             tp := if !tp2.fully_established then
                 { tp2 with second_packet := true,
                            last_end_data_seq :=
                              if mptcp_is_data_fin skb2 then sub32 skb2.end_seq 1
                              else skb2.end_seq }
               else tp2,
             meta_tp := meta3, skb := skb2, subskb := some sub5,
             calls := calls1 ++ [ExtCall.tcp_transmit_skb] }) := by
  subst hw hl
  refine ite_prop (EntailRange tpd.write_seq sub3.len) ?_
    (ite_prop (EntailRange tpd.write_seq sub3.len) ?_ ?_)
  · intro sub h
    cases h
    refine ⟨rfl, rfl, rfl, ?_⟩
    exact ite_prop (fun t : TcpSock => t.write_seq = add32 tpd.write_seq
      ((sub3.len + (if sub3.tcp_flags &&& TCPHDR_FIN != 0 then 1 else 0)) % 4294967296))
      rfl rfl
  · intro sub h
    cases h
    exact ⟨rfl, rfl, rfl, rfl⟩
  · intro sub h
    cases h
    refine ⟨rfl, rfl, rfl, ?_⟩
    exact ite_prop (fun t : TcpSock => t.write_seq = add32 tpd.write_seq
      ((sub3.len + (if sub3.tcp_flags &&& TCPHDR_FIN != 0 then 1 else 0)) % 4294967296))
      rfl rfl

theorem skb_entail_range (env : EntailEnv) (tp : TcpSock) (meta_tp : MetaSock)
    (calls : List ExtCall) (skb : Skb) (reinject : Int) :
    EntailRange tp.write_seq skb.len (mptcp_skb_entail env tp meta_tp calls skb reinject) := by
  unfold mptcp_skb_entail
  refine ite_prop (EntailRange tp.write_seq skb.len) ?_ ?_
  · intro sub h
    cases h
  · refine skb_entail_tail env tp.write_seq skb.len _ _ _ _ _ ?_ ?_
    · rw [(ite_combine_dfin_keeps _ _ _ _ _).1]
      exact ite_prop (fun t : TcpSock => t.write_seq = tp.write_seq) rfl rfl
    · rw [(ite_flags_keeps _ _ _).1, (save_dss_keeps _ _ _ _ _).1,
        (ite_combine_dfin_keeps _ _ _ _ _).2, (ite_flags_keeps _ _ _).1]
      exact ite_prop (fun x : Skb => x.len = skb.len) rfl rfl

theorem skb_entail_meta_skb (env : EntailEnv) (tp : TcpSock) (meta_tp : MetaSock)
    (calls : List ExtCall) (skb : Skb) (reinject : Int) :
    (mptcp_skb_entail env tp meta_tp calls skb reinject).skb.seq = skb.seq ∧
    (mptcp_skb_entail env tp meta_tp calls skb reinject).skb.end_seq = skb.end_seq ∧
    (mptcp_skb_entail env tp meta_tp calls skb reinject).skb.len = skb.len := by
  have h1 : (if reinject ≠ 0 then skb
      else { skb with mptcp_flags := skb.mptcp_flags |||
        (if meta_tp.mpcb.snd_hiseq_index != 0 then MPTCPHDR_SEQ64_INDEX else 0) }).seq = skb.seq ∧
      (if reinject ≠ 0 then skb
      else { skb with mptcp_flags := skb.mptcp_flags |||
        (if meta_tp.mpcb.snd_hiseq_index != 0 then MPTCPHDR_SEQ64_INDEX else 0) }).end_seq
        = skb.end_seq ∧
      (if reinject ≠ 0 then skb
      else { skb with mptcp_flags := skb.mptcp_flags |||
        (if meta_tp.mpcb.snd_hiseq_index != 0 then MPTCPHDR_SEQ64_INDEX else 0) }).len
        = skb.len := by
    split <;> exact ⟨rfl, rfl, rfl⟩
  unfold mptcp_skb_entail
  refine ite_prop (fun r : EntailResult => r.skb.seq = skb.seq ∧ r.skb.end_seq = skb.end_seq ∧
    r.skb.len = skb.len) h1 ?_
  refine ite_prop (fun r : EntailResult => r.skb.seq = skb.seq ∧ r.skb.end_seq = skb.end_seq ∧
    r.skb.len = skb.len) h1 (ite_prop (fun r : EntailResult => r.skb.seq = skb.seq ∧
    r.skb.end_seq = skb.end_seq ∧ r.skb.len = skb.len) h1 h1)

theorem skb_entail_ok_subskb (env : EntailEnv) (tp : TcpSock) (meta_tp : MetaSock)
    (calls : List ExtCall) (skb : Skb) (reinject : Int)
    (hok : (mptcp_skb_entail env tp meta_tp calls skb reinject).ok = true) :
    ∃ sub, (mptcp_skb_entail env tp meta_tp calls skb reinject).subskb = some sub := by
  revert hok
  unfold mptcp_skb_entail
  refine ite_prop (fun r : EntailResult => r.ok = true → ∃ sub, r.subskb = some sub) ?_ ?_
  · intro h
    exact absurd h Bool.false_ne_true
  · exact ite_prop (fun r : EntailResult => r.ok = true → ∃ sub, r.subskb = some sub)
      (fun _ => ⟨_, rfl⟩)
      (ite_prop (fun r : EntailResult => r.ok = true → ∃ sub, r.subskb = some sub)
        (fun _ => ⟨_, rfl⟩) (fun _ => ⟨_, rfl⟩))

/-- C25. Subflow-local ranges are assigned contiguously: for every successful call of
`mptcp_skb_entail` on a subflow with `write_seq = w` and a segment of payload length `L`, the
clone handed to the subflow has `L` payload bytes, subflow `seq == w` and
`end_seq == w + L + f` in `u32`, where `f` is 1 exactly when the clone carries the subflow FIN
flag; the subflow `write_seq` afterwards is that `end_seq`; `seq` and `end_seq` of the original
segment are unchanged; and the clone of any later call on the resulting subflow starts at that
`end_seq`. -/
theorem skb_entail_assigns_contiguous_range (env : EntailEnv) (tp : TcpSock)
    (meta_tp : MetaSock) (calls : List ExtCall) (skb : Skb) (reinject : Int)
    (hok : (mptcp_skb_entail env tp meta_tp calls skb reinject).ok = true) :
    ∃ sub, (mptcp_skb_entail env tp meta_tp calls skb reinject).subskb = some sub ∧
      sub.seq = tp.write_seq ∧ sub.len = skb.len ∧
      sub.end_seq = add32 tp.write_seq
        ((skb.len + (if sub.tcp_flags &&& TCPHDR_FIN != 0 then 1 else 0)) % 4294967296) ∧
      (mptcp_skb_entail env tp meta_tp calls skb reinject).tp.write_seq = sub.end_seq ∧
      (mptcp_skb_entail env tp meta_tp calls skb reinject).skb.seq = skb.seq ∧
      (mptcp_skb_entail env tp meta_tp calls skb reinject).skb.end_seq = skb.end_seq ∧
      ∀ (env2 : EntailEnv) (meta2 : MetaSock) (calls2 : List ExtCall) (skb2 : Skb)
        (reinject2 : Int) (sub2 : Skb),
        (mptcp_skb_entail env2 (mptcp_skb_entail env tp meta_tp calls skb reinject).tp meta2
          calls2 skb2 reinject2).subskb = some sub2 →
        sub2.seq = sub.end_seq := by
  obtain ⟨sub, hs⟩ := skb_entail_ok_subskb env tp meta_tp calls skb reinject hok
  obtain ⟨h1, h2, h3, h4⟩ := skb_entail_range env tp meta_tp calls skb reinject sub hs
  obtain ⟨k1, k2, -⟩ := skb_entail_meta_skb env tp meta_tp calls skb reinject
  refine ⟨sub, hs, h1, h2, h3, h4, k1, k2, ?_⟩
  intro env2 meta2 calls2 skb2 reinject2 sub2 hs2
  rw [(skb_entail_range env2 _ meta2 calls2 skb2 reinject2 sub2 hs2).1, h4]

/-! ## `mptcp_queue_skb`: stale mappings, delivery and the DATA_FIN -/

theorem queue_skb_drop_walk_spec (map_end : Nat) :
    ∀ (q : List Skb) (copied_seq : Nat), q ≠ [] →
      ∃ removed : List Skb, removed ≠ [] ∧
        q = removed ++ (queue_skb_drop_walk map_end q copied_seq).1 ∧
        removed.getLast?.map (fun s => s.end_seq)
          = some (queue_skb_drop_walk map_end q copied_seq).2 ∧
        (∀ s ∈ removed.tail, before s.seq map_end = true) ∧
        (∀ s, (queue_skb_drop_walk map_end q copied_seq).1.head? = some s →
          before s.seq map_end = false) := by
  intro q
  induction q with
  | nil => intro _ h; exact absurd rfl h
  | cons tmp1 rest ih =>
    intro copied_seq _
    cases rest with
    | nil =>
      refine ⟨[tmp1], by simp, ?_, ?_, ?_, ?_⟩
      · simp [queue_skb_drop_walk]
      · simp [queue_skb_drop_walk]
      · intro s hs
        simp at hs
      · intro s hs
        simp [queue_skb_drop_walk] at hs
    | cons tmp rest2 =>
      by_cases hb : before tmp.seq map_end = true
      · obtain ⟨removed, h1, h2, h3, h4, h5⟩ := ih tmp1.end_seq (by simp)
        have hw : queue_skb_drop_walk map_end (tmp1 :: tmp :: rest2) copied_seq
            = queue_skb_drop_walk map_end (tmp :: rest2) tmp1.end_seq := by
          rw [queue_skb_drop_walk]
          simp [hb]
        rw [hw]
        cases removed with
        | nil => exact absurd rfl h1
        | cons r0 rs =>
          have hr0 : r0 = tmp := by
            have := congrArg List.head? h2
            simpa using this.symm
          refine ⟨tmp1 :: r0 :: rs, by simp, ?_, ?_, ?_, h5⟩
          · rw [List.cons_append, ← h2]
          · rw [List.getLast?_cons_cons]
            exact h3
          · intro s hs
            simp only [List.tail_cons] at hs
            rcases List.mem_cons.mp hs with h | h
            · rw [h, hr0]
              exact hb
            · exact h4 s (by simpa using h)
      · have hw : queue_skb_drop_walk map_end (tmp1 :: tmp :: rest2) copied_seq
            = (tmp :: rest2, tmp1.end_seq) := by
          rw [queue_skb_drop_walk]
          simp [hb]
        rw [hw]
        refine ⟨[tmp1], by simp, by simp, by simp, ?_, ?_⟩
        · intro s hs
          simp at hs
        · intro s hs
          simp only [List.head?_cons, Option.some.injEq] at hs
          rw [← hs]
          simpa using hb

theorem queue_skb_stale_eq (ops : MetaRcvOps) (rcv_window_now csum_fold : Nat)
    (conn_list : List SubflowRef) (tp : TcpSock) (meta_tp : MetaSock) (calls : List ExtCall)
    (hmap : tp.mapping_present = true)
    (hrcv : before tp.rcv_nxt (add32 tp.map_subseq tp.map_data_len) = false)
    (hstale : before64 (mptcp_get_rcv_nxt_64 meta_tp)
        ((tp.map_data_seq + tp.map_data_len + (if tp.map_data_fin then 1 else 0))
          % 18446744073709551616) = false ∨
      mptcp_sequence meta_tp rcv_window_now tp.map_data_seq
        ((tp.map_data_seq + tp.map_data_len + (if tp.map_data_fin then 1 else 0))
          % 18446744073709551616) = false) :
    mptcp_queue_skb ops rcv_window_now csum_fold conn_list tp meta_tp calls
      = queue_skb_dropped (add32 tp.map_subseq tp.map_data_len) tp.copied_seq tp meta_tp
          calls := by
  unfold mptcp_queue_skb
  dsimp only
  have h1 : ¬((!tp.mapping_present || before tp.rcv_nxt (add32 tp.map_subseq tp.map_data_len))
      = true) := by
    rw [hmap, hrcv]
    decide
  have h2 : (!before64 (mptcp_get_rcv_nxt_64 meta_tp)
        ((tp.map_data_seq + tp.map_data_len + (if tp.map_data_fin then 1 else 0))
          % 18446744073709551616) ||
      !mptcp_sequence meta_tp rcv_window_now tp.map_data_seq
        ((tp.map_data_seq + tp.map_data_len + (if tp.map_data_fin then 1 else 0))
          % 18446744073709551616)) = true := by
    rcases hstale with h | h
    · rw [h]
      rfl
    · rw [h]
      simp
  rw [if_neg h1, if_pos h2]

/-- C22. Stale or out-of-window mappings are discarded without delivery: when the current
mapping of a subflow is received in full and its end
`map_data_seq + map_data_len + map_data_fin` is not after the 64-bit receive cursor, or the
mapping fails `mptcp_sequence`, then `mptcp_queue_skb` returns -1, leaves the meta `rcv_nxt`,
the meta receive queue and the meta out-of-order queue unchanged, makes no call, does not
depend on the outcome of the checksum, and clears the mapping; and from a receive queue that
is not empty it takes off the first buffer and every following buffer that starts before
`map_subseq + map_data_len`, up to the first one that does not, leaving `copied_seq` at the
end of the last buffer taken off. -/
theorem queue_skb_discards_stale_mapping (ops : MetaRcvOps) (rcv_window_now csum_fold : Nat)
    (conn_list : List SubflowRef) (tp : TcpSock) (meta_tp : MetaSock) (calls : List ExtCall)
    (hmap : tp.mapping_present = true)
    (hrcv : before tp.rcv_nxt (add32 tp.map_subseq tp.map_data_len) = false)
    (hstale : before64 (mptcp_get_rcv_nxt_64 meta_tp)
        ((tp.map_data_seq + tp.map_data_len + (if tp.map_data_fin then 1 else 0))
          % 18446744073709551616) = false ∨
      mptcp_sequence meta_tp rcv_window_now tp.map_data_seq
        ((tp.map_data_seq + tp.map_data_len + (if tp.map_data_fin then 1 else 0))
          % 18446744073709551616) = false) :
    (mptcp_queue_skb ops rcv_window_now csum_fold conn_list tp meta_tp calls).ret = -1 ∧
    (mptcp_queue_skb ops rcv_window_now csum_fold conn_list tp meta_tp calls).meta_tp.rcv_nxt
      = meta_tp.rcv_nxt ∧
    (mptcp_queue_skb ops rcv_window_now csum_fold conn_list tp meta_tp
      calls).meta_tp.sk_receive_queue = meta_tp.sk_receive_queue ∧
    (mptcp_queue_skb ops rcv_window_now csum_fold conn_list tp meta_tp
      calls).meta_tp.out_of_order_queue = meta_tp.out_of_order_queue ∧
    (mptcp_queue_skb ops rcv_window_now csum_fold conn_list tp meta_tp calls).calls = calls ∧
    (∀ (csum_fold2 : Nat) (conn_list2 : List SubflowRef),
      mptcp_queue_skb ops rcv_window_now csum_fold2 conn_list2 tp meta_tp calls
        = mptcp_queue_skb ops rcv_window_now csum_fold conn_list tp meta_tp calls) ∧
    (mptcp_queue_skb ops rcv_window_now csum_fold conn_list tp meta_tp calls).tp
      = { tp with
          map_data_len := 0, map_data_seq := 0, map_subseq := 0, map_data_fin := false,
          mapping_present := false
          sk_receive_queue := (mptcp_queue_skb ops rcv_window_now csum_fold conn_list tp
            meta_tp calls).tp.sk_receive_queue
          copied_seq := (mptcp_queue_skb ops rcv_window_now csum_fold conn_list tp meta_tp
            calls).tp.copied_seq } ∧
    (tp.sk_receive_queue ≠ [] →
      ∃ removed : List Skb, removed ≠ [] ∧
        tp.sk_receive_queue = removed ++ (mptcp_queue_skb ops rcv_window_now csum_fold
          conn_list tp meta_tp calls).tp.sk_receive_queue ∧
        removed.getLast?.map (fun s => s.end_seq)
          = some (mptcp_queue_skb ops rcv_window_now csum_fold conn_list tp meta_tp
              calls).tp.copied_seq ∧
        (∀ s ∈ removed.tail, before s.seq (add32 tp.map_subseq tp.map_data_len) = true) ∧
        (∀ s, (mptcp_queue_skb ops rcv_window_now csum_fold conn_list tp meta_tp
            calls).tp.sk_receive_queue.head? = some s →
          before s.seq (add32 tp.map_subseq tp.map_data_len) = false)) := by
  have heq := fun c l => queue_skb_stale_eq ops rcv_window_now c l tp meta_tp calls hmap hrcv
    hstale
  rw [heq csum_fold conn_list]
  refine ⟨rfl, rfl, rfl, rfl, rfl, fun c l => heq c l, rfl, fun hq => ?_⟩
  exact queue_skb_drop_walk_spec _ _ _ hq

theorem mptcp_fin_calls (meta_tp : MetaSock) (calls : List ExtCall) :
    ExtCall.inet_csk_schedule_ack ∈ (mptcp_fin meta_tp calls).2 := by
  unfold mptcp_fin
  dsimp only
  split_ifs <;> simp

theorem verif_dss_csum_no_fin (csum_fold : Nat) (conn_list : List SubflowRef) (tp : TcpSock)
    (meta_tp : MetaSock) (calls : List ExtCall)
    (h : ExtCall.inet_csk_schedule_ack ∈
      (mptcp_verif_dss_csum csum_fold conn_list tp meta_tp calls).calls) :
    ExtCall.inet_csk_schedule_ack ∈ calls := by
  unfold mptcp_verif_dss_csum mptcp_fallback_close at h
  dsimp only at h
  split_ifs at h <;> simp at h <;> exact h

theorem verif_dss_csum_pos (csum_fold : Nat) (conn_list : List SubflowRef) (tp : TcpSock)
    (meta_tp : MetaSock) (calls : List ExtCall)
    (h : ¬(mptcp_verif_dss_csum csum_fold conn_list tp meta_tp calls).ret ≤ 0) :
    mptcp_verif_dss_csum csum_fold conn_list tp meta_tp calls
      = { ret := 1, tp := tp, meta_tp := meta_tp, calls := calls } := by
  unfold mptcp_verif_dss_csum at h ⊢
  dsimp only at h ⊢
  split_ifs at h ⊢ <;> first | rfl | (exfalso; apply h; simp)

theorem rcv_one_calls (ops : MetaRcvOps) (skb : Skb) (meta_tp : MetaSock)
    (calls : List ExtCall) (data_queued : Bool)
    (hno : ExtCall.inet_csk_schedule_ack ∉ calls) :
    ExtCall.inet_csk_schedule_ack ∈ (queue_skb_rcv_one ops skb meta_tp calls data_queued).2.1 ↔
      after skb.end_seq meta_tp.rcv_nxt = true ∧ skb.tcp_flags &&& TCPHDR_FIN ≠ 0 := by
  unfold queue_skb_rcv_one
  dsimp only
  by_cases ha : after skb.end_seq meta_tp.rcv_nxt = true
  · have h1 : ¬((!after skb.end_seq meta_tp.rcv_nxt) = true) := by simp [ha]
    rw [if_neg h1]
    by_cases hf : skb.tcp_flags &&& TCPHDR_FIN = 0
    · have h2 : ¬((skb.tcp_flags &&& TCPHDR_FIN != 0) = true) := by simp [hf]
      rw [if_neg h2]
      constructor
      · intro h
        exact absurd h hno
      · intro h
        exact absurd hf h.2
    · have h2 : (skb.tcp_flags &&& TCPHDR_FIN != 0) = true := by simp [hf]
      rw [if_pos h2]
      exact ⟨fun _ => ⟨ha, hf⟩, fun _ => mptcp_fin_calls _ _⟩
  · have h1 : (!after skb.end_seq meta_tp.rcv_nxt) = true := by simpa using ha
    rw [if_pos h1]
    constructor
    · intro h
      exact absurd h hno
    · intro h
      exact absurd h.1 ha

theorem rcv_walk_calls (ops : MetaRcvOps) (map_end : Nat) :
    ∀ (q : List Skb) (tp : TcpSock) (meta_tp : MetaSock) (calls : List ExtCall) (dq : Bool),
      ExtCall.inet_csk_schedule_ack ∉ calls →
      ExtCall.inet_csk_schedule_ack ∈ (queue_skb_rcv_walk ops map_end q tp meta_tp calls dq).2.2.1 →
      ∃ s ∈ q, (mptcp_prepare_skb tp s).tcp_flags &&& TCPHDR_FIN ≠ 0 := by
  intro q
  induction q with
  | nil =>
    intro tp meta_tp calls dq hno h
    exact absurd h hno
  | cons tmp1 rest ih =>
    intro tp meta_tp calls dq hno h
    by_cases hf : (mptcp_prepare_skb tp tmp1).tcp_flags &&& TCPHDR_FIN = 0
    · have hno1 : ExtCall.inet_csk_schedule_ack ∉
          (queue_skb_rcv_one ops (mptcp_prepare_skb tp tmp1) meta_tp calls dq).2.1 := by
        intro hc
        exact ((rcv_one_calls ops _ meta_tp calls dq hno).mp hc).2 hf
      unfold queue_skb_rcv_walk at h
      cases rest with
      | nil => exact absurd h hno1
      | cons tmp t =>
        dsimp only at h
        split at h
        · exact absurd h hno1
        · obtain ⟨s, hs, hfl⟩ := ih _ _ _ _ hno1 h
          exact ⟨s, List.mem_cons_of_mem _ hs, hfl⟩
    · exact ⟨tmp1, List.mem_cons_self _ _, hf⟩

theorem prepare_skb_fin_iff (tp : TcpSock) (skb : Skb) :
    (mptcp_prepare_skb tp skb).tcp_flags &&& TCPHDR_FIN ≠ 0 ↔
      tp.map_data_fin = true ∧
        (if skb.tcp_flags &&& TCPHDR_FIN != 0 then sub32 skb.end_seq 1 else skb.end_seq)
          = add32 tp.map_subseq tp.map_data_len := by
  have h1 : ∀ x : Nat, (x ||| TCPHDR_FIN) &&& TCPHDR_FIN ≠ 0 := by
    intro x h
    have h2 : ((x ||| TCPHDR_FIN) &&& TCPHDR_FIN).testBit 0 = true := by
      simp [Nat.testBit_land, Nat.testBit_lor, TCPHDR_FIN]
    rw [h] at h2
    simp at h2
  have h0 : ∀ x : Nat, (x &&& (255 - TCPHDR_FIN)) &&& TCPHDR_FIN = 0 := by
    intro x
    rw [Nat.and_assoc]
    have : (255 - TCPHDR_FIN) &&& TCPHDR_FIN = 0 := by decide
    rw [this]
    simp
  unfold mptcp_prepare_skb
  dsimp only
  by_cases hc : (tp.map_data_fin &&
      (if skb.tcp_flags &&& TCPHDR_FIN != 0 then sub32 skb.end_seq 1 else skb.end_seq)
        == add32 tp.map_subseq tp.map_data_len) = true
  · rw [if_pos hc]
    simp only [Bool.and_eq_true, beq_iff_eq] at hc
    exact ⟨fun _ => hc, fun _ => h1 _⟩
  · rw [if_neg hc]
    simp only [Bool.and_eq_true, beq_iff_eq] at hc
    exact ⟨fun h => absurd (h0 _) h, fun h => absurd h hc⟩

theorem queue_skb_verify_calls (csum_fold : Nat) (conn_list : List SubflowRef) (tp : TcpSock)
    (meta_tp : MetaSock) (calls : List ExtCall) :
    (ExtCall.inet_csk_schedule_ack ∈ (queue_skb_verify csum_fold conn_list tp meta_tp calls).calls →
      ExtCall.inet_csk_schedule_ack ∈ calls) ∧
    (¬(queue_skb_verify csum_fold conn_list tp meta_tp calls).ret ≤ 0 →
      (queue_skb_verify csum_fold conn_list tp meta_tp calls).tp = tp ∧
      (queue_skb_verify csum_fold conn_list tp meta_tp calls).calls = calls) := by
  unfold queue_skb_verify
  dsimp only
  refine ite_prop (fun v : SubflowResult => (ExtCall.inet_csk_schedule_ack ∈ v.calls →
      ExtCall.inet_csk_schedule_ack ∈ calls) ∧ (¬v.ret ≤ 0 → v.tp = tp ∧ v.calls = calls))
    ⟨verif_dss_csum_no_fin _ _ _ _ _, fun h => ?_⟩ ⟨fun h => h, fun _ => ⟨rfl, rfl⟩⟩
  rw [verif_dss_csum_pos _ _ _ _ _ h]
  exact ⟨rfl, rfl⟩

theorem queue_skb_fin_only (ops : MetaRcvOps) (rcv_window_now csum_fold : Nat)
    (conn_list : List SubflowRef) (tp : TcpSock) (meta_tp : MetaSock) (calls : List ExtCall)
    (hno : ExtCall.inet_csk_schedule_ack ∉ calls)
    (h : ExtCall.inet_csk_schedule_ack ∈
      (mptcp_queue_skb ops rcv_window_now csum_fold conn_list tp meta_tp calls).calls) :
    before64 (mptcp_get_rcv_nxt_64 meta_tp) tp.map_data_seq = false ∧
    ∃ s ∈ tp.sk_receive_queue, (mptcp_prepare_skb tp s).tcp_flags &&& TCPHDR_FIN ≠ 0 := by
  obtain ⟨v1, v2⟩ := queue_skb_verify_calls csum_fold conn_list tp meta_tp calls
  revert h
  unfold mptcp_queue_skb
  dsimp only
  refine ite_prop (fun r : SubflowResult => ExtCall.inet_csk_schedule_ack ∈ r.calls → _)
    (fun h => absurd h hno) ?_
  refine ite_prop (fun r : SubflowResult => ExtCall.inet_csk_schedule_ack ∈ r.calls → _)
    (fun h => absurd h hno) ?_
  by_cases hr : (queue_skb_verify csum_fold conn_list tp meta_tp calls).ret ≤ 0
  · rw [if_pos hr]
    intro h
    exact absurd (v1 h) hno
  · rw [if_neg hr]
    obtain ⟨w1, w2⟩ := v2 hr
    rw [w1, w2]
    unfold queue_skb_deliver
    by_cases hb : before64 (mptcp_get_rcv_nxt_64 meta_tp) tp.map_data_seq = true
    · rw [if_pos hb]
      intro h
      exfalso
      dsimp only at h
      split at h
      · simp at h
        exact hno h
      · exact hno h
    · rw [if_neg hb]
      intro h
      exact ⟨by simpa using hb, rcv_walk_calls ops _ _ tp _ calls false hno h⟩

/-- C24. Connection-level FIN detection. `mptcp_fin` starts with `inet_csk_schedule_ack`,
which nothing else on this path calls. `mptcp_queue_skb` invokes `mptcp_fin` only on the
in-order path (the mapping does not start after the 64-bit receive cursor) and only when a
buffer of the subflow receive queue gets the FIN flag from `mptcp_prepare_skb`; for one buffer
of that path, `mptcp_fin` is invoked exactly when the buffer ends after the meta `rcv_nxt` and
has the FIN flag. `mptcp_prepare_skb` leaves the FIN flag set if and only if the mapping has
`map_data_fin` and the payload of the buffer ends at `map_subseq + map_data_len`, so a subflow
FIN without DATA_FIN has its flag cleared. Outside infinite-receive mode
`mptcp_prevalidate_skb` takes a pure subflow FIN off the queue and returns -1 without touching
the meta socket; in infinite-receive mode `map_data_fin` is the subflow FIN flag. -/
theorem data_fin_detected_only_in_order (ops : MetaRcvOps) (rcv_window_now csum_fold : Nat)
    (conn_list : List SubflowRef) (tp : TcpSock) (meta_tp : MetaSock) (calls : List ExtCall)
    (skb : Skb) (hno : ExtCall.inet_csk_schedule_ack ∉ calls) :
    (ExtCall.inet_csk_schedule_ack ∈
        (mptcp_queue_skb ops rcv_window_now csum_fold conn_list tp meta_tp calls).calls →
      before64 (mptcp_get_rcv_nxt_64 meta_tp) tp.map_data_seq = false ∧
      ∃ s ∈ tp.sk_receive_queue, (mptcp_prepare_skb tp s).tcp_flags &&& TCPHDR_FIN ≠ 0) ∧
    (∀ (data_queued : Bool),
      ExtCall.inet_csk_schedule_ack ∈
          (queue_skb_rcv_one ops (mptcp_prepare_skb tp skb) meta_tp calls data_queued).2.1 ↔
        after (mptcp_prepare_skb tp skb).end_seq meta_tp.rcv_nxt = true ∧
          (mptcp_prepare_skb tp skb).tcp_flags &&& TCPHDR_FIN ≠ 0) ∧
    ((mptcp_prepare_skb tp skb).tcp_flags &&& TCPHDR_FIN ≠ 0 ↔
      tp.map_data_fin = true ∧
        (if skb.tcp_flags &&& TCPHDR_FIN != 0 then sub32 skb.end_seq 1 else skb.end_seq)
          = add32 tp.map_subseq tp.map_data_len) ∧
    (tp.map_data_fin = false → (mptcp_prepare_skb tp skb).tcp_flags &&& TCPHDR_FIN = 0) ∧
    (skb.len = 0 → skb.tcp_flags &&& TCPHDR_FIN ≠ 0 → mptcp_is_data_fin skb = false →
      meta_tp.mpcb.infinite_mapping_rcv = false →
      mptcp_prevalidate_skb tp meta_tp calls skb
        = { ret := -1,
            tp := { tp with copied_seq := skb.end_seq,
                            sk_receive_queue := tp.sk_receive_queue.erase skb },
            meta_tp := meta_tp, calls := calls }) ∧
    (meta_tp.mpcb.infinite_mapping_rcv = true →
      (mptcp_detect_mapping tp meta_tp calls skb).tp.map_data_fin
        = (skb.tcp_flags &&& TCPHDR_FIN != 0)) := by
  refine ⟨queue_skb_fin_only ops rcv_window_now csum_fold conn_list tp meta_tp calls hno,
    fun dq => rcv_one_calls ops _ meta_tp calls dq hno, prepare_skb_fin_iff tp skb, ?_, ?_, ?_⟩
  · intro hf
    by_contra hc
    have := ((prepare_skb_fin_iff tp skb).mp hc).1
    rw [hf] at this
    exact Bool.false_ne_true this
  · intro h1 h2 h3 h4
    unfold mptcp_prevalidate_skb
    simp [h1, h2, h3, h4]
  · intro hinf
    rw [detect_mapping_infinite_eq tp meta_tp calls skb hinf]

theorem prepare_skb_range (tp : TcpSock) (s : Skb) (a : Nat)
    (hL : tp.map_data_len < 65536)
    (hs : s.seq = add32 tp.map_subseq a)
    (hp : payload_end s = add32 tp.map_subseq (a + s.len))
    (ha : a + s.len ≤ tp.map_data_len) :
    (mptcp_prepare_skb tp s).seq = (tp.map_data_seq + a) % 4294967296 ∧
    (mptcp_prepare_skb tp s).end_seq
      = (tp.map_data_seq + a + s.len
          + (if tp.map_data_fin = true ∧ a + s.len = tp.map_data_len then 1 else 0))
        % 4294967296 := by
  have hfin : (tp.map_data_fin &&
      (if s.tcp_flags &&& TCPHDR_FIN != 0 then sub32 s.end_seq 1 else s.end_seq)
        == add32 tp.map_subseq tp.map_data_len) = true ↔
      (tp.map_data_fin = true ∧ a + s.len = tp.map_data_len) := by
    have hp2 : (if s.tcp_flags &&& TCPHDR_FIN != 0 then sub32 s.end_seq 1 else s.end_seq)
        = add32 tp.map_subseq (a + s.len) := hp
    rw [hp2]
    simp only [Bool.and_eq_true, beq_iff_eq]
    constructor
    · rintro ⟨h1, h2⟩
      refine ⟨h1, ?_⟩
      unfold add32 at h2
      omega
    · rintro ⟨h1, h2⟩
      exact ⟨h1, by rw [h2]⟩
  unfold mptcp_prepare_skb
  dsimp only
  rw [hs]
  by_cases hc : tp.map_data_fin = true ∧ a + s.len = tp.map_data_len
  · rw [if_pos (hfin.mpr hc), if_pos hc]
    unfold add32 sub32
    constructor <;> omega
  · have hn : ¬((tp.map_data_fin &&
        (if s.tcp_flags &&& TCPHDR_FIN != 0 then sub32 s.end_seq 1 else s.end_seq)
          == add32 tp.map_subseq tp.map_data_len) = true) := fun h => hc (hfin.mp h)
    rw [if_neg hn, if_neg hc]
    unfold add32 sub32
    constructor <;> omega

theorem covers_tail_before (tp : TcpSock) (hL : tp.map_data_len < 65536) :
    ∀ (segs : List Skb) (a : Nat), CoversMapping tp a segs →
      ∀ s ∈ segs.tail, before s.seq (add32 tp.map_subseq tp.map_data_len) = true := by
  intro segs
  induction segs with
  | nil => intro a h; exact absurd h id
  | cons s0 rest ih =>
    intro a h s hs
    cases rest with
    | nil => simp at hs
    | cons t rest2 =>
      obtain ⟨-, -, h3, h4⟩ := h
      simp only [List.tail_cons] at hs
      rcases List.mem_cons.mp hs with h | h
      · have ht : t.seq = add32 tp.map_subseq (a + s0.len) := by
          cases rest2 with
          | nil => exact h4.1
          | cons u r => exact h4.1
        rw [h, ht]
        unfold before sub32 add32
        simp only [decide_eq_true_eq]
        omega
      · exact ih (a + s0.len) h4 s (by simpa using h)

theorem ofo_walk_segs (ops : MetaRcvOps) (map_end : Nat) (base : TcpSock) :
    ∀ (segs rest : List Skb) (tp : TcpSock) (meta_tp : MetaSock),
      segs ≠ [] →
      (∀ s ∈ segs.tail, before s.seq map_end = true) →
      (∀ s, rest.head? = some s → before s.seq map_end = false) →
      (∀ s, mptcp_prepare_skb tp s = mptcp_prepare_skb base s) →
      (queue_skb_ofo_walk ops map_end (segs ++ rest) tp meta_tp).2
        = (if meta_tp.mpcb.in_time_wait then meta_tp
           else { meta_tp with
             out_of_order_queue :=
               segs.foldl (fun q s => ops.tcp_data_queue_ofo q (mptcp_prepare_skb base s))
                 meta_tp.out_of_order_queue }) := by
  intro segs
  induction segs with
  | nil => intro rest tp meta_tp h; exact absurd rfl h
  | cons s0 segs2 ih =>
    intro rest tp meta_tp _ hb hr hp
    cases segs2 with
    | nil =>
      rw [List.singleton_append]
      unfold queue_skb_ofo_walk
      have hp0 : mptcp_prepare_skb { tp with copied_seq := s0.end_seq } s0
          = mptcp_prepare_skb base s0 := hp s0
      cases rest with
      | nil =>
        dsimp only
        rw [hp0]
        cases htw : meta_tp.mpcb.in_time_wait with
        | true => simp only [Bool.not_true, Bool.false_eq_true, if_false, if_true]
        | false =>
          simp only [Bool.not_false, if_true, Bool.false_eq_true, if_false, List.foldl_cons,
            List.foldl_nil]
      | cons tmp t =>
        have h := hr tmp rfl
        dsimp only
        rw [hp0]
        simp only [h, Bool.not_false, if_true]
        cases htw : meta_tp.mpcb.in_time_wait with
        | true => simp only [Bool.not_true, Bool.false_eq_true, if_false, if_true]
        | false =>
          simp only [Bool.not_false, if_true, Bool.false_eq_true, if_false, List.foldl_cons,
            List.foldl_nil]
    | cons s1 segs3 =>
      have hb1 : before s1.seq map_end = true := hb s1 (by simp)
      have hp0 : mptcp_prepare_skb { tp with copied_seq := s0.end_seq } s0
          = mptcp_prepare_skb base s0 := hp s0
      rw [List.cons_append, List.cons_append]
      unfold queue_skb_ofo_walk
      dsimp only
      simp only [hb1, Bool.not_true, Bool.false_eq_true, if_false]
      rw [hp0]
      have := ih rest { tp with copied_seq := s0.end_seq }
        (if !meta_tp.mpcb.in_time_wait then
          { meta_tp with
            out_of_order_queue :=
              ops.tcp_data_queue_ofo meta_tp.out_of_order_queue (mptcp_prepare_skb base s0) }
         else meta_tp) (by simp)
        (fun s hs => hb s (by simp only [List.tail_cons] at hs ⊢; exact List.mem_cons_of_mem _ hs))
        hr (fun s => hp s)
      rw [List.cons_append] at this
      rw [this]
      cases htw : meta_tp.mpcb.in_time_wait with
      | true => simp only [htw, Bool.not_true, Bool.false_eq_true, if_false, if_true]
      | false =>
        simp only [htw, Bool.not_false, if_true, Bool.false_eq_true, if_false, List.foldl_cons]

theorem mptcp_fin_rcv_nxt (meta_tp : MetaSock) (calls : List ExtCall) :
    (mptcp_fin meta_tp calls).1.rcv_nxt = meta_tp.rcv_nxt ∧
    (mptcp_fin meta_tp calls).1.out_of_order_queue = [] := by
  unfold mptcp_fin
  dsimp only
  split_ifs <;> exact ⟨rfl, rfl⟩

theorem check_rcvseq_wrap_keeps (meta_tp : MetaSock) (old_rcv_nxt : Nat) :
    (mptcp_check_rcvseq_wrap meta_tp old_rcv_nxt).rcv_nxt = meta_tp.rcv_nxt ∧
    (mptcp_check_rcvseq_wrap meta_tp old_rcv_nxt).out_of_order_queue
      = meta_tp.out_of_order_queue := by
  unfold mptcp_check_rcvseq_wrap
  split <;> exact ⟨rfl, rfl⟩

theorem rcv_one_rcv_nxt (ops : MetaRcvOps) (skb : Skb) (meta_tp : MetaSock)
    (calls : List ExtCall) (data_queued : Bool) (ho : meta_tp.out_of_order_queue = []) :
    (queue_skb_rcv_one ops skb meta_tp calls data_queued).1.rcv_nxt
      = (if after skb.end_seq meta_tp.rcv_nxt then skb.end_seq else meta_tp.rcv_nxt) ∧
    (queue_skb_rcv_one ops skb meta_tp calls data_queued).1.out_of_order_queue = [] := by
  unfold queue_skb_rcv_one
  dsimp only
  by_cases ha : after skb.end_seq meta_tp.rcv_nxt = true
  · have h1 : ¬((!after skb.end_seq meta_tp.rcv_nxt) = true) := by simp [ha]
    rw [if_neg h1, if_pos ha, (check_rcvseq_wrap_keeps _ _).1, (check_rcvseq_wrap_keeps _ _).2]
    have hf : (if skb.tcp_flags &&& TCPHDR_FIN != 0 then
        mptcp_fin { meta_tp with
          sk_receive_queue := (if meta_tp.mpcb.in_time_wait then (meta_tp.sk_receive_queue, true)
            else ops.tcp_queue_rcv meta_tp.sk_receive_queue skb).1
          rcv_nxt := skb.end_seq } calls
        else ({ meta_tp with
          sk_receive_queue := (if meta_tp.mpcb.in_time_wait then (meta_tp.sk_receive_queue, true)
            else ops.tcp_queue_rcv meta_tp.sk_receive_queue skb).1
          rcv_nxt := skb.end_seq }, calls)).1.rcv_nxt = skb.end_seq ∧
        (if skb.tcp_flags &&& TCPHDR_FIN != 0 then
        mptcp_fin { meta_tp with
          sk_receive_queue := (if meta_tp.mpcb.in_time_wait then (meta_tp.sk_receive_queue, true)
            else ops.tcp_queue_rcv meta_tp.sk_receive_queue skb).1
          rcv_nxt := skb.end_seq } calls
        else ({ meta_tp with
          sk_receive_queue := (if meta_tp.mpcb.in_time_wait then (meta_tp.sk_receive_queue, true)
            else ops.tcp_queue_rcv meta_tp.sk_receive_queue skb).1
          rcv_nxt := skb.end_seq }, calls)).1.out_of_order_queue = [] := by
      refine ite_prop (fun r : MetaSock × List ExtCall => r.1.rcv_nxt = skb.end_seq ∧
        r.1.out_of_order_queue = []) (mptcp_fin_rcv_nxt _ _) ⟨rfl, ho⟩
    generalize (if skb.tcp_flags &&& TCPHDR_FIN != 0 then
        mptcp_fin { meta_tp with
          sk_receive_queue := (if meta_tp.mpcb.in_time_wait then (meta_tp.sk_receive_queue, true)
            else ops.tcp_queue_rcv meta_tp.sk_receive_queue skb).1
          rcv_nxt := skb.end_seq } calls
        else ({ meta_tp with
          sk_receive_queue := (if meta_tp.mpcb.in_time_wait then (meta_tp.sk_receive_queue, true)
            else ops.tcp_queue_rcv meta_tp.sk_receive_queue skb).1
          rcv_nxt := skb.end_seq }, calls)) = f at hf ⊢
    obtain ⟨hf1, hf2⟩ := hf
    have he : ¬((!f.1.out_of_order_queue.isEmpty) = true) := by simp [hf2]
    rw [if_neg he]
    exact ⟨hf1, hf2⟩
  · have h1 : (!after skb.end_seq meta_tp.rcv_nxt) = true := by simpa using ha
    rw [if_pos h1, if_neg ha]
    exact ⟨rfl, ho⟩

theorem after_offsets (d e m : Nat) (he : e ≤ 65536) (hm : m ≤ 65536) :
    after ((d + e) % 4294967296) ((d + m) % 4294967296) = decide (m < e) := by
  unfold after before sub32
  by_cases h : m < e
  · simp only [h, decide_True, decide_eq_true_eq]
    omega
  · simp only [h, decide_False, decide_eq_false_iff_not, not_le]
    omega

theorem rcv_walk_rcv_nxt (ops : MetaRcvOps) (base : TcpSock)
    (hL : base.map_data_len < 65536) :
    ∀ (segs rest : List Skb) (a : Nat) (tp : TcpSock) (meta_tp : MetaSock)
      (calls : List ExtCall) (dq : Bool) (m : Nat),
      CoversMapping base a segs →
      (∀ s, rest.head? = some s →
        before s.seq (add32 base.map_subseq base.map_data_len) = false) →
      (∀ s, mptcp_prepare_skb tp s = mptcp_prepare_skb base s) →
      meta_tp.out_of_order_queue = [] →
      meta_tp.rcv_nxt = (base.map_data_seq + m) % 4294967296 →
      m ≤ base.map_data_len + (if base.map_data_fin then 1 else 0) →
      (queue_skb_rcv_walk ops (add32 base.map_subseq base.map_data_len) (segs ++ rest) tp
          meta_tp calls dq).2.1.rcv_nxt
        = (base.map_data_seq + max m
            (base.map_data_len + (if base.map_data_fin then 1 else 0))) % 4294967296 ∧
      (queue_skb_rcv_walk ops (add32 base.map_subseq base.map_data_len) (segs ++ rest) tp
          meta_tp calls dq).2.1.out_of_order_queue = [] := by
  intro segs
  induction segs with
  | nil => intro rest a tp meta_tp calls dq m h; exact absurd h id
  | cons s0 segs2 ih =>
    intro rest a tp meta_tp calls dq m hcov hr hp ho hn hm
    have hp0 : mptcp_prepare_skb { tp with copied_seq := s0.end_seq } s0
        = mptcp_prepare_skb base s0 := hp s0
    cases segs2 with
    | nil =>
      obtain ⟨c1, c2, c3⟩ := hcov
      obtain ⟨-, p2⟩ := prepare_skb_range base s0 a hL c1 c2 (le_of_eq c3)
      obtain ⟨r1, r2⟩ := rcv_one_rcv_nxt ops (mptcp_prepare_skb base s0) meta_tp calls dq ho
      have hres : (queue_skb_rcv_walk ops (add32 base.map_subseq base.map_data_len)
          ([s0] ++ rest) tp meta_tp calls dq).2.1
          = (queue_skb_rcv_one ops (mptcp_prepare_skb base s0) meta_tp calls dq).1 := by
        rw [List.singleton_append]
        unfold queue_skb_rcv_walk
        cases rest with
        | nil =>
          dsimp only
          rw [hp0]
        | cons tmp t =>
          have h := hr tmp rfl
          dsimp only
          rw [hp0]
          simp only [h, Bool.not_false, if_true]
      rw [hres]
      refine ⟨?_, r2⟩
      rw [r1, p2, hn]
      have he : (base.map_data_seq + a + s0.len
          + (if base.map_data_fin = true ∧ a + s0.len = base.map_data_len then 1 else 0))
          = base.map_data_seq
            + (base.map_data_len + (if base.map_data_fin then 1 else 0)) := by
        simp only [c3, and_true]
        omega
      rw [he, after_offsets _ _ _ (by split <;> omega) (by split at hm <;> omega)]
      by_cases hlt : m < base.map_data_len + (if base.map_data_fin then 1 else 0)
      · simp only [hlt, decide_True, if_true]
        rw [max_eq_right (le_of_lt hlt)]
      · simp only [hlt, decide_False, Bool.false_eq_true, if_false]
        rw [max_eq_left (by omega)]
    | cons s1 segs3 =>
      obtain ⟨c1, c2, c3, c4⟩ := hcov
      obtain ⟨-, p2⟩ := prepare_skb_range base s0 a hL c1 c2 (le_of_lt c3)
      obtain ⟨r1, r2⟩ := rcv_one_rcv_nxt ops (mptcp_prepare_skb base s0) meta_tp calls dq ho
      have hs1 : s1.seq = add32 base.map_subseq (a + s0.len) := by
        cases segs3 with
        | nil => exact c4.1
        | cons u r => exact c4.1
      have hb1 : before s1.seq (add32 base.map_subseq base.map_data_len) = true := by
        rw [hs1]
        unfold before sub32 add32
        simp only [decide_eq_true_eq]
        omega
      have hne : ¬(base.map_data_fin = true ∧ a + s0.len = base.map_data_len) :=
        fun h => absurd h.2 (ne_of_lt c3)
      rw [if_neg hne, Nat.add_zero] at p2
      have hn1 : (queue_skb_rcv_one ops (mptcp_prepare_skb base s0) meta_tp calls dq).1.rcv_nxt
          = (base.map_data_seq + max m (a + s0.len)) % 4294967296 := by
        rw [r1, p2, hn, Nat.add_assoc,
          after_offsets _ _ _ (by omega) (by split at hm <;> omega)]
        by_cases hlt : m < a + s0.len
        · simp only [hlt, decide_True, if_true]
          rw [max_eq_right (le_of_lt hlt)]
        · simp only [hlt, decide_False, Bool.false_eq_true, if_false]
          rw [max_eq_left (by omega)]
      have hstep : queue_skb_rcv_walk ops (add32 base.map_subseq base.map_data_len)
          (s0 :: s1 :: segs3 ++ rest) tp meta_tp calls dq
          = queue_skb_rcv_walk ops (add32 base.map_subseq base.map_data_len)
              (s1 :: segs3 ++ rest) { tp with copied_seq := s0.end_seq }
              (queue_skb_rcv_one ops (mptcp_prepare_skb base s0) meta_tp calls dq).1
              (queue_skb_rcv_one ops (mptcp_prepare_skb base s0) meta_tp calls dq).2.1
              (queue_skb_rcv_one ops (mptcp_prepare_skb base s0) meta_tp calls dq).2.2 := by
        rw [List.cons_append, List.cons_append]
        conv_lhs => unfold queue_skb_rcv_walk
        dsimp only
        simp only [hb1, Bool.not_true, Bool.false_eq_true, if_false]
        rw [hp0]
      rw [hstep]
      have := ih rest (a + s0.len) { tp with copied_seq := s0.end_seq }
        (queue_skb_rcv_one ops (mptcp_prepare_skb base s0) meta_tp calls dq).1
        (queue_skb_rcv_one ops (mptcp_prepare_skb base s0) meta_tp calls dq).2.1
        (queue_skb_rcv_one ops (mptcp_prepare_skb base s0) meta_tp calls dq).2.2
        (max m (a + s0.len)) c4 hr (fun s => hp s) r2 hn1
        (by split at hm <;> split <;> omega)
      have hmax : max (max m (a + s0.len))
          (base.map_data_len + (if base.map_data_fin then 1 else 0))
          = max m (base.map_data_len + (if base.map_data_fin then 1 else 0)) := by
        split <;> omega
      rw [hmax] at this
      exact this

theorem covers_ne_nil (tp : TcpSock) (a : Nat) (segs : List Skb)
    (h : CoversMapping tp a segs) : segs ≠ [] := by
  intro hn
  rw [hn] at h
  exact h

theorem cursor_inside (c d l : Nat) (hc : c < 18446744073709551616)
    (hd : d < 18446744073709551616) (hl : l ≤ 65536)
    (h1 : before64 c d = false) (h2 : before64 c ((d + l) % 18446744073709551616) = true) :
    ∃ m, m < l ∧ c % 4294967296 = (d + m) % 4294967296 := by
  unfold before64 sub64 at h1 h2
  simp only [decide_eq_false_iff_not, not_le, decide_eq_true_eq] at h1 h2
  refine ⟨(c + 18446744073709551616 - d % 18446744073709551616) % 18446744073709551616, ?_, ?_⟩
  · omega
  · omega

theorem queue_skb_verify_valid (csum_fold : Nat) (conn_list : List SubflowRef) (tp : TcpSock)
    (meta_tp : MetaSock) (calls : List ExtCall)
    (hcs : meta_tp.mpcb.dss_csum = true → meta_tp.mpcb.infinite_mapping_rcv = false →
      csum_fold = 0) :
    queue_skb_verify csum_fold conn_list tp meta_tp calls
      = { ret := 1, tp := tp,
          meta_tp := { meta_tp with mpcb :=
            (if tp.map_data_fin then
              { meta_tp.mpcb with dfin_path_index := tp.path_index,
                                  dfin_combined := tp.sk_shutdown &&& RCV_SHUTDOWN != 0 }
             else meta_tp.mpcb) },
          calls := calls } := by
  have h1 : (if tp.map_data_fin then
      { meta_tp.mpcb with dfin_path_index := tp.path_index,
                          dfin_combined := tp.sk_shutdown &&& RCV_SHUTDOWN != 0 }
      else meta_tp.mpcb).dss_csum = meta_tp.mpcb.dss_csum ∧
      (if tp.map_data_fin then
      { meta_tp.mpcb with dfin_path_index := tp.path_index,
                          dfin_combined := tp.sk_shutdown &&& RCV_SHUTDOWN != 0 }
      else meta_tp.mpcb).infinite_mapping_rcv = meta_tp.mpcb.infinite_mapping_rcv := by
    split <;> exact ⟨rfl, rfl⟩
  unfold queue_skb_verify
  dsimp only
  rw [h1.1, h1.2]
  by_cases hc : (meta_tp.mpcb.dss_csum && !meta_tp.mpcb.infinite_mapping_rcv) = true
  · rw [if_pos hc]
    simp only [Bool.and_eq_true, Bool.not_eq_true'] at hc
    have h0 := hcs hc.1 hc.2
    unfold mptcp_verif_dss_csum
    simp [h0]
  · rw [if_neg hc]

theorem queue_skb_valid_eq (ops : MetaRcvOps) (rcv_window_now csum_fold : Nat)
    (conn_list : List SubflowRef) (tp : TcpSock) (meta_tp : MetaSock) (calls : List ExtCall)
    (hmap : tp.mapping_present = true)
    (hrcv : before tp.rcv_nxt (add32 tp.map_subseq tp.map_data_len) = false)
    (hin : before64 (mptcp_get_rcv_nxt_64 meta_tp)
      ((tp.map_data_seq + tp.map_data_len + (if tp.map_data_fin then 1 else 0))
        % 18446744073709551616) = true)
    (hseq : mptcp_sequence meta_tp rcv_window_now tp.map_data_seq
      ((tp.map_data_seq + tp.map_data_len + (if tp.map_data_fin then 1 else 0))
        % 18446744073709551616) = true)
    (hcs : meta_tp.mpcb.dss_csum = true → meta_tp.mpcb.infinite_mapping_rcv = false →
      csum_fold = 0) :
    mptcp_queue_skb ops rcv_window_now csum_fold conn_list tp meta_tp calls
      = queue_skb_deliver ops rcv_window_now (mptcp_get_rcv_nxt_64 meta_tp)
          (add32 tp.map_subseq tp.map_data_len) tp.copied_seq tp
          { meta_tp with mpcb :=
            (if tp.map_data_fin then
              { meta_tp.mpcb with dfin_path_index := tp.path_index,
                                  dfin_combined := tp.sk_shutdown &&& RCV_SHUTDOWN != 0 }
             else meta_tp.mpcb) } calls := by
  unfold mptcp_queue_skb
  dsimp only
  have h1 : ¬((!tp.mapping_present || before tp.rcv_nxt (add32 tp.map_subseq tp.map_data_len))
      = true) := by
    rw [hmap, hrcv]
    decide
  have h2 : ¬((!before64 (mptcp_get_rcv_nxt_64 meta_tp)
        ((tp.map_data_seq + tp.map_data_len + (if tp.map_data_fin then 1 else 0))
          % 18446744073709551616) ||
      !mptcp_sequence meta_tp rcv_window_now tp.map_data_seq
        ((tp.map_data_seq + tp.map_data_len + (if tp.map_data_fin then 1 else 0))
          % 18446744073709551616)) = true) := by
    rw [hin, hseq]
    decide
  rw [if_neg h1, if_neg h2, queue_skb_verify_valid csum_fold conn_list tp meta_tp calls hcs]
  dsimp only
  rw [if_neg (by decide)]

theorem covers_prepared_chain (tp : TcpSock) (hL : tp.map_data_len < 65536) :
    ∀ (segs : List Skb) (a : Nat), CoversMapping tp a segs →
      List.Chain' (fun p q : Skb => q.seq = p.end_seq) (segs.map (mptcp_prepare_skb tp)) ∧
      (segs.map (mptcp_prepare_skb tp)).head?.map (fun s => s.seq)
        = some ((tp.map_data_seq + a) % 4294967296) ∧
      (segs.map (mptcp_prepare_skb tp)).getLast?.map (fun s => s.end_seq)
        = some ((tp.map_data_seq + tp.map_data_len + (if tp.map_data_fin then 1 else 0))
            % 4294967296) := by
  intro segs
  induction segs with
  | nil => intro a h; exact absurd h id
  | cons s0 segs2 ih =>
    intro a hcov
    cases segs2 with
    | nil =>
      obtain ⟨c1, c2, c3⟩ := hcov
      obtain ⟨p1, p2⟩ := prepare_skb_range tp s0 a hL c1 c2 (le_of_eq c3)
      refine ⟨by simp, by simp [p1], ?_⟩
      simp only [List.map_cons, List.map_nil, List.getLast?_singleton, Option.map_some',
        Option.some.injEq]
      rw [p2]
      congr 1
      simp only [c3, and_true]
      split <;> omega
    | cons s1 segs3 =>
      obtain ⟨c1, c2, c3, c4⟩ := hcov
      obtain ⟨p1, p2⟩ := prepare_skb_range tp s0 a hL c1 c2 (le_of_lt c3)
      have hne : ¬(tp.map_data_fin = true ∧ a + s0.len = tp.map_data_len) :=
        fun h => absurd h.2 (ne_of_lt c3)
      rw [if_neg hne, Nat.add_zero] at p2
      obtain ⟨i1, i2, i3⟩ := ih (a + s0.len) c4
      refine ⟨?_, by simp [p1], ?_⟩
      · rw [List.map_cons, List.map_cons]
        rw [List.map_cons] at i1 i2
        refine List.Chain'.cons ?_ i1
        simp only [List.head?_cons, Option.map_some', Option.some.injEq] at i2
        rw [i2, p2, Nat.add_assoc]
      · rw [List.map_cons, List.map_cons, List.getLast?_cons_cons]
        rw [List.map_cons] at i3
        exact i3

/-- C23 (as amended). In-order delivery versus buffering in `mptcp_queue_skb`, for a mapping
that is received in full, in window and checksum-valid, and whose buffers `segs` stand at the
head of the subflow receive queue and carry exactly its subflow bytes. When `map_data_seq` is
after the 64-bit receive cursor, the meta `rcv_nxt` and the meta receive queue are unchanged,
the result is -2, and outside time-wait the buffers, as `mptcp_prepare_skb` turns them, are
handed to `tcp_data_queue_ofo` in order; in time-wait they are freed and the out-of-order
queue is unchanged. When `map_data_seq` is not after the cursor and the out-of-order queue is
empty, the meta `rcv_nxt` afterwards is the low 32 bits of
`map_data_seq + map_data_len + map_data_fin`, which differs from its old value, and the
out-of-order queue is still empty. The connection ranges that `mptcp_prepare_skb` gives the
buffers are contiguous, start at the low 32 bits of `map_data_seq` and end at the low 32 bits
of `map_data_seq + map_data_len + map_data_fin`. -/
theorem queue_skb_delivers_or_buffers (ops : MetaRcvOps) (rcv_window_now csum_fold : Nat)
    (conn_list : List SubflowRef) (tp : TcpSock) (meta_tp : MetaSock) (calls : List ExtCall)
    (segs rest : List Skb)
    (hmap : tp.mapping_present = true)
    (hrcv : before tp.rcv_nxt (add32 tp.map_subseq tp.map_data_len) = false)
    (hin : before64 (mptcp_get_rcv_nxt_64 meta_tp)
      ((tp.map_data_seq + tp.map_data_len + (if tp.map_data_fin then 1 else 0))
        % 18446744073709551616) = true)
    (hseq : mptcp_sequence meta_tp rcv_window_now tp.map_data_seq
      ((tp.map_data_seq + tp.map_data_len + (if tp.map_data_fin then 1 else 0))
        % 18446744073709551616) = true)
    (hcs : meta_tp.mpcb.dss_csum = true → meta_tp.mpcb.infinite_mapping_rcv = false →
      csum_fold = 0)
    (hq : tp.sk_receive_queue = segs ++ rest)
    (hcov : CoversMapping tp 0 segs)
    (hrest : ∀ s, rest.head? = some s →
      before s.seq (add32 tp.map_subseq tp.map_data_len) = false)
    (hL : tp.map_data_len < 65536)
    (hD : tp.map_data_seq < 18446744073709551616)
    (hn : meta_tp.rcv_nxt < 4294967296)
    (hh : high_order meta_tp.mpcb.rcv_high_order meta_tp.mpcb.rcv_hiseq_index < 4294967296) :
    (before64 (mptcp_get_rcv_nxt_64 meta_tp) tp.map_data_seq = true →
      (mptcp_queue_skb ops rcv_window_now csum_fold conn_list tp meta_tp calls).ret = -2 ∧
      (mptcp_queue_skb ops rcv_window_now csum_fold conn_list tp meta_tp calls).meta_tp.rcv_nxt
        = meta_tp.rcv_nxt ∧
      (mptcp_queue_skb ops rcv_window_now csum_fold conn_list tp meta_tp
        calls).meta_tp.sk_receive_queue = meta_tp.sk_receive_queue ∧
      (mptcp_queue_skb ops rcv_window_now csum_fold conn_list tp meta_tp
        calls).meta_tp.out_of_order_queue
        = (if meta_tp.mpcb.in_time_wait then meta_tp.out_of_order_queue
           else segs.foldl (fun q s => ops.tcp_data_queue_ofo q (mptcp_prepare_skb tp s))
             meta_tp.out_of_order_queue)) ∧
    (before64 (mptcp_get_rcv_nxt_64 meta_tp) tp.map_data_seq = false →
      meta_tp.out_of_order_queue = [] →
      (mptcp_queue_skb ops rcv_window_now csum_fold conn_list tp meta_tp calls).meta_tp.rcv_nxt
        = (tp.map_data_seq + tp.map_data_len + (if tp.map_data_fin then 1 else 0))
          % 4294967296 ∧
      (mptcp_queue_skb ops rcv_window_now csum_fold conn_list tp meta_tp calls).meta_tp.rcv_nxt
        ≠ meta_tp.rcv_nxt ∧
      (mptcp_queue_skb ops rcv_window_now csum_fold conn_list tp meta_tp
        calls).meta_tp.out_of_order_queue = []) ∧
    (List.Chain' (fun p q : Skb => q.seq = p.end_seq) (segs.map (mptcp_prepare_skb tp)) ∧
      (segs.map (mptcp_prepare_skb tp)).head?.map (fun s => s.seq)
        = some (tp.map_data_seq % 4294967296) ∧
      (segs.map (mptcp_prepare_skb tp)).getLast?.map (fun s => s.end_seq)
        = some ((tp.map_data_seq + tp.map_data_len + (if tp.map_data_fin then 1 else 0))
            % 4294967296)) := by
  have heq := queue_skb_valid_eq ops rcv_window_now csum_fold conn_list tp meta_tp calls hmap
    hrcv hin hseq hcs
  rw [heq]
  refine ⟨fun hb => ?_, fun hb ho => ?_, covers_prepared_chain tp hL segs 0 hcov⟩
  · unfold queue_skb_deliver
    rw [if_pos hb]
    dsimp only
    rw [hq, ofo_walk_segs ops _ tp segs rest tp _ (covers_ne_nil tp 0 segs hcov)
      (covers_tail_before tp hL segs 0 hcov) hrest (fun _ => rfl)]
    have hw : (if tp.map_data_fin then
        { meta_tp.mpcb with dfin_path_index := tp.path_index,
                            dfin_combined := tp.sk_shutdown &&& RCV_SHUTDOWN != 0 }
        else meta_tp.mpcb).in_time_wait = meta_tp.mpcb.in_time_wait := by
      split <;> rfl
    dsimp only
    rw [hw]
    cases meta_tp.mpcb.in_time_wait <;> exact ⟨rfl, rfl, rfl, rfl⟩
  · unfold queue_skb_deliver
    have hb2 : ¬(before64 (mptcp_get_rcv_nxt_64 meta_tp) tp.map_data_seq = true) := by
      rw [hb]
      decide
    rw [if_neg hb2]
    dsimp only
    have hc64 : mptcp_get_rcv_nxt_64 meta_tp < 18446744073709551616 := by
      unfold mptcp_get_rcv_nxt_64 mptcp_get_data_seq_64
      omega
    obtain ⟨m, hm1, hm2⟩ := cursor_inside (mptcp_get_rcv_nxt_64 meta_tp) tp.map_data_seq
      (tp.map_data_len + (if tp.map_data_fin then 1 else 0)) hc64 hD (by split <;> omega) hb
      (by rw [← Nat.add_assoc]; exact hin)
    have hn2 : meta_tp.rcv_nxt = (tp.map_data_seq + m) % 4294967296 := by
      rw [← hm2]
      unfold mptcp_get_rcv_nxt_64 mptcp_get_data_seq_64
      omega
    obtain ⟨w1, w2⟩ := rcv_walk_rcv_nxt ops tp hL segs rest 0 tp
      { meta_tp with mpcb :=
        (if tp.map_data_fin then
          { meta_tp.mpcb with dfin_path_index := tp.path_index,
                              dfin_combined := tp.sk_shutdown &&& RCV_SHUTDOWN != 0 }
         else meta_tp.mpcb) } calls false m hcov hrest (fun _ => rfl) ho hn2 (le_of_lt hm1)
    rw [hq, w1, w2, max_eq_right (le_of_lt hm1), ← Nat.add_assoc]
    refine ⟨rfl, ?_, rfl⟩
    rw [hn2]
    have : m < tp.map_data_len + (if tp.map_data_fin then 1 else 0) := hm1
    split at this <;> simp only [*, if_true, if_false, Bool.false_eq_true] <;> omega

/-! ## Options of a bad length -/

/-- C27 (as amended). A bad option length is not fatal to the subflow: for every received
MPTCP option whose length is not one of the lengths that `mptcp_parse_options` allows for its
subtype (MP_CAPABLE of version 0 or 1 by the SYN and ACK bits of the segment, MP_JOIN, DSS by
its own flag bits, ADD_ADDR with a known connection, REMOVE_ADDR, MP_PRIO, MP_FAIL,
MP_FASTCLOSE), `mptcp_parse_options` changes neither the received options nor the segment: the
option is ignored. `mptcp_handle_options` therefore runs on the same state as without the
option; nothing is reset on account of it. -/
theorem parse_options_ignores_bad_length (sysctl_mptcp_checksum config_ipv6 : Bool)
    (ptr : List Nat) (opsize : Int) (mo : MptcpOptionsReceived) (skb : Skb)
    (mpcb : Option MptcpCb)
    (hbad :
      (mp_opt_sub ptr = MPTCP_SUB_CAPABLE ∧ mp_opt_low_nibble ptr = MPTCP_VERSION_0 ∧
        ((skb.th_syn = true ∧ opsize ≠ MPTCP_SUB_LEN_CAPABLE_SYN) ∨
         (skb.th_syn = false ∧ skb.th_ack = true ∧ opsize ≠ MPTCP_SUB_LEN_CAPABLE_ACK))) ∨
      (mp_opt_sub ptr = MPTCP_SUB_CAPABLE ∧ mp_opt_low_nibble ptr = MPTCP_VERSION_1 ∧
        ((skb.th_syn = true ∧ skb.th_ack = false ∧ opsize ≠ MPTCPV1_SUB_LEN_CAPABLE_SYN) ∨
         (skb.th_syn = true ∧ skb.th_ack = true ∧ opsize ≠ MPTCPV1_SUB_LEN_CAPABLE_SYNACK) ∨
         (skb.th_syn = false ∧ skb.th_ack = true ∧ opsize ≠ MPTCPV1_SUB_LEN_CAPABLE_ACK ∧
           opsize ≠ MPTCPV1_SUB_LEN_CAPABLE_DATA ∧
           opsize ≠ MPTCPV1_SUB_LEN_CAPABLE_DATA_CSUM))) ∨
      (mp_opt_sub ptr = MPTCP_SUB_JOIN ∧ opsize ≠ MPTCP_SUB_LEN_JOIN_SYN ∧
        opsize ≠ MPTCP_SUB_LEN_JOIN_SYNACK ∧ opsize ≠ MPTCP_SUB_LEN_JOIN_ACK) ∨
      (mp_opt_sub ptr = MPTCP_SUB_DSS ∧
        opsize ≠ mptcp_sub_len_dss (mp_dss_A ptr) (mp_dss_a ptr) (mp_dss_M ptr) (mp_dss_m ptr) 0 ∧
        opsize ≠ mptcp_sub_len_dss (mp_dss_A ptr) (mp_dss_a ptr) (mp_dss_M ptr) (mp_dss_m ptr)
          1) ∨
      (mp_opt_sub ptr = MPTCP_SUB_ADD_ADDR ∧ ∃ cb, mpcb = some cb ∧
        is_valid_addropt_opsize config_ipv6 cb.mptcp_ver ptr opsize = false) ∨
      (mp_opt_sub ptr = MPTCP_SUB_REMOVE_ADDR ∧ opsize < MPTCP_SUB_LEN_REMOVE_ADDR) ∨
      (mp_opt_sub ptr = MPTCP_SUB_PRIO ∧ opsize ≠ MPTCP_SUB_LEN_PRIO ∧
        opsize ≠ MPTCP_SUB_LEN_PRIO_ADDR) ∨
      (mp_opt_sub ptr = MPTCP_SUB_FAIL ∧ opsize ≠ MPTCP_SUB_LEN_FAIL) ∨
      (mp_opt_sub ptr = MPTCP_SUB_FCLOSE ∧ opsize ≠ MPTCP_SUB_LEN_FCLOSE)) :
    mptcp_parse_options sysctl_mptcp_checksum config_ipv6 ptr opsize (some mo) skb mpcb
      = (some mo, skb) ∧
    ∀ (env : AckEnv) (conn_list : List SubflowRef) (tp : TcpSock) (meta_tp : MetaSock)
      (calls : List ExtCall),
      mptcp_handle_options env conn_list
          { tp with rx_opt := ((mptcp_parse_options sysctl_mptcp_checksum config_ipv6 ptr opsize
              (some mo) skb mpcb).1).getD mo }
          meta_tp calls
          (mptcp_parse_options sysctl_mptcp_checksum config_ipv6 ptr opsize (some mo) skb
            mpcb).2
        = mptcp_handle_options env conn_list { tp with rx_opt := mo } meta_tp calls skb := by
  have key : mptcp_parse_options sysctl_mptcp_checksum config_ipv6 ptr opsize (some mo) skb mpcb
      = (some mo, skb) := by
    unfold mptcp_parse_options
    rcases hbad with h | h | h | h | h | h | h | h | h
    · obtain ⟨hs, hv, hc⟩ := h
      have hs2 : (mp_opt_sub ptr == MPTCP_SUB_CAPABLE) = true := by simp [hs]
      simp only [hs2, if_true]
      unfold parse_options_capable
      rcases hc with ⟨h1, h2⟩ | ⟨h1, h2, h3⟩
      · simp [hv, h1, h2]
      · simp [hv, h1, h2, h3]
    · obtain ⟨hs, hv, hc⟩ := h
      have hs2 : (mp_opt_sub ptr == MPTCP_SUB_CAPABLE) = true := by simp [hs]
      simp only [hs2, if_true]
      unfold parse_options_capable
      have hv0 : (mp_opt_low_nibble ptr == MPTCP_VERSION_0) = false := by
        rw [hv]; decide
      rcases hc with ⟨h1, h2, h3⟩ | ⟨h1, h2, h3⟩ | ⟨h1, h2, h3, h4, h5⟩
      · simp [hv, hv0, h1, h2, h3]
      · simp [hv, hv0, h1, h2, h3]
      · simp [hv, hv0, h1, h2, h3, h4, h5]
    · obtain ⟨hs, h1, h2, h3⟩ := h
      simp [hs, MPTCP_SUB_JOIN, MPTCP_SUB_CAPABLE, parse_options_join, h1, h2, h3]
    · obtain ⟨hs, h1, h2⟩ := h
      simp [hs, MPTCP_SUB_JOIN, MPTCP_SUB_CAPABLE, MPTCP_SUB_DSS, parse_options_dss, h1, h2]
    · obtain ⟨hs, cb, hcb, hv⟩ := h
      subst hcb
      simp [hs, MPTCP_SUB_JOIN, MPTCP_SUB_CAPABLE, MPTCP_SUB_DSS, MPTCP_SUB_ADD_ADDR,
        parse_options_add_addr, hv]
    · obtain ⟨hs, h1⟩ := h
      have h2 : opsize - (MPTCP_SUB_LEN_REMOVE_ADDR : Int) < 0 := by omega
      simp [hs, MPTCP_SUB_JOIN, MPTCP_SUB_CAPABLE, MPTCP_SUB_DSS, MPTCP_SUB_ADD_ADDR,
        MPTCP_SUB_REMOVE_ADDR, parse_options_remove_addr, h2]
    · obtain ⟨hs, h1, h2⟩ := h
      simp [hs, MPTCP_SUB_JOIN, MPTCP_SUB_CAPABLE, MPTCP_SUB_DSS, MPTCP_SUB_ADD_ADDR,
        MPTCP_SUB_REMOVE_ADDR, MPTCP_SUB_PRIO, parse_options_prio, h1, h2]
    · obtain ⟨hs, h1⟩ := h
      simp [hs, MPTCP_SUB_JOIN, MPTCP_SUB_CAPABLE, MPTCP_SUB_DSS, MPTCP_SUB_ADD_ADDR,
        MPTCP_SUB_REMOVE_ADDR, MPTCP_SUB_PRIO, MPTCP_SUB_FAIL, h1]
    · obtain ⟨hs, h1⟩ := h
      simp [hs, MPTCP_SUB_JOIN, MPTCP_SUB_CAPABLE, MPTCP_SUB_DSS, MPTCP_SUB_ADD_ADDR,
        MPTCP_SUB_REMOVE_ADDR, MPTCP_SUB_PRIO, MPTCP_SUB_FAIL, MPTCP_SUB_FCLOSE, h1]
  refine ⟨key, ?_⟩
  intro env conn_list tp meta_tp calls
  rw [key]
  rfl

/-! ## Option space reserved and option bytes written -/

/-- The reservation of `mptcp_established_options` for the DATA_ACK/DSS part against what
`mptcp_options_write` writes for it, branch by branch: for a data-ack only (8 bytes, 2 words)
and for a DSS option with a mapping, with the remote key (20 bytes, 5 words) or without it
(16 bytes, 4 words), the bytes reserved are four times the words written; for an MP_CAPABLE
with data 28 bytes are reserved and 6 words written. When the block of
`mptcp_established_options` does not run, nothing is reserved and nothing is written. -/
theorem established_options_size_vs_written (tp : TcpSock) (mpcb : MptcpCb)
    (meta_rcv_nxt : Nat) (skb : Skb) (buf : List Nat) (off : Nat) :
    (established_options_data_ack tp mpcb (some skb)).1
      = 4 * (options_write_data_ack (established_options_data_ack tp mpcb (some skb)).2 mpcb
              meta_rcv_nxt skb buf off).2.2
        + (if (established_options_data_ack tp mpcb (some skb)).2 &&
              !(!mptcp_is_data_seq skb && mpcb.rem_key_set) && mptcp_is_data_mpcapable skb
           then 4 else 0) ∧
    ((established_options_data_ack tp mpcb (some skb)).2 = true →
      (mptcp_is_data_seq skb = false ∧ mpcb.rem_key_set = true →
        (established_options_data_ack tp mpcb (some skb)).1 = 8 ∧
        (options_write_data_ack true mpcb meta_rcv_nxt skb buf off).2.2
          = (mptcp_write_dss_data_ack mpcb meta_rcv_nxt skb buf off).2 ∧
        (mptcp_write_dss_data_ack mpcb meta_rcv_nxt skb buf off).2 = 2) ∧
      (¬ (mptcp_is_data_seq skb = false ∧ mpcb.rem_key_set = true) →
        mptcp_is_data_mpcapable skb = true →
        (established_options_data_ack tp mpcb (some skb)).1 = 28 ∧
        (options_write_data_ack true mpcb meta_rcv_nxt skb buf off).2.2
          = (mptcp_write_mpcapable_data mpcb skb buf off).2.2 ∧
        (mptcp_write_mpcapable_data mpcb skb buf off).2.2 = 6) ∧
      (¬ (mptcp_is_data_seq skb = false ∧ mpcb.rem_key_set = true) →
        mptcp_is_data_mpcapable skb = false →
        (established_options_data_ack tp mpcb (some skb)).1
          = (if mpcb.rem_key_set then 20 else 16) ∧
        (options_write_data_ack true mpcb meta_rcv_nxt skb buf off).2.2
          = (mptcp_write_dss_data_seq mpcb meta_rcv_nxt skb buf off).2.2 ∧
        (mptcp_write_dss_data_seq mpcb meta_rcv_nxt skb buf off).2.2
          = (if mpcb.rem_key_set then 5 else 4))) ∧
    ((established_options_data_ack tp mpcb (some skb)).2 = false →
      (established_options_data_ack tp mpcb (some skb)).1 = 0 ∧
      (options_write_data_ack false mpcb meta_rcv_nxt skb buf off).2.2 = 0) := by
  unfold established_options_data_ack options_write_data_ack mptcp_write_mpcapable_data
    mptcp_write_dss_data_seq mptcp_write_dss_data_ack
  cases h1 : tp.include_mpc <;> cases h2 : tp.pre_established <;>
    cases h3 : mptcp_is_data_seq skb <;> cases h4 : mpcb.rem_key_set <;>
    cases h5 : mptcp_is_data_mpcapable skb <;>
    simp [h1, h2, h3, h4, h5, MPTCP_SUB_LEN_ACK_ALIGN, MPTCP_SUB_LEN_DSS_ALIGN, MPTCP_SUB_LEN_SEQ_ALIGN,
      MPTCPV1_SUB_LEN_CAPABLE_DATA_ALIGN, mptcp_dss_len]

/-! ## The DSS option written and parsed back -/

theorem getD_memcpy (buf : List Nat) (off : Nat) (src : List Nat) (n i d : Nat)
    (h : off ≤ buf.length) (hi : i < n) :
    (memcpy buf off src n).getD (off + i) d = src.getD i 0 := by
  unfold memcpy
  rw [List.append_assoc, List.getD_eq_getElem?_getD, List.getElem?_append_right (by simp [h])]
  have h1 : off + i - (List.take off buf).length = i := by
    rw [List.length_take, Nat.min_eq_left h]; omega
  rw [h1, List.getElem?_append_left (by simp [hi])]
  simp [hi]

theorem getD_memcpy_zero (buf : List Nat) (src : List Nat) (n i d : Nat) (hi : i < n) :
    (memcpy buf 0 src n).getD i d = src.getD i 0 := by
  have := getD_memcpy buf 0 src n i d (Nat.zero_le _) hi
  simpa using this

theorem length_memcpy (buf : List Nat) (off : Nat) (src : List Nat) (n : Nat)
    (h : off + n ≤ buf.length) : (memcpy buf off src n).length = buf.length := by
  unfold memcpy
  simp only [List.length_append, List.length_take, List.length_map, List.length_range,
    List.length_drop]
  omega

theorem write_dss_data_ack_bytes (mpcb : MptcpCb) (meta_rcv_nxt : Nat) (skb : Skb)
    (buf : List Nat) (h : 8 ≤ buf.length) :
    (mptcp_write_dss_data_ack mpcb meta_rcv_nxt skb buf 0).1.getD 1 0
      = mptcp_sub_len_dss 1 0 (if mptcp_is_data_seq skb then 1 else 0) 0
          (if mpcb.dss_csum then 1 else 0) % 256 ∧
    (mptcp_write_dss_data_ack mpcb meta_rcv_nxt skb buf 0).1.getD 2 0 = 32 := by
  unfold mptcp_write_dss_data_ack
  have h1 : 1 < buf.length := by omega
  have h2 : 2 < buf.length := by omega
  constructor
  · simp only []
    rw [getD_put_be32_other _ _ _ _ _ (by omega)]
    simp only [getD_set, List.length_set]
    simp [h1]
  · simp only []
    rw [getD_put_be32_other _ _ _ _ _ (by omega)]
    simp only [getD_set, List.length_set]
    simp [h2, MPTCP_SUB_DSS]
theorem write_dss_mapping_subseq (tp : TcpSock) (mpcb : MptcpCb) (csum : Nat) (skb : Skb)
    (buf : List Nat) (off : Nat) (h : off + 12 ≤ buf.length) :
    get_unaligned_be32 (mptcp_write_dss_mapping tp mpcb csum skb buf off).1 (off + 4)
      = (if mptcp_is_data_fin skb && skb.len == 0 then 0
         else sub32 tp.write_seq tp.snt_isn) := by
  unfold mptcp_write_dss_mapping
  have hb : ∃ v, v < 4294967296 ∧
      (if (mptcp_is_data_fin skb && skb.len == 0) = true then 0
        else sub32 tp.write_seq tp.snt_isn) = v ∧
      (if (mptcp_is_data_fin skb && skb.len == 0) = true
      then put_be32 (put_be32 buf off skb.seq) (off + 4) 0
      else put_be32 (put_be32 buf off skb.seq) (off + 4) (sub32 tp.write_seq tp.snt_isn))
      = put_be32 (put_be32 buf off skb.seq) (off + 4) v := by
    split
    · exact ⟨0, by decide, rfl, rfl⟩
    · refine ⟨_, ?_, rfl, rfl⟩
      unfold sub32
      omega
  obtain ⟨v, hv1, hv2, hv3⟩ := hb
  simp only []
  rw [hv2, hv3]
  have hl0 : (put_be32 buf off skb.seq).length = buf.length := length_put_be32 _ _ _
  have hg : get_unaligned_be32 (put_be32 (put_be32 buf off skb.seq) (off + 4) v) (off + 4)
      = v := get_put_be32 _ _ _ (by rw [hl0]; omega) hv1
  generalize (if (skb.mptcp_flags &&& MPTCPHDR_INF != 0) = true then 0
    else sub32 skb.end_seq skb.seq % 65536) = dl
  by_cases hc : (mpcb.dss_csum && dl != 0) = true
  · rw [if_pos hc, get_be32_put_be16_other _ _ _ _ (by omega),
      get_be32_put_be32_other _ _ _ _ (by omega)]
    exact hg
  · rw [if_neg hc, get_be32_put_be32_other _ _ _ _ (by omega)]
    exact hg

theorem save_dss_bytes (tp : TcpSock) (mpcb : MptcpCb) (meta_rcv_nxt csum : Nat) (skb : Skb)
    (hseq : skb.seq < 4294967296) (hlen : sub32 skb.end_seq skb.seq < 65536)
    (hinf : skb.mptcp_flags &&& MPTCPHDR_INF = 0) (hdss : mptcp_dss_len ≤ skb.dss.length) :
    (mptcp_save_dss_data_seq tp mpcb meta_rcv_nxt csum skb).dss.getD 1 0
      = mptcp_sub_len_dss 1 0 1 0 (if mpcb.dss_csum then 1 else 0) ∧
    (mptcp_save_dss_data_seq tp mpcb meta_rcv_nxt csum skb).dss.getD 2 0 = 32 ∧
    (mptcp_save_dss_data_seq tp mpcb meta_rcv_nxt csum skb).dss.getD 3 0
      = 5 + 16 * (if mptcp_is_data_fin skb then 1 else 0) ∧
    get_unaligned_be32 (mptcp_save_dss_data_seq tp mpcb meta_rcv_nxt csum skb).dss 8
      = skb.seq ∧
    get_unaligned_be32 (mptcp_save_dss_data_seq tp mpcb meta_rcv_nxt csum skb).dss 12
      = (if mptcp_is_data_fin skb && skb.len == 0 then 0
         else sub32 tp.write_seq tp.snt_isn) ∧
    get_unaligned_be16 (mptcp_save_dss_data_seq tp mpcb meta_rcv_nxt csum skb).dss 16
      = sub32 skb.end_seq skb.seq := by
  have hl : 20 ≤ skb.dss.length := hdss
  have hds : mptcp_is_data_seq { skb with mptcp_flags := skb.mptcp_flags ||| MPTCPHDR_SEQ }
      = true := by
    simp [mptcp_is_data_seq, is_data_seq_or]
  have hfin : mptcp_is_data_fin { skb with mptcp_flags := skb.mptcp_flags ||| MPTCPHDR_SEQ }
      = mptcp_is_data_fin skb := by
    simp [mptcp_is_data_fin, fin_flag_or]
  obtain ⟨ha1, ha2, ha3⟩ := write_dss_data_ack_spec mpcb meta_rcv_nxt
    { skb with mptcp_flags := skb.mptcp_flags ||| MPTCPHDR_SEQ } skb.dss (by omega) hds
  obtain ⟨hb1, hb2⟩ := write_dss_data_ack_bytes mpcb meta_rcv_nxt
    { skb with mptcp_flags := skb.mptcp_flags ||| MPTCPHDR_SEQ } skb.dss (by omega)
  obtain ⟨hm1, hm2, hm3⟩ := write_dss_mapping_spec tp mpcb csum
    { skb with mptcp_flags := skb.mptcp_flags ||| MPTCPHDR_SEQ }
    (mptcp_write_dss_data_ack mpcb meta_rcv_nxt
      { skb with mptcp_flags := skb.mptcp_flags ||| MPTCPHDR_SEQ } skb.dss 0).1 8
    (by rw [ha2]; omega) hseq hlen (inf_flag_or _ hinf)
  have hm4 := write_dss_mapping_subseq tp mpcb csum
    { skb with mptcp_flags := skb.mptcp_flags ||| MPTCPHDR_SEQ }
    (mptcp_write_dss_data_ack mpcb meta_rcv_nxt
      { skb with mptcp_flags := skb.mptcp_flags ||| MPTCPHDR_SEQ } skb.dss 0).1 8
    (by rw [ha2]; omega)
  rw [hfin] at hm4 ha3
  rw [hds] at hb1
  have e : (mptcp_save_dss_data_seq tp mpcb meta_rcv_nxt csum skb).dss
      = (mptcp_write_dss_mapping tp mpcb csum
          { skb with mptcp_flags := skb.mptcp_flags ||| MPTCPHDR_SEQ }
          (mptcp_write_dss_data_ack mpcb meta_rcv_nxt
            { skb with mptcp_flags := skb.mptcp_flags ||| MPTCPHDR_SEQ } skb.dss 0).1 8).1 := by
    unfold mptcp_save_dss_data_seq
    simp only [ha1]
  rw [e]
  refine ⟨?_, ?_, ?_, hm1, hm4, hm2⟩
  · rw [hm3 1 (by omega), hb1]
    cases mpcb.dss_csum <;> rfl
  · rw [hm3 2 (by omega), hb2]
  · rw [hm3 3 (by omega), ha3]
theorem parse_dss_of_bytes (sysctl_mptcp_checksum config_ipv6 : Bool) (ptr : List Nat)
    (mo : MptcpOptionsReceived) (rskb : Skb) (cb : Option MptcpCb) (c f : Bool)
    (hr : rskb.mptcp_flags = 0)
    (h1 : ptr.getD 1 0 = mptcp_sub_len_dss 1 0 1 0 (if c then 1 else 0))
    (h2 : ptr.getD 2 0 = 32)
    (h3 : ptr.getD 3 0 = 5 + 16 * (if f then 1 else 0)) :
    ptr.getD 1 0 = mptcp_sub_len_dss (mp_dss_A ptr) (mp_dss_a ptr) (mp_dss_M ptr)
      (mp_dss_m ptr) (if c then 1 else 0) ∧
    mp_opt_sub ptr = MPTCP_SUB_DSS ∧
    (mptcp_parse_options sysctl_mptcp_checksum config_ipv6 ptr (ptr.getD 1 0 : Nat)
        (some mo) rskb cb).1
      = some { mo with data_ack := get_unaligned_be32 ptr 4,
                       data_seq := get_unaligned_be32 ptr 8,
                       data_len := get_unaligned_be16 ptr 16 } ∧
    ((mptcp_parse_options sysctl_mptcp_checksum config_ipv6 ptr (ptr.getD 1 0 : Nat)
        (some mo) rskb cb).2.mptcp_flags &&& MPTCPHDR_FIN ≠ 0 ↔ f = true) ∧
    ((mptcp_parse_options sysctl_mptcp_checksum config_ipv6 ptr (ptr.getD 1 0 : Nat)
        (some mo) rskb cb).2.mptcp_flags &&& MPTCPHDR_DSS_CSUM ≠ 0 ↔ c = true) ∧
    (mptcp_parse_options sysctl_mptcp_checksum config_ipv6 ptr (ptr.getD 1 0 : Nat)
        (some mo) rskb cb).2.mptcp_flags &&& MPTCPHDR_SEQ ≠ 0 ∧
    (mptcp_parse_options sysctl_mptcp_checksum config_ipv6 ptr (ptr.getD 1 0 : Nat)
        (some mo) rskb cb).2.mptcp_flags &&& MPTCPHDR_ACK ≠ 0 := by
  have hA : mp_dss_A ptr = 1 := by
    unfold mp_dss_A; rw [h3]; cases f <;> rfl
  have ha : mp_dss_a ptr = 0 := by
    unfold mp_dss_a; rw [h3]; cases f <;> rfl
  have hM : mp_dss_M ptr = 1 := by
    unfold mp_dss_M; rw [h3]; cases f <;> rfl
  have hm : mp_dss_m ptr = 0 := by
    unfold mp_dss_m; rw [h3]; cases f <;> rfl
  have hF : mp_dss_F ptr = if f then 1 else 0 := by
    unfold mp_dss_F; rw [h3]; cases f <;> rfl
  have hs : mp_opt_sub ptr = MPTCP_SUB_DSS := by
    unfold mp_opt_sub; rw [h2]; rfl
  refine ⟨by rw [hA, ha, hM, hm]; exact h1, hs, ?_⟩
  unfold mptcp_parse_options parse_options_dss
  simp only [hs, hA, ha, hM, hm, hF, h1, hr]
  cases c <;> cases f <;>
    simp [MPTCP_SUB_DSS, MPTCP_SUB_CAPABLE, MPTCP_SUB_JOIN, MPTCP_SUB_LEN_ACK, mptcp_sub_len_dss,
      MPTCPHDR_ACK, MPTCPHDR_SEQ, MPTCPHDR_DSS_CSUM, MPTCPHDR_FIN] <;> decide
theorem getD_memcpy_before (buf : List Nat) (off : Nat) (src : List Nat) (n j d : Nat)
    (h : off ≤ buf.length) (hj : j < off) :
    (memcpy buf off src n).getD j d = buf.getD j d := by
  unfold memcpy
  rw [List.append_assoc, List.getD_eq_getElem?_getD,
    List.getElem?_append_left (by rw [List.length_take, Nat.min_eq_left h]; exact hj),
    List.getElem?_take_of_lt hj, List.getD_eq_getElem?_getD]

theorem getD_drop_add (l : List Nat) (k i d : Nat) : (l.drop k).getD i d = l.getD (k + i) d := by
  simp [List.getD_eq_getElem?_getD, List.getElem?_drop]

theorem dss_data_seq_key_bytes (mpcb : MptcpCb) (rcv : Nat) (S : Skb) (buf : List Nat)
    (hk : mpcb.rem_key_set = true) (hrcv : rcv < 4294967296)
    (hbuf : mptcp_dss_len ≤ buf.length) :
    (mptcp_write_dss_data_seq mpcb rcv S buf 0).2.2 = 5 ∧
    (∀ j, j < 4 → (mptcp_write_dss_data_seq mpcb rcv S buf 0).1.getD j 0 = S.dss.getD j 0) ∧
    get_unaligned_be32 (mptcp_write_dss_data_seq mpcb rcv S buf 0).1 4 = rcv ∧
    get_unaligned_be32 (mptcp_write_dss_data_seq mpcb rcv S buf 0).1 8
      = get_unaligned_be32 S.dss 8 ∧
    get_unaligned_be16 (mptcp_write_dss_data_seq mpcb rcv S buf 0).1 16
      = get_unaligned_be16 S.dss 16 := by
  have hb : 20 ≤ buf.length := hbuf
  have e : mptcp_write_dss_data_seq mpcb rcv S buf 0
      = (put_be32 (memcpy buf 0 S.dss 20) 4 rcv,
          { S with dss := List.replicate mptcp_dss_len 0 ++ S.dss.drop mptcp_dss_len }, 5) := by
    unfold mptcp_write_dss_data_seq
    simp [hk, mptcp_dss_len]
  have g : ∀ j, j < 4 ∨ 8 ≤ j → j < 20 →
      (put_be32 (memcpy buf 0 S.dss 20) 4 rcv).getD j 0 = S.dss.getD j 0 := by
    intro j h1 h2
    rw [getD_put_be32_other _ _ _ _ _ (by omega), getD_memcpy_zero _ _ _ _ _ h2]
  rw [e]
  refine ⟨rfl, fun j hj => g j (Or.inl hj) (by omega), ?_, ?_, ?_⟩
  · exact get_put_be32 _ _ _ (by rw [length_memcpy _ _ _ _ (by omega)]; omega) hrcv
  · show get_unaligned_be32 (put_be32 (memcpy buf 0 S.dss 20) 4 rcv) 8 = _
    unfold get_unaligned_be32
    rw [g 8 (by omega) (by omega), g (8 + 1) (by omega) (by omega),
      g (8 + 2) (by omega) (by omega), g (8 + 3) (by omega) (by omega)]
  · show get_unaligned_be16 (put_be32 (memcpy buf 0 S.dss 20) 4 rcv) 16 = _
    unfold get_unaligned_be16
    rw [g 16 (by omega) (by omega), g (16 + 1) (by omega) (by omega)]

theorem dss_data_seq_nokey_bytes (mpcb : MptcpCb) (rcv : Nat) (S : Skb) (buf : List Nat)
    (hk : mpcb.rem_key_set = false) (hbuf : 16 ≤ buf.length) :
    (mptcp_write_dss_data_seq mpcb rcv S buf 0).2.2 = 4 ∧
    (∀ j, j < 4 → (mptcp_write_dss_data_seq mpcb rcv S buf 0).1.getD j 0 = S.dss.getD j 0) ∧
    get_unaligned_be32 (mptcp_write_dss_data_seq mpcb rcv S buf 0).1 4
      = get_unaligned_be32 S.dss 8 ∧
    get_unaligned_be32 (mptcp_write_dss_data_seq mpcb rcv S buf 0).1 8
      = get_unaligned_be32 S.dss 12 := by
  have e : mptcp_write_dss_data_seq mpcb rcv S buf 0
      = (memcpy (memcpy buf 0 S.dss 4) 4 (S.dss.drop 8) 12,
          { S with dss := List.replicate mptcp_dss_len 0 ++ S.dss.drop mptcp_dss_len }, 4) := by
    unfold mptcp_write_dss_data_seq
    simp [hk, MPTCP_SUB_LEN_DSS_ALIGN, MPTCP_SUB_LEN_SEQ_ALIGN]
  have hl : (memcpy buf 0 S.dss 4).length = buf.length := length_memcpy _ _ _ _ (by omega)
  have g : ∀ i, i < 12 →
      (memcpy (memcpy buf 0 S.dss 4) 4 (S.dss.drop 8) 12).getD (4 + i) 0
        = S.dss.getD (8 + i) 0 := by
    intro i hi
    rw [getD_memcpy _ _ _ _ _ _ (by rw [hl]; omega) hi, getD_drop_add]
  rw [e]
  refine ⟨rfl, ?_, ?_, ?_⟩
  · intro j hj
    show (memcpy (memcpy buf 0 S.dss 4) 4 (S.dss.drop 8) 12).getD j 0 = _
    rw [getD_memcpy_before _ _ _ _ _ _ (by rw [hl]; omega) hj, getD_memcpy_zero _ _ _ _ _ hj]
  · show get_unaligned_be32 (memcpy (memcpy buf 0 S.dss 4) 4 (S.dss.drop 8) 12) 4 = _
    unfold get_unaligned_be32
    have a0 := g 0 (by omega)
    have a1 := g 1 (by omega)
    have a2 := g 2 (by omega)
    have a3 := g 3 (by omega)
    simp only [Nat.add_zero, Nat.reduceAdd] at a0 a1 a2 a3
    simp only [Nat.reduceAdd, a0, a1, a2, a3]
  · show get_unaligned_be32 (memcpy (memcpy buf 0 S.dss 4) 4 (S.dss.drop 8) 12) 8 = _
    unfold get_unaligned_be32
    have a0 := g 4 (by omega)
    have a1 := g 5 (by omega)
    have a2 := g 6 (by omega)
    have a3 := g 7 (by omega)
    simp only [Nat.reduceAdd] at a0 a1 a2 a3
    simp only [Nat.reduceAdd, a0, a1, a2, a3]
/-- Round trip of the DSS option. For a segment with connection range `[seq, end_seq)`,
`end_seq - seq < 2^16`, no infinite-mapping flag, data-fin flag `F` and checksum setting `c`:
when the remote key is set, the bytes produced by `mptcp_write_dss_data_ack` followed by
`mptcp_write_dss_mapping` and emitted by `mptcp_write_dss_data_seq` are 5 words with a length
field equal to `mptcp_sub_len_dss` of their own flag bits, are accepted by
`mptcp_parse_options` on a segment with a fresh control block, and decode to
`data_seq == seq`, `data_len == end_seq - seq`, the FIN flag set iff `F`, the checksum flag set
iff `c`, and `data_ack` equal to the meta `rcv_nxt` at write time. When the remote key is not
set, `mptcp_write_dss_data_seq` emits 4 words, the header word of the saved option followed by
its mapping: the header still has the bit `A` set and a length field of 18 or 20, more than the
16 bytes written, and `mptcp_parse_options` decodes the data sequence number as `data_ack` and
the subflow sequence number as `data_seq`. -/
theorem dss_write_parse_round_trip (sysctl_mptcp_checksum config_ipv6 : Bool) (tp : TcpSock)
    (mpcb : MptcpCb) (rcv_saved rcv_nxt csum : Nat) (skb : Skb) (buf : List Nat)
    (mo : MptcpOptionsReceived) (rskb : Skb) (cb : Option MptcpCb)
    (hseq : skb.seq < 4294967296) (hlen : sub32 skb.end_seq skb.seq < 65536)
    (hinf : skb.mptcp_flags &&& MPTCPHDR_INF = 0) (hdss : mptcp_dss_len ≤ skb.dss.length)
    (hbuf : mptcp_dss_len ≤ buf.length) (hrcv : rcv_nxt < 4294967296)
    (hr : rskb.mptcp_flags = 0) :
    (mpcb.rem_key_set = true →
      (mptcp_write_dss_data_seq mpcb rcv_nxt
        (mptcp_save_dss_data_seq tp mpcb rcv_saved csum skb) buf 0).2.2 = 5 ∧
      (mptcp_write_dss_data_seq mpcb rcv_nxt
          (mptcp_save_dss_data_seq tp mpcb rcv_saved csum skb) buf 0).1.getD 1 0
        = mptcp_sub_len_dss
            (mp_dss_A (mptcp_write_dss_data_seq mpcb rcv_nxt
              (mptcp_save_dss_data_seq tp mpcb rcv_saved csum skb) buf 0).1)
            (mp_dss_a (mptcp_write_dss_data_seq mpcb rcv_nxt
              (mptcp_save_dss_data_seq tp mpcb rcv_saved csum skb) buf 0).1)
            (mp_dss_M (mptcp_write_dss_data_seq mpcb rcv_nxt
              (mptcp_save_dss_data_seq tp mpcb rcv_saved csum skb) buf 0).1)
            (mp_dss_m (mptcp_write_dss_data_seq mpcb rcv_nxt
              (mptcp_save_dss_data_seq tp mpcb rcv_saved csum skb) buf 0).1)
            (if mpcb.dss_csum then 1 else 0) ∧
      mp_opt_sub (mptcp_write_dss_data_seq mpcb rcv_nxt
          (mptcp_save_dss_data_seq tp mpcb rcv_saved csum skb) buf 0).1 = MPTCP_SUB_DSS ∧
      (mptcp_parse_options sysctl_mptcp_checksum config_ipv6
          (mptcp_write_dss_data_seq mpcb rcv_nxt
            (mptcp_save_dss_data_seq tp mpcb rcv_saved csum skb) buf 0).1
          ((mptcp_write_dss_data_seq mpcb rcv_nxt
            (mptcp_save_dss_data_seq tp mpcb rcv_saved csum skb) buf 0).1.getD 1 0 : Nat)
          (some mo) rskb cb).1
        = some { mo with data_ack := rcv_nxt, data_seq := skb.seq,
                         data_len := sub32 skb.end_seq skb.seq } ∧
      ((mptcp_parse_options sysctl_mptcp_checksum config_ipv6
          (mptcp_write_dss_data_seq mpcb rcv_nxt
            (mptcp_save_dss_data_seq tp mpcb rcv_saved csum skb) buf 0).1
          ((mptcp_write_dss_data_seq mpcb rcv_nxt
            (mptcp_save_dss_data_seq tp mpcb rcv_saved csum skb) buf 0).1.getD 1 0 : Nat)
          (some mo) rskb cb).2.mptcp_flags &&& MPTCPHDR_FIN ≠ 0
        ↔ mptcp_is_data_fin skb = true) ∧
      ((mptcp_parse_options sysctl_mptcp_checksum config_ipv6
          (mptcp_write_dss_data_seq mpcb rcv_nxt
            (mptcp_save_dss_data_seq tp mpcb rcv_saved csum skb) buf 0).1
          ((mptcp_write_dss_data_seq mpcb rcv_nxt
            (mptcp_save_dss_data_seq tp mpcb rcv_saved csum skb) buf 0).1.getD 1 0 : Nat)
          (some mo) rskb cb).2.mptcp_flags &&& MPTCPHDR_DSS_CSUM ≠ 0
        ↔ mpcb.dss_csum = true) ∧
      (mptcp_parse_options sysctl_mptcp_checksum config_ipv6
          (mptcp_write_dss_data_seq mpcb rcv_nxt
            (mptcp_save_dss_data_seq tp mpcb rcv_saved csum skb) buf 0).1
          ((mptcp_write_dss_data_seq mpcb rcv_nxt
            (mptcp_save_dss_data_seq tp mpcb rcv_saved csum skb) buf 0).1.getD 1 0 : Nat)
          (some mo) rskb cb).2.mptcp_flags &&& MPTCPHDR_SEQ ≠ 0) ∧
    (mpcb.rem_key_set = false →
      (mptcp_write_dss_data_seq mpcb rcv_nxt
        (mptcp_save_dss_data_seq tp mpcb rcv_saved csum skb) buf 0).2.2 = 4 ∧
      mp_dss_A (mptcp_write_dss_data_seq mpcb rcv_nxt
        (mptcp_save_dss_data_seq tp mpcb rcv_saved csum skb) buf 0).1 = 1 ∧
      (mptcp_write_dss_data_seq mpcb rcv_nxt
          (mptcp_save_dss_data_seq tp mpcb rcv_saved csum skb) buf 0).1.getD 1 0
        = (if mpcb.dss_csum then 20 else 18) ∧
      get_unaligned_be32 (mptcp_write_dss_data_seq mpcb rcv_nxt
        (mptcp_save_dss_data_seq tp mpcb rcv_saved csum skb) buf 0).1 4 = skb.seq ∧
      ∃ r, (mptcp_parse_options sysctl_mptcp_checksum config_ipv6
          (mptcp_write_dss_data_seq mpcb rcv_nxt
            (mptcp_save_dss_data_seq tp mpcb rcv_saved csum skb) buf 0).1
          ((mptcp_write_dss_data_seq mpcb rcv_nxt
            (mptcp_save_dss_data_seq tp mpcb rcv_saved csum skb) buf 0).1.getD 1 0 : Nat)
          (some mo) rskb cb).1 = some r ∧
        r.data_ack = skb.seq ∧
        r.data_seq = (if mptcp_is_data_fin skb && skb.len == 0 then 0
                      else sub32 tp.write_seq tp.snt_isn)) := by
  obtain ⟨s1, s2, s3, s4, s5, s6⟩ := save_dss_bytes tp mpcb rcv_saved csum skb hseq hlen hinf hdss
  have hb16 : 16 ≤ buf.length := by
    have : 20 ≤ buf.length := hbuf
    omega
  constructor
  · intro hk
    obtain ⟨w1, w2, w3, w4, w5⟩ := dss_data_seq_key_bytes mpcb rcv_nxt
      (mptcp_save_dss_data_seq tp mpcb rcv_saved csum skb) buf hk hrcv hbuf
    obtain ⟨p1, p2, p3, p4, p5, p6, _⟩ := parse_dss_of_bytes sysctl_mptcp_checksum config_ipv6
      (mptcp_write_dss_data_seq mpcb rcv_nxt
        (mptcp_save_dss_data_seq tp mpcb rcv_saved csum skb) buf 0).1 mo rskb cb
      mpcb.dss_csum (mptcp_is_data_fin skb) hr
      (by rw [w2 1 (by omega), s1]) (by rw [w2 2 (by omega), s2])
      (by rw [w2 3 (by omega), s3])
    rw [w3, w4, w5, s4, s6] at p3
    exact ⟨w1, p1, p2, p3, p4, p5, p6⟩
  · intro hk
    obtain ⟨w1, w2, w3, w4⟩ := dss_data_seq_nokey_bytes mpcb rcv_nxt
      (mptcp_save_dss_data_seq tp mpcb rcv_saved csum skb) buf hk hb16
    have h1 : (mptcp_write_dss_data_seq mpcb rcv_nxt
        (mptcp_save_dss_data_seq tp mpcb rcv_saved csum skb) buf 0).1.getD 1 0
        = mptcp_sub_len_dss 1 0 1 0 (if mpcb.dss_csum then 1 else 0) := by
      rw [w2 1 (by omega), s1]
    have h3 : (mptcp_write_dss_data_seq mpcb rcv_nxt
        (mptcp_save_dss_data_seq tp mpcb rcv_saved csum skb) buf 0).1.getD 3 0
        = 5 + 16 * (if mptcp_is_data_fin skb then 1 else 0) := by
      rw [w2 3 (by omega), s3]
    obtain ⟨_, _, p3, _⟩ := parse_dss_of_bytes sysctl_mptcp_checksum config_ipv6
      (mptcp_write_dss_data_seq mpcb rcv_nxt
        (mptcp_save_dss_data_seq tp mpcb rcv_saved csum skb) buf 0).1 mo rskb cb
      mpcb.dss_csum (mptcp_is_data_fin skb) hr h1 (by rw [w2 2 (by omega), s2]) h3
    refine ⟨w1, ?_, ?_, by rw [w3, s4], _, p3, by rw [w3, s4], by rw [w4, s5]⟩
    · unfold mp_dss_A
      rw [h3]
      cases mptcp_is_data_fin skb <;> rfl
    · rw [h1]
      cases mpcb.dss_csum <;> rfl

/-! ## The checksum over the buffers of a mapping -/

theorem sum16_at_append (p : Bool) (A B : List Nat) :
    sum16_at p (A ++ B) = sum16_at p A + sum16_at (xor p (decide (A.length % 2 = 1))) B := by
  induction A generalizing p with
  | nil => simp [sum16_at]
  | cons a A ih =>
    have e : xor (!p) (decide (A.length % 2 = 1)) = xor p (decide ((A.length + 1) % 2 = 1)) := by
      rcases Nat.mod_two_eq_zero_or_one A.length with h | h
      · have h2 : (A.length + 1) % 2 = 1 := by omega
        simp [h, h2]
      · have h2 : (A.length + 1) % 2 = 0 := by omega
        simp [h, h2]
    rw [List.cons_append, sum16_at, sum16_at, ih, e, List.length_cons]
    omega

theorem csum32_add (a x : Nat) : csum32 (a + csum32 x) = csum32 (a + x) := by
  unfold csum32
  by_cases hx : x = 0
  · simp [hx]
  · have h1 : a + ((x - 1) % 4294967295 + 1) ≠ 0 := by omega
    have h2 : a + x ≠ 0 := by omega
    simp only [hx, h1, h2, if_false]
    have e1 : a + ((x - 1) % 4294967295 + 1) - 1 = a + (x - 1) % 4294967295 := by omega
    have e2 : a + x - 1 = a + (x - 1) := by omega
    rw [e1, e2, Nat.add_mod_mod]

theorem csum_partial_csum32 (buff : List Nat) (x : Nat) :
    csum_partial buff (csum32 x) = csum32 (x + sum16_at false buff) := by
  unfold csum_partial
  rw [csum32_add, Nat.add_comm]

theorem fold16_canonical (z : Nat) (h1 : 0 < z) (h2 : z < 4294967296) :
    (z % 65536 + z / 65536) % 65536 + (z % 65536 + z / 65536) / 65536
      = (z - 1) % 65535 + 1 := by
  have e : (z - 1) % 65535 = (z % 65536 + z / 65536 - 1) % 65535 := by
    have : z - 1 = 65535 * (z / 65536) + (z % 65536 + z / 65536 - 1) := by omega
    rw [this, Nat.mul_add_mod]
  rw [e]
  omega

theorem csum_fold_csum32 (T : Nat) : csum_fold (csum32 T) = 0 ↔ 0 < T ∧ T % 65535 = 0 := by
  unfold csum_fold csum32
  by_cases h : T = 0
  · simp [h]
  · simp only [h, if_false]
    have hpos : 0 < T := Nat.pos_of_ne_zero h
    generalize hy : (T - 1) % 4294967295 = y
    have hy1 : y < 4294967295 := by rw [← hy]; exact Nat.mod_lt _ (by decide)
    have hy2 : (T - 1) % 65535 = y % 65535 := by
      rw [← hy]
      exact (Nat.mod_mod_of_dvd (T - 1) (by decide : 65535 ∣ 4294967295)).symm
    have hf := fold16_canonical (y + 1) (by omega) (by omega)
    rw [hf]
    have e : y + 1 - 1 = y := by omega
    rw [e, ← hy2]
    constructor
    · intro hf2
      refine ⟨hpos, ?_⟩
      omega
    · rintro ⟨_, h2⟩
      omega
theorem verif_dss_csum_header_spec (tp : TcpSock) (s : Skb) (added : Bool) (Y : Nat) :
    verif_dss_csum_header tp s added (csum32 Y)
      = (csum32 (Y + (if added then 0 else pseudo_header_sum tp [s])),
          added || mptcp_is_data_seq s || mptcp_is_data_mpcapable s) := by
  unfold verif_dss_csum_header pseudo_header_sum pseudo_header_sum skb_checksum
  cases added <;> cases h1 : mptcp_is_data_seq s <;> cases h2 : mptcp_is_data_mpcapable s <;>
    simp [csum_partial_csum32, Nat.add_assoc]

theorem sub32_self (a : Nat) : sub32 a a = 0 := by
  unfold sub32
  omega

theorem sum16_at_true_take (data : List Nat) (n : Nat) (h1 : 0 < n) (h2 : n ≤ data.length) :
    sum16_at true (data.take n)
      = data.getD 0 0 + sum16_at false ((data.drop 1).take (n - 1)) := by
  cases data with
  | nil => simp at h2; omega
  | cons d rest =>
    obtain ⟨m, rfl⟩ : ∃ m, n = m + 1 := ⟨n - 1, by omega⟩
    simp [sum16_at]

theorem verif_dss_csum_body_spec (tp : TcpSock) (s : Skb) (iter : Nat) (w : CsumWalk)
    (X n : Nat) (hw : w.csum_tcp = csum32 X)
    (hnext : (if iter = 0 then s.seq else w.next_seq) = s.seq)
    (hlen0 : (if before (add32 tp.map_subseq tp.map_data_len) s.end_seq
        then sub32 (add32 tp.map_subseq tp.map_data_len) s.seq else s.len % 4294967296) = n)
    (hn1 : 0 < n) (hn2 : n ≤ s.data.length) (hn3 : n < 4294967296) :
    (verif_dss_csum_body tp s iter w).csum_tcp
      = csum32 (X + sum16_at w.overflowed (s.data.take n)
          + (if w.dss_csum_added then 0 else pseudo_header_sum tp [s])) ∧
    (verif_dss_csum_body tp s iter w).overflowed = xor w.overflowed (decide (n % 2 = 1)) ∧
    (verif_dss_csum_body tp s iter w).dss_csum_added
      = (w.dss_csum_added || mptcp_is_data_seq s || mptcp_is_data_mpcapable s) := by
  unfold verif_dss_csum_body
  simp only [hnext, hlen0, sub32_self]
  have e0 : sub32 n 0 = n := by unfold sub32; omega
  have e1 : sub32 n 1 = n - 1 := by unfold sub32; omega
  rw [e0, e1, hw]
  cases hov : w.overflowed with
  | true =>
    simp only [if_true]
    have c1 : csum_partial [0, 0, 0, s.data.getD 0 0] (csum32 X)
        = csum32 (X + s.data.getD 0 0) := by
      rw [csum_partial_csum32]
      simp [sum16_at]
    have c2 : skb_checksum s.data (1 + 0) (n - 1) (csum32 (X + s.data.getD 0 0))
        = csum32 (X + sum16_at true (s.data.take n)) := by
      unfold skb_checksum
      rw [csum_partial_csum32, sum16_at_true_take s.data n hn1 hn2, Nat.add_assoc]
    rw [c1, c2, verif_dss_csum_header_spec]
    refine ⟨rfl, ?_, rfl⟩
    rcases Nat.mod_two_eq_zero_or_one n with h | h
    · have h2 : (n - 1) % 2 = 1 := by omega
      have h3 : n - 1 ≠ n - 1 - 1 := by omega
      simp [h, h2, h3]
    · have h2 : (n - 1) % 2 = 0 := by omega
      simp [h, h2]
  | false =>
    simp only [Bool.false_eq_true, if_false]
    have c2 : skb_checksum s.data (0 + 0) n (csum32 X)
        = csum32 (X + sum16_at false (s.data.take n)) := by
      unfold skb_checksum
      rw [csum_partial_csum32]
      simp
    rw [c2, verif_dss_csum_header_spec]
    refine ⟨rfl, ?_, rfl⟩
    rcases Nat.mod_two_eq_zero_or_one n with h | h
    · simp [h]
    · have h3 : n ≠ n - 1 := by omega
      simp [h, h3]
theorem pseudo_header_sum_cons (tp : TcpSock) (s : Skb) (l : List Skb) :
    pseudo_header_sum tp (s :: l)
      = if mptcp_is_data_seq s || mptcp_is_data_mpcapable s then pseudo_header_sum tp [s]
        else pseudo_header_sum tp l := by
  cases h1 : mptcp_is_data_seq s <;> cases h2 : mptcp_is_data_mpcapable s <;>
    simp [pseudo_header_sum, h1, h2]

theorem pseudo_header_sum_single (tp : TcpSock) (s : Skb)
    (h : (mptcp_is_data_seq s || mptcp_is_data_mpcapable s) = false) :
    pseudo_header_sum tp [s] = 0 := by
  rw [pseudo_header_sum_cons, h]
  simp [pseudo_header_sum]

theorem csum_len_last (map_end seq end_seq len rem : Nat)
    (hend : add32 seq rem = map_end) (hr0 : 0 < rem) (hrl : rem ≤ len)
    (hl : len < 2147483648)
    (hes : end_seq = add32 seq len ∨ end_seq = add32 seq (len + 1)) :
    (if before map_end end_seq then sub32 map_end seq else len % 4294967296) = rem := by
  subst hend
  unfold before
  by_cases hb : 2147483648 ≤ sub32 (add32 seq rem) end_seq
  · simp only [hb, decide_True, if_true]
    unfold sub32 add32
    omega
  · simp only [hb, decide_False, Bool.false_eq_true, if_false]
    rcases hes with h | h <;> subst h <;> unfold sub32 add32 at hb <;> omega

theorem csum_len_inner (map_end seq end_seq len rem : Nat)
    (hend : add32 seq rem = map_end) (hlr : len < rem) (hr : rem < 2147483648)
    (hes : end_seq = add32 seq len) :
    (if before map_end end_seq then sub32 map_end seq else len % 4294967296) = len ∧
    before end_seq map_end = true ∧
    add32 end_seq (rem - len) = map_end := by
  subst hend hes
  unfold before
  have hb : ¬ 2147483648 ≤ sub32 (add32 seq rem) (add32 seq len) := by
    unfold sub32 add32
    omega
  have hb2 : 2147483648 ≤ sub32 (add32 seq len) (add32 seq rem) := by
    unfold sub32 add32
    omega
  simp only [hb, hb2, decide_True, decide_False, Bool.false_eq_true, if_false, true_and]
  constructor
  · omega
  · unfold add32
    omega

theorem verif_dss_csum_walk_spec (tp : TcpSock) (rest : List Skb)
    (hrest : ∀ t, rest.head? = some t →
      before t.seq (add32 tp.map_subseq tp.map_data_len) = false) :
    ∀ (segs : List Skb) (rem iter : Nat) (w : CsumWalk) (X : Nat),
      CsumPieces tp rem segs → w.csum_tcp = csum32 X →
      (∀ s, segs.head? = some s → (if iter = 0 then s.seq else w.next_seq) = s.seq) →
      (verif_dss_csum_walk tp (segs ++ rest) iter w).csum_tcp
        = csum32 (X + sum16_at w.overflowed (summed_bytes rem segs)
            + (if w.dss_csum_added then 0 else pseudo_header_sum tp segs)) := by
  intro segs
  induction segs with
  | nil => intro rem iter w X h; exact absurd h (by simp [CsumPieces])
  | cons s tl ih =>
    intro rem iter w X hp hw hnext
    have hn := hnext s rfl
    cases tl with
    | nil =>
      obtain ⟨hend, hdl, hr0, hrl, hl, hes⟩ := hp
      have hb := verif_dss_csum_body_spec tp s iter w X rem hw hn
        (csum_len_last _ _ _ _ _ hend hr0 hrl hl hes) hr0 (by omega) (by omega)
      have hs : summed_bytes rem [s] = s.data.take rem := by simp [summed_bytes]
      rw [hs, ← hb.1]
      cases rest with
      | nil => rfl
      | cons t rest2 =>
        have ht := hrest t rfl
        show (verif_dss_csum_walk tp (s :: t :: rest2) iter w).csum_tcp = _
        rw [verif_dss_csum_walk, ht]
        rfl
    | cons t more =>
      obtain ⟨hend, hdl, hl0, hlr, hr, hes, hts, hrec⟩ := hp
      obtain ⟨c1, c2, c3⟩ := csum_len_inner _ _ _ _ _ hend hlr hr hes
      obtain ⟨b1, b2, b3⟩ := verif_dss_csum_body_spec tp s iter w X s.len hw hn c1 hl0
        (by omega) (by omega)
      have ht : before t.seq (add32 tp.map_subseq tp.map_data_len) = true := by
        rw [hts]; exact c2
      show (verif_dss_csum_walk tp (s :: t :: (more ++ rest)) iter w).csum_tcp = _
      rw [verif_dss_csum_walk, ht]
      simp only [Bool.not_true, Bool.false_eq_true, if_false]
      have hih := ih (rem - s.len) (iter + 1)
        { verif_dss_csum_body tp s iter w with next_seq := s.end_seq } _ hrec b1
        (by
          intro s2 hs2
          have e : s2 = t := by simpa using hs2.symm
          subst e
          simp [hts])
      have hcat : t :: (more ++ rest) = (t :: more) ++ rest := rfl
      rw [hcat, hih]
      have hs : summed_bytes rem (s :: t :: more)
          = s.data.take s.len ++ summed_bytes (rem - s.len) (t :: more) := by
        have e1 : s.data.take rem = s.data := List.take_of_length_le (by omega)
        have e2 : s.data.take s.len = s.data := List.take_of_length_le (by omega)
        rw [summed_bytes, e1, e2]
      have hlen : (s.data.take s.len).length = s.len := by
        rw [List.length_take]; omega
      rw [hs, sum16_at_append, hlen]
      show csum32 (X + sum16_at w.overflowed (List.take s.len s.data)
          + (if w.dss_csum_added = true then 0 else pseudo_header_sum tp [s])
          + sum16_at (verif_dss_csum_body tp s iter w).overflowed
              (summed_bytes (rem - s.len) (t :: more))
          + (if (verif_dss_csum_body tp s iter w).dss_csum_added = true then 0
              else pseudo_header_sum tp (t :: more))) = _
      rw [b2, b3, pseudo_header_sum_cons tp s (t :: more)]
      congr 1
      cases ha : w.dss_csum_added with
      | true => simp; omega
      | false =>
        cases hf : (mptcp_is_data_seq s || mptcp_is_data_mpcapable s) with
        | true =>
          have hf2 : (false || mptcp_is_data_seq s || mptcp_is_data_mpcapable s) = true := by
            simpa using hf
          simp only [hf2, if_true, Bool.false_eq_true, if_false]
          omega
        | false =>
          have hf2 : (false || mptcp_is_data_seq s || mptcp_is_data_mpcapable s) = false := by
            simpa using hf
          rw [pseudo_header_sum_single tp s hf]
          simp only [hf2, Bool.false_eq_true, if_false]
          omega
theorem sum16_at_set (l : List Nat) :
    ∀ (p : Bool) (i v : Nat), i < l.length →
      ∃ wt, (wt = 1 ∨ wt = 256) ∧
        sum16_at p (l.set i v) + wt * l.getD i 0 = sum16_at p l + wt * v := by
  induction l with
  | nil => intro p i v h; simp at h
  | cons a l ih =>
    intro p i v h
    cases i with
    | zero =>
      cases p
      · exact ⟨256, Or.inr rfl, by simp [sum16_at]; omega⟩
      · exact ⟨1, Or.inl rfl, by simp [sum16_at]; omega⟩
    | succ j =>
      obtain ⟨wt, hwt, he⟩ := ih (!p) j v (by simpa using h)
      refine ⟨wt, hwt, ?_⟩
      simp only [List.set_cons_succ, sum16_at, List.getD_cons_succ]
      omega

theorem flip_bit_delta (b k : Nat) (hk : k < 8) :
    ∃ d, 1 ≤ d ∧ d ≤ 128 ∧ (flip_bit b k = b + d ∨ (d ≤ b ∧ flip_bit b k + d = b)) := by
  have h1 : 1 ≤ 2 ^ k := Nat.one_le_two_pow
  have h2 : 2 ^ k ≤ 2 ^ 7 := Nat.pow_le_pow_right (by decide) (by omega)
  refine ⟨2 ^ k, h1, h2, ?_⟩
  unfold flip_bit
  by_cases hb : b / 2 ^ k % 2 = 0
  · simp [hb]
  · right
    have hge : 2 ^ k ≤ b := by
      by_contra hlt
      have : b / 2 ^ k = 0 := Nat.div_eq_of_lt (by omega)
      rw [this] at hb
      exact hb rfl
    simp only [hb, if_false]
    omega

theorem summed_bytes_length (tp : TcpSock) :
    ∀ (segs : List Skb) (rem : Nat), CsumPieces tp rem segs →
      (summed_bytes rem segs).length = rem := by
  intro segs
  induction segs with
  | nil => intro rem h; exact absurd h (by simp [CsumPieces])
  | cons s tl ih =>
    intro rem hp
    cases tl with
    | nil =>
      obtain ⟨_, hdl, _, hrl, _, _⟩ := hp
      simp only [summed_bytes, List.append_nil, List.length_take]
      omega
    | cons t more =>
      obtain ⟨_, hdl, _, hlr, _, _, _, hrec⟩ := hp
      have := ih (rem - s.len) hrec
      rw [summed_bytes, List.length_append, this, List.length_take]
      omega

theorem csum_flip_not_zero (T T2 wt d b v : Nat) (hT : 0 < T ∧ T % 65535 = 0)
    (hwt : wt = 1 ∨ wt = 256) (hd1 : 1 ≤ d) (hd2 : d ≤ 128)
    (hv : v = b + d ∨ (d ≤ b ∧ v + d = b))
    (he : T2 + wt * b = T + wt * v) : ¬ (0 < T2 ∧ T2 % 65535 = 0) := by
  rintro ⟨h1, h2⟩
  obtain ⟨h3, h4⟩ := hT
  rcases hwt with h | h <;> subst h <;> rcases hv with h | ⟨h5, h⟩ <;> omega
theorem verif_dss_csum_fold_eq (tp : TcpSock) (segs rest : List Skb) (rem : Nat)
    (hq : tp.sk_receive_queue = segs ++ rest) (hp : CsumPieces tp rem segs)
    (hrest : ∀ t, rest.head? = some t →
      before t.seq (add32 tp.map_subseq tp.map_data_len) = false) :
    (verif_dss_csum_walk tp tp.sk_receive_queue 0 {}).csum_tcp
      = csum32 (sum16_at false (summed_bytes rem segs) + pseudo_header_sum tp segs) := by
  rw [hq]
  have h := verif_dss_csum_walk_spec tp rest hrest segs rem 0 {} 0 hp (by simp [csum32])
    (by intro s _; rfl)
  rw [h]
  simp

theorem verif_dss_csum_reports (f : Nat) (hf : f ≠ 0) (conn_list : List SubflowRef)
    (tp : TcpSock) (meta_tp : MetaSock) (calls : List ExtCall) :
    (mptcp_verif_dss_csum f conn_list tp meta_tp calls).ret ≠ 1 ∧
    (mptcp_verif_dss_csum f conn_list tp meta_tp calls).tp.send_mp_fail = true := by
  unfold mptcp_verif_dss_csum
  have h : (f != 0) = true := by simpa using hf
  rw [if_pos h]
  dsimp only
  by_cases hc : find_other_established conn_list = true
  · rw [if_pos hc]
    exact ⟨by simp, rfl⟩
  · rw [if_neg hc]
    refine ⟨?_, rfl⟩
    dsimp only
    split <;> simp

theorem trim_head_seq (env : ValidateEnv) (skb : Skb) (seq : Nat) :
    (mptcp_skb_trim_head env skb seq).seq = seq % 4294967296 := by
  unfold mptcp_skb_trim_head add32 sub32
  dsimp only
  omega

theorem not_before_self_mod (m : Nat) : before (m % 4294967296) m = false := by
  unfold before sub32
  simp only [decide_eq_false_iff_not]
  omega

/-- With a mapping present and a head buffer `raw` that starts at or before `map_subseq`
(by `lead` bytes, fewer than it holds), a call of `mptcp_validate_mapping` that returns 0
leaves the queue with its head trimmed to `map_subseq` and nothing else changed. -/
theorem validate_mapping_trims_head (env : ValidateEnv) (tp : TcpSock) (calls : List ExtCall)
    (idx : Nat) (v : ValidateResult) (raw : Skb) (q : List Skb)
    (hmp : tp.mapping_present = true)
    (hq : tp.sk_receive_queue = raw :: q)
    (hlead : sub32 tp.map_subseq raw.seq < raw.len)
    (hlen : raw.len < 2147483648)
    (hend : raw.end_seq = add32 raw.seq raw.len ∨ raw.end_seq = add32 raw.seq (raw.len + 1))
    (hv : mptcp_validate_mapping env tp calls idx = some v) (hret : v.ret = 0) :
    v.tp = { tp with sk_receive_queue :=
      (if 0 < sub32 tp.map_subseq raw.seq then mptcp_skb_trim_head env raw tp.map_subseq
       else raw) :: q } := by
  have hb : before raw.seq tp.map_subseq = decide (0 < sub32 tp.map_subseq raw.seq) := by
    unfold before sub32 at *
    rw [decide_eq_decide]
    omega
  have ha : 0 < sub32 tp.map_subseq raw.seq → after raw.end_seq tp.map_subseq = true := by
    intro h0
    unfold after before
    rw [decide_eq_true_eq]
    rcases hend with h | h <;> rw [h] <;> unfold sub32 add32 at * <;> omega
  unfold mptcp_validate_mapping at hv
  rw [hmp, hq] at hv
  simp only [Bool.not_true, Bool.false_eq_true, if_false] at hv
  by_cases h0 : 0 < sub32 tp.map_subseq raw.seq
  · have htrim : (before raw.seq tp.map_subseq && after raw.end_seq tp.map_subseq) = true := by
      rw [hb, ha h0]
      simp [h0]
    rw [htrim] at hv
    simp only [if_true] at hv
    rw [if_pos h0]
    split at hv
    · split at hv
      · cases hv
        simp at hret
      · cases hv
        simp at hret
    · cases hv
      have hs : before (mptcp_skb_trim_head env raw tp.map_subseq).seq tp.map_subseq
          = false := by
        rw [trim_head_seq]
        exact not_before_self_mod _
      simp only [validate_mapping_purge, hs, Bool.not_false, if_true, hmp]
  · have htrim : (before raw.seq tp.map_subseq && after raw.end_seq tp.map_subseq) = false := by
      rw [hb]
      simp [h0]
    rw [htrim] at hv
    simp only [Bool.false_eq_true, if_false] at hv
    rw [if_neg h0]
    split at hv
    · split at hv
      · cases hv
        simp at hret
      · cases hv
        simp at hret
    · cases hv
      have hs : before raw.seq tp.map_subseq = false := by
        rw [hb]
        simp [h0]
      simp only [validate_mapping_purge, hs, Bool.not_false, if_true, hmp]

theorem csum_pieces_congr (tp tp' : TcpSock) (h1 : tp'.map_subseq = tp.map_subseq)
    (h2 : tp'.map_data_len = tp.map_data_len) :
    ∀ (segs : List Skb) (rem : Nat), CsumPieces tp rem segs → CsumPieces tp' rem segs := by
  intro segs
  induction segs with
  | nil => intro rem h; exact absurd h (by simp [CsumPieces])
  | cons s tl ih =>
    intro rem hp
    cases tl with
    | nil =>
      simp only [CsumPieces] at hp ⊢
      rw [h1, h2]
      exact hp
    | cons t more =>
      simp only [CsumPieces] at hp ⊢
      rw [h1, h2]
      obtain ⟨a1, a2, a3, a4, a5, a6, a7, a8⟩ := hp
      exact ⟨a1, a2, a3, a4, a5, a6, a7, ih _ a8⟩

theorem pseudo_header_sum_congr (tp tp' : TcpSock) (h1 : tp'.map_subseq = tp.map_subseq)
    (h2 : tp'.map_data_seq = tp.map_data_seq) (h3 : tp'.rcv_isn = tp.rcv_isn) :
    ∀ segs : List Skb, pseudo_header_sum tp' segs = pseudo_header_sum tp segs := by
  intro segs
  induction segs with
  | nil => rfl
  | cons s tl ih =>
    simp only [pseudo_header_sum]
    rw [h1, h2, h3, ih]

theorem csum_pieces_trim (env : ValidateEnv) (tp : TcpSock) (raw : Skb) (tl : List Skb)
    (hlead : sub32 tp.map_subseq raw.seq < raw.len) (hL : 0 < tp.map_data_len)
    (hp : CsumPieces tp (sub32 tp.map_subseq raw.seq + tp.map_data_len) (raw :: tl)) :
    CsumPieces tp tp.map_data_len
      ((if 0 < sub32 tp.map_subseq raw.seq then mptcp_skb_trim_head env raw tp.map_subseq
        else raw) :: tl) ∧
    summed_bytes tp.map_data_len
        ((if 0 < sub32 tp.map_subseq raw.seq then mptcp_skb_trim_head env raw tp.map_subseq
          else raw) :: tl)
      = (summed_bytes (sub32 tp.map_subseq raw.seq + tp.map_data_len) (raw :: tl)).drop
          (sub32 tp.map_subseq raw.seq) ∧
    pseudo_header_sum tp
        ((if 0 < sub32 tp.map_subseq raw.seq then mptcp_skb_trim_head env raw tp.map_subseq
          else raw) :: tl)
      = pseudo_header_sum tp (raw :: tl) := by
  by_cases h0 : 0 < sub32 tp.map_subseq raw.seq
  · rw [if_pos h0]
    generalize hld : sub32 tp.map_subseq raw.seq = lead at *
    have hT : mptcp_skb_trim_head env raw tp.map_subseq
        = { raw with data := raw.data.drop lead, len := raw.len - lead,
                     seq := add32 raw.seq lead,
                     truesize := raw.truesize - env.delta_truesize } := by
      unfold mptcp_skb_trim_head
      simp only [hld]
    rw [hT]
    refine ⟨?_, ?_, ?_⟩
    · cases tl with
      | nil =>
        simp only [CsumPieces] at hp ⊢
        obtain ⟨a1, a2, a3, a4, a5, a6⟩ := hp
        refine ⟨?_, ?_, hL, by omega, by omega, ?_⟩
        · rw [← a1]; unfold add32; omega
        · rw [List.length_drop, a2]
        · rcases a6 with h | h
          · left; rw [h]; unfold add32; omega
          · right; rw [h]; unfold add32; omega
      | cons t more =>
        simp only [CsumPieces] at hp ⊢
        obtain ⟨a1, a2, a3, a4, a5, a6, a7, a8⟩ := hp
        refine ⟨?_, ?_, by omega, by omega, by omega, ?_, a7, ?_⟩
        · rw [← a1]; unfold add32; omega
        · rw [List.length_drop, a2]
        · rw [a6]; unfold add32; omega
        · have e : tp.map_data_len - (raw.len - lead) = lead + tp.map_data_len - raw.len := by
            omega
          rw [e]
          exact a8
    · have hdl : raw.data.length = raw.len := by
        cases tl with
        | nil => simp only [CsumPieces] at hp; exact hp.2.1
        | cons t more => simp only [CsumPieces] at hp; exact hp.2.1
      simp only [summed_bytes]
      rw [List.drop_append_of_le_length (by rw [List.length_take]; omega), List.drop_take]
      have e1 : lead + tp.map_data_len - lead = tp.map_data_len := by omega
      have e2 : tp.map_data_len - (raw.len - lead) = lead + tp.map_data_len - raw.len := by
        omega
      rw [e1, e2]
    · simp only [pseudo_header_sum, mptcp_is_data_seq, mptcp_is_data_mpcapable]
  · rw [if_neg h0]
    have e : sub32 tp.map_subseq raw.seq = 0 := by omega
    rw [e, Nat.zero_add] at hp
    rw [e, Nat.zero_add, List.drop_zero]
    exact ⟨hp, rfl, rfl⟩

theorem csum_pieces_head (tp : TcpSock) (rem : Nat) (s : Skb) (tl : List Skb)
    (hp : CsumPieces tp rem (s :: tl)) :
    s.len < 2147483648 ∧
    (s.end_seq = add32 s.seq s.len ∨ s.end_seq = add32 s.seq (s.len + 1)) := by
  cases tl with
  | nil =>
    simp only [CsumPieces] at hp
    exact ⟨hp.2.2.2.2.1, hp.2.2.2.2.2⟩
  | cons t more =>
    simp only [CsumPieces] at hp
    obtain ⟨-, -, -, a4, a5, a6, -⟩ := hp
    exact ⟨by omega, Or.inl a6⟩

/-- What `mptcp_verif_dss_csum` sums after `mptcp_validate_mapping` has returned 0 on a queue
whose head holds `lead` bytes in front of the mapping: the mapped bytes, without the leading
ones, and the pseudo-header. -/
theorem validated_csum_eq (env : ValidateEnv) (tp : TcpSock) (raw : Skb)
    (tl rest : List Skb) (idx : Nat) (vcalls : List ExtCall) (v : ValidateResult)
    (hmp : tp.mapping_present = true)
    (hq : tp.sk_receive_queue = (raw :: tl) ++ rest)
    (hlead : sub32 tp.map_subseq raw.seq < raw.len)
    (hL : 0 < tp.map_data_len)
    (hp : CsumPieces tp (sub32 tp.map_subseq raw.seq + tp.map_data_len) (raw :: tl))
    (hrest : ∀ t, rest.head? = some t →
      before t.seq (add32 tp.map_subseq tp.map_data_len) = false)
    (hv : mptcp_validate_mapping env tp vcalls idx = some v) (hret : v.ret = 0) :
    v.tp = { tp with sk_receive_queue :=
      ((if 0 < sub32 tp.map_subseq raw.seq then mptcp_skb_trim_head env raw tp.map_subseq
        else raw) :: tl) ++ rest } ∧
    (verif_dss_csum_walk v.tp v.tp.sk_receive_queue 0 {}).csum_tcp
      = csum32 (sum16_at false
          ((summed_bytes (sub32 tp.map_subseq raw.seq + tp.map_data_len) (raw :: tl)).drop
            (sub32 tp.map_subseq raw.seq))
        + pseudo_header_sum tp (raw :: tl)) ∧
    ((summed_bytes (sub32 tp.map_subseq raw.seq + tp.map_data_len) (raw :: tl)).drop
      (sub32 tp.map_subseq raw.seq)).length = tp.map_data_len := by
  obtain ⟨h1, h2⟩ := csum_pieces_head tp _ raw tl hp
  have hvt := validate_mapping_trims_head env tp vcalls idx v raw (tl ++ rest) hmp
    (by rw [hq]; rfl) hlead h1 h2 hv hret
  obtain ⟨c1, c2, c3⟩ := csum_pieces_trim env tp raw tl hlead hL hp
  have hlen := summed_bytes_length tp _ _ c1
  rw [c2] at hlen
  refine ⟨by rw [hvt]; rfl, ?_, hlen⟩
  have e := verif_dss_csum_fold_eq v.tp
    ((if 0 < sub32 tp.map_subseq raw.seq then mptcp_skb_trim_head env raw tp.map_subseq
      else raw) :: tl) rest tp.map_data_len (by rw [hvt]; rfl)
    (csum_pieces_congr tp v.tp (by rw [hvt]) (by rw [hvt]) _ _ c1)
    (by rw [hvt]; exact hrest)
  rw [e, c2, pseudo_header_sum_congr tp v.tp (by rw [hvt]) (by rw [hvt]) (by rw [hvt]), c3]

/-- C21. Single bit-flip detection. A mapping is present on the subflow and the queued buffers
lie end to end, each with at least one payload byte, the pieces may have odd lengths, the
first buffer `raw` may start `lead` bytes before `map_subseq` (leading bytes outside the
mapping) and the last may hold trailing bytes outside the mapping.
`mptcp_validate_mapping`, when it returns 0, has trimmed the leading bytes, and on the queue it
leaves the running sum of `mptcp_verif_dss_csum` equals the ones-complement sum of the mapped
bytes taken together, leading and trailing bytes left out, plus the DSS pseudo-header
(data-seq high bits, data-seq, subflow-seq, length, checksum). If it folds to zero, so that
the mapping passes, then for the same buffers with any single bit of any mapped byte flipped
`mptcp_verif_dss_csum` computes a non-zero fold and reports a checksum failure: it does not
return 1 and sets `send_mp_fail`. -/
theorem verif_dss_csum_detects_bit_flip (env env2 : ValidateEnv) (tp tp2 : TcpSock)
    (raw raw2 : Skb) (tl tl2 rest rest2 : List Skb) (idx idx2 i k : Nat)
    (vcalls vcalls2 : List ExtCall) (v v2 : ValidateResult)
    (conn_list : List SubflowRef) (meta_tp : MetaSock) (calls : List ExtCall)
    (hmp : tp.mapping_present = true)
    (hq : tp.sk_receive_queue = (raw :: tl) ++ rest)
    (hlead : sub32 tp.map_subseq raw.seq < raw.len)
    (hp : CsumPieces tp (sub32 tp.map_subseq raw.seq + tp.map_data_len) (raw :: tl))
    (hrest : ∀ t, rest.head? = some t →
      before t.seq (add32 tp.map_subseq tp.map_data_len) = false)
    (hv : mptcp_validate_mapping env tp vcalls idx = some v) (hret : v.ret = 0)
    (hmp2 : tp2.mapping_present = true)
    (hq2 : tp2.sk_receive_queue = (raw2 :: tl2) ++ rest2)
    (hlead2 : sub32 tp2.map_subseq raw2.seq < raw2.len)
    (hp2 : CsumPieces tp2 (sub32 tp2.map_subseq raw2.seq + tp2.map_data_len) (raw2 :: tl2))
    (hrest2 : ∀ t, rest2.head? = some t →
      before t.seq (add32 tp2.map_subseq tp2.map_data_len) = false)
    (hv2 : mptcp_validate_mapping env2 tp2 vcalls2 idx2 = some v2) (hret2 : v2.ret = 0)
    (hhdr : pseudo_header_sum tp2 (raw2 :: tl2) = pseudo_header_sum tp (raw :: tl))
    (hi : i < tp.map_data_len) (hi2 : 0 < tp2.map_data_len) (hk : k < 8)
    (hflip : (summed_bytes (sub32 tp2.map_subseq raw2.seq + tp2.map_data_len)
        (raw2 :: tl2)).drop (sub32 tp2.map_subseq raw2.seq)
      = ((summed_bytes (sub32 tp.map_subseq raw.seq + tp.map_data_len) (raw :: tl)).drop
          (sub32 tp.map_subseq raw.seq)).set i
        (flip_bit (((summed_bytes (sub32 tp.map_subseq raw.seq + tp.map_data_len)
          (raw :: tl)).drop (sub32 tp.map_subseq raw.seq)).getD i 0) k))
    (hok : verif_dss_csum_fold v.tp = 0) :
    v.tp.sk_receive_queue
      = ((if 0 < sub32 tp.map_subseq raw.seq then mptcp_skb_trim_head env raw tp.map_subseq
          else raw) :: tl) ++ rest ∧
    (verif_dss_csum_walk v.tp v.tp.sk_receive_queue 0 {}).csum_tcp
      = csum32 (sum16_at false
          ((summed_bytes (sub32 tp.map_subseq raw.seq + tp.map_data_len) (raw :: tl)).drop
            (sub32 tp.map_subseq raw.seq))
        + pseudo_header_sum tp (raw :: tl)) ∧
    (mptcp_verif_dss_csum (verif_dss_csum_fold v.tp) conn_list v.tp meta_tp calls).ret = 1 ∧
    verif_dss_csum_fold v2.tp ≠ 0 ∧
    (mptcp_verif_dss_csum (verif_dss_csum_fold v2.tp) conn_list v2.tp meta_tp calls).ret ≠ 1 ∧
    (mptcp_verif_dss_csum (verif_dss_csum_fold v2.tp) conn_list v2.tp meta_tp
      calls).tp.send_mp_fail = true := by
  obtain ⟨q1, e1, l1⟩ := validated_csum_eq env tp raw tl rest idx vcalls v hmp hq hlead
    (by omega) hp hrest hv hret
  obtain ⟨-, e2, -⟩ := validated_csum_eq env2 tp2 raw2 tl2 rest2 idx2 vcalls2 v2 hmp2 hq2
    hlead2 hi2 hp2 hrest2 hv2 hret2
  have hne : verif_dss_csum_fold v2.tp ≠ 0 := by
    intro h0
    unfold verif_dss_csum_fold at hok h0
    rw [e1, csum_fold_csum32] at hok
    rw [e2, csum_fold_csum32, hhdr, hflip] at h0
    obtain ⟨wt, hwt, he⟩ := sum16_at_set
      ((summed_bytes (sub32 tp.map_subseq raw.seq + tp.map_data_len) (raw :: tl)).drop
        (sub32 tp.map_subseq raw.seq)) false i
      (flip_bit (((summed_bytes (sub32 tp.map_subseq raw.seq + tp.map_data_len)
        (raw :: tl)).drop (sub32 tp.map_subseq raw.seq)).getD i 0) k)
      (by rw [l1]; exact hi)
    obtain ⟨d, hd1, hd2, hv⟩ := flip_bit_delta
      (((summed_bytes (sub32 tp.map_subseq raw.seq + tp.map_data_len)
        (raw :: tl)).drop (sub32 tp.map_subseq raw.seq)).getD i 0) k hk
    exact csum_flip_not_zero _ _ wt d _ _ hok hwt hd1 hd2 hv (by omega) h0
  refine ⟨by rw [q1], e1, ?_, hne, verif_dss_csum_reports _ hne conn_list v2.tp meta_tp calls⟩
  rw [hok]
  rfl

/-! ## Concrete segments -/

/-- Witness for C1 (as amended): the queue `[0, 10), [10, 20)` and the new range `[2, 8)`, which
lies inside the first entry. -/
theorem reinject_idempotent_when_one_entry_covers_witness :
    reinject_queue_insert
      [{ seq := 0, end_seq := 10, len := 10 }, { seq := 10, end_seq := 20, len := 10 }]
      { seq := 2, end_seq := 8, len := 6 }
    = [{ seq := 0, end_seq := 10, len := 10 }, { seq := 10, end_seq := 20, len := 10 }] :=
  reinject_idempotent_when_one_entry_covers 0
    [{ seq := 0, end_seq := 10, len := 10 }, { seq := 10, end_seq := 20, len := 10 }]
    { seq := 2, end_seq := 8, len := 6 } { seq := 0, end_seq := 10, len := 10 }
    (by decide) (by decide) (by decide) (by decide) (by decide) (by decide)

/-- Counterexample to C1 as stated: the range `[5, 15)` is fully covered by the adjacent
entries `[0, 10)` and `[10, 20)` of a sorted, overlap-free queue, it ends after `snd_una = 0`
and its length matches, yet `__mptcp_reinject_data` links it in between the two: the queue is
not the queue before the call. The same happens to the empty range `[10, 10)`, which every
queue covers, and to `[3, 5)`, which lies inside the first entry of the overlapping queue
`[0, 10), [3, 4)`. -/
theorem reinject_not_idempotent_when_adjacent_entries_cover :
    CoveredByQueue
      [{ seq := 0, end_seq := 10, len := 10 }, { seq := 10, end_seq := 20, len := 10 }]
      { seq := 5, end_seq := 15, len := 10 } ∧
    SeqSorted [{ seq := 0, end_seq := 10, len := 10 }, { seq := 10, end_seq := 20, len := 10 }] ∧
    OverlapFree
      [{ seq := 0, end_seq := 10, len := 10 }, { seq := 10, end_seq := 20, len := 10 }] ∧
    __mptcp_reinject_data 0 RbTree.nil (fun _ => true) 0
      { seq := 5, end_seq := 15, len := 10 }
      [{ seq := 0, end_seq := 10, len := 10 }, { seq := 10, end_seq := 20, len := 10 }]
      none true TcpQueue.TCP_FRAG_IN_WRITE_QUEUE
    = some ([{ seq := 0, end_seq := 10, len := 10 },
             { seq := 5, end_seq := 15, len := 10, dss := List.replicate 20 0 },
             { seq := 10, end_seq := 20, len := 10 }], none) ∧
    CoveredByQueue [{ seq := 0, end_seq := 10, len := 10 }]
      { seq := 10, end_seq := 10, len := 0 } ∧
    __mptcp_reinject_data 0 RbTree.nil (fun _ => true) 0
      { seq := 10, end_seq := 10, len := 0 } [{ seq := 0, end_seq := 10, len := 10 }]
      none true TcpQueue.TCP_FRAG_IN_WRITE_QUEUE
    = some ([{ seq := 0, end_seq := 10, len := 10 },
             { seq := 10, end_seq := 10, len := 0, dss := List.replicate 20 0 }], none) ∧
    CoveredByQueue [{ seq := 0, end_seq := 10, len := 10 }, { seq := 3, end_seq := 4, len := 1 }]
      { seq := 3, end_seq := 5, len := 2 } ∧
    __mptcp_reinject_data 0 RbTree.nil (fun _ => true) 0
      { seq := 3, end_seq := 5, len := 2 }
      [{ seq := 0, end_seq := 10, len := 10 }, { seq := 3, end_seq := 4, len := 1 }]
      none true TcpQueue.TCP_FRAG_IN_WRITE_QUEUE
    = some ([{ seq := 0, end_seq := 10, len := 10 },
             { seq := 3, end_seq := 5, len := 2, dss := List.replicate 20 0 }], none) := by
  decide

/-- Witness for C2 (as amended): the new range `[12, 30)` contains the entry `[15, 20)` and
meets no other entry. -/
theorem reinject_insert_keeps_overlap_free_witness :
    OverlapFree (reinject_queue_insert
      [{ seq := 0, end_seq := 10, len := 10 }, { seq := 15, end_seq := 20, len := 5 }]
      { seq := 12, end_seq := 30, len := 18 }) :=
  reinject_insert_keeps_overlap_free 0
    [{ seq := 0, end_seq := 10, len := 10 }, { seq := 15, end_seq := 20, len := 5 }]
    { seq := 12, end_seq := 30, len := 18 }
    (by decide) (by decide) (by decide) (by decide) (by decide)

/-- Counterexample to C2 as stated: the queue `[0, 10)` is overlap-free and the new range
`[5, 15)` partially overlaps its entry; `__mptcp_reinject_data` links the new segment in
untrimmed, so the bytes 5..9 are in two entries. And with the disjoint but unsorted queue
`[10, 20), [0, 5)` the new range `[12, 14)` is linked in behind `[0, 5)` although `[10, 20)`
has its bytes. -/
theorem reinject_partial_overlap_is_not_trimmed :
    OverlapFree [{ seq := 0, end_seq := 10, len := 10 }] ∧
    __mptcp_reinject_data 0 RbTree.nil (fun _ => true) 0
      { seq := 5, end_seq := 15, len := 10 } [{ seq := 0, end_seq := 10, len := 10 }]
      none true TcpQueue.TCP_FRAG_IN_WRITE_QUEUE
    = some ([{ seq := 0, end_seq := 10, len := 10 },
             { seq := 5, end_seq := 15, len := 10, dss := List.replicate 20 0 }], none) ∧
    ¬ OverlapFree [{ seq := 0, end_seq := 10, len := 10 },
             { seq := 5, end_seq := 15, len := 10, dss := List.replicate 20 0 }] ∧
    OverlapFree [{ seq := 10, end_seq := 20, len := 10 }, { seq := 0, end_seq := 5, len := 5 }] ∧
    ¬ OverlapFree (reinject_queue_insert
      [{ seq := 10, end_seq := 20, len := 10 }, { seq := 0, end_seq := 5, len := 5 }]
      { seq := 12, end_seq := 14, len := 2 }) := by
  decide

/-- Witness for C3 (as amended): the new segment `[10, 25)` starts at the `seq` of the entry
`[10, 20)`. -/
theorem reinject_insert_keeps_seq_sorted_witness :
    SeqSorted (reinject_queue_insert
      [{ seq := 0, end_seq := 10, len := 10 }, { seq := 10, end_seq := 20, len := 10 }]
      { seq := 10, end_seq := 25, len := 15 }) :=
  reinject_insert_keeps_seq_sorted 0
    [{ seq := 0, end_seq := 10, len := 10 }, { seq := 10, end_seq := 20, len := 10 }]
    { seq := 10, end_seq := 25, len := 15 } (by decide) (by decide) (by decide)

/-- Counterexample to C3 as stated: with `snd_una = 0`, `__mptcp_reinject_data` queues the
segment `[5, 5)` (no payload, no DATA_FIN: its length matches its range, and 5 is after
`snd_una`) into the empty queue; that queue is sorted. Offered `[5, 10)` next, it links the new
segment in behind the entry with the same `seq`, and the start sequence numbers 5, 5 do not
strictly ascend. -/
theorem reinject_insert_after_empty_entry_unsorted :
    __mptcp_reinject_data 0 RbTree.nil (fun _ => true) 0
      { seq := 5, end_seq := 5, len := 0 } [] none true TcpQueue.TCP_FRAG_IN_WRITE_QUEUE
    = some ([{ seq := 5, end_seq := 5, len := 0, dss := List.replicate 20 0 }], none) ∧
    SeqSorted [{ seq := 5, end_seq := 5, len := 0, dss := List.replicate 20 0 }] ∧
    WithinWindow 0 [{ seq := 5, end_seq := 10, len := 5 },
      { seq := 5, end_seq := 5, len := 0, dss := List.replicate 20 0 }] ∧
    ¬ SeqSorted (reinject_queue_insert
      [{ seq := 5, end_seq := 5, len := 0, dss := List.replicate 20 0 }]
      { seq := 5, end_seq := 10, len := 5 }) := by
  decide

/-- Witness for C4 (as amended): the new segment `[10, 40)` covers the entries `[10, 20)` and
`[20, 30)`. -/
theorem reinject_insert_removes_covered_entries_witness :
    ∃ pre post,
      reinject_queue_insert
        [{ seq := 0, end_seq := 10, len := 10 }, { seq := 10, end_seq := 20, len := 10 },
         { seq := 20, end_seq := 30, len := 10 }, { seq := 50, end_seq := 60, len := 10 }]
        { seq := 10, end_seq := 40, len := 30 }
        = pre ++ { seq := 10, end_seq := 40, len := 30 } :: post ∧
      pre ++ post =
        ([{ seq := 0, end_seq := 10, len := 10 }, { seq := 10, end_seq := 20, len := 10 },
          { seq := 20, end_seq := 30, len := 10 }, { seq := 50, end_seq := 60, len := 10 }]
          : List Skb).filter (fun s => !seq_inside s { seq := 10, end_seq := 40, len := 30 }) :=
  reinject_insert_removes_covered_entries 0
    [{ seq := 0, end_seq := 10, len := 10 }, { seq := 10, end_seq := 20, len := 10 },
     { seq := 20, end_seq := 30, len := 10 }, { seq := 50, end_seq := 60, len := 10 }]
    { seq := 10, end_seq := 40, len := 30 }
    (by decide) (by decide) (by decide) (by decide) (by decide)

/-- Counterexample to C4 as stated: the queue with the single entry `[5, 5)` is sorted and
overlap-free; the insertion step links the new segment `[5, 10)` in behind it, and the
resulting queue still holds the other entry `[5, 5)`, whose range lies inside `[5, 10)`
(`5 <= 5` and `5 <= 10`). -/
theorem reinject_insert_keeps_covered_empty_entry :
    SeqSorted [{ seq := 5, end_seq := 5, len := 0 }] ∧
    OverlapFree [{ seq := 5, end_seq := 5, len := 0 }] ∧
    reinject_queue_insert [{ seq := 5, end_seq := 5, len := 0 }]
      { seq := 5, end_seq := 10, len := 5 }
    = [{ seq := 5, end_seq := 5, len := 0 }, { seq := 5, end_seq := 10, len := 5 }] ∧
    seq_inside { seq := 5, end_seq := 5, len := 0 } { seq := 5, end_seq := 10, len := 5 }
      = true := by
  decide

/-- Witness for C5: `snd_una = 100` and a segment `[50, 100)`, offered from the meta level and
found at the head of the reinject queue by a scheduler that hands out that head. -/
theorem acked_segment_is_never_queued_or_sent_witness :
    __mptcp_reinject_data 100 RbTree.nil (fun _ => true) 0
      { seq := 50, end_seq := 100, len := 50 } [] none true TcpQueue.TCP_FRAG_IN_WRITE_QUEUE
      = some ([], none) ∧
    mptcp_write_xmit_iter (fun st _ _ _ => (st, false))
      { snd_una := 100, reinject_queue := [{ seq := 50, end_seq := 100, len := 50 }] }
      { seq := 50, end_seq := 100, len := 50 } 1
      = ({ snd_una := 100, reinject_queue := [] }, true) ∧
    (mptcp_write_xmit_iter (fun st _ _ _ => (st, false))
      { snd_una := 100, reinject_queue := [{ seq := 50, end_seq := 100, len := 50 }] }
      { seq := 50, end_seq := 100, len := 50 } 1).1.sent = [] ∧
    mptcp_write_xmit_loop (fun st => st.reinject_queue.head?.map (fun s => (s, 1)))
      (fun st _ _ _ => (st, false)) (1 + 1)
      { snd_una := 100, reinject_queue := [{ seq := 50, end_seq := 100, len := 50 }] }
      = mptcp_write_xmit_loop (fun st => st.reinject_queue.head?.map (fun s => (s, 1)))
        (fun st _ _ _ => (st, false)) 1 { snd_una := 100, reinject_queue := [] } :=
  acked_segment_is_never_queued_or_sent 100 RbTree.nil (fun _ => true) 0
    { seq := 50, end_seq := 100, len := 50 } [] none true TcpQueue.TCP_FRAG_IN_WRITE_QUEUE
    (fun st => st.reinject_queue.head?.map (fun s => (s, 1)))
    (fun st _ _ _ => (st, false)) 1
    { snd_una := 100, reinject_queue := [{ seq := 50, end_seq := 100, len := 50 }] }
    { seq := 50, end_seq := 100, len := 50 }
    (by intro skb0 h; simp at h; rw [← h]; decide) (by decide) (by decide)

/-- Witness for C6 (as amended): `snd_una = 5`, and the head entry `[0, 10)` has two packets of
5 bytes. -/
theorem clean_rtx_queue_reinject_after_snd_una_witness :
    ∃ q', mptcp_clean_rtx_queue_reinject 5 false 0
        [{ seq := 0, end_seq := 10, len := 10, pcount := 2, mss := 5 },
         { seq := 10, end_seq := 20, len := 10 }] = some q' ∧
      (∀ s ∈ q', after s.end_seq 5 = true) ∧
      (∀ s ∈ q', before s.seq 5 = true →
        s ∈ ([{ seq := 0, end_seq := 10, len := 10, pcount := 2, mss := 5 },
              { seq := 10, end_seq := 20, len := 10 }] : List Skb) ∧
          (s.pcount = 1 ∨ false = true)) ∧
      (∀ s ∈ ([{ seq := 0, end_seq := 10, len := 10, pcount := 2, mss := 5 },
               { seq := 10, end_seq := 20, len := 10 }] : List Skb),
        before s.seq 5 = true → after s.end_seq 5 = true →
        s.pcount ≠ 1 → false = false →
        ∃ t ∈ q', t.seq = 5 ∧ t.end_seq = s.end_seq) :=
  clean_rtx_queue_reinject_after_snd_una 0 5 0 false
    [{ seq := 0, end_seq := 10, len := 10, pcount := 2, mss := 5 },
     { seq := 10, end_seq := 20, len := 10 }]
    (by decide) (by decide) (by decide) (by decide) (by decide) (by decide)

/-- Counterexample to C6 as stated: with `snd_una = 5` the single entry `[0, 10)` of one
packet straddles `snd_una`; the reinject loop of `mptcp_clean_rtx_queue` stops at it without
trimming, so afterwards its `seq` is still 0, not `snd_una`. An entry of two packets is left
as it is, too, when `skb_unclone` fails. -/
theorem clean_rtx_queue_single_packet_not_trimmed :
    SeqSorted [{ seq := 0, end_seq := 10, len := 10, pcount := 1 }] ∧
    OverlapFree [{ seq := 0, end_seq := 10, len := 10, pcount := 1 }] ∧
    before 0 5 = true ∧ after 10 5 = true ∧
    mptcp_clean_rtx_queue_reinject 5 false 0 [{ seq := 0, end_seq := 10, len := 10, pcount := 1 }]
      = some [{ seq := 0, end_seq := 10, len := 10, pcount := 1 }] ∧
    mptcp_clean_rtx_queue_reinject 5 true 0
        [{ seq := 0, end_seq := 10, len := 10, pcount := 2, mss := 5 }]
      = some [{ seq := 0, end_seq := 10, len := 10, pcount := 2, mss := 5 }] := by
  decide

/-- Witness for C7: the connection bytes 500..1499, sent on a subflow as 7000..7999. -/
theorem reconstruct_mapping_restores_saved_range_witness :
    ∃ r, mptcp_reconstruct_mapping
        { mptcp_save_dss_data_seq { write_seq := 7000, snt_isn := 6000 } {} 42 0
            { seq := 500, end_seq := 1500, len := 1000, dss := List.replicate 20 0 } with
          seq := 7000, end_seq := 8000 } = some r ∧
      r.seq = 500 ∧ r.end_seq = 1500 :=
  (reconstruct_mapping_restores_saved_range { write_seq := 7000, snt_isn := 6000 } {} 42 0
    { seq := 500, end_seq := 1500, len := 1000, dss := List.replicate 20 0 } 7000 8000
    (by decide) (by decide) (by decide) (by decide) (by decide)).1

/-- Witness for C8 (as amended): the pending mapping is (50, 1110, 5, no DATA_FIN) and the
segment announces the same, with `rcv_isn = 1000`: the function returns 0 and changes
nothing. -/
theorem detect_mapping_pending_mismatch_iff_witness :
    mptcp_detect_mapping
        { rcv_isn := 1000, mapping_present := true, map_data_seq := 50, map_subseq := 1110,
          map_data_len := 5 } {} []
        { seq := 1100, end_seq := 1110, len := 10, mptcp_flags := 1,
          hdr_dss := [0, 0, 0, 50, 0, 0, 0, 110, 0, 5] }
      = { ret := 0,
          tp := { rcv_isn := 1000, mapping_present := true, map_data_seq := 50,
                  map_subseq := 1110, map_data_len := 5 },
          meta_tp := {}, calls := [],
          skb := some (detect_mapping_read
            { rcv_isn := 1000, mapping_present := true, map_data_seq := 50,
              map_subseq := 1110, map_data_len := 5 } {}
            { seq := 1100, end_seq := 1110, len := 10, mptcp_flags := 1,
              hdr_dss := [0, 0, 0, 50, 0, 0, 0, 110, 0, 5] }).skb } :=
  (detect_mapping_pending_mismatch_iff
    { rcv_isn := 1000, mapping_present := true, map_data_seq := 50, map_subseq := 1110,
      map_data_len := 5 } {} []
    { seq := 1100, end_seq := 1110, len := 10, mptcp_flags := 1,
      hdr_dss := [0, 0, 0, 50, 0, 0, 0, 110, 0, 5] }
    (by decide) (by decide) (by decide)).2.2 (by decide)

/-- Counterexample to C8 as stated: the pending mapping starts at the 64-bit data sequence
number `5 * 2^32 + 50`; the segment carries a DSS option with 64-bit data sequence number that
announces `7 * 2^32 + 50` and otherwise the pending mapping (subflow start 1110, length 5, no
DATA_FIN). The announced start differs from `map_data_seq`, yet `mptcp_detect_mapping` returns
0 and leaves the pending mapping as it is: only the low 32 bits are compared. -/
theorem detect_mapping_accepts_other_high_half :
    get_unaligned_be64 [0, 0, 0, 7, 0, 0, 0, 50, 0, 0, 0, 110, 0, 5] 0 = 30064771122 ∧
    (30064771122 : Nat) ≠ 21474836530 ∧
    (mptcp_detect_mapping
        { rcv_isn := 1000, mapping_present := true, map_data_seq := 21474836530,
          map_subseq := 1110, map_data_len := 5 } {} []
        { seq := 1100, end_seq := 1110, len := 10, mptcp_flags := 0x21,
          hdr_dss := [0, 0, 0, 7, 0, 0, 0, 50, 0, 0, 0, 110, 0, 5] }).ret = 0 ∧
    (mptcp_detect_mapping
        { rcv_isn := 1000, mapping_present := true, map_data_seq := 21474836530,
          map_subseq := 1110, map_data_len := 5 } {} []
        { seq := 1100, end_seq := 1110, len := 10, mptcp_flags := 0x21,
          hdr_dss := [0, 0, 0, 7, 0, 0, 0, 50, 0, 0, 0, 110, 0, 5] }).tp
      = { rcv_isn := 1000, mapping_present := true, map_data_seq := 21474836530,
          map_subseq := 1110, map_data_len := 5 } := by
  decide

/-- Witness for C9 (as amended): the segment 1100..1109 announces the mapping of its own ten
bytes, with `rcv_isn = 1000`: the mapping is recorded. -/
theorem detect_mapping_fresh_bounds_check_witness :
    (mptcp_detect_mapping { rcv_isn := 1000 } {} []
        { seq := 1100, end_seq := 1110, len := 10, mptcp_flags := 1,
          hdr_dss := [0, 0, 0, 50, 0, 0, 0, 100, 0, 10] }).tp.mapping_present = true ∧
    (mptcp_detect_mapping { rcv_isn := 1000 } {} []
        { seq := 1100, end_seq := 1110, len := 10, mptcp_flags := 1,
          hdr_dss := [0, 0, 0, 50, 0, 0, 0, 100, 0, 10] }).tp.map_subseq = 1100 :=
  ⟨((detect_mapping_fresh_bounds_check { rcv_isn := 1000 } {} []
      { seq := 1100, end_seq := 1110, len := 10, mptcp_flags := 1,
        hdr_dss := [0, 0, 0, 50, 0, 0, 0, 100, 0, 10] }
      (by decide) (by decide) (by decide) (by decide) (by decide) (by decide) (by decide)
      (by decide) (by decide)).2.1 (by decide)).1,
   ((detect_mapping_fresh_bounds_check { rcv_isn := 1000 } {} []
      { seq := 1100, end_seq := 1110, len := 10, mptcp_flags := 1,
        hdr_dss := [0, 0, 0, 50, 0, 0, 0, 100, 0, 10] }
      (by decide) (by decide) (by decide) (by decide) (by decide) (by decide) (by decide)
      (by decide) (by decide)).2.1 (by decide)).2.1⟩

/-- Counterexample to C9 as stated: the segment has the payload bytes 1100..1109 and a subflow
FIN (`end_seq = 1111`); the fresh mapping covers the subflow bytes 1110..1114, which share no
byte with the payload, yet `mptcp_detect_mapping` returns 0 and records the mapping. And on a
subflow that is sending MP_FAIL a fresh mapping of exactly the payload bytes is neither
accepted nor answered with a reset: the function returns -1. -/
theorem detect_mapping_accepts_mapping_at_subflow_fin :
    (mptcp_detect_mapping { rcv_isn := 1000 } {} []
        { seq := 1100, end_seq := 1111, len := 10, tcp_flags := 0x11, mptcp_flags := 1,
          hdr_dss := [0, 0, 0, 50, 0, 0, 0, 110, 0, 5] }).ret = 0 ∧
    (mptcp_detect_mapping { rcv_isn := 1000 } {} []
        { seq := 1100, end_seq := 1111, len := 10, tcp_flags := 0x11, mptcp_flags := 1,
          hdr_dss := [0, 0, 0, 50, 0, 0, 0, 110, 0, 5] }).tp.mapping_present = true ∧
    (mptcp_detect_mapping { rcv_isn := 1000 } {} []
        { seq := 1100, end_seq := 1111, len := 10, tcp_flags := 0x11, mptcp_flags := 1,
          hdr_dss := [0, 0, 0, 50, 0, 0, 0, 110, 0, 5] }).tp.map_subseq = 1110 ∧
    (mptcp_detect_mapping { rcv_isn := 1000 } {} []
        { seq := 1100, end_seq := 1111, len := 10, tcp_flags := 0x11, mptcp_flags := 1,
          hdr_dss := [0, 0, 0, 50, 0, 0, 0, 110, 0, 5] }).tp.map_data_len = 5 ∧
    ¬ SeqRangesIntersect 1110 5 1100 10 ∧
    (mptcp_detect_mapping { rcv_isn := 1000, send_mp_fail := true } {} []
        { seq := 1100, end_seq := 1110, len := 10, mptcp_flags := 1,
          hdr_dss := [0, 0, 0, 50, 0, 0, 0, 100, 0, 10] }).ret = -1 ∧
    SeqRangesIntersect 1100 10 1100 10 := by
  decide

/-- Witness for C10: 70000 unread subflow bytes without any mapping. -/
theorem detect_mapping_unmapped_allowance_witness :
    (mptcp_detect_mapping { rcv_nxt := 70000, copied_seq := 0 } {} [] {}).ret = 1
      ↔ 65536 < sub32 70000 0 :=
  (detect_mapping_unmapped_allowance { rcv_nxt := 70000, copied_seq := 0 } {} [] {}
    (by decide) (by decide) (by decide) (by decide)).1

/-- Witness for C11: the segment 1100..1109 carries a DSS mapping of length zero that announces
the data sequence number 5000. -/
theorem detect_mapping_zero_length_enters_infinite_witness :
    (mptcp_detect_mapping { rcv_isn := 1000 } {} []
        { seq := 1100, end_seq := 1110, len := 10, mptcp_flags := 1,
          hdr_dss := [0, 0, 19, 136, 0, 0, 0, 100, 0, 0] }).ret = 0 ∧
    (mptcp_detect_mapping { rcv_isn := 1000 } {} []
        { seq := 1100, end_seq := 1110, len := 10, mptcp_flags := 1,
          hdr_dss := [0, 0, 19, 136, 0, 0, 0, 100, 0, 0] }).meta_tp.mpcb.infinite_mapping_rcv
      = true :=
  ⟨(detect_mapping_zero_length_enters_infinite { rcv_isn := 1000 } {} []
      { seq := 1100, end_seq := 1110, len := 10, mptcp_flags := 1,
        hdr_dss := [0, 0, 19, 136, 0, 0, 0, 100, 0, 0] }
      (by decide) (by decide) (Or.inl (by decide)) (by decide) (by decide) (by decide)
      (by decide)).1,
   (detect_mapping_zero_length_enters_infinite { rcv_isn := 1000 } {} []
      { seq := 1100, end_seq := 1110, len := 10, mptcp_flags := 1,
        hdr_dss := [0, 0, 19, 136, 0, 0, 0, 100, 0, 0] }
      (by decide) (by decide) (Or.inl (by decide)) (by decide) (by decide) (by decide)
      (by decide)).2.1⟩

/-- Witness for C12: in infinite-receive mode with `infinite_rcv_seq = 5000`, the in-order
segment 1100..1109 gets the range that starts at 5000. -/
theorem detect_mapping_infinite_infers_mapping_witness :
    (mptcp_detect_mapping { copied_seq := 1100 }
        { mpcb := { infinite_mapping_rcv := true, infinite_rcv_seq := 5000 } } []
        { seq := 1100, end_seq := 1110, len := 10 }).tp.map_data_seq = 5000 :=
  (detect_mapping_infinite_infers_mapping { copied_seq := 1100 }
    { mpcb := { infinite_mapping_rcv := true, infinite_rcv_seq := 5000 } } []
    { seq := 1100, end_seq := 1110, len := 10 } (by decide)).2.2 (by decide) (by decide)

/-- Witness for C13 (as amended): in infinite-receive mode with `infinite_rcv_seq = 5000`, the
segment 1100..1109 gets the range that starts at 5000. -/
theorem infinite_mode_ranges_are_contiguous_witness :
    (mptcp_detect_mapping
        { copied_seq := 1100, rcv_nxt := 1110,
          sk_receive_queue := [{ seq := 1100, end_seq := 1110, len := 10 }] }
        { mpcb := { infinite_mapping_rcv := true, infinite_rcv_seq := 5000 } } []
        { seq := 1100, end_seq := 1110, len := 10 }).tp.map_data_seq = 5000 :=
  (infinite_mode_ranges_are_contiguous append_rcv_ops 65536 0 []
    { copied_seq := 1100, rcv_nxt := 1110,
      sk_receive_queue := [{ seq := 1100, end_seq := 1110, len := 10 }] }
    { mpcb := { infinite_mapping_rcv := true, infinite_rcv_seq := 5000 } } []
    { seq := 1100, end_seq := 1110, len := 10 } { seq := 1110, end_seq := 1120, len := 10 } []
    (by decide) (by decide) rfl rfl (by decide) (by decide) (by decide)
    (fun _ h => by simp at h) rfl).1

/-- Counterexample to C13 as stated: the connection receive cursor is 1000 when the segment
1100..1109 arrives with a DSS mapping of length zero that announces the data sequence number
5000. `mptcp_detect_mapping` enters infinite-receive mode and the range of that segment starts
at 5000, not at the cursor; `mptcp_queue_skb` hands the segment on, and the range inferred for
the next segment 1110..1119 starts at 5010. -/
theorem infinite_mode_first_range_is_announced_not_cursor :
    mptcp_get_rcv_nxt_64 { rcv_nxt := 1000, rcv_wup := 1000 } = 1000 ∧
    (mptcp_detect_mapping
        { rcv_isn := 1000, copied_seq := 1100, rcv_nxt := 1120,
          sk_receive_queue := [{ seq := 1100, end_seq := 1110, len := 10, mptcp_flags := 1,
                                 hdr_dss := [0, 0, 19, 136, 0, 0, 0, 100, 0, 0] },
                               { seq := 1110, end_seq := 1120, len := 10 }] }
        { rcv_nxt := 1000, rcv_wup := 1000 } []
        { seq := 1100, end_seq := 1110, len := 10, mptcp_flags := 1,
          hdr_dss := [0, 0, 19, 136, 0, 0, 0, 100, 0, 0] }).meta_tp.mpcb.infinite_mapping_rcv
      = true ∧
    (mptcp_detect_mapping
        { rcv_isn := 1000, copied_seq := 1100, rcv_nxt := 1120,
          sk_receive_queue := [{ seq := 1100, end_seq := 1110, len := 10, mptcp_flags := 1,
                                 hdr_dss := [0, 0, 19, 136, 0, 0, 0, 100, 0, 0] },
                               { seq := 1110, end_seq := 1120, len := 10 }] }
        { rcv_nxt := 1000, rcv_wup := 1000 } []
        { seq := 1100, end_seq := 1110, len := 10, mptcp_flags := 1,
          hdr_dss := [0, 0, 19, 136, 0, 0, 0, 100, 0, 0] }).tp.map_data_seq = 5000 ∧
    (mptcp_detect_mapping
        { rcv_isn := 1000, copied_seq := 1100, rcv_nxt := 1120,
          sk_receive_queue := [{ seq := 1100, end_seq := 1110, len := 10, mptcp_flags := 1,
                                 hdr_dss := [0, 0, 19, 136, 0, 0, 0, 100, 0, 0] },
                               { seq := 1110, end_seq := 1120, len := 10 }] }
        { rcv_nxt := 1000, rcv_wup := 1000 } []
        { seq := 1100, end_seq := 1110, len := 10, mptcp_flags := 1,
          hdr_dss := [0, 0, 19, 136, 0, 0, 0, 100, 0, 0] }).meta_tp.mpcb.infinite_rcv_seq
      = 5000 ∧
    (mptcp_detect_mapping
      (mptcp_queue_skb append_rcv_ops 65536 0 []
        (mptcp_detect_mapping
          { rcv_isn := 1000, copied_seq := 1100, rcv_nxt := 1120,
            sk_receive_queue := [{ seq := 1100, end_seq := 1110, len := 10, mptcp_flags := 1,
                                   hdr_dss := [0, 0, 19, 136, 0, 0, 0, 100, 0, 0] },
                                 { seq := 1110, end_seq := 1120, len := 10 }] }
          { rcv_nxt := 1000, rcv_wup := 1000 } []
          { seq := 1100, end_seq := 1110, len := 10, mptcp_flags := 1,
            hdr_dss := [0, 0, 19, 136, 0, 0, 0, 100, 0, 0] }).tp
        (mptcp_detect_mapping
          { rcv_isn := 1000, copied_seq := 1100, rcv_nxt := 1120,
            sk_receive_queue := [{ seq := 1100, end_seq := 1110, len := 10, mptcp_flags := 1,
                                   hdr_dss := [0, 0, 19, 136, 0, 0, 0, 100, 0, 0] },
                                 { seq := 1110, end_seq := 1120, len := 10 }] }
          { rcv_nxt := 1000, rcv_wup := 1000 } []
          { seq := 1100, end_seq := 1110, len := 10, mptcp_flags := 1,
            hdr_dss := [0, 0, 19, 136, 0, 0, 0, 100, 0, 0] }).meta_tp []).tp
      (mptcp_queue_skb append_rcv_ops 65536 0 []
        (mptcp_detect_mapping
          { rcv_isn := 1000, copied_seq := 1100, rcv_nxt := 1120,
            sk_receive_queue := [{ seq := 1100, end_seq := 1110, len := 10, mptcp_flags := 1,
                                   hdr_dss := [0, 0, 19, 136, 0, 0, 0, 100, 0, 0] },
                                 { seq := 1110, end_seq := 1120, len := 10 }] }
          { rcv_nxt := 1000, rcv_wup := 1000 } []
          { seq := 1100, end_seq := 1110, len := 10, mptcp_flags := 1,
            hdr_dss := [0, 0, 19, 136, 0, 0, 0, 100, 0, 0] }).tp
        (mptcp_detect_mapping
          { rcv_isn := 1000, copied_seq := 1100, rcv_nxt := 1120,
            sk_receive_queue := [{ seq := 1100, end_seq := 1110, len := 10, mptcp_flags := 1,
                                   hdr_dss := [0, 0, 19, 136, 0, 0, 0, 100, 0, 0] },
                                 { seq := 1110, end_seq := 1120, len := 10 }] }
          { rcv_nxt := 1000, rcv_wup := 1000 } []
          { seq := 1100, end_seq := 1110, len := 10, mptcp_flags := 1,
            hdr_dss := [0, 0, 19, 136, 0, 0, 0, 100, 0, 0] }).meta_tp []).meta_tp
      [] { seq := 1110, end_seq := 1120, len := 10 }).tp.map_data_seq = 5010 := by
  decide

/-- Witness for C15: the halves are `(2^32 - 1, 0)` with the first one selected, so the
receive cursor is `(2^32 - 1) * 2^32 + 4294967290`; the mapping announces the 32-bit data
sequence number 4, which has wrapped and is 10 bytes ahead; the recorded `map_data_seq` is 4,
the cursor plus 10 in `u64` arithmetic. -/
theorem detect_mapping_wrap_safe_witness :
    (mptcp_detect_mapping { rcv_isn := 1000 }
        { rcv_nxt := 4294967290, mpcb := { rcv_high_order := (4294967295, 0) } } []
        { seq := 1100, end_seq := 1110, len := 10, mptcp_flags := 1,
          hdr_dss := [0, 0, 0, 4, 0, 0, 0, 100, 0, 10] }).tp.map_data_seq = 4 :=
  detect_mapping_wrap_safe { rcv_isn := 1000 }
    { rcv_nxt := 4294967290, mpcb := { rcv_high_order := (4294967295, 0) } } []
    { seq := 1100, end_seq := 1110, len := 10, mptcp_flags := 1,
      hdr_dss := [0, 0, 0, 4, 0, 0, 0, 100, 0, 10] } 10
    (by decide) (by decide) (Or.inl (by decide)) (by decide) (by decide) (by decide)
    (by decide) (by decide) (by decide) (by decide) (by decide)

/-- Witness for C16 (as amended): `rcv_nxt` advances by 10 from 4294967290 to 4 with the
halves `(2^32 - 1, 0)`, the first one selected; the 64-bit cursor advances by 10 in `u64`
arithmetic, to 4, and the half that is not selected is again the selected half plus one in
`u32`. -/
theorem check_rcvseq_wrap_advances_cursor_witness :
    mptcp_get_rcv_nxt_64
        (mptcp_check_rcvseq_wrap
          { rcv_nxt := 4, mpcb := { rcv_high_order := (4294967295, 0) } } 4294967290) = 4 ∧
    (mptcp_check_rcvseq_wrap
        { rcv_nxt := 4, mpcb := { rcv_high_order := (4294967295, 0) } }
        4294967290).mpcb.rcv_high_order.1
      = ((mptcp_check_rcvseq_wrap
          { rcv_nxt := 4, mpcb := { rcv_high_order := (4294967295, 0) } }
          4294967290).mpcb.rcv_high_order.2 + 1) % 4294967296 :=
  ⟨(check_rcvseq_wrap_advances_cursor
      { rcv_nxt := 4294967290, mpcb := { rcv_high_order := (4294967295, 0) } } 10
      (by decide) (by decide) (by decide) (by decide) (by decide)).1,
   (check_rcvseq_wrap_advances_cursor
      { rcv_nxt := 4294967290, mpcb := { rcv_high_order := (4294967295, 0) } } 10
      (by decide) (by decide) (by decide) (by decide) (by decide)).2.1⟩

/-- Counterexample to C16 as stated: the halves are `(2^32 - 2, 2^32 - 1)` with the first one
selected, so the assumed relation holds; `rcv_nxt` advances by 32 from 4294967280 to 16. After
`mptcp_check_rcvseq_wrap` the first half is 0: it has decreased, although the 64-bit cursor
has advanced by 32 and the half that is not selected is still the selected half plus one in
`u32`. With the halves `(2^32 - 1, 0)` the same advance takes the cursor from
`2^64 - 16` to 16, its old value plus 32 only modulo `2^64`, and the first half from
`2^32 - 1` down to 1. -/
theorem check_rcvseq_wrap_half_decreases_at_top :
    high_order ((4294967294, 4294967295) : Nat × Nat) 1
      = (high_order ((4294967294, 4294967295) : Nat × Nat) 0 + 1) % 4294967296 ∧
    add32 4294967280 32 = 16 ∧
    (mptcp_check_rcvseq_wrap
      { rcv_nxt := 16, mpcb := { rcv_high_order := (4294967294, 4294967295) } }
      4294967280).mpcb.rcv_high_order = (0, 4294967295) ∧
    (mptcp_check_rcvseq_wrap
      { rcv_nxt := 16, mpcb := { rcv_high_order := (4294967294, 4294967295) } }
      4294967280).mpcb.rcv_hiseq_index = 1 ∧
    mptcp_get_rcv_nxt_64
      (mptcp_check_rcvseq_wrap
        { rcv_nxt := 16, mpcb := { rcv_high_order := (4294967294, 4294967295) } }
        4294967280)
      = mptcp_get_rcv_nxt_64
          { rcv_nxt := 4294967280, mpcb := { rcv_high_order := (4294967294, 4294967295) } }
        + 32 ∧
    high_order ((4294967295, 0) : Nat × Nat) 1
      = (high_order ((4294967295, 0) : Nat × Nat) 0 + 1) % 4294967296 ∧
    (mptcp_check_rcvseq_wrap
      { rcv_nxt := 16, mpcb := { rcv_high_order := (4294967295, 0) } }
      4294967280).mpcb.rcv_high_order = (1, 0) ∧
    mptcp_get_rcv_nxt_64
        { rcv_nxt := 4294967280, mpcb := { rcv_high_order := (4294967295, 0) } }
      = 18446744073709551600 ∧
    mptcp_get_rcv_nxt_64
      (mptcp_check_rcvseq_wrap
        { rcv_nxt := 16, mpcb := { rcv_high_order := (4294967295, 0) } }
        4294967280) = 16 := by
  decide

/-- Witness for C17 (as amended): with the halves `(0, 1)` and index 0, `snd_nxt` wraps from
4294967290 to 4; the wrap step gives the halves `(0, 3)` and index 1, and the rollback of a
restart at 4294967280 gives back the halves `(0, 1)` and index 0. Nothing is queued, so the
push starts no run and `mptcp_restart_sending` returns that state, with `snd_nxt` at the
restart point. -/
theorem restart_sending_undoes_sndseq_wrap_witness :
    (restart_sending_requeue
        { snd_nxt := 4, mpcb := { snd_high_order := (0, 3), snd_hiseq_index := 1 } }
        4294967280).mpcb = { snd_high_order := (0, 1) } ∧
    (mptcp_restart_sending
        { snd_nxt := 4, mpcb := { snd_high_order := (0, 3), snd_hiseq_index := 1 } }
        4294967280 []).1
      = restart_sending_requeue
          { snd_nxt := 4, mpcb := { snd_high_order := (0, 3), snd_hiseq_index := 1 } }
          4294967280 ∧
    (restart_sending_requeue
        { snd_nxt := 4, mpcb := { snd_high_order := (0, 3), snd_hiseq_index := 1 } }
        4294967280).snd_nxt = 4294967280 :=
  ⟨(restart_sending_undoes_sndseq_wrap
      { snd_nxt := 4294967290, mpcb := { snd_high_order := (0, 1) } } 10
      { snd_nxt := 4, mpcb := { snd_high_order := (0, 3), snd_hiseq_index := 1 } }
      4294967280 [] (by decide) (by decide) (by decide) (by decide) (by decide)
      (by decide)).2.2.1,
   ((restart_sending_undoes_sndseq_wrap
      { snd_nxt := 4294967290, mpcb := { snd_high_order := (0, 1) } } 10
      { snd_nxt := 4, mpcb := { snd_high_order := (0, 3), snd_hiseq_index := 1 } }
      4294967280 [] (by decide) (by decide) (by decide) (by decide) (by decide)
      (by decide)).2.2.2
      { snd_nxt := 4, mpcb := { snd_high_order := (0, 3), snd_hiseq_index := 1 } }).2.2.2
      (Or.inr rfl),
   ((restart_sending_undoes_sndseq_wrap
      { snd_nxt := 4294967290, mpcb := { snd_high_order := (0, 1) } } 10
      { snd_nxt := 4, mpcb := { snd_high_order := (0, 3), snd_hiseq_index := 1 } }
      4294967280 [] (by decide) (by decide) (by decide) (by decide) (by decide)
      (by decide)).2.2.2
      { snd_nxt := 4, mpcb := { snd_high_order := (0, 3), snd_hiseq_index := 1 } }).2.1⟩

/-- Counterexample to C17 as stated. The segment `[4294967246, 50)` of 100 bytes has been sent,
so `snd_nxt` has wrapped to 50 and the wrap step has left the halves `(5, 6)` and index 1; it
is unacknowledged (`snd_una` is 4294967246) and in the retransmit queue. A restart at
`snd_una` rolls the wrap back (halves `(5, 4)`, index 0), sets `snd_nxt` to 4294967246 and
puts the segment at the head of the write queue; `mptcp_push_pending_frames` then finds a
send head and runs `mptcp_write_xmit`, which sends the segment again: line 945 wraps the
halves once more (`mptcp_check_sndseq_wrap` on that state and 100 bytes gives `(5, 6)` and
index 1) and `tcp_event_new_data_sent` moves the segment to the retransmit queue and sets
`snd_nxt` to 50. At return of `mptcp_restart_sending`, `snd_nxt` is 50, not 4294967246, and
the halves and the index are those of the wrapped state. -/
theorem restart_sending_push_resends_and_wraps_again :
    (restart_sending_requeue
        { snd_una := 4294967246, snd_wnd := 65535, snd_nxt := 50, packets_out := 1,
          tcp_rtx_queue := [{ seq := 4294967246, end_seq := 50, len := 100, path_mask := 1 }],
          mpcb := { snd_high_order := (5, 6), snd_hiseq_index := 1 },
          xmit := [{ snd_nxt := 50, packets_out := 1,
                     tcp_rtx_queue := [{ seq := 4294967246, end_seq := 50, len := 100,
                                         path_mask := 1 }],
                     snd_high_order := (5, 6), snd_hiseq_index := 1 }] }
        4294967246)
      = { snd_una := 4294967246, snd_wnd := 65535, snd_nxt := 4294967246, packets_out := 0,
          sk_write_queue := [{ seq := 4294967246, end_seq := 50, len := 100, path_mask := 1 }],
          mpcb := { snd_high_order := (5, 4), snd_hiseq_index := 0 },
          xmit := [{ snd_nxt := 50, packets_out := 1,
                     tcp_rtx_queue := [{ seq := 4294967246, end_seq := 50, len := 100,
                                         path_mask := 1 }],
                     snd_high_order := (5, 6), snd_hiseq_index := 1 }] } ∧
    (mptcp_check_sndseq_wrap
        { snd_una := 4294967246, snd_wnd := 65535, snd_nxt := 4294967246, packets_out := 0,
          sk_write_queue := [{ seq := 4294967246, end_seq := 50, len := 100, path_mask := 1 }],
          mpcb := { snd_high_order := (5, 4), snd_hiseq_index := 0 } }
        100).mpcb = { snd_high_order := (5, 6), snd_hiseq_index := 1 } ∧
    (mptcp_restart_sending
        { snd_una := 4294967246, snd_wnd := 65535, snd_nxt := 50, packets_out := 1,
          tcp_rtx_queue := [{ seq := 4294967246, end_seq := 50, len := 100, path_mask := 1 }],
          mpcb := { snd_high_order := (5, 6), snd_hiseq_index := 1 },
          xmit := [{ snd_nxt := 50, packets_out := 1,
                     tcp_rtx_queue := [{ seq := 4294967246, end_seq := 50, len := 100,
                                         path_mask := 1 }],
                     snd_high_order := (5, 6), snd_hiseq_index := 1 }] }
        4294967246 []).1
      = { snd_una := 4294967246, snd_wnd := 65535, snd_nxt := 50, packets_out := 1,
          tcp_rtx_queue := [{ seq := 4294967246, end_seq := 50, len := 100, path_mask := 1 }],
          mpcb := { snd_high_order := (5, 6), snd_hiseq_index := 1 } } := by
  decide

/-- Witness for C18 (as amended): `snd_una = 100`, `snd_nxt = 300`, one packet outstanding, and
a DATA_ACK of 200: afterwards `snd_una` is 200 and `bytes_acked` has grown by 100. -/
theorem process_data_ack_validates_data_ack_witness :
    ∃ r, mptcp_process_data_ack plain_ack_env 1
        { rx_opt := { data_ack := 200 }, fully_established := true }
        { snd_una := 100, snd_nxt := 300, snd_wnd := 1000, packets_out := 1 } []
        { mptcp_flags := 0x10, th_window := 500 } = some r ∧
      r.meta_tp.snd_una = 200 ∧ r.meta_tp.bytes_acked = 100 := by
  have h := (process_data_ack_validates_data_ack plain_ack_env 1
    { rx_opt := { data_ack := 200 }, fully_established := true }
    { snd_una := 100, snd_nxt := 300, snd_wnd := 1000, packets_out := 1 } []
    { mptcp_flags := 0x10, th_window := 500 } (by decide) (by decide)).2
    (by decide) (by decide) (by decide)
  obtain ⟨r, hr⟩ := Option.isSome_iff_exists.mp (h.1.trans rfl)
  exact ⟨r, hr, h.2 r hr⟩

/-- Counterexample to C18 as stated. First, `snd_una = 100`, `snd_nxt = 300`,
`snd_wnd = 1000`, and a DATA_ACK of 100 with an advertised window of 2000: the DATA_ACK is not
after `snd_una`, so it lies outside `(snd_una, snd_nxt]`, yet it is processed: `snd_wnd`
becomes 2000. Second, on the same connection with the segment `[300, 400)` waiting in the
write queue and the acknowledged segment `[0, 100)` still in the reinject queue, a DATA_ACK of
50 is before `snd_una` and is ignored, but the `mptcp_push_pending_frames` of the `exit:` path
runs `mptcp_write_xmit`: the reinject entry is unlinked (line 861), the waiting segment is
sent on the subflow with path index 1 and moved to the retransmit queue, so both queues have
changed at return, while `snd_una`, `snd_wnd` and `bytes_acked` have not. -/
theorem process_data_ack_duplicate_ack_updates_window :
    after 100 100 = false ∧ before 100 100 = false ∧
    (mptcp_process_data_ack plain_ack_env 1
        { rx_opt := { data_ack := 100 }, fully_established := true }
        { snd_una := 100, snd_nxt := 300, snd_wnd := 1000, packets_out := 1 } []
        { mptcp_flags := 0x10, th_window := 2000 }).map (fun r => r.meta_tp.snd_wnd)
      = some 2000 ∧
    before 50 100 = true ∧
    (mptcp_process_data_ack plain_ack_env 1
        { rx_opt := { data_ack := 50 }, fully_established := true }
        { snd_una := 100, snd_nxt := 300, snd_wnd := 1000, packets_out := 1,
          tcp_rtx_queue := [{ seq := 100, end_seq := 300, len := 200, path_mask := 1 }],
          sk_write_queue := [{ seq := 300, end_seq := 400, len := 100 }],
          mpcb := { reinject_queue :=
            [{ seq := 0, end_seq := 100, len := 100, path_mask := 1 }] },
          xmit := [{ snd_nxt := 400, packets_out := 2,
                     tcp_rtx_queue := [{ seq := 100, end_seq := 300, len := 200, path_mask := 1 },
                                       { seq := 300, end_seq := 400, len := 100,
                                         path_mask := 1 }] }] } []
        { mptcp_flags := 0x10, th_window := 2000 }).map
        (fun r => (r.meta_tp.tcp_rtx_queue, r.meta_tp.mpcb.reinject_queue, r.meta_tp.snd_una,
          r.meta_tp.snd_wnd, r.meta_tp.bytes_acked))
      = some ([{ seq := 100, end_seq := 300, len := 200, path_mask := 1 },
               { seq := 300, end_seq := 400, len := 100, path_mask := 1 }], [], 100, 1000,
              0) := by
  decide

/-- Witness for C19 (as amended): `snd_una = 100`, `snd_wnd = 1000`, a DATA_ACK of 200 with
an advertised window of 500: `snd_wnd` is kept and the right edge is 1200. -/
theorem process_data_ack_right_edge_witness :
    ∃ r, mptcp_process_data_ack plain_ack_env 1
        { rx_opt := { data_ack := 200 }, fully_established := true }
        { snd_una := 100, snd_nxt := 300, snd_wnd := 1000, packets_out := 1 } []
        { mptcp_flags := 0x10, th_window := 500 } = some r ∧
      r.meta_tp.snd_wnd = 1000 ∧ tcp_wnd_end r.meta_tp = 1200 := by
  have h := process_data_ack_right_edge plain_ack_env 1
    { rx_opt := { data_ack := 200 }, fully_established := true }
    { snd_una := 100, snd_nxt := 300, snd_wnd := 1000, packets_out := 1 } []
    { mptcp_flags := 0x10, th_window := 500 } 0 500 (by decide) (by decide) (by decide)
    (by decide) (Or.inl (by decide)) (by decide) (by decide)
  obtain ⟨r, hr⟩ := Option.isSome_iff_exists.mp (h.1.trans rfl)
  exact ⟨r, hr, (h.2 r hr).2.2 (by decide)⟩

/-- Counterexample to C19 as stated: `snd_una = 100`, `snd_wnd = 1000` (right edge 1100), and
a DATA_ACK of 200 with an advertised window of 500 (`data_ack + nwin = 700`). The window
update is permitted, `snd_wnd` is kept because 700 is before 1100, and `snd_una` becomes 200:
the right edge after the call is 1200, which is neither 1100 nor 700. -/
theorem process_data_ack_right_edge_beyond_both :
    tcp_may_update_window { snd_una := 100, snd_nxt := 300, snd_wnd := 1000, packets_out := 1 }
      200 0 500 = true ∧
    tcp_wnd_end { snd_una := 100, snd_nxt := 300, snd_wnd := 1000, packets_out := 1 } = 1100 ∧
    add32 200 500 = 700 ∧
    (mptcp_process_data_ack plain_ack_env 1
        { rx_opt := { data_ack := 200 }, fully_established := true }
        { snd_una := 100, snd_nxt := 300, snd_wnd := 1000, packets_out := 1 } []
        { mptcp_flags := 0x10, th_window := 500 }).map
        (fun r => (r.meta_tp.snd_una, r.meta_tp.snd_wnd, tcp_wnd_end r.meta_tp))
      = some (200, 1000, 1200) := by
  decide

/-- Witness for C27 (as amended): a DSS option that announces a 32-bit data-ack only, so that
its length has to be 8, arrives with length 7; the received options and the segment stay as
they were. -/
theorem parse_options_ignores_bad_length_witness :
    mp_opt_sub [30, 7, 32, 1, 0, 0, 0, 9] = MPTCP_SUB_DSS ∧
    mptcp_parse_options false true [30, 7, 32, 1, 0, 0, 0, 9] 7 (some {}) {} none
      = (some {}, {}) :=
  ⟨by decide,
   (parse_options_ignores_bad_length false true [30, 7, 32, 1, 0, 0, 0, 9] 7 {} {} none
      (Or.inr (Or.inr (Or.inr (Or.inl ⟨by decide, by decide, by decide⟩))))).1⟩

/-- Counterexample to C27 as stated: an MP_FAIL option of length 8 instead of 12 on an
established subflow. `mptcp_parse_options` leaves the received options as they were,
`mptcp_handle_options` does not stop and logs no call at all, so no reset; the same option
with length 12 sets `mp_fail`. -/
theorem bad_length_mp_fail_is_ignored :
    mptcp_parse_options false true [30, 8, 96, 0, 0, 0, 0, 0] 8 (some {}) { th_ack := true }
        none = (some {}, { th_ack := true }) ∧
    mptcp_handle_options plain_ack_env [] {} {} [] { th_ack := true }
      = some { stop := false, tp := {}, meta_tp := {}, calls := [] } ∧
    (mptcp_parse_options false true [30, 12, 96, 0, 0, 0, 0, 0, 0, 0, 0, 0] 12 (some {})
        { th_ack := true } none).1 = some { mp_fail := true } := by
  decide

/-- C30. The code at the input on which reservation and writing disagree: a data segment that
carries the MP_CAPABLE with data (flags `MPTCPHDR_SEQ` and `MPTCPHDR_MPC_DATA`) on a
connection with the remote key set. `mptcp_established_options` sets `OPTION_DATA_ACK` and
reserves `MPTCPV1_SUB_LEN_CAPABLE_DATA_ALIGN + MPTCP_SUB_LEN_DSS_ALIGN` = 24 + 4 = 28 bytes;
`mptcp_options_write` advances by the 6 words = 24 bytes of `mptcp_write_mpcapable_data`. The
24 bytes of the option already hold its first word, which line 1227 counts once more. -/
theorem mpcapable_data_reserves_more_than_written :
    (established_options_data_ack {} { rem_key_set := true }
        (some { mptcp_flags := 9, dss := List.replicate 24 0 })).1 = 28 ∧
    (established_options_data_ack {} { rem_key_set := true }
        (some { mptcp_flags := 9, dss := List.replicate 24 0 })).2 = true ∧
    4 * (options_write_data_ack true { rem_key_set := true } 0
        { mptcp_flags := 9, dss := List.replicate 24 0 } (List.replicate 40 0) 0).2.2 = 24 := by
  decide

/-- The round trip on the segment `[100, 110)` saved with the remote key set and written when
the meta `rcv_nxt` is 9: it is emitted in 5 words and decodes to `data_ack = 9`,
`data_seq = 100`, `data_len = 10`. -/
theorem dss_write_parse_round_trip_witness :
    (mptcp_write_dss_data_seq { rem_key_set := true } 9
      (mptcp_save_dss_data_seq { write_seq := 5000, snt_isn := 1000 } { rem_key_set := true }
        7 0 { seq := 100, end_seq := 110, len := 10, dss := List.replicate 24 0 })
      (List.replicate 40 0) 0).2.2 = 5 ∧
    (mptcp_parse_options false true
        (mptcp_write_dss_data_seq { rem_key_set := true } 9
          (mptcp_save_dss_data_seq { write_seq := 5000, snt_isn := 1000 }
            { rem_key_set := true } 7 0
            { seq := 100, end_seq := 110, len := 10, dss := List.replicate 24 0 })
          (List.replicate 40 0) 0).1
        ((mptcp_write_dss_data_seq { rem_key_set := true } 9
          (mptcp_save_dss_data_seq { write_seq := 5000, snt_isn := 1000 }
            { rem_key_set := true } 7 0
            { seq := 100, end_seq := 110, len := 10, dss := List.replicate 24 0 })
          (List.replicate 40 0) 0).1.getD 1 0 : Nat)
        (some {}) {} none).1
      = some { data_ack := 9, data_seq := 100, data_len := 10 } :=
  ⟨((dss_write_parse_round_trip false true { write_seq := 5000, snt_isn := 1000 }
      { rem_key_set := true } 7 9 0
      { seq := 100, end_seq := 110, len := 10, dss := List.replicate 24 0 }
      (List.replicate 40 0) {} {} none (by decide) (by decide) (by decide) (by decide)
      (by decide) (by decide) rfl).1 rfl).1,
   ((dss_write_parse_round_trip false true { write_seq := 5000, snt_isn := 1000 }
      { rem_key_set := true } 7 9 0
      { seq := 100, end_seq := 110, len := 10, dss := List.replicate 24 0 }
      (List.replicate 40 0) {} {} none (by decide) (by decide) (by decide) (by decide)
      (by decide) (by decide) rfl).1 rfl).2.2.2.1⟩

/-- C26. The code at the input on which the round trip fails: the segment `[100, 110)`, sent
at subflow offset 4000 on a connection whose remote key is not set. `mptcp_write_dss_data_seq`
emits 4 words, 16 bytes: the header word that `mptcp_write_dss_data_ack` saved, with the bit
`A` set and the length 18, followed by the mapping. The length field is not the 16 bytes
written (nor `mptcp_sub_len_dss` of an option without data-ack, 14), and
`mptcp_parse_options` of this repository, given the announced 18 bytes, decodes
`data_ack = 100` and `data_seq = 4000`, not `data_seq = 100`, and `data_len = 0`, not 10. -/
theorem dss_without_remote_key_decodes_wrongly :
    (mptcp_write_dss_data_seq {} 9
      (mptcp_save_dss_data_seq { write_seq := 5000, snt_isn := 1000 } {} 7 0
        { seq := 100, end_seq := 110, len := 10, dss := List.replicate 24 0 })
      (List.replicate 40 0) 0).2.2 = 4 ∧
    (mptcp_write_dss_data_seq {} 9
      (mptcp_save_dss_data_seq { write_seq := 5000, snt_isn := 1000 } {} 7 0
        { seq := 100, end_seq := 110, len := 10, dss := List.replicate 24 0 })
      (List.replicate 40 0) 0).1.take 16
      = [30, 18, 32, 5, 0, 0, 0, 100, 0, 0, 15, 160, 0, 10, 1, 1] ∧
    mptcp_sub_len_dss 0 0 1 0 0 = 14 ∧
    (mptcp_parse_options false true
        (mptcp_write_dss_data_seq {} 9
          (mptcp_save_dss_data_seq { write_seq := 5000, snt_isn := 1000 } {} 7 0
            { seq := 100, end_seq := 110, len := 10, dss := List.replicate 24 0 })
          (List.replicate 40 0) 0).1
        18 (some {}) {} none).1
      = some { data_ack := 100, data_seq := 4000, data_len := 0 } := by
  decide

/-- A segment `[100, 110)` that has the infinite-mapping flag, written with the remote key
set, decodes to `data_len = 0`: `mptcp_write_dss_mapping` writes the length 0 for
`MPTCPHDR_INF` (lines 415-416). -/
theorem dss_infinite_mapping_decodes_zero_length :
    (mptcp_parse_options false true
        (mptcp_write_dss_data_seq { rem_key_set := true } 9
          (mptcp_save_dss_data_seq { write_seq := 5000, snt_isn := 1000 }
            { rem_key_set := true } 7 0
            { seq := 100, end_seq := 110, len := 10, mptcp_flags := 16,
              dss := List.replicate 24 0 })
          (List.replicate 40 0) 0).1
        18 (some {}) {} none).1
      = some { data_ack := 9, data_seq := 100, data_len := 0 } := by
  decide

/-- Witness for C21: a mapping of 3 bytes at subflow sequence 102 that arrives in a buffer of
three bytes that starts at 100, so that its first two bytes `00 01` are leading bytes outside
the mapping, and a buffer of two. `mptcp_validate_mapping`, called for the second buffer,
returns 0 and has trimmed the head to the byte at 102. The mapped bytes `12 34 56` (hex) and
the pseudo-header with length 3 and checksum `97c8` sum to `ffff`, so the fold is zero; with
the lowest bit of the second mapped byte flipped the fold is not zero. -/
theorem verif_dss_csum_detects_bit_flip_witness :
    mptcp_validate_mapping {}
        { mapping_present := true, map_subseq := 102, map_data_len := 3,
          sk_receive_queue :=
            [{ seq := 100, end_seq := 103, len := 3, data := [0, 1, 18], mptcp_flags := 1,
               hdr_dss := [0, 0, 0, 0, 0, 0, 0, 0, 0, 3, 151, 200] },
             { seq := 103, end_seq := 105, len := 2, data := [52, 86] }] } [] 1
      = some { ret := 0,
               tp := { mapping_present := true, map_subseq := 102, map_data_len := 3,
                       sk_receive_queue :=
                         [{ seq := 102, end_seq := 103, len := 1, data := [18],
                            mptcp_flags := 1,
                            hdr_dss := [0, 0, 0, 0, 0, 0, 0, 0, 0, 3, 151, 200] },
                          { seq := 103, end_seq := 105, len := 2, data := [52, 86] }] },
               calls := [ExtCall.inc_stats Mib.DSSTRIMHEAD] } ∧
    verif_dss_csum_fold
        { mapping_present := true, map_subseq := 102, map_data_len := 3,
          sk_receive_queue :=
            [{ seq := 102, end_seq := 103, len := 1, data := [18], mptcp_flags := 1,
               hdr_dss := [0, 0, 0, 0, 0, 0, 0, 0, 0, 3, 151, 200] },
             { seq := 103, end_seq := 105, len := 2, data := [52, 86] }] } = 0 ∧
    verif_dss_csum_fold
        { mapping_present := true, map_subseq := 102, map_data_len := 3,
          sk_receive_queue :=
            [{ seq := 102, end_seq := 103, len := 1, data := [18], mptcp_flags := 1,
               hdr_dss := [0, 0, 0, 0, 0, 0, 0, 0, 0, 3, 151, 200] },
             { seq := 103, end_seq := 105, len := 2, data := [53, 86] }] } ≠ 0 :=
  ⟨by decide, by decide,
   (verif_dss_csum_detects_bit_flip {} {}
      { mapping_present := true, map_subseq := 102, map_data_len := 3,
        sk_receive_queue :=
          [{ seq := 100, end_seq := 103, len := 3, data := [0, 1, 18], mptcp_flags := 1,
             hdr_dss := [0, 0, 0, 0, 0, 0, 0, 0, 0, 3, 151, 200] },
           { seq := 103, end_seq := 105, len := 2, data := [52, 86] }] }
      { mapping_present := true, map_subseq := 102, map_data_len := 3,
        sk_receive_queue :=
          [{ seq := 100, end_seq := 103, len := 3, data := [0, 1, 18], mptcp_flags := 1,
             hdr_dss := [0, 0, 0, 0, 0, 0, 0, 0, 0, 3, 151, 200] },
           { seq := 103, end_seq := 105, len := 2, data := [53, 86] }] }
      { seq := 100, end_seq := 103, len := 3, data := [0, 1, 18], mptcp_flags := 1,
        hdr_dss := [0, 0, 0, 0, 0, 0, 0, 0, 0, 3, 151, 200] }
      { seq := 100, end_seq := 103, len := 3, data := [0, 1, 18], mptcp_flags := 1,
        hdr_dss := [0, 0, 0, 0, 0, 0, 0, 0, 0, 3, 151, 200] }
      [{ seq := 103, end_seq := 105, len := 2, data := [52, 86] }]
      [{ seq := 103, end_seq := 105, len := 2, data := [53, 86] }]
      [] [] 1 1 1 0 [] []
      { ret := 0,
        tp := { mapping_present := true, map_subseq := 102, map_data_len := 3,
                sk_receive_queue :=
                  [{ seq := 102, end_seq := 103, len := 1, data := [18], mptcp_flags := 1,
                     hdr_dss := [0, 0, 0, 0, 0, 0, 0, 0, 0, 3, 151, 200] },
                   { seq := 103, end_seq := 105, len := 2, data := [52, 86] }] },
        calls := [ExtCall.inc_stats Mib.DSSTRIMHEAD] }
      { ret := 0,
        tp := { mapping_present := true, map_subseq := 102, map_data_len := 3,
                sk_receive_queue :=
                  [{ seq := 102, end_seq := 103, len := 1, data := [18], mptcp_flags := 1,
                     hdr_dss := [0, 0, 0, 0, 0, 0, 0, 0, 0, 3, 151, 200] },
                   { seq := 103, end_seq := 105, len := 2, data := [53, 86] }] },
        calls := [ExtCall.inc_stats Mib.DSSTRIMHEAD] }
      [] {} [] rfl rfl (by decide) (by simp only [CsumPieces]; decide) (by simp)
      (by decide) rfl rfl rfl (by decide) (by simp only [CsumPieces]; decide) (by simp)
      (by decide) rfl (by decide) (by decide) (by decide) (by decide) (by decide)
      (by decide)).2.2.2.1⟩

/-- Witness for C22: the receive cursor is 1000 and the mapping covers the data sequence numbers
500 to 509, so it ends before the cursor; `mptcp_queue_skb` returns -1, empties the subflow
receive queue up to `copied_seq = 110` and hands nothing to the meta socket. -/
theorem queue_skb_discards_stale_mapping_witness :
    (mptcp_queue_skb append_rcv_ops 65536 0 []
        { mapping_present := true, map_data_seq := 500, map_data_len := 10, map_subseq := 100,
          rcv_nxt := 110, sk_receive_queue := [{ seq := 100, end_seq := 110, len := 10 }] }
        { rcv_nxt := 1000, rcv_wup := 1000 } []).ret = -1 ∧
    (mptcp_queue_skb append_rcv_ops 65536 0 []
        { mapping_present := true, map_data_seq := 500, map_data_len := 10, map_subseq := 100,
          rcv_nxt := 110, sk_receive_queue := [{ seq := 100, end_seq := 110, len := 10 }] }
        { rcv_nxt := 1000, rcv_wup := 1000 } []).meta_tp.rcv_nxt = 1000 :=
  ⟨(queue_skb_discards_stale_mapping append_rcv_ops 65536 0 []
      { mapping_present := true, map_data_seq := 500, map_data_len := 10, map_subseq := 100,
        rcv_nxt := 110, sk_receive_queue := [{ seq := 100, end_seq := 110, len := 10 }] }
      { rcv_nxt := 1000, rcv_wup := 1000 } [] rfl (by decide) (Or.inl (by decide))).1,
   (queue_skb_discards_stale_mapping append_rcv_ops 65536 0 []
      { mapping_present := true, map_data_seq := 500, map_data_len := 10, map_subseq := 100,
        rcv_nxt := 110, sk_receive_queue := [{ seq := 100, end_seq := 110, len := 10 }] }
      { rcv_nxt := 1000, rcv_wup := 1000 } [] rfl (by decide) (Or.inl (by decide))).2.1⟩

/-- Witness for C23 (as amended): the receive cursor is 1000 and the mapping covers the data
sequence numbers 2000 to 2009 in one buffer; outside time-wait `mptcp_queue_skb` returns -2,
leaves `rcv_nxt` at 1000 and hands the buffer, with the connection range 2000 to 2010, to
`tcp_data_queue_ofo`. -/
theorem queue_skb_delivers_or_buffers_witness :
    (mptcp_queue_skb append_rcv_ops 65536 0 []
        { mapping_present := true, map_data_seq := 2000, map_data_len := 10,
          map_subseq := 100, rcv_nxt := 110,
          sk_receive_queue := [{ seq := 100, end_seq := 110, len := 10 }] }
        { rcv_nxt := 1000, rcv_wup := 1000 } []).ret = -2 ∧
    (mptcp_queue_skb append_rcv_ops 65536 0 []
        { mapping_present := true, map_data_seq := 2000, map_data_len := 10,
          map_subseq := 100, rcv_nxt := 110,
          sk_receive_queue := [{ seq := 100, end_seq := 110, len := 10 }] }
        { rcv_nxt := 1000, rcv_wup := 1000 } []).meta_tp.rcv_nxt = 1000 :=
  ⟨((queue_skb_delivers_or_buffers append_rcv_ops 65536 0 []
      { mapping_present := true, map_data_seq := 2000, map_data_len := 10,
        map_subseq := 100, rcv_nxt := 110,
        sk_receive_queue := [{ seq := 100, end_seq := 110, len := 10 }] }
      { rcv_nxt := 1000, rcv_wup := 1000 } []
      [{ seq := 100, end_seq := 110, len := 10 }] []
      rfl (by decide) (by decide) (by decide) (fun _ _ => rfl) rfl
      (by simp only [CoversMapping]; decide) (by simp) (by decide) (by decide) (by decide)
      (by decide)).1 (by decide)).1,
   ((queue_skb_delivers_or_buffers append_rcv_ops 65536 0 []
      { mapping_present := true, map_data_seq := 2000, map_data_len := 10,
        map_subseq := 100, rcv_nxt := 110,
        sk_receive_queue := [{ seq := 100, end_seq := 110, len := 10 }] }
      { rcv_nxt := 1000, rcv_wup := 1000 } []
      [{ seq := 100, end_seq := 110, len := 10 }] []
      rfl (by decide) (by decide) (by decide) (fun _ _ => rfl) rfl
      (by simp only [CoversMapping]; decide) (by simp) (by decide) (by decide) (by decide)
      (by decide)).1 (by decide)).2.1⟩

/-- Counterexample to C23 as stated: the same mapping, after the receive cursor, on a
connection in time-wait. `mptcp_queue_skb` returns -2 and leaves `rcv_nxt` unchanged, but the
buffer is freed: the meta out-of-order queue stays empty, whereas outside time-wait the buffer
is placed in it. -/
theorem time_wait_mapping_is_not_buffered :
    (mptcp_queue_skb append_rcv_ops 65536 0 []
        { mapping_present := true, map_data_seq := 2000, map_data_len := 10,
          map_subseq := 100, rcv_nxt := 110,
          sk_receive_queue := [{ seq := 100, end_seq := 110, len := 10 }] }
        { rcv_nxt := 1000, rcv_wup := 1000, mpcb := { in_time_wait := true } } []).ret = -2 ∧
    (mptcp_queue_skb append_rcv_ops 65536 0 []
        { mapping_present := true, map_data_seq := 2000, map_data_len := 10,
          map_subseq := 100, rcv_nxt := 110,
          sk_receive_queue := [{ seq := 100, end_seq := 110, len := 10 }] }
        { rcv_nxt := 1000, rcv_wup := 1000, mpcb := { in_time_wait := true } }
        []).meta_tp.out_of_order_queue = [] ∧
    (mptcp_queue_skb append_rcv_ops 65536 0 []
        { mapping_present := true, map_data_seq := 2000, map_data_len := 10,
          map_subseq := 100, rcv_nxt := 110,
          sk_receive_queue := [{ seq := 100, end_seq := 110, len := 10 }] }
        { rcv_nxt := 1000, rcv_wup := 1000, mpcb := { in_time_wait := true } }
        []).meta_tp.rcv_nxt = 1000 ∧
    (mptcp_queue_skb append_rcv_ops 65536 0 []
        { mapping_present := true, map_data_seq := 2000, map_data_len := 10,
          map_subseq := 100, rcv_nxt := 110,
          sk_receive_queue := [{ seq := 100, end_seq := 110, len := 10 }] }
        { rcv_nxt := 1000, rcv_wup := 1000 } []).meta_tp.out_of_order_queue
      = [{ seq := 2000, end_seq := 2010, len := 10 }] := by
  decide

/-- Witness for C24: a mapping with `map_data_fin` that ends at subflow sequence 110 and a
buffer with the subflow FIN flag whose payload ends there: `mptcp_prepare_skb` leaves the FIN
flag set. -/
theorem data_fin_detected_only_in_order_witness :
    (mptcp_prepare_skb
        { map_data_fin := true, map_data_seq := 2000, map_data_len := 10, map_subseq := 100 }
        { seq := 100, end_seq := 111, len := 10, tcp_flags := 1 }).tcp_flags
      &&& TCPHDR_FIN ≠ 0 :=
  (data_fin_detected_only_in_order append_rcv_ops 65536 0 []
      { map_data_fin := true, map_data_seq := 2000, map_data_len := 10, map_subseq := 100 }
      {} [] { seq := 100, end_seq := 111, len := 10, tcp_flags := 1 }
      (by simp)).2.2.1.mpr ⟨rfl, by decide⟩

/-- Witness for C25: a segment of 10 bytes entailed on a subflow with `write_seq = 5000`: the
clone has the subflow range that starts at 5000, and `write_seq` afterwards is its end. -/
theorem skb_entail_assigns_contiguous_range_witness :
    ∃ sub, (mptcp_skb_entail {} { write_seq := 5000 } {} []
        { seq := 100, end_seq := 110, len := 10, dss := List.replicate 24 0 } 0).subskb
        = some sub ∧
      sub.seq = 5000 ∧ sub.len = 10 ∧
      (mptcp_skb_entail {} { write_seq := 5000 } {} []
        { seq := 100, end_seq := 110, len := 10, dss := List.replicate 24 0 } 0).tp.write_seq
        = sub.end_seq :=
  Exists.imp (fun _ h => ⟨h.1, h.2.1, h.2.2.1, h.2.2.2.2.1⟩)
    (skb_entail_assigns_contiguous_range {} { write_seq := 5000 } {} []
      { seq := 100, end_seq := 110, len := 10, dss := List.replicate 24 0 } 0 (by decide))

/-- Witness for C28: an MP_FASTCLOSE whose key 77 is the local key of the connection is
honoured; with the key 78 it is not. -/
theorem mp_fastclose_rcvd_honoured_iff_key_witness :
    (mptcp_mp_fastclose_rcvd { rx_opt := { mp_fclose := true, mptcp_sender_key := 77 } }
        { mpcb := { mptcp_loc_key := 77 } } []).stop = true ∧
    mptcp_mp_fastclose_rcvd { rx_opt := { mp_fclose := true, mptcp_sender_key := 78 } }
        { mpcb := { mptcp_loc_key := 77 } } []
      = { stop := false, tp := { rx_opt := { mp_fclose := false, mptcp_sender_key := 78 } },
          meta_tp := { mpcb := { mptcp_loc_key := 77 } },
          calls := [ExtCall.inc_stats Mib.FASTCLOSERX] } :=
  ⟨(mp_fastclose_rcvd_honoured_iff_key plain_ack_env []
      { rx_opt := { mp_fclose := true, mptcp_sender_key := 77 } }
      { mpcb := { mptcp_loc_key := 77 } } [] {}).1.mpr ⟨rfl, rfl⟩,
   (mp_fastclose_rcvd_honoured_iff_key plain_ack_env []
      { rx_opt := { mp_fclose := true, mptcp_sender_key := 78 } }
      { mpcb := { mptcp_loc_key := 77 } } [] {}).2.2.1 rfl (by decide)⟩

end Mptcp
